import Mathlib

/-! # TWL6040 codec driver: register cache, bias level and output ramps

A shallow embedding of `sound/soc/codecs/twl6040.c`.

* C integers are natural numbers; every assignment to a narrower C type
  (`u8`, `u16`, `unsigned int`) is an explicit `% 2 ^ w`.
* The register cache is an array of `TWL6040_CACHEREGNUM` bytes, indexed by
  `Fin TWL6040_CACHEREGNUM`; every access carries the bound established by
  the range check that precedes it in the C code.
* The MFD core (`twl6040_reg_write`, `twl6040_reg_read`, `twl6040_enable`,
  ...) is not part of this file of the driver.  The chip handle
  `codec->control_data` records the transactions the driver issues, in
  order, and carries the answers of the transport as arbitrary functions of
  the transaction history.
-/

/-! ## Constants -/

/-- Number of cached registers: the length of the initialiser of
`twl6040_reg` (registers 0x00 .. 0x2E). -/
abbrev TWL6040_CACHEREGNUM : Nat := 47

/-- Linux errno value of an I/O error. -/
def EIO_errno : Nat := 5

/-- Linux errno value of an invalid argument. -/
def EINVAL_errno : Nat := 22

abbrev TWL6040_RAMP_NONE : Nat := 0
abbrev TWL6040_RAMP_UP : Nat := 1
abbrev TWL6040_RAMP_DOWN : Nat := 2

abbrev TWL6040_HSL_VOL_MASK : Nat := 0x0F
abbrev TWL6040_HSL_VOL_SHIFT : Nat := 0
abbrev TWL6040_HSR_VOL_MASK : Nat := 0xF0
abbrev TWL6040_HSR_VOL_SHIFT : Nat := 4
abbrev TWL6040_HF_VOL_MASK : Nat := 0x1F
abbrev TWL6040_HF_VOL_SHIFT : Nat := 0
abbrev TWL6040_EP_VOL_MASK : Nat := 0x1E
abbrev TWL6040_EP_VOL_SHIFT : Nat := 1

/-! Register numbers, as given by the comments of the `twl6040_reg` table. -/

abbrev TWL6040_REG_ASICID : Nat := 0x01
abbrev TWL6040_REG_ASICREV : Nat := 0x02
abbrev TWL6040_REG_INTID : Nat := 0x03
abbrev TWL6040_REG_INTMR : Nat := 0x04
abbrev TWL6040_REG_NCPCTL : Nat := 0x05
abbrev TWL6040_REG_LDOCTL : Nat := 0x06
abbrev TWL6040_REG_HPPLLCTL : Nat := 0x07
abbrev TWL6040_REG_LPPLLCTL : Nat := 0x08
abbrev TWL6040_REG_LPPLLDIV : Nat := 0x09
abbrev TWL6040_REG_AMICBCTL : Nat := 0x0A
abbrev TWL6040_REG_DMICBCTL : Nat := 0x0B
abbrev TWL6040_REG_MICLCTL : Nat := 0x0C
abbrev TWL6040_REG_MICRCTL : Nat := 0x0D
abbrev TWL6040_REG_MICGAIN : Nat := 0x0E
abbrev TWL6040_REG_LINEGAIN : Nat := 0x0F
abbrev TWL6040_REG_HSLCTL : Nat := 0x10
abbrev TWL6040_REG_HSRCTL : Nat := 0x11
abbrev TWL6040_REG_HSGAIN : Nat := 0x12
abbrev TWL6040_REG_EARCTL : Nat := 0x13
abbrev TWL6040_REG_HFLCTL : Nat := 0x14
abbrev TWL6040_REG_HFLGAIN : Nat := 0x15
abbrev TWL6040_REG_HFRCTL : Nat := 0x16
abbrev TWL6040_REG_HFRGAIN : Nat := 0x17
abbrev TWL6040_REG_VIBCTLL : Nat := 0x18
abbrev TWL6040_REG_VIBDATL : Nat := 0x19
abbrev TWL6040_REG_VIBCTLR : Nat := 0x1A
abbrev TWL6040_REG_VIBDATR : Nat := 0x1B
abbrev TWL6040_REG_HKCTL1 : Nat := 0x1C
abbrev TWL6040_REG_HKCTL2 : Nat := 0x1D
abbrev TWL6040_REG_GPOCTL : Nat := 0x1E
abbrev TWL6040_REG_ALB : Nat := 0x1F
abbrev TWL6040_REG_DLB : Nat := 0x20
abbrev TWL6040_REG_TRIM1 : Nat := 0x28
abbrev TWL6040_REG_TRIM2 : Nat := 0x29
abbrev TWL6040_REG_TRIM3 : Nat := 0x2A
abbrev TWL6040_REG_HSOTRIM : Nat := 0x2B
abbrev TWL6040_REG_HFOTRIM : Nat := 0x2C
abbrev TWL6040_REG_ACCCTL : Nat := 0x2D
abbrev TWL6040_REG_STATUS : Nat := 0x2E

/-- Modelled from the spec: the power-domain tag of a register, one of
None, AlwaysOn (vio/gnd supply) and GatedByPower (vdd/vss supply).  The
three constants come from `twl6040.h`, which is not among the sources; only
their being distinct is used. -/
inductive Supply
  | TWL6040_NO_SUPPLY
  | TWL6040_VIO_SUPPLY
  | TWL6040_VDD_SUPPLY
  deriving DecidableEq

open Supply

/-- The levels of `enum snd_soc_bias_level`. -/
inductive snd_soc_bias_level
  | SND_SOC_BIAS_OFF
  | SND_SOC_BIAS_STANDBY
  | SND_SOC_BIAS_PREPARE
  | SND_SOC_BIAS_ON
  deriving DecidableEq

open snd_soc_bias_level

/-- The DAPM widget events a driver callback can be called with. -/
inductive dapm_event
  | SND_SOC_DAPM_PRE_PMU
  | SND_SOC_DAPM_POST_PMU
  | SND_SOC_DAPM_PRE_PMD
  | SND_SOC_DAPM_POST_PMD
  deriving DecidableEq

open dapm_event

/-- The rate constraint list `priv->sysclk_constraints` points to. -/
inductive constraint_list
  | unset
  | lp_constraints
  | hp_constraints
  deriving DecidableEq

/-! ## Default register image and supply table -/

/-- Default register settings, `twl6040_reg[TWL6040_CACHEREGNUM]`. -/
def twl6040_reg : List Nat :=
  [ 0x00, 0x4B, 0x00, 0x00, 0x00, 0x00, 0x00, 0x60,
    0x00, 0x4A, 0x00, 0x00, 0x18, 0x18, 0x00, 0x1B,
    0x00, 0x00, 0xFF, 0x1E, 0x00, 0x1D, 0x00, 0x1D,
    0x00, 0x00, 0x00, 0x00, 0x00, 0x00, 0x00, 0x00,
    0x00, 0x00, 0x00, 0x00, 0x00, 0x00, 0x00, 0x00,
    0x00, 0x00, 0x00, 0x00, 0x00, 0x09, 0x00 ]

/-- Supply of every register, `twl6040_reg_supply[TWL6040_CACHEREGNUM]`. -/
def twl6040_reg_supply : List Supply :=
  [ TWL6040_NO_SUPPLY,  -- not used
    TWL6040_VIO_SUPPLY, -- ASICID (ro)
    TWL6040_VIO_SUPPLY, -- ASICREV (ro)
    TWL6040_VIO_SUPPLY, -- INTID
    TWL6040_VIO_SUPPLY, -- INTMR
    TWL6040_VIO_SUPPLY, -- NCPCTRL
    TWL6040_VIO_SUPPLY, -- LDOCTL
    TWL6040_VDD_SUPPLY, -- HPPLLCTL
    TWL6040_VDD_SUPPLY, -- LPPLLCTL
    TWL6040_VDD_SUPPLY, -- LPPLLDIV
    TWL6040_VIO_SUPPLY, -- AMICBCTL
    TWL6040_VIO_SUPPLY, -- DMICBCTL
    TWL6040_VDD_SUPPLY, -- MICLCTL
    TWL6040_VDD_SUPPLY, -- MICRCTL
    TWL6040_VDD_SUPPLY, -- MICGAIN
    TWL6040_VDD_SUPPLY, -- LINEGAIN
    TWL6040_VDD_SUPPLY, -- HSLCTL
    TWL6040_VDD_SUPPLY, -- HSRCTL
    TWL6040_VDD_SUPPLY, -- HSGAIN
    TWL6040_VDD_SUPPLY, -- EARCTL
    TWL6040_VDD_SUPPLY, -- HFLCTL
    TWL6040_VDD_SUPPLY, -- HFLGAIN
    TWL6040_VDD_SUPPLY, -- HFRCTL
    TWL6040_VDD_SUPPLY, -- HFRGAIN
    TWL6040_VDD_SUPPLY, -- VIBCTLL
    TWL6040_VDD_SUPPLY, -- VIBDATL
    TWL6040_VDD_SUPPLY, -- VIBCTLR
    TWL6040_VDD_SUPPLY, -- VIBDATR
    TWL6040_VIO_SUPPLY, -- HKCTL1
    TWL6040_VIO_SUPPLY, -- HKCTL2
    TWL6040_VIO_SUPPLY, -- GPOCTL
    TWL6040_VDD_SUPPLY, -- ALB
    TWL6040_VDD_SUPPLY, -- DLB
    TWL6040_NO_SUPPLY,  -- not used
    TWL6040_NO_SUPPLY,  -- not used
    TWL6040_NO_SUPPLY,  -- not used
    TWL6040_NO_SUPPLY,  -- not used
    TWL6040_NO_SUPPLY,  -- not used
    TWL6040_NO_SUPPLY,  -- not used
    TWL6040_NO_SUPPLY,  -- not used
    TWL6040_VIO_SUPPLY, -- TRIM1
    TWL6040_VIO_SUPPLY, -- TRIM2
    TWL6040_VIO_SUPPLY, -- TRIM3
    TWL6040_VIO_SUPPLY, -- HSOTRIM
    TWL6040_VIO_SUPPLY, -- HFOTRIM
    TWL6040_VIO_SUPPLY, -- ACCCTL
    TWL6040_VIO_SUPPLY  -- STATUS (ro)
  ]

/-- The entry `twl6040_reg_supply[reg]` of an in-range register. -/
def reg_supply (reg : Fin TWL6040_CACHEREGNUM) : Supply :=
  twl6040_reg_supply.get ⟨reg.val, reg.isLt⟩

/-! ## State -/

/-- One transaction issued to the MFD core through the chip handle. -/
inductive HwOp
  | reg_write (reg val : Nat)
  | reg_read (reg : Nat)
  | enable
  | disable
  | set_pll (pll : Int) (clk_in sysclk : Nat)
  deriving DecidableEq

/-- Modelled from the spec: the transport collaborator (`hw_read`,
`hw_write`, `get_clock_source`, `get_sample_clock`, `set_pll`,
`enable_power`, `disable_power`), `struct twl6040` of the MFD core, whose
code is not among the sources.  `log` holds the transactions issued so far,
oldest first; the results the transport hands back are arbitrary functions
of that history. -/
structure twl6040 where
  log : List HwOp
  write_ret : List HwOp → Nat → Nat → Int
  read_val : List HwOp → Nat → Nat
  pll_val : List HwOp → Int
  sysclk_val : List HwOp → Nat
  set_pll_ret : List HwOp → Int

/-- Driver state of one output, `struct twl6040_output`.  `work_queued`
stands for the pending bit of `work`, `ramp_done` for the counter of the
completion. -/
structure twl6040_output where
  active : Nat
  left_vol : Nat
  right_vol : Nat
  left_step : Nat
  right_step : Nat
  step_delay : Nat
  ramp : Nat
  work_queued : Bool
  ramp_done : Nat

/-- Codec private data, `struct twl6040_data` (the fields the functions
below use). -/
structure twl6040_data where
  codec_powered : Nat
  pll : Int
  clk_in : Nat
  sysclk : Nat
  hs_left_step : Nat
  hs_right_step : Nat
  hf_left_step : Nat
  hf_right_step : Nat
  ep_step : Nat
  sysclk_constraints : constraint_list
  headset : twl6040_output
  earphone : twl6040_output
  handsfree : twl6040_output

/-- The codec, `struct snd_soc_codec`: register cache, chip handle,
`dapm.bias_level` and the private data. -/
structure snd_soc_codec where
  reg_cache : Fin TWL6040_CACHEREGNUM → Nat
  control_data : twl6040
  bias_level : snd_soc_bias_level
  drvdata : twl6040_data

/-! ## Transport calls -/

/-- Modelled from the spec: `hw_write(reg, byte) -> Result` of the transport,
`twl6040_reg_write(twl6040, reg, u8 val)`: the transaction is recorded and
the transport's result returned. -/
def twl6040_reg_write (t : twl6040) (reg val : Nat) : Int × twl6040 :=
  (t.write_ret t.log reg (val % 256),
   { t with log := t.log ++ [HwOp.reg_write reg (val % 256)] })

/-- Modelled from the spec: `hw_read(reg) -> byte` of the transport,
`twl6040_reg_read(twl6040, reg)`. -/
def twl6040_reg_read (t : twl6040) (reg : Nat) : Nat × twl6040 :=
  (t.read_val t.log reg % 256, { t with log := t.log ++ [HwOp.reg_read reg] })

/-- Modelled from the spec: `enable_power()` of the transport. -/
def twl6040_enable (t : twl6040) : twl6040 :=
  { t with log := t.log ++ [HwOp.enable] }

/-- Modelled from the spec: `disable_power()` of the transport. -/
def twl6040_disable (t : twl6040) : twl6040 :=
  { t with log := t.log ++ [HwOp.disable] }

/-- Modelled from the spec: `get_clock_source()` of the transport. -/
def twl6040_get_pll (t : twl6040) : Int := t.pll_val t.log

/-- Modelled from the spec: `get_sample_clock()` of the transport. -/
def twl6040_get_sysclk (t : twl6040) : Nat := t.sysclk_val t.log

/-- Modelled from the spec: the effect of one transaction on a hardware
register file; a write transaction replaces the byte of its register, no
other transaction changes a register. -/
def hw_apply (img : Nat → Nat) : HwOp → Nat → Nat
  | HwOp.reg_write reg val => Function.update img reg val
  | _ => img

/-- Modelled from the spec: the hardware register file after a sequence of
transactions, oldest first. -/
def hw_after (img : Nat → Nat) (ops : List HwOp) : Nat → Nat :=
  ops.foldl hw_apply img

/-- The write transaction `twl6040_init_vdd_regs` issues for a register, if
any: registers under vdd supply other than the vibra and pll registers are
written with their cached byte. -/
def vdd_init_write (cache : Fin TWL6040_CACHEREGNUM → Nat)
    (reg : Fin TWL6040_CACHEREGNUM) : Option HwOp :=
  if reg_supply reg ≠ TWL6040_VDD_SUPPLY then none
  else if reg.val = TWL6040_REG_VIBCTLL ∨ reg.val = TWL6040_REG_VIBDATL ∨
      reg.val = TWL6040_REG_VIBCTLR ∨ reg.val = TWL6040_REG_VIBDATR ∨
      reg.val = TWL6040_REG_HPPLLCTL ∨ reg.val = TWL6040_REG_LPPLLCTL ∨
      reg.val = TWL6040_REG_LPPLLDIV then none
  else some (HwOp.reg_write reg.val (cache reg % 256))

/-! ## Register cache -/

/-- Read twl6040 register cache (`unsigned int` result, so the error is
`-EIO` converted to unsigned). -/
def twl6040_read_reg_cache (codec : snd_soc_codec) (reg : Nat) : Nat :=
  if h : reg < TWL6040_CACHEREGNUM then codec.reg_cache ⟨reg, h⟩
  else 2 ^ 32 - EIO_errno

/-- Write twl6040 register cache; both parameters are `u8`. -/
def twl6040_write_reg_cache (codec : snd_soc_codec) (reg value : Nat) :
    snd_soc_codec :=
  if h : reg % 256 < TWL6040_CACHEREGNUM then
    { codec with
      reg_cache := Function.update codec.reg_cache ⟨reg % 256, h⟩ (value % 256) }
  else codec

/-- Write to the twl6040 register space. -/
def twl6040_write (codec : snd_soc_codec) (reg value : Nat) :
    Int × snd_soc_codec :=
  if h : reg < TWL6040_CACHEREGNUM then
    let codec := twl6040_write_reg_cache codec reg value
    if reg_supply ⟨reg, h⟩ = TWL6040_VIO_SUPPLY ∨ codec.drvdata.codec_powered ≠ 0 then
      let r := twl6040_reg_write codec.control_data reg value
      (r.1, { codec with control_data := r.2 })
    else
      (0, codec)
  else
    (- (EIO_errno : Int), codec)


/-- Read from twl6040 hardware register. -/
def twl6040_read_reg_volatile (codec : snd_soc_codec) (reg : Nat) :
    Int × snd_soc_codec :=
  if h : reg < TWL6040_CACHEREGNUM then
    -- read access not supported while in sleep state
    if reg_supply ⟨reg, h⟩ = TWL6040_VDD_SUPPLY ∧ codec.drvdata.codec_powered = 0 then
      (- (EINVAL_errno : Int), codec)
    else
      let r := twl6040_reg_read codec.control_data reg
      let codec := { codec with control_data := r.2 }
      let codec := twl6040_write_reg_cache codec reg r.1
      ((r.1 : Int), codec)
  else
    (- (EIO_errno : Int), codec)

/-- One iteration of the loop of `twl6040_init_vio_regs`. -/
def twl6040_init_vio_regs_body (codec : snd_soc_codec)
    (reg : Fin TWL6040_CACHEREGNUM) : snd_soc_codec :=
  if reg_supply reg ≠ TWL6040_VIO_SUPPLY then codec
  -- skip read-only registers (ASICID, ASICREV, STATUS)
  -- and registers shared among MFD children
  else if reg.val = TWL6040_REG_ASICID ∨ reg.val = TWL6040_REG_ASICREV ∨
      reg.val = TWL6040_REG_INTID ∨ reg.val = TWL6040_REG_INTMR ∨
      reg.val = TWL6040_REG_NCPCTL ∨ reg.val = TWL6040_REG_LDOCTL ∨
      reg.val = TWL6040_REG_GPOCTL ∨ reg.val = TWL6040_REG_ACCCTL ∨
      reg.val = TWL6040_REG_STATUS then codec
  else if reg.val = TWL6040_REG_HSOTRIM ∨ reg.val = TWL6040_REG_HFOTRIM then
    (twl6040_read_reg_volatile codec reg.val).2
  else (twl6040_write codec reg.val (codec.reg_cache reg)).2

/-- The loop `for (reg = 0; reg < TWL6040_CACHEREGNUM; reg++)` over the
registers under vio supply. -/
def twl6040_init_vio_regs (codec : snd_soc_codec) : snd_soc_codec :=
  (List.finRange TWL6040_CACHEREGNUM).foldl twl6040_init_vio_regs_body codec

/-- One iteration of the loop of `twl6040_init_vdd_regs`. -/
def twl6040_init_vdd_regs_body (codec : snd_soc_codec)
    (reg : Fin TWL6040_CACHEREGNUM) : snd_soc_codec :=
  if reg_supply reg ≠ TWL6040_VDD_SUPPLY then codec
  -- skip vibra and pll registers
  else if reg.val = TWL6040_REG_VIBCTLL ∨ reg.val = TWL6040_REG_VIBDATL ∨
      reg.val = TWL6040_REG_VIBCTLR ∨ reg.val = TWL6040_REG_VIBDATR ∨
      reg.val = TWL6040_REG_HPPLLCTL ∨ reg.val = TWL6040_REG_LPPLLCTL ∨
      reg.val = TWL6040_REG_LPPLLDIV then codec
  else (twl6040_write codec reg.val (codec.reg_cache reg)).2

/-- The loop `for (reg = 0; reg < TWL6040_CACHEREGNUM; reg++)` over the
registers under vdd supply. -/
def twl6040_init_vdd_regs (codec : snd_soc_codec) : snd_soc_codec :=
  (List.finRange TWL6040_CACHEREGNUM).foldl twl6040_init_vdd_regs_body codec

/-! ## Bias level -/

def twl6040_set_bias_level (codec : snd_soc_codec) (level : snd_soc_bias_level) :
    Int × snd_soc_codec :=
  let codec :=
    match level with
    | SND_SOC_BIAS_ON => codec
    | SND_SOC_BIAS_PREPARE => codec
    | SND_SOC_BIAS_STANDBY =>
      if codec.drvdata.codec_powered ≠ 0 then codec
      else
        let codec := { codec with control_data := twl6040_enable codec.control_data }
        let codec := { codec with drvdata := { codec.drvdata with codec_powered := 1 } }
        let codec := { codec with
          drvdata := { codec.drvdata with
            sysclk_constraints := constraint_list.lp_constraints } }
        -- initialize vdd/vss registers with reg_cache
        twl6040_init_vdd_regs codec
    | SND_SOC_BIAS_OFF =>
      if codec.drvdata.codec_powered = 0 then codec
      else
        let codec := { codec with control_data := twl6040_disable codec.control_data }
        { codec with drvdata := { codec.drvdata with codec_powered := 0 } }
  let codec := { codec with bias_level := level }
  -- get pll and sysclk after power transition
  let codec := { codec with
    drvdata := { codec.drvdata with pll := twl6040_get_pll codec.control_data } }
  let codec := { codec with
    drvdata := { codec.drvdata with sysclk := twl6040_get_sysclk codec.control_data } }
  (0, codec)

/-! ## Ramp steps -/

/-- The 32-bit pattern of the C expression `~x` for an `int` operand
`0 ≤ x < 2 ^ 32`. -/
def c_not (x : Nat) : Nat := 2 ^ 32 - 1 - x

/-- The 32-bit pattern of the C `int` expression `a - b` for
`0 ≤ a, b < 2 ^ 31`. -/
def c_sub (a b : Nat) : Nat := (2 ^ 32 + a - b) % 2 ^ 32

/-- Left channel block of `twl6040_hs_ramp_step`; the result is the codec
and `left_complete`.  `reg` and `val` are `u8`. -/
def twl6040_hs_ramp_step_left (codec : snd_soc_codec) (left_step : Nat) :
    snd_soc_codec × Nat :=
  let headset := codec.drvdata.headset
  let left_step := if left_step > 0xF then 0xF else left_step
  let reg := twl6040_read_reg_cache codec TWL6040_REG_HSGAIN % 256
  let val := (c_not reg &&& TWL6040_HSL_VOL_MASK) % 256
  if headset.ramp = TWL6040_RAMP_UP then
    -- ramp step up
    if val ≠ headset.left_vol then
      let val :=
        if val + left_step > headset.left_vol then headset.left_vol % 256
        else (val + left_step) % 256
      let reg := (reg &&& c_not TWL6040_HSL_VOL_MASK) % 256
      ((twl6040_write codec TWL6040_REG_HSGAIN
          (reg ||| (c_not val &&& TWL6040_HSL_VOL_MASK))).2, 0)
    else (codec, 1)
  else if headset.ramp = TWL6040_RAMP_DOWN then
    -- ramp step down
    if val ≠ 0 then
      let val :=
        if (val : Int) - (left_step : Int) < 0 then 0
        else (val - left_step) % 256
      let reg := (reg &&& c_not TWL6040_HSL_VOL_MASK) % 256
      ((twl6040_write codec TWL6040_REG_HSGAIN
          (reg ||| (c_not val &&& TWL6040_HSL_VOL_MASK))).2, 0)
    else (codec, 1)
  else (codec, 0)

/-- Right channel block of `twl6040_hs_ramp_step`; the result is the codec
and `right_complete`. -/
def twl6040_hs_ramp_step_right (codec : snd_soc_codec) (right_step : Nat) :
    snd_soc_codec × Nat :=
  let headset := codec.drvdata.headset
  let right_step := if right_step > 0xF then 0xF else right_step
  let reg := twl6040_read_reg_cache codec TWL6040_REG_HSGAIN % 256
  let val := ((c_not reg &&& TWL6040_HSR_VOL_MASK) >>> TWL6040_HSR_VOL_SHIFT) % 256
  if headset.ramp = TWL6040_RAMP_UP then
    -- ramp step up
    if val ≠ headset.right_vol then
      let val :=
        if val + right_step > headset.right_vol then headset.right_vol % 256
        else (val + right_step) % 256
      let reg := (reg &&& c_not TWL6040_HSR_VOL_MASK) % 256
      ((twl6040_write codec TWL6040_REG_HSGAIN
          (reg ||| (c_not val <<< TWL6040_HSR_VOL_SHIFT) % 2 ^ 32)).2, 0)
    else (codec, 1)
  else if headset.ramp = TWL6040_RAMP_DOWN then
    -- ramp step down
    if val ≠ 0 then
      let val :=
        if (val : Int) - (right_step : Int) < 0 then 0
        else (val - right_step) % 256
      let reg := (reg &&& c_not TWL6040_HSR_VOL_MASK) % 256
      ((twl6040_write codec TWL6040_REG_HSGAIN
          (reg ||| (c_not val <<< TWL6040_HSR_VOL_SHIFT) % 2 ^ 32)).2, 0)
    else (codec, 1)
  else (codec, 0)

/-- Ramp HS PGA volume to minimise pops at stream startup and shutdown:
one tick, left channel then right channel; returns
`left_complete & right_complete`. -/
def twl6040_hs_ramp_step (codec : snd_soc_codec) (left_step right_step : Nat) :
    snd_soc_codec × Nat :=
  let l := twl6040_hs_ramp_step_left codec left_step
  let r := twl6040_hs_ramp_step_right l.1 right_step
  (r.1, l.2 &&& r.2)

/-- Left channel block of `twl6040_hf_ramp_step`.  `reg` and `val` are
`u16`. -/
def twl6040_hf_ramp_step_left (codec : snd_soc_codec) (left_step : Nat) :
    snd_soc_codec × Nat :=
  let handsfree := codec.drvdata.handsfree
  let left_step := if left_step > 0x1D then 0x1D else left_step
  let reg := twl6040_read_reg_cache codec TWL6040_REG_HFLGAIN % 65536
  let reg := c_sub 0x1D reg % 65536
  let val := (reg &&& TWL6040_HF_VOL_MASK) % 65536
  if handsfree.ramp = TWL6040_RAMP_UP then
    -- ramp step up
    if val ≠ handsfree.left_vol then
      let val :=
        if val + left_step > handsfree.left_vol then handsfree.left_vol % 65536
        else (val + left_step) % 65536
      let reg := (reg &&& c_not TWL6040_HF_VOL_MASK) % 65536
      ((twl6040_write codec TWL6040_REG_HFLGAIN (reg ||| c_sub 0x1D val)).2, 0)
    else (codec, 1)
  else if handsfree.ramp = TWL6040_RAMP_DOWN then
    -- ramp step down
    if val ≠ 0 then
      let val :=
        if (val : Int) - (left_step : Int) < 0 then 0
        else (val - left_step) % 65536
      let reg := (reg &&& c_not TWL6040_HF_VOL_MASK) % 65536
      ((twl6040_write codec TWL6040_REG_HFLGAIN (reg ||| c_sub 0x1D val)).2, 0)
    else (codec, 1)
  else (codec, 0)

/-- Right channel block of `twl6040_hf_ramp_step`. -/
def twl6040_hf_ramp_step_right (codec : snd_soc_codec) (right_step : Nat) :
    snd_soc_codec × Nat :=
  let handsfree := codec.drvdata.handsfree
  let right_step := if right_step > 0x1D then 0x1D else right_step
  let reg := twl6040_read_reg_cache codec TWL6040_REG_HFRGAIN % 65536
  let reg := c_sub 0x1D reg % 65536
  let val := (reg &&& TWL6040_HF_VOL_MASK) % 65536
  if handsfree.ramp = TWL6040_RAMP_UP then
    -- ramp step up
    if val ≠ handsfree.right_vol then
      let val :=
        if val + right_step > handsfree.right_vol then handsfree.right_vol % 65536
        else (val + right_step) % 65536
      let reg := (reg &&& c_not TWL6040_HF_VOL_MASK) % 65536
      ((twl6040_write codec TWL6040_REG_HFRGAIN (reg ||| c_sub 0x1D val)).2, 0)
    else (codec, 1)
  else if handsfree.ramp = TWL6040_RAMP_DOWN then
    -- ramp step down
    if val ≠ 0 then
      let val :=
        if (val : Int) - (right_step : Int) < 0 then 0
        else (val - right_step) % 65536
      let reg := (reg &&& c_not TWL6040_HF_VOL_MASK) % 65536
      ((twl6040_write codec TWL6040_REG_HFRGAIN (reg ||| c_sub 0x1D val)).2, 0)
    else (codec, 1)
  else (codec, 0)

/-- Ramp HF PGA volume to minimise pops at stream startup and shutdown:
one tick. -/
def twl6040_hf_ramp_step (codec : snd_soc_codec) (left_step right_step : Nat) :
    snd_soc_codec × Nat :=
  let l := twl6040_hf_ramp_step_left codec left_step
  let r := twl6040_hf_ramp_step_right l.1 right_step
  (r.1, l.2 &&& r.2)

/-- Ramp Earpiece PGA volume to minimise pops at stream startup and
shutdown: one tick; returns `complete`.  `reg` and `val` are `u8`. -/
def twl6040_ep_ramp_step (codec : snd_soc_codec) (step : Nat) :
    snd_soc_codec × Nat :=
  let earphone := codec.drvdata.earphone
  let step := if step > 0xF then 0xF else step
  let reg := twl6040_read_reg_cache codec TWL6040_REG_EARCTL % 256
  let val := ((c_not reg &&& TWL6040_EP_VOL_MASK) >>> TWL6040_EP_VOL_SHIFT) % 256
  if earphone.ramp = TWL6040_RAMP_UP then
    -- ramp step up
    if val ≠ earphone.left_vol then
      let val :=
        if val + step > earphone.left_vol then earphone.left_vol % 256
        else (val + step) % 256
      let reg := (reg &&& c_not TWL6040_EP_VOL_MASK) % 256
      let val := (c_not val <<< TWL6040_EP_VOL_SHIFT) % 256
      ((twl6040_write codec TWL6040_REG_EARCTL
          (reg ||| (val &&& TWL6040_EP_VOL_MASK))).2, 0)
    else (codec, 1)
  else if earphone.ramp = TWL6040_RAMP_DOWN then
    -- ramp step down
    if val ≠ 0 then
      let val :=
        if (val : Int) - (step : Int) < 0 then 0
        else (val - step) % 256
      let reg := (reg &&& c_not TWL6040_EP_VOL_MASK) % 256
      let val := (c_not val <<< TWL6040_EP_VOL_SHIFT) % 256
      ((twl6040_write codec TWL6040_REG_EARCTL
          (reg ||| (val &&& TWL6040_EP_VOL_MASK))).2, 0)
    else (codec, 1)
  else (codec, 0)

/-! ## Ramp work -/

/-- The loop shared by the three ramp work functions,
`for (i = 0; i < bound; i++) { complete = step(codec); if (complete) break;
schedule_timeout_interruptible(...); }`, with `n` the number of iterations
still allowed (`bound - i`).  The result is the codec, the final `i` and the
final value of the completion flag (0 when the bound ran out). -/
def ramp_for (step : snd_soc_codec → snd_soc_codec × Nat) :
    Nat → Nat → snd_soc_codec → snd_soc_codec × Nat × Nat
  | 0, i, codec => (codec, i, 0)
  | n + 1, i, codec =>
    let r := step codec
    -- ramp finished ?
    if r.2 ≠ 0 then (r.1, i, r.2)
    else ramp_for step n (i + 1) r.1

/-- One tick of the headset work: the ramp step called with the steps of
the output. -/
def hs_tick (codec : snd_soc_codec) : snd_soc_codec × Nat :=
  twl6040_hs_ramp_step codec codec.drvdata.headset.left_step
    codec.drvdata.headset.right_step

/-- One tick of the handsfree work. -/
def hf_tick (codec : snd_soc_codec) : snd_soc_codec × Nat :=
  twl6040_hf_ramp_step codec codec.drvdata.handsfree.left_step
    codec.drvdata.handsfree.right_step

/-- One tick of the earphone work. -/
def ep_tick (codec : snd_soc_codec) : snd_soc_codec × Nat :=
  twl6040_ep_ramp_step codec codec.drvdata.earphone.left_step

/-- The loop of `twl6040_pga_hs_work`: HS PGA gain range 0x0 - 0xf. -/
def twl6040_pga_hs_loop (codec : snd_soc_codec) : snd_soc_codec × Nat × Nat :=
  ramp_for hs_tick 16 0 codec

/-- The loop of `twl6040_pga_hf_work`: HF PGA gain range 0x00 - 0x1d. -/
def twl6040_pga_hf_loop (codec : snd_soc_codec) : snd_soc_codec × Nat × Nat :=
  ramp_for hf_tick 30 0 codec

/-- The loop of `twl6040_pga_ep_work`: Earphone PGA gain range 0x0 - 0xf. -/
def twl6040_pga_ep_loop (codec : snd_soc_codec) : snd_soc_codec × Nat × Nat :=
  ramp_for ep_tick 16 0 codec

/-- The end of a ramp work function: `active`, `complete(&out->ramp_done)`
on the way down, and the reset of `ramp`. -/
def ramp_finish (out : twl6040_output) : twl6040_output :=
  let out :=
    if out.ramp = TWL6040_RAMP_DOWN then
      { out with active := 0, ramp_done := out.ramp_done + 1 }
    else
      { out with active := 1 }
  { out with ramp := TWL6040_RAMP_NONE }

/-- This work ramps both output PGAs at stream start/stop time to minimise
pop associated with DAPM power switching. -/
def twl6040_pga_hs_work (codec : snd_soc_codec) : snd_soc_codec :=
  -- do we need to ramp at all ?
  if codec.drvdata.headset.ramp = TWL6040_RAMP_NONE then codec
  else
    let codec := (twl6040_pga_hs_loop codec).1
    { codec with
      drvdata := { codec.drvdata with headset := ramp_finish codec.drvdata.headset } }

def twl6040_pga_hf_work (codec : snd_soc_codec) : snd_soc_codec :=
  -- do we need to ramp at all ?
  if codec.drvdata.handsfree.ramp = TWL6040_RAMP_NONE then codec
  else
    let codec := (twl6040_pga_hf_loop codec).1
    { codec with
      drvdata := { codec.drvdata with
        handsfree := ramp_finish codec.drvdata.handsfree } }

def twl6040_pga_ep_work (codec : snd_soc_codec) : snd_soc_codec :=
  -- do we need to ramp at all ?
  if codec.drvdata.earphone.ramp = TWL6040_RAMP_NONE then codec
  else
    let codec := (twl6040_pga_ep_loop codec).1
    { codec with
      drvdata := { codec.drvdata with earphone := ramp_finish codec.drvdata.earphone } }

/-! ## Ramp work: number of ticks -/

/-- The number of calls of the ramp step the loop of `ramp_for` makes: one
for every iteration it starts, the one that leaves through the `break`
included. -/
def ramp_for_ticks (step : snd_soc_codec → snd_soc_codec × Nat) :
    Nat → snd_soc_codec → Nat
  | 0, _ => 0
  | n + 1, codec =>
    let r := step codec
    -- ramp finished ?
    if r.2 ≠ 0 then 1
    else ramp_for_ticks step n r.1 + 1

/-- The number of calls of `twl6040_hs_ramp_step` in one run of
`twl6040_pga_hs_work`. -/
def twl6040_pga_hs_work_ticks (codec : snd_soc_codec) : Nat :=
  if codec.drvdata.headset.ramp = TWL6040_RAMP_NONE then 0
  else ramp_for_ticks hs_tick 16 codec

/-- The number of calls of `twl6040_hf_ramp_step` in one run of
`twl6040_pga_hf_work`. -/
def twl6040_pga_hf_work_ticks (codec : snd_soc_codec) : Nat :=
  if codec.drvdata.handsfree.ramp = TWL6040_RAMP_NONE then 0
  else ramp_for_ticks hf_tick 30 codec

/-- The number of calls of `twl6040_ep_ramp_step` in one run of
`twl6040_pga_ep_work`. -/
def twl6040_pga_ep_work_ticks (codec : snd_soc_codec) : Nat :=
  if codec.drvdata.earphone.ramp = TWL6040_RAMP_NONE then 0
  else ramp_for_ticks ep_tick 16 codec

/-! ## Output power events -/

/-- The three outputs `out_drv_event` selects from `w->shift`. -/
inductive output_sel
  | earphone
  | headset
  | handsfree
  deriving DecidableEq

/-- The output `out` points to. -/
def get_out (codec : snd_soc_codec) : output_sel → twl6040_output
  | output_sel.earphone => codec.drvdata.earphone
  | output_sel.headset => codec.drvdata.headset
  | output_sel.handsfree => codec.drvdata.handsfree

/-- Assignment through the pointer `out`. -/
def set_out (codec : snd_soc_codec) (sel : output_sel) (out : twl6040_output) :
    snd_soc_codec :=
  match sel with
  | output_sel.earphone =>
    { codec with drvdata := { codec.drvdata with earphone := out } }
  | output_sel.headset =>
    { codec with drvdata := { codec.drvdata with headset := out } }
  | output_sel.handsfree =>
    { codec with drvdata := { codec.drvdata with handsfree := out } }

/-- The first `switch (w->shift)` of `out_drv_event`: the selected output,
after `cancel_delayed_work_sync` and the assignment of the configured steps
and of `step_delay`; `none` is the `default: return -1`. -/
def out_drv_select (codec : snd_soc_codec) (shift : Nat) :
    Option (output_sel × snd_soc_codec) :=
  let priv := codec.drvdata
  if shift = 0 then
    -- Earphone driver
    let out := { priv.earphone with work_queued := false }
    let out := { out with left_step := priv.ep_step }
    let out := { out with step_delay := 5 }
    some (output_sel.earphone, set_out codec output_sel.earphone out)
  else if shift = 2 then
    -- Headset output driver
    let out := { priv.headset with work_queued := false }
    let out := { out with left_step := priv.hs_left_step }
    let out := { out with right_step := priv.hs_right_step }
    let out := { out with step_delay := 5 }
    some (output_sel.headset, set_out codec output_sel.headset out)
  else if shift = 4 ∨ shift = 6 then
    -- Handsfree output driver, Aux output driver
    let out := { priv.handsfree with work_queued := false }
    let out := { out with left_step := priv.hf_left_step }
    let out := { out with right_step := priv.hf_right_step }
    let out := { out with step_delay := 5 }
    some (output_sel.handsfree, set_out codec output_sel.handsfree out)
  else none

/-- The power event callback of the output drivers.
`wait_for_completion_timeout` is what happens while the caller sleeps on
`out->ramp_done` for at most 2000 ms: whatever the worker does to the codec
in the meantime, and the remaining time the wait returns (0 on timeout). -/
def out_drv_event (codec : snd_soc_codec) (shift : Nat) (event : dapm_event)
    (wait_for_completion_timeout : snd_soc_codec → snd_soc_codec × Nat) :
    Int × snd_soc_codec :=
  match out_drv_select codec shift with
  | none => (-1, codec)
  | some (sel, codec) =>
    let out := get_out codec sel
    let codec :=
      match event with
      | SND_SOC_DAPM_POST_PMU =>
        if out.active ≠ 0 then codec
        else
          -- don't use volume ramp for power-up
          let out := { out with ramp := TWL6040_RAMP_UP }
          let out := { out with left_step := out.left_vol }
          let out := { out with right_step := out.right_vol }
          -- queue_delayed_work
          let out := { out with work_queued := true }
          set_out codec sel out
      | SND_SOC_DAPM_PRE_PMD =>
        if out.active = 0 then codec
        else
          -- use volume ramp for power-down
          let out := { out with ramp := TWL6040_RAMP_DOWN }
          -- INIT_COMPLETION
          let out := { out with ramp_done := 0 }
          -- queue_delayed_work
          let out := { out with work_queued := true }
          (wait_for_completion_timeout (set_out codec sel out)).1
      | _ => codec
    -- usleep_range(1000, 2000): 1 ms to sync with ramp and work
    (0, codec)

/-- The codec after the power-up event (`SND_SOC_DAPM_POST_PMU`) of the
output driver with the given `w->shift`. -/
def power_up (codec : snd_soc_codec) (shift : Nat)
    (wait_for_completion_timeout : snd_soc_codec → snd_soc_codec × Nat) :
    snd_soc_codec :=
  (out_drv_event codec shift SND_SOC_DAPM_POST_PMU wait_for_completion_timeout).2

/-- The worker taking the ramp task of an output off the queue: the
pending bit of `out->work` is cleared before the work function runs. -/
def dequeue_work (codec : snd_soc_codec) (sel : output_sel) : snd_soc_codec :=
  set_out codec sel { get_out codec sel with work_queued := false }

/-- The worker running the ramp task of an output, if it is queued. -/
def run_ramp_work (codec : snd_soc_codec) (sel : output_sel) : snd_soc_codec :=
  if (get_out codec sel).work_queued then
    match sel with
    | output_sel.earphone => twl6040_pga_ep_work (dequeue_work codec sel)
    | output_sel.headset => twl6040_pga_hs_work (dequeue_work codec sel)
    | output_sel.handsfree => twl6040_pga_hf_work (dequeue_work codec sel)
  else codec

/-- The codec at the point where `out_drv_event` starts to wait for the
completion on the power-down event (`SND_SOC_DAPM_PRE_PMD`): the codec the
event leaves when nothing happens during the wait. -/
def power_down_armed (codec : snd_soc_codec) (shift : Nat) : snd_soc_codec :=
  (out_drv_event codec shift SND_SOC_DAPM_PRE_PMD (fun c => (c, 0))).2

/-! ## Volume controls -/

/-- The `u16` a `long` of `ucontrol->value.integer.value` is stored as. -/
def to_u16 (v : Int) : Nat := (v % 65536).toNat

/-- The shadowing put callback of the three playback volume controls.
`mc_reg` is `mc->reg`, `value0` and `value1` are
`ucontrol->value.integer.value[0]` and `[1]`.  The helpers of the ALSA core,
`snd_soc_put_volsw` and `snd_soc_put_volsw_2r`, are parameters: each maps the
codec to its result and the codec it leaves. -/
def twl6040_put_volsw (codec : snd_soc_codec) (mc_reg : Nat) (value0 value1 : Int)
    (snd_soc_put_volsw snd_soc_put_volsw_2r : snd_soc_codec → Int × snd_soc_codec) :
    Int × snd_soc_codec :=
  -- For HS, HF and EP we shadow the values and only actually write
  -- them out when active in order to ensure the amplifier comes on
  -- as quietly as possible.
  let sel : Option (output_sel × Bool) :=
    if mc_reg = TWL6040_REG_HSGAIN then some (output_sel.headset, false)
    else if mc_reg = TWL6040_REG_HFLGAIN then some (output_sel.handsfree, true)
    else if mc_reg = TWL6040_REG_EARCTL then some (output_sel.earphone, false)
    else none
  match sel with
  | none => (- (EINVAL_errno : Int), codec)
  | some (out, type_2r) =>
    let codec := set_out codec out { get_out codec out with left_vol := to_u16 value0 }
    let codec := set_out codec out { get_out codec out with right_vol := to_u16 value1 }
    if (get_out codec out).active = 0 then (1, codec)
    else
      let r := if type_2r then snd_soc_put_volsw_2r codec else snd_soc_put_volsw codec
      if r.1 < 0 then (r.1, r.2)
      else (1, r.2)

/-- The get callback of the three playback volume controls; the result is
the return value and the two entries of `ucontrol->value.integer.value`
(the second one is left as it was for the earphone control). -/
def twl6040_get_volsw (codec : snd_soc_codec) (mc_reg : Nat) (value : Int × Int) :
    Int × (Int × Int) :=
  if mc_reg = TWL6040_REG_HSGAIN then
    (0, ((codec.drvdata.headset.left_vol : Int), (codec.drvdata.headset.right_vol : Int)))
  else if mc_reg = TWL6040_REG_HFLGAIN then
    (0, ((codec.drvdata.handsfree.left_vol : Int),
      (codec.drvdata.handsfree.right_vol : Int)))
  else if mc_reg = TWL6040_REG_EARCTL then
    (0, ((codec.drvdata.earphone.left_vol : Int), value.2))
  else (- (EINVAL_errno : Int), value)

/-! ## Sequences of calls -/

/-- A call of the bias-level callback or of the register write. -/
inductive codec_call
  | set_bias_level (level : snd_soc_bias_level)
  | write (reg value : Nat)

/-- The codec after one call. -/
def run_call (codec : snd_soc_codec) : codec_call → snd_soc_codec
  | codec_call.set_bias_level level => (twl6040_set_bias_level codec level).2
  | codec_call.write reg value => (twl6040_write codec reg value).2

/-- The codec after a sequence of calls, first call first. -/
def run_calls (codec : snd_soc_codec) (calls : List codec_call) : snd_soc_codec :=
  calls.foldl run_call codec

/-! ## Re-initialisation of the vio domain: transactions -/

/-- The transaction `twl6040_init_vio_regs` issues for a register, if any:
nothing for a register that is not under vio supply or that the switch
skips, a read for HSOTRIM and HFOTRIM, a write of the cached byte for every
other register under vio supply. -/
def vio_init_op (cache : Fin TWL6040_CACHEREGNUM → Nat)
    (reg : Fin TWL6040_CACHEREGNUM) : Option HwOp :=
  if reg_supply reg ≠ TWL6040_VIO_SUPPLY then none
  else if reg.val = TWL6040_REG_ASICID ∨ reg.val = TWL6040_REG_ASICREV ∨
      reg.val = TWL6040_REG_INTID ∨ reg.val = TWL6040_REG_INTMR ∨
      reg.val = TWL6040_REG_NCPCTL ∨ reg.val = TWL6040_REG_LDOCTL ∨
      reg.val = TWL6040_REG_GPOCTL ∨ reg.val = TWL6040_REG_ACCCTL ∨
      reg.val = TWL6040_REG_STATUS then none
  else if reg.val = TWL6040_REG_HSOTRIM ∨ reg.val = TWL6040_REG_HFOTRIM then
    some (HwOp.reg_read reg.val)
  else some (HwOp.reg_write reg.val (cache reg % 256))

/-- The loop of `twl6040_init_vio_regs` unrolled: of the registers 0 .. 46,
seven reach the write of the cached byte (AMICBCTL, DMICBCTL, HKCTL1, HKCTL2,
TRIM1, TRIM2, TRIM3) and two the read-back (HSOTRIM, HFOTRIM); every other
register is skipped. -/
def vio_init_unrolled (codec : snd_soc_codec) : snd_soc_codec :=
  let c := (twl6040_write codec TWL6040_REG_AMICBCTL
    (codec.reg_cache ⟨TWL6040_REG_AMICBCTL, by decide⟩)).2
  let c := (twl6040_write c TWL6040_REG_DMICBCTL
    (c.reg_cache ⟨TWL6040_REG_DMICBCTL, by decide⟩)).2
  let c := (twl6040_write c TWL6040_REG_HKCTL1 (c.reg_cache ⟨TWL6040_REG_HKCTL1, by decide⟩)).2
  let c := (twl6040_write c TWL6040_REG_HKCTL2 (c.reg_cache ⟨TWL6040_REG_HKCTL2, by decide⟩)).2
  let c := (twl6040_write c TWL6040_REG_TRIM1 (c.reg_cache ⟨TWL6040_REG_TRIM1, by decide⟩)).2
  let c := (twl6040_write c TWL6040_REG_TRIM2 (c.reg_cache ⟨TWL6040_REG_TRIM2, by decide⟩)).2
  let c := (twl6040_write c TWL6040_REG_TRIM3 (c.reg_cache ⟨TWL6040_REG_TRIM3, by decide⟩)).2
  let c := (twl6040_read_reg_volatile c TWL6040_REG_HSOTRIM).2
  (twl6040_read_reg_volatile c TWL6040_REG_HFOTRIM).2

/-- The transactions of `twl6040_init_vio_regs`, in the order of the loop. -/
def vio_init_ops (cache : Fin TWL6040_CACHEREGNUM → Nat) : List HwOp :=
  [HwOp.reg_write TWL6040_REG_AMICBCTL (cache ⟨TWL6040_REG_AMICBCTL, by decide⟩ % 256),
   HwOp.reg_write TWL6040_REG_DMICBCTL (cache ⟨TWL6040_REG_DMICBCTL, by decide⟩ % 256),
   HwOp.reg_write TWL6040_REG_HKCTL1 (cache ⟨TWL6040_REG_HKCTL1, by decide⟩ % 256),
   HwOp.reg_write TWL6040_REG_HKCTL2 (cache ⟨TWL6040_REG_HKCTL2, by decide⟩ % 256),
   HwOp.reg_write TWL6040_REG_TRIM1 (cache ⟨TWL6040_REG_TRIM1, by decide⟩ % 256),
   HwOp.reg_write TWL6040_REG_TRIM2 (cache ⟨TWL6040_REG_TRIM2, by decide⟩ % 256),
   HwOp.reg_write TWL6040_REG_TRIM3 (cache ⟨TWL6040_REG_TRIM3, by decide⟩ % 256),
   HwOp.reg_read TWL6040_REG_HSOTRIM,
   HwOp.reg_read TWL6040_REG_HFOTRIM]

/-! ## Re-initialisation of the vdd domain: registers -/

/-- The registers for which the loop of `twl6040_init_vdd_regs` reaches the
write, in the order of the loop: MICLCTL .. HFRGAIN, then ALB and DLB. -/
def vdd_init_reg_list : List (Fin TWL6040_CACHEREGNUM) :=
  [⟨TWL6040_REG_MICLCTL, by decide⟩, ⟨TWL6040_REG_MICRCTL, by decide⟩,
   ⟨TWL6040_REG_MICGAIN, by decide⟩, ⟨TWL6040_REG_LINEGAIN, by decide⟩,
   ⟨TWL6040_REG_HSLCTL, by decide⟩, ⟨TWL6040_REG_HSRCTL, by decide⟩,
   ⟨TWL6040_REG_HSGAIN, by decide⟩, ⟨TWL6040_REG_EARCTL, by decide⟩,
   ⟨TWL6040_REG_HFLCTL, by decide⟩, ⟨TWL6040_REG_HFLGAIN, by decide⟩,
   ⟨TWL6040_REG_HFRCTL, by decide⟩, ⟨TWL6040_REG_HFRGAIN, by decide⟩,
   ⟨TWL6040_REG_ALB, by decide⟩, ⟨TWL6040_REG_DLB, by decide⟩]

/-! ## Sample rates -/

/-- Set of rates of the low-power pll, `lp_rates[]`. -/
def lp_rates : List Nat :=
  [8000, 11250, 16000, 22500, 32000, 44100, 48000, 88200, 96000]

/-- Set of rates of the high-performance pll, `hp_rates[]`. -/
def hp_rates : List Nat :=
  [8000, 16000, 32000, 44100, 48000, 96000]

/-- Modelled from the spec: `set_pll(mode, input_freq, target_freq) -> Result`
of the transport, `twl6040_set_pll(twl6040, id, freq_in, freq_out)`: the
transaction is recorded and the transport's result, which may depend on the
transaction, returned. -/
def twl6040_set_pll (t : twl6040) (id : Int) (freq_in freq_out : Nat) : Int × twl6040 :=
  (t.set_pll_ret (t.log ++ [HwOp.set_pll id freq_in freq_out]),
   { t with log := t.log ++ [HwOp.set_pll id freq_in freq_out] })

/-- The `hw_params` callback of the DAI; `rate` is the `int` that
`params_rate(params)` yields.  The switch selects the sample clock or rejects
the rate; the clock is handed to the pll and, if that succeeds, recorded. -/
def twl6040_hw_params (codec : snd_soc_codec) (rate : Int) : Int × snd_soc_codec :=
  let sysclk : Option Nat :=
    if rate = 11250 ∨ rate = 22500 ∨ rate = 88200 then some 17640000
    else if rate = 8000 ∨ rate = 16000 ∨ rate = 32000 ∨ rate = 44100 ∨
        rate = 48000 ∨ rate = 96000 then some 19200000
    else none
  match sysclk with
  | none => (- (EINVAL_errno : Int), codec)
  | some sysclk =>
    let r := twl6040_set_pll codec.control_data codec.drvdata.pll codec.drvdata.clk_in sysclk
    let codec := { codec with control_data := r.2 }
    if r.1 ≠ 0 then (r.1, codec)
    else (0, { codec with drvdata := { codec.drvdata with sysclk := sysclk } })

/-! ## The tables as C arrays

A second embedding of the functions that index `codec->reg_cache` and
`twl6040_reg_supply`.  Here a table is the list of its allocated entries and
a lookup outside the table has no result: a function that performs one
returns `none`.  The control flow is that of the C code, bound checks
included. -/

/-- The lookup `table[i]` of C, defined below the number of entries only. -/
def array_get {α : Type} (table : List α) (i : Nat) : Option α :=
  if h : i < table.length then some (table.get ⟨i, h⟩) else none

/-- The assignment `table[i] = v` of C, defined below the number of entries
only. -/
def array_set {α : Type} (table : List α) (i : Nat) (v : α) : Option (List α) :=
  if i < table.length then some (table.set i v) else none

/-- The codec with its register cache as an array, `u8 *cache =
codec->reg_cache`, of `reg_cache_size` bytes. -/
structure snd_soc_codec_arr where
  reg_cache : List Nat
  control_data : twl6040
  drvdata : twl6040_data

/-- Read twl6040 register cache. -/
def twl6040_read_reg_cache_arr (codec : snd_soc_codec_arr) (reg : Nat) : Option Nat :=
  if reg ≥ TWL6040_CACHEREGNUM then some (2 ^ 32 - EIO_errno)
  else array_get codec.reg_cache reg

/-- Write twl6040 register cache; both parameters are `u8`. -/
def twl6040_write_reg_cache_arr (codec : snd_soc_codec_arr) (reg value : Nat) :
    Option snd_soc_codec_arr :=
  if reg % 256 ≥ TWL6040_CACHEREGNUM then some codec
  else
    (array_set codec.reg_cache (reg % 256) (value % 256)).map
      fun cache => { codec with reg_cache := cache }

/-- Read from twl6040 hardware register. -/
def twl6040_read_reg_volatile_arr (codec : snd_soc_codec_arr) (reg : Nat) :
    Option (Int × snd_soc_codec_arr) :=
  if reg ≥ TWL6040_CACHEREGNUM then some (- (EIO_errno : Int), codec)
  else do
    let supply ← array_get twl6040_reg_supply reg
    -- read access not supported while in sleep state
    if supply = TWL6040_VDD_SUPPLY ∧ codec.drvdata.codec_powered = 0 then
      pure (- (EINVAL_errno : Int), codec)
    else
      let r := twl6040_reg_read codec.control_data reg
      let codec ← twl6040_write_reg_cache_arr { codec with control_data := r.2 } reg r.1
      pure ((r.1 : Int), codec)

/-- Write to the twl6040 register space. -/
def twl6040_write_arr (codec : snd_soc_codec_arr) (reg value : Nat) :
    Option (Int × snd_soc_codec_arr) :=
  if reg ≥ TWL6040_CACHEREGNUM then some (- (EIO_errno : Int), codec)
  else do
    let codec ← twl6040_write_reg_cache_arr codec reg value
    let supply ← array_get twl6040_reg_supply reg
    if supply = TWL6040_VIO_SUPPLY ∨ codec.drvdata.codec_powered ≠ 0 then
      let r := twl6040_reg_write codec.control_data reg value
      pure (r.1, { codec with control_data := r.2 })
    else
      pure (0, codec)

/-- One iteration of the loop of `twl6040_init_vio_regs`, with the lookups
`twl6040_reg_supply[reg]` and `cache[reg]`. -/
def twl6040_init_vio_regs_body_arr (codec : snd_soc_codec_arr) (reg : Nat) :
    Option snd_soc_codec_arr := do
  let supply ← array_get twl6040_reg_supply reg
  if supply ≠ TWL6040_VIO_SUPPLY then pure codec
  else if reg = TWL6040_REG_ASICID ∨ reg = TWL6040_REG_ASICREV ∨
      reg = TWL6040_REG_INTID ∨ reg = TWL6040_REG_INTMR ∨
      reg = TWL6040_REG_NCPCTL ∨ reg = TWL6040_REG_LDOCTL ∨
      reg = TWL6040_REG_GPOCTL ∨ reg = TWL6040_REG_ACCCTL ∨
      reg = TWL6040_REG_STATUS then pure codec
  else if reg = TWL6040_REG_HSOTRIM ∨ reg = TWL6040_REG_HFOTRIM then do
    let r ← twl6040_read_reg_volatile_arr codec reg
    pure r.2
  else do
    let value ← array_get codec.reg_cache reg
    let r ← twl6040_write_arr codec reg value
    pure r.2

/-- The loop `for (reg = 0; reg < TWL6040_CACHEREGNUM; reg++)` over the
registers under vio supply. -/
def twl6040_init_vio_regs_arr (codec : snd_soc_codec_arr) : Option snd_soc_codec_arr :=
  (List.range TWL6040_CACHEREGNUM).foldlM twl6040_init_vio_regs_body_arr codec

/-- One iteration of the loop of `twl6040_init_vdd_regs`, with the lookups
`twl6040_reg_supply[reg]` and `cache[reg]`. -/
def twl6040_init_vdd_regs_body_arr (codec : snd_soc_codec_arr) (reg : Nat) :
    Option snd_soc_codec_arr := do
  let supply ← array_get twl6040_reg_supply reg
  if supply ≠ TWL6040_VDD_SUPPLY then pure codec
  -- skip vibra and pll registers
  else if reg = TWL6040_REG_VIBCTLL ∨ reg = TWL6040_REG_VIBDATL ∨
      reg = TWL6040_REG_VIBCTLR ∨ reg = TWL6040_REG_VIBDATR ∨
      reg = TWL6040_REG_HPPLLCTL ∨ reg = TWL6040_REG_LPPLLCTL ∨
      reg = TWL6040_REG_LPPLLDIV then pure codec
  else do
    let value ← array_get codec.reg_cache reg
    let r ← twl6040_write_arr codec reg value
    pure r.2

/-- The loop `for (reg = 0; reg < TWL6040_CACHEREGNUM; reg++)` over the
registers under vdd supply. -/
def twl6040_init_vdd_regs_arr (codec : snd_soc_codec_arr) : Option snd_soc_codec_arr :=
  (List.range TWL6040_CACHEREGNUM).foldlM twl6040_init_vdd_regs_body_arr codec

/-- Left channel block of `twl6040_hs_ramp_step` on the array cache. -/
def twl6040_hs_ramp_step_left_arr (codec : snd_soc_codec_arr) (left_step : Nat) :
    Option (snd_soc_codec_arr × Nat) := do
  let headset := codec.drvdata.headset
  let left_step := if left_step > 0xF then 0xF else left_step
  let reg := (← twl6040_read_reg_cache_arr codec TWL6040_REG_HSGAIN) % 256
  let val := (c_not reg &&& TWL6040_HSL_VOL_MASK) % 256
  if headset.ramp = TWL6040_RAMP_UP then
    -- ramp step up
    if val ≠ headset.left_vol then
      let val :=
        if val + left_step > headset.left_vol then headset.left_vol % 256
        else (val + left_step) % 256
      let reg := (reg &&& c_not TWL6040_HSL_VOL_MASK) % 256
      let w ← twl6040_write_arr codec TWL6040_REG_HSGAIN
          (reg ||| (c_not val &&& TWL6040_HSL_VOL_MASK))
      pure (w.2, 0)
    else pure (codec, 1)
  else if headset.ramp = TWL6040_RAMP_DOWN then
    -- ramp step down
    if val ≠ 0 then
      let val :=
        if (val : Int) - (left_step : Int) < 0 then 0
        else (val - left_step) % 256
      let reg := (reg &&& c_not TWL6040_HSL_VOL_MASK) % 256
      let w ← twl6040_write_arr codec TWL6040_REG_HSGAIN
          (reg ||| (c_not val &&& TWL6040_HSL_VOL_MASK))
      pure (w.2, 0)
    else pure (codec, 1)
  else pure (codec, 0)

/-- Right channel block of `twl6040_hs_ramp_step` on the array cache. -/
def twl6040_hs_ramp_step_right_arr (codec : snd_soc_codec_arr) (right_step : Nat) :
    Option (snd_soc_codec_arr × Nat) := do
  let headset := codec.drvdata.headset
  let right_step := if right_step > 0xF then 0xF else right_step
  let reg := (← twl6040_read_reg_cache_arr codec TWL6040_REG_HSGAIN) % 256
  let val := ((c_not reg &&& TWL6040_HSR_VOL_MASK) >>> TWL6040_HSR_VOL_SHIFT) % 256
  if headset.ramp = TWL6040_RAMP_UP then
    -- ramp step up
    if val ≠ headset.right_vol then
      let val :=
        if val + right_step > headset.right_vol then headset.right_vol % 256
        else (val + right_step) % 256
      let reg := (reg &&& c_not TWL6040_HSR_VOL_MASK) % 256
      let w ← twl6040_write_arr codec TWL6040_REG_HSGAIN
          (reg ||| (c_not val <<< TWL6040_HSR_VOL_SHIFT) % 2 ^ 32)
      pure (w.2, 0)
    else pure (codec, 1)
  else if headset.ramp = TWL6040_RAMP_DOWN then
    -- ramp step down
    if val ≠ 0 then
      let val :=
        if (val : Int) - (right_step : Int) < 0 then 0
        else (val - right_step) % 256
      let reg := (reg &&& c_not TWL6040_HSR_VOL_MASK) % 256
      let w ← twl6040_write_arr codec TWL6040_REG_HSGAIN
          (reg ||| (c_not val <<< TWL6040_HSR_VOL_SHIFT) % 2 ^ 32)
      pure (w.2, 0)
    else pure (codec, 1)
  else pure (codec, 0)

/-- One tick of the headset ramp on the array cache: left channel then right
channel. -/
def twl6040_hs_ramp_step_arr (codec : snd_soc_codec_arr) (left_step right_step : Nat) :
    Option (snd_soc_codec_arr × Nat) := do
  let l ← twl6040_hs_ramp_step_left_arr codec left_step
  let r ← twl6040_hs_ramp_step_right_arr l.1 right_step
  pure (r.1, l.2 &&& r.2)

/-- Left channel block of `twl6040_hf_ramp_step` on the array cache. -/
def twl6040_hf_ramp_step_left_arr (codec : snd_soc_codec_arr) (left_step : Nat) :
    Option (snd_soc_codec_arr × Nat) := do
  let handsfree := codec.drvdata.handsfree
  let left_step := if left_step > 0x1D then 0x1D else left_step
  let reg := (← twl6040_read_reg_cache_arr codec TWL6040_REG_HFLGAIN) % 65536
  let reg := c_sub 0x1D reg % 65536
  let val := (reg &&& TWL6040_HF_VOL_MASK) % 65536
  if handsfree.ramp = TWL6040_RAMP_UP then
    -- ramp step up
    if val ≠ handsfree.left_vol then
      let val :=
        if val + left_step > handsfree.left_vol then handsfree.left_vol % 65536
        else (val + left_step) % 65536
      let reg := (reg &&& c_not TWL6040_HF_VOL_MASK) % 65536
      let w ← twl6040_write_arr codec TWL6040_REG_HFLGAIN (reg ||| c_sub 0x1D val)
      pure (w.2, 0)
    else pure (codec, 1)
  else if handsfree.ramp = TWL6040_RAMP_DOWN then
    -- ramp step down
    if val ≠ 0 then
      let val :=
        if (val : Int) - (left_step : Int) < 0 then 0
        else (val - left_step) % 65536
      let reg := (reg &&& c_not TWL6040_HF_VOL_MASK) % 65536
      let w ← twl6040_write_arr codec TWL6040_REG_HFLGAIN (reg ||| c_sub 0x1D val)
      pure (w.2, 0)
    else pure (codec, 1)
  else pure (codec, 0)

/-- Right channel block of `twl6040_hf_ramp_step` on the array cache. -/
def twl6040_hf_ramp_step_right_arr (codec : snd_soc_codec_arr) (right_step : Nat) :
    Option (snd_soc_codec_arr × Nat) := do
  let handsfree := codec.drvdata.handsfree
  let right_step := if right_step > 0x1D then 0x1D else right_step
  let reg := (← twl6040_read_reg_cache_arr codec TWL6040_REG_HFRGAIN) % 65536
  let reg := c_sub 0x1D reg % 65536
  let val := (reg &&& TWL6040_HF_VOL_MASK) % 65536
  if handsfree.ramp = TWL6040_RAMP_UP then
    -- ramp step up
    if val ≠ handsfree.right_vol then
      let val :=
        if val + right_step > handsfree.right_vol then handsfree.right_vol % 65536
        else (val + right_step) % 65536
      let reg := (reg &&& c_not TWL6040_HF_VOL_MASK) % 65536
      let w ← twl6040_write_arr codec TWL6040_REG_HFRGAIN (reg ||| c_sub 0x1D val)
      pure (w.2, 0)
    else pure (codec, 1)
  else if handsfree.ramp = TWL6040_RAMP_DOWN then
    -- ramp step down
    if val ≠ 0 then
      let val :=
        if (val : Int) - (right_step : Int) < 0 then 0
        else (val - right_step) % 65536
      let reg := (reg &&& c_not TWL6040_HF_VOL_MASK) % 65536
      let w ← twl6040_write_arr codec TWL6040_REG_HFRGAIN (reg ||| c_sub 0x1D val)
      pure (w.2, 0)
    else pure (codec, 1)
  else pure (codec, 0)

/-- One tick of the handsfree ramp on the array cache. -/
def twl6040_hf_ramp_step_arr (codec : snd_soc_codec_arr) (left_step right_step : Nat) :
    Option (snd_soc_codec_arr × Nat) := do
  let l ← twl6040_hf_ramp_step_left_arr codec left_step
  let r ← twl6040_hf_ramp_step_right_arr l.1 right_step
  pure (r.1, l.2 &&& r.2)

/-- One tick of the earpiece ramp on the array cache. -/
def twl6040_ep_ramp_step_arr (codec : snd_soc_codec_arr) (step : Nat) :
    Option (snd_soc_codec_arr × Nat) := do
  let earphone := codec.drvdata.earphone
  let step := if step > 0xF then 0xF else step
  let reg := (← twl6040_read_reg_cache_arr codec TWL6040_REG_EARCTL) % 256
  let val := ((c_not reg &&& TWL6040_EP_VOL_MASK) >>> TWL6040_EP_VOL_SHIFT) % 256
  if earphone.ramp = TWL6040_RAMP_UP then
    -- ramp step up
    if val ≠ earphone.left_vol then
      let val :=
        if val + step > earphone.left_vol then earphone.left_vol % 256
        else (val + step) % 256
      let reg := (reg &&& c_not TWL6040_EP_VOL_MASK) % 256
      let val := (c_not val <<< TWL6040_EP_VOL_SHIFT) % 256
      let w ← twl6040_write_arr codec TWL6040_REG_EARCTL
          (reg ||| (val &&& TWL6040_EP_VOL_MASK))
      pure (w.2, 0)
    else pure (codec, 1)
  else if earphone.ramp = TWL6040_RAMP_DOWN then
    -- ramp step down
    if val ≠ 0 then
      let val :=
        if (val : Int) - (step : Int) < 0 then 0
        else (val - step) % 256
      let reg := (reg &&& c_not TWL6040_EP_VOL_MASK) % 256
      let val := (c_not val <<< TWL6040_EP_VOL_SHIFT) % 256
      let w ← twl6040_write_arr codec TWL6040_REG_EARCTL
          (reg ||| (val &&& TWL6040_EP_VOL_MASK))
      pure (w.2, 0)
    else pure (codec, 1)
  else pure (codec, 0)

/-- The array codec that holds the state of a codec: entry `i` of the cache
array is the cache entry of register `i`. -/
def to_arr (codec : snd_soc_codec) : snd_soc_codec_arr :=
  { reg_cache := List.ofFn codec.reg_cache,
    control_data := codec.control_data,
    drvdata := codec.drvdata }

/-! ## Decoded gains

The gain of a channel as the ramp steps read it from the register cache. -/

/-- Headset left gain: `val = (~reg & TWL6040_HSL_VOL_MASK)`. -/
def hs_left_gain (codec : snd_soc_codec) : Nat :=
  (c_not (twl6040_read_reg_cache codec TWL6040_REG_HSGAIN % 256)
    &&& TWL6040_HSL_VOL_MASK) % 256

/-- Headset right gain:
`val = (~reg & TWL6040_HSR_VOL_MASK) >> TWL6040_HSR_VOL_SHIFT`. -/
def hs_right_gain (codec : snd_soc_codec) : Nat :=
  ((c_not (twl6040_read_reg_cache codec TWL6040_REG_HSGAIN % 256)
    &&& TWL6040_HSR_VOL_MASK) >>> TWL6040_HSR_VOL_SHIFT) % 256

/-- Handsfree left gain: `reg = 0x1D - reg; val = (reg & TWL6040_HF_VOL_MASK)`. -/
def hf_left_gain (codec : snd_soc_codec) : Nat :=
  ((c_sub 0x1D (twl6040_read_reg_cache codec TWL6040_REG_HFLGAIN % 65536) % 65536)
    &&& TWL6040_HF_VOL_MASK) % 65536

/-- Handsfree right gain. -/
def hf_right_gain (codec : snd_soc_codec) : Nat :=
  ((c_sub 0x1D (twl6040_read_reg_cache codec TWL6040_REG_HFRGAIN % 65536) % 65536)
    &&& TWL6040_HF_VOL_MASK) % 65536

/-- Earphone gain:
`val = (~reg & TWL6040_EP_VOL_MASK) >> TWL6040_EP_VOL_SHIFT`. -/
def ep_gain (codec : snd_soc_codec) : Nat :=
  ((c_not (twl6040_read_reg_cache codec TWL6040_REG_EARCTL % 256)
    &&& TWL6040_EP_VOL_MASK) >>> TWL6040_EP_VOL_SHIFT) % 256

/-! ## Ticks on decoded gains -/

/-- One Up tick of a channel on its decoded gain: target `t`, clamped step
`s`, current gain `cur`; the arithmetic of the `ramp step up` branches. -/
def up_next (t s cur : Nat) : Nat :=
  if cur = t then cur else if cur + s > t then t else cur + s

/-- One Down tick of a channel on its decoded gain: the arithmetic of the
`ramp step down` branches. -/
def down_next (s cur : Nat) : Nat :=
  if cur = 0 then 0 else if cur < s then 0 else cur - s

/-- Distance of a gain from the target of an Up ramp: a gain above the
target is one tick away. -/
def up_dist (t cur : Nat) : Nat :=
  if cur = t then 0 else if cur > t then 1 else t - cur

/-- What an Up tick does to one channel, as the ramp engine describes it:
`blk` is the block of the ramp step of the channel, `gain` its decoded gain,
`reg` its gain register, `mx` the maximum of the gain field and `t` the
target.  At the target the channel is marked complete and nothing is
written; otherwise the block rewrites the register through `twl6040_write`
and the decoded gain advances by `min(step, target - current)`, the step
being clamped to `mx`. -/
def channel_up_tick (blk : snd_soc_codec → Nat → snd_soc_codec × Nat)
    (gain : snd_soc_codec → Nat) (reg mx t : Nat) (codec : snd_soc_codec) (s : Nat) :
    Prop :=
  (gain codec = t → blk codec s = (codec, 1)) ∧
  (gain codec ≠ t →
    (∃ value, blk codec s = ((twl6040_write codec reg value).2, 0)) ∧
    gain (blk codec s).1 = gain codec + min (min s mx) (t - gain codec))

/-- What a Down tick does to one channel: at gain 0 the channel is marked
complete and nothing is written; otherwise the block rewrites the register
through `twl6040_write` and the decoded gain decreases by
`min(step, current)`, the step being clamped to `mx`. -/
def channel_down_tick (blk : snd_soc_codec → Nat → snd_soc_codec × Nat)
    (gain : snd_soc_codec → Nat) (reg mx : Nat) (codec : snd_soc_codec) (s : Nat) :
    Prop :=
  (gain codec = 0 → blk codec s = (codec, 1)) ∧
  (gain codec ≠ 0 →
    (∃ value, blk codec s = ((twl6040_write codec reg value).2, 0)) ∧
    gain (blk codec s).1 = gain codec - min (min s mx) (gain codec))

/-- The codec after `k` successive ticks of the headset ramp step. -/
def hs_ticks (k : Nat) (codec : snd_soc_codec) : snd_soc_codec :=
  (fun c => (hs_tick c).1)^[k] codec

/-- The codec after `k` successive ticks of the handsfree ramp step. -/
def hf_ticks (k : Nat) (codec : snd_soc_codec) : snd_soc_codec :=
  (fun c => (hf_tick c).1)^[k] codec

/-- The codec after `k` successive ticks of the earphone ramp step. -/
def ep_ticks (k : Nat) (codec : snd_soc_codec) : snd_soc_codec :=
  (fun c => (ep_tick c).1)^[k] codec

/-! ## Sequences of driver operations -/

/-- A power event of an output driver together with the ramp task it queues:
the worker runs the task to the end, during the wait of the event on the way
down (the wait then reports completion), right after the event on the way
up.  An event with a `w->shift` that selects no output returns -1 and does
nothing. -/
def power_event (codec : snd_soc_codec) (shift : Nat) (event : dapm_event) :
    snd_soc_codec :=
  match out_drv_select codec shift with
  | none => codec
  | some (sel, _) =>
    run_ramp_work
      (out_drv_event codec shift event (fun c => (run_ramp_work c sel, 1))).2 sel

/-- An operation on the driver: a put of a playback volume control (with the
two helpers of the ALSA core the call would reach), a bias-level change, or
a power event of an output driver with its ramp task. -/
inductive driver_op
  | put_volsw (mc_reg : Nat) (value0 value1 : Int)
      (snd_soc_put_volsw snd_soc_put_volsw_2r : snd_soc_codec → Int × snd_soc_codec)
  | set_bias_level (level : snd_soc_bias_level)
  | power_event (shift : Nat) (event : dapm_event)

/-- The codec after one operation. -/
def run_op (codec : snd_soc_codec) : driver_op → snd_soc_codec
  | driver_op.put_volsw mc_reg value0 value1 put put_2r =>
    (twl6040_put_volsw codec mc_reg value0 value1 put put_2r).2
  | driver_op.set_bias_level level => (twl6040_set_bias_level codec level).2
  | driver_op.power_event shift event => power_event codec shift event

/-- The codec after a sequence of operations, first operation first. -/
def run_ops (codec : snd_soc_codec) (ops : List driver_op) : snd_soc_codec :=
  ops.foldl run_op codec

/-- What is assumed of a helper of the ALSA core (`snd_soc_put_volsw`,
`snd_soc_put_volsw_2r`), whose code is not among the sources: it reaches the
codec only through the register accessors, so it leaves the driver data
alone, it changes the cache at most at the registers `regs` of its control,
and the values it stores there are at most `mx`. -/
def volsw_helper_frame (regs : List Nat) (mx : Nat)
    (helper : snd_soc_codec → Int × snd_soc_codec) : Prop :=
  ∀ c, (helper c).2.drvdata = c.drvdata ∧
    (∀ reg, reg ∉ regs →
      twl6040_read_reg_cache (helper c).2 reg = twl6040_read_reg_cache c reg) ∧
    (∀ reg, reg ∈ regs → twl6040_read_reg_cache (helper c).2 reg ≤ mx)

/-- An operation with in-range targets: a put of the headset, handsfree or
earphone volume control carries targets within the range of the control
(0 .. 15, 0 .. 29, 0 .. 15; the earphone control has one value) and helpers
that keep to the registers of the control. -/
def op_in_range : driver_op → Prop
  | driver_op.put_volsw mc_reg value0 value1 put put_2r =>
    (mc_reg = TWL6040_REG_HSGAIN →
      0 ≤ value0 ∧ value0 ≤ 15 ∧ 0 ≤ value1 ∧ value1 ≤ 15 ∧
        volsw_helper_frame [TWL6040_REG_HSGAIN] 255 put) ∧
    (mc_reg = TWL6040_REG_HFLGAIN →
      0 ≤ value0 ∧ value0 ≤ 29 ∧ 0 ≤ value1 ∧ value1 ≤ 29 ∧
        volsw_helper_frame [TWL6040_REG_HFLGAIN, TWL6040_REG_HFRGAIN] 0x1D put_2r) ∧
    (mc_reg = TWL6040_REG_EARCTL →
      0 ≤ value0 ∧ value0 ≤ 15 ∧
        volsw_helper_frame [TWL6040_REG_EARCTL] 255 put)
  | _ => True

/-- No ramp of the output is armed or queued. -/
def ramp_idle (out : twl6040_output) : Prop :=
  out.ramp = TWL6040_RAMP_NONE ∧ out.work_queued = false

/-- The headset between two operations: no ramp armed, targets in range,
HSGAIN a byte, and both gains 0 while the output is not active. -/
def hs_silent (codec : snd_soc_codec) : Prop :=
  ramp_idle codec.drvdata.headset ∧
    codec.drvdata.headset.left_vol ≤ 15 ∧ codec.drvdata.headset.right_vol ≤ 15 ∧
    twl6040_read_reg_cache codec TWL6040_REG_HSGAIN < 256 ∧
    (codec.drvdata.headset.active = 0 → hs_left_gain codec = 0 ∧ hs_right_gain codec = 0)

/-- The handsfree output between two operations: no ramp armed, targets in
range, HFLGAIN and HFRGAIN bytes that decode to gains in range, and both
gains 0 while the output is not active. -/
def hf_silent (codec : snd_soc_codec) : Prop :=
  ramp_idle codec.drvdata.handsfree ∧
    codec.drvdata.handsfree.left_vol ≤ 29 ∧ codec.drvdata.handsfree.right_vol ≤ 29 ∧
    twl6040_read_reg_cache codec TWL6040_REG_HFLGAIN < 256 ∧
    twl6040_read_reg_cache codec TWL6040_REG_HFRGAIN < 256 ∧
    hf_left_gain codec ≤ 29 ∧ hf_right_gain codec ≤ 29 ∧
    (codec.drvdata.handsfree.active = 0 →
      hf_left_gain codec = 0 ∧ hf_right_gain codec = 0)

/-- The earphone between two operations: no ramp armed, target in range,
EARCTL a byte, and the gain 0 while the output is not active. -/
def ep_silent (codec : snd_soc_codec) : Prop :=
  ramp_idle codec.drvdata.earphone ∧
    codec.drvdata.earphone.left_vol ≤ 15 ∧
    twl6040_read_reg_cache codec TWL6040_REG_EARCTL < 256 ∧
    (codec.drvdata.earphone.active = 0 → ep_gain codec = 0)

/-- The configured ramp steps are at least 1. -/
def steps_configured (priv : twl6040_data) : Prop :=
  1 ≤ priv.hs_left_step ∧ 1 ≤ priv.hs_right_step ∧ 1 ≤ priv.hf_left_step ∧
    1 ≤ priv.hf_right_step ∧ 1 ≤ priv.ep_step

/-- The invariant of the driver between two operations. -/
def driver_inv (codec : snd_soc_codec) : Prop :=
  steps_configured codec.drvdata ∧ hs_silent codec ∧ hf_silent codec ∧ ep_silent codec

/-! ## A concrete codec

The state `twl6040_probe` leaves behind before it touches the hardware: the
cache holds the default image, the private data is zeroed but for the
configured steps, and the transport answers every call with success. -/

def quiet_transport : twl6040 :=
  { log := [], write_ret := fun _ _ _ => 0, read_val := fun _ _ => 0,
    pll_val := fun _ => 0, sysclk_val := fun _ => 0, set_pll_ret := fun _ => 0 }

def zero_output : twl6040_output :=
  { active := 0, left_vol := 0, right_vol := 0, left_step := 0, right_step := 0,
    step_delay := 0, ramp := TWL6040_RAMP_NONE, work_queued := false, ramp_done := 0 }

def probe_codec : snd_soc_codec :=
  { reg_cache := fun r => twl6040_reg.get ⟨r.val, r.isLt⟩,
    control_data := quiet_transport,
    bias_level := SND_SOC_BIAS_OFF,
    drvdata :=
      { codec_powered := 0, pll := 0, clk_in := 0, sysclk := 0,
        hs_left_step := 1, hs_right_step := 1, hf_left_step := 1, hf_right_step := 1,
        ep_step := 1, sysclk_constraints := constraint_list.lp_constraints,
        headset := zero_output, earphone := zero_output, handsfree := zero_output } }

/-- An output armed for an Up ramp to the targets (10, 10) with steps
(1, 1). -/
def up_output : twl6040_output :=
  { zero_output with left_vol := 10, right_vol := 10, left_step := 1, right_step := 1,
                     ramp := TWL6040_RAMP_UP }

/-- An active output armed for a Down ramp with steps (1, 1). -/
def down_output : twl6040_output :=
  { zero_output with active := 1, left_vol := 10, right_vol := 10, left_step := 1,
                     right_step := 1, ramp := TWL6040_RAMP_DOWN }

/-- The probed codec with its three outputs armed for an Up ramp; the
cached gains are those of the default image, 0 on every channel. -/
def up_codec : snd_soc_codec :=
  { probe_codec with
    drvdata := { probe_codec.drvdata with
      headset := up_output, earphone := up_output, handsfree := up_output } }

/-- A codec with its three outputs armed for a Down ramp and the cached
gains at 10 on every channel (HSGAIN 0x55, EARCTL 0x0A, HFLGAIN and HFRGAIN
0x13). -/
def down_codec : snd_soc_codec :=
  { probe_codec with
    reg_cache := fun r =>
      if r.val = TWL6040_REG_HSGAIN then 0x55
      else if r.val = TWL6040_REG_EARCTL then 0x0A
      else if r.val = TWL6040_REG_HFLGAIN ∨ r.val = TWL6040_REG_HFRGAIN then 0x13
      else probe_codec.reg_cache r,
    drvdata := { probe_codec.drvdata with
      headset := down_output, earphone := down_output, handsfree := down_output } }

/-- The codec armed for Up ramps to the targets (10, 10), with the cached
gains at their maximum: HSGAIN 0x00 (gains 15, 15), EARCTL 0x00 (gain 15),
HFLGAIN and HFRGAIN 0x00 (gains 29, 29). -/
def loud_up_codec : snd_soc_codec :=
  { up_codec with
    reg_cache := fun r =>
      if r.val = TWL6040_REG_HSGAIN ∨ r.val = TWL6040_REG_EARCTL ∨
        r.val = TWL6040_REG_HFLGAIN ∨ r.val = TWL6040_REG_HFRGAIN then 0x00
      else probe_codec.reg_cache r }

/-- An inactive output with the targets (10, 10) set. -/
def idle_output : twl6040_output :=
  { zero_output with left_vol := 10, right_vol := 10 }

/-- The probed codec (configured steps 1) with the targets (10, 10) set on
its three inactive outputs. -/
def idle_codec : snd_soc_codec :=
  { probe_codec with
    drvdata := { probe_codec.drvdata with
      headset := idle_output, earphone := idle_output, handsfree := idle_output } }

/-- A wait on the completion during which nothing happens and that times
out. -/
def wait_timeout (codec : snd_soc_codec) : snd_soc_codec × Nat := (codec, 0)

/-- An active output playing at the gains (10, 10): the state the power-up
jump leaves, with the steps equal to the targets. -/
def playing_output : twl6040_output :=
  { zero_output with active := 1, left_vol := 10, right_vol := 10, left_step := 10,
                     right_step := 10, step_delay := 5 }

/-- A powered codec (configured steps 1) with its three outputs active and
the cached gains at 10 on every channel. -/
def playing_codec : snd_soc_codec :=
  { down_codec with
    bias_level := SND_SOC_BIAS_ON,
    drvdata := { probe_codec.drvdata with
      codec_powered := 1,
      headset := playing_output, earphone := playing_output,
      handsfree := playing_output } }

/-- A helper of the ALSA core that fails without touching the codec. -/
def put_volsw_fails (codec : snd_soc_codec) : Int × snd_soc_codec := (-5, codec)

/-- A transport whose writes fail with `-EIO` (the errno 5). -/
def failing_transport : twl6040 :=
  { quiet_transport with write_ret := fun _ _ _ => -5 }

/-- The powered codec on a transport whose writes fail. -/
def failing_codec : snd_soc_codec :=
  { probe_codec with
    control_data := failing_transport,
    drvdata := { probe_codec.drvdata with codec_powered := 1 } }

/-- A transport whose chip holds the offset trims 0x12 (HSOTRIM) and 0x34
(HFOTRIM). -/
def trimmed_transport : twl6040 :=
  { quiet_transport with
    read_val := fun _ reg =>
      if reg = TWL6040_REG_HSOTRIM then 0x12
      else if reg = TWL6040_REG_HFOTRIM then 0x34 else 0 }

/-- The probed codec on the chip with the offset trims. -/
def trimmed_codec : snd_soc_codec :=
  { probe_codec with control_data := trimmed_transport }

/-- A codec with its three outputs armed for a Down ramp with steps (1, 1)
and the cached gains at their maximum: HSGAIN 0x00 (gains 15, 15), EARCTL
0x00 (gain 15), HFLGAIN and HFRGAIN 0x00 (gains 29, 29). -/
def loud_down_codec : snd_soc_codec :=
  { down_codec with
    reg_cache := fun r =>
      if r.val = TWL6040_REG_HSGAIN ∨ r.val = TWL6040_REG_EARCTL ∨
        r.val = TWL6040_REG_HFLGAIN ∨ r.val = TWL6040_REG_HFRGAIN then 0x00
      else probe_codec.reg_cache r }

/-- An active output armed for a Down ramp with steps (0, 0). -/
def stuck_output : twl6040_output :=
  { down_output with left_step := 0, right_step := 0 }

/-- The codec with the cached gains at 10 and its three outputs armed for a
Down ramp with steps (0, 0). -/
def stuck_down_codec : snd_soc_codec :=
  { down_codec with
    drvdata := { down_codec.drvdata with
      headset := stuck_output, earphone := stuck_output, handsfree := stuck_output } }

/-- A transport whose chip runs from the PLL 1 with the sample clock
19200000. -/
def clocked_transport : twl6040 :=
  { quiet_transport with pll_val := fun _ => 1, sysclk_val := fun _ => 19200000 }

/-- The probed codec, whose private data still holds `pll = 0` and
`sysclk = 0`, on the clocked chip. -/
def clocked_codec : snd_soc_codec :=
  { probe_codec with control_data := clocked_transport }

/-- A wait on the completion during which the worker runs the queued ramp
task of the output to its end: the task signals the completion and the wait
reports it with 1500 jiffies left. -/
def wait_ramp_done (sel : output_sel) (codec : snd_soc_codec) : snd_soc_codec × Nat :=
  (run_ramp_work codec sel, 1500)

/-- A session on the headset: the targets (10, 10) are set while the output
is inactive, the codec is powered, the output is powered up, the targets
(5, 5) are set while it plays (the helper stores HSGAIN 0xAA), and the output
is powered down. -/
def headset_session : List driver_op :=
  [driver_op.put_volsw TWL6040_REG_HSGAIN 10 10
     (fun c => twl6040_write c TWL6040_REG_HSGAIN 0x55) put_volsw_fails,
   driver_op.set_bias_level SND_SOC_BIAS_STANDBY,
   driver_op.power_event 2 SND_SOC_DAPM_POST_PMU,
   driver_op.put_volsw TWL6040_REG_HSGAIN 5 5
     (fun c => twl6040_write c TWL6040_REG_HSGAIN 0xAA) put_volsw_fails,
   driver_op.power_event 2 SND_SOC_DAPM_PRE_PMD]

/-- A transport whose pll accepts the sample clock 19200000 only and answers
a request for 17640000 with `-EINVAL` (the errno 22), as a pll restricted to
`hp_rates` does. -/
def hp_transport : twl6040 :=
  { quiet_transport with
    set_pll_ret := fun log =>
      match log.getLast? with
      | some (HwOp.set_pll _ _ freq_out) => if freq_out = 19200000 then 0 else -22
      | _ => 0 }

/-- The probed codec on the chip whose pll accepts 19200000 only. -/
def hp_codec : snd_soc_codec :=
  { probe_codec with control_data := hp_transport }

/-- The array codec `twl6040_probe` starts from: the cache allocated from
`reg_cache_default = twl6040_reg`, of `reg_cache_size =
ARRAY_SIZE(twl6040_reg)` bytes. -/
def probe_codec_arr : snd_soc_codec_arr :=
  { reg_cache := twl6040_reg,
    control_data := quiet_transport,
    drvdata := probe_codec.drvdata }

/-- The concrete codec with `codec_powered` set. -/
def probe_codec_powered : snd_soc_codec :=
  { probe_codec with drvdata := { probe_codec.drvdata with codec_powered := 1 } }

/-! ## Register cache: lemmas -/

theorem twl6040_write_reg_cache_of_lt (codec : snd_soc_codec) (reg value : Nat)
    (h : reg < TWL6040_CACHEREGNUM) :
    twl6040_write_reg_cache codec reg value =
      { codec with
        reg_cache := Function.update codec.reg_cache ⟨reg, h⟩ (value % 256) } := by
  have h47 : reg < 47 := h
  have h256 : reg % 256 = reg := Nat.mod_eq_of_lt (by omega)
  unfold twl6040_write_reg_cache
  simp only [h256, h, dite_true]

theorem twl6040_write_cache (codec : snd_soc_codec) (reg value : Nat)
    (h : reg < TWL6040_CACHEREGNUM) :
    (twl6040_write codec reg value).2.reg_cache =
      Function.update codec.reg_cache ⟨reg, h⟩ (value % 256) := by
  unfold twl6040_write
  simp only [h, dite_true, twl6040_write_reg_cache_of_lt]
  split <;> rfl

theorem twl6040_write_drvdata (codec : snd_soc_codec) (reg value : Nat) :
    (twl6040_write codec reg value).2.drvdata = codec.drvdata := by
  unfold twl6040_write
  by_cases h : reg < TWL6040_CACHEREGNUM
  · simp only [h, dite_true, twl6040_write_reg_cache_of_lt]
    split <;> rfl
  · simp only [h, dite_false]

theorem twl6040_write_bias_level (codec : snd_soc_codec) (reg value : Nat) :
    (twl6040_write codec reg value).2.bias_level = codec.bias_level := by
  unfold twl6040_write
  by_cases h : reg < TWL6040_CACHEREGNUM
  · simp only [h, dite_true, twl6040_write_reg_cache_of_lt]
    split <;> rfl
  · simp only [h, dite_false]

theorem twl6040_write_forwarded (codec : snd_soc_codec) (reg value : Nat)
    (h : reg < TWL6040_CACHEREGNUM)
    (hf : reg_supply ⟨reg, h⟩ = TWL6040_VIO_SUPPLY ∨ codec.drvdata.codec_powered ≠ 0) :
    (twl6040_write codec reg value).2.control_data =
        { codec.control_data with
          log := codec.control_data.log ++ [HwOp.reg_write reg (value % 256)] } ∧
      (twl6040_write codec reg value).1 =
        codec.control_data.write_ret codec.control_data.log reg (value % 256) := by
  unfold twl6040_write
  simp only [h, dite_true, twl6040_write_reg_cache_of_lt, hf, if_true, twl6040_reg_write,
    and_self]

theorem twl6040_write_deferred (codec : snd_soc_codec) (reg value : Nat)
    (h : reg < TWL6040_CACHEREGNUM)
    (hf : ¬ (reg_supply ⟨reg, h⟩ = TWL6040_VIO_SUPPLY ∨ codec.drvdata.codec_powered ≠ 0)) :
    (twl6040_write codec reg value).2.control_data = codec.control_data ∧
      (twl6040_write codec reg value).1 = 0 := by
  unfold twl6040_write
  simp only [h, dite_true, twl6040_write_reg_cache_of_lt, hf, if_false, and_self]

theorem write_then_read_cache (codec : snd_soc_codec) (r v : Nat)
    (hr : r < TWL6040_CACHEREGNUM) (hv : v < 256) :
    twl6040_read_reg_cache (twl6040_write codec r v).2 r = v := by
  unfold twl6040_read_reg_cache
  simp only [hr, dite_true, twl6040_write_cache codec r v hr, Function.update_same]
  exact Nat.mod_eq_of_lt hv

/-! ## Claims -/

/-- C1: cache coherency.  For every register index below
`TWL6040_CACHEREGNUM`, every byte value, every power state and whatever the
transport answers, `twl6040_write` followed by `twl6040_read_reg_cache`
returns the value written. -/
theorem C1_write_then_read_cache (codec : snd_soc_codec) (r v : Nat)
    (hr : r < TWL6040_CACHEREGNUM) (hv : v < 256) :
    twl6040_read_reg_cache (twl6040_write codec r v).2 r = v :=
  write_then_read_cache codec r v hr hv

/-- A concrete instance of C1: register HSGAIN, value 0x25, codec
unpowered. -/
theorem C1_write_then_read_cache_witness :
    twl6040_read_reg_cache (twl6040_write probe_codec TWL6040_REG_HSGAIN 0x25).2
      TWL6040_REG_HSGAIN = 0x25 :=
  C1_write_then_read_cache probe_codec TWL6040_REG_HSGAIN 0x25 (by decide) (by decide)

/-- C2: a write to a register under vdd supply while the codec is not
powered issues no hardware transaction (the chip handle, with its log of
transactions, is unchanged), stores the value (as a byte) in the cache and
returns 0. -/
theorem C2_gated_write_deferred (codec : snd_soc_codec) (r v : Nat)
    (hr : r < TWL6040_CACHEREGNUM)
    (hs : reg_supply ⟨r, hr⟩ = TWL6040_VDD_SUPPLY)
    (hp : codec.drvdata.codec_powered = 0) :
    (twl6040_write codec r v).1 = 0 ∧
      (twl6040_write codec r v).2.control_data = codec.control_data ∧
      (twl6040_write codec r v).2.reg_cache ⟨r, hr⟩ = v % 256 ∧
      (v < 256 → twl6040_read_reg_cache (twl6040_write codec r v).2 r = v) ∧
      (twl6040_write codec r v).2 =
        { codec with reg_cache := Function.update codec.reg_cache ⟨r, hr⟩ (v % 256) } := by
  have hf : ¬ (reg_supply ⟨r, hr⟩ = TWL6040_VIO_SUPPLY ∨ codec.drvdata.codec_powered ≠ 0) := by
    rw [hs, hp]; decide
  have hd := twl6040_write_deferred codec r v hr hf
  refine ⟨hd.2, hd.1, ?_, ?_, ?_⟩
  · rw [twl6040_write_cache codec r v hr, Function.update_same]
  · intro hv
    exact write_then_read_cache codec r v hr hv
  · unfold twl6040_write
    simp only [hr, dite_true, twl6040_write_reg_cache_of_lt, hf, if_false]

/-- A concrete instance of C2: HSGAIN is under vdd supply and the probed
codec is not powered. -/
theorem C2_gated_write_deferred_witness :
    (twl6040_write probe_codec TWL6040_REG_HSGAIN 0x25).1 = 0 ∧
      (twl6040_write probe_codec TWL6040_REG_HSGAIN 0x25).2.control_data =
        probe_codec.control_data ∧
      (twl6040_write probe_codec TWL6040_REG_HSGAIN 0x25).2.reg_cache
        ⟨TWL6040_REG_HSGAIN, by decide⟩ = 0x25 % 256 ∧
      (0x25 < 256 → twl6040_read_reg_cache
        (twl6040_write probe_codec TWL6040_REG_HSGAIN 0x25).2 TWL6040_REG_HSGAIN = 0x25) ∧
      (twl6040_write probe_codec TWL6040_REG_HSGAIN 0x25).2 =
        { probe_codec with
          reg_cache := Function.update probe_codec.reg_cache
            ⟨TWL6040_REG_HSGAIN, by decide⟩ (0x25 % 256) } :=
  C2_gated_write_deferred probe_codec TWL6040_REG_HSGAIN 0x25 (by decide) (by decide) rfl

/-- C3, as stated, fails: register 0x21 is tagged `TWL6040_NO_SUPPLY`, yet a
write to it while the codec is powered is forwarded to the hardware. -/
theorem C3_counterexample :
    reg_supply ⟨0x21, by decide⟩ = TWL6040_NO_SUPPLY ∧
      probe_codec_powered.drvdata.codec_powered = 1 ∧
      (twl6040_write probe_codec_powered 0x21 0x55).2.control_data.log =
        probe_codec_powered.control_data.log ++ [HwOp.reg_write 0x21 0x55] ∧
      ¬ ((twl6040_write probe_codec_powered 0x21 0x55).2.control_data.log ≠
            probe_codec_powered.control_data.log ↔
          (reg_supply ⟨0x21, by decide⟩ = TWL6040_VIO_SUPPLY ∨
            (reg_supply ⟨0x21, by decide⟩ = TWL6040_VDD_SUPPLY ∧
              probe_codec_powered.drvdata.codec_powered ≠ 0))) := by
  decide

/-- C3, amended: for every in-range register, `twl6040_write` issues a
hardware write transaction if and only if the register is under vio supply
or the codec is powered, whatever the tag of the register; otherwise the
chip handle is untouched and the write is cache-only.  The cache entry is
updated in both cases. -/
theorem C3_hw_write_iff (codec : snd_soc_codec) (r v : Nat)
    (hr : r < TWL6040_CACHEREGNUM) :
    ((twl6040_write codec r v).2.control_data.log ≠ codec.control_data.log ↔
        (reg_supply ⟨r, hr⟩ = TWL6040_VIO_SUPPLY ∨ codec.drvdata.codec_powered ≠ 0)) ∧
      ((reg_supply ⟨r, hr⟩ = TWL6040_VIO_SUPPLY ∨ codec.drvdata.codec_powered ≠ 0) →
        (twl6040_write codec r v).2.control_data.log =
          codec.control_data.log ++ [HwOp.reg_write r (v % 256)]) ∧
      (¬ (reg_supply ⟨r, hr⟩ = TWL6040_VIO_SUPPLY ∨ codec.drvdata.codec_powered ≠ 0) →
        (twl6040_write codec r v).2.control_data = codec.control_data) ∧
      (twl6040_write codec r v).2.reg_cache =
        Function.update codec.reg_cache ⟨r, hr⟩ (v % 256) := by
  refine ⟨?_, ?_, ?_, twl6040_write_cache codec r v hr⟩
  · constructor
    · intro hne
      by_contra hf
      exact hne (by rw [(twl6040_write_deferred codec r v hr hf).1])
    · intro hf
      rw [(twl6040_write_forwarded codec r v hr hf).1]
      simp
  · intro hf
    rw [(twl6040_write_forwarded codec r v hr hf).1]
  · intro hf
    exact (twl6040_write_deferred codec r v hr hf).1

/-- A concrete instance of the amended C3: register 0x21 on the powered
codec. -/
theorem C3_hw_write_iff_witness :
    ((twl6040_write probe_codec_powered 0x21 0x55).2.control_data.log ≠
          probe_codec_powered.control_data.log ↔
        (reg_supply ⟨0x21, by decide⟩ = TWL6040_VIO_SUPPLY ∨
          probe_codec_powered.drvdata.codec_powered ≠ 0)) ∧
      ((reg_supply ⟨0x21, by decide⟩ = TWL6040_VIO_SUPPLY ∨
          probe_codec_powered.drvdata.codec_powered ≠ 0) →
        (twl6040_write probe_codec_powered 0x21 0x55).2.control_data.log =
          probe_codec_powered.control_data.log ++ [HwOp.reg_write 0x21 (0x55 % 256)]) ∧
      (¬ (reg_supply ⟨0x21, by decide⟩ = TWL6040_VIO_SUPPLY ∨
          probe_codec_powered.drvdata.codec_powered ≠ 0) →
        (twl6040_write probe_codec_powered 0x21 0x55).2.control_data =
          probe_codec_powered.control_data) ∧
      (twl6040_write probe_codec_powered 0x21 0x55).2.reg_cache =
        Function.update probe_codec_powered.reg_cache ⟨0x21, by decide⟩ (0x55 % 256) :=
  C3_hw_write_iff probe_codec_powered 0x21 0x55 (by decide)

/-! ## Re-initialisation of the vdd domain: lemmas -/

theorem hw_after_append (img : Nat → Nat) (l₁ l₂ : List HwOp) :
    hw_after img (l₁ ++ l₂) = hw_after (hw_after img l₁) l₂ := by
  unfold hw_after
  rw [List.foldl_append]

/-- One iteration of the vdd loop on a powered codec: the write of
`vdd_init_write` is appended to the log, the private data is untouched and
every cache entry keeps its byte. -/
theorem init_vdd_body_powered (codec : snd_soc_codec) (a : Fin TWL6040_CACHEREGNUM)
    (hp : codec.drvdata.codec_powered ≠ 0) :
    (twl6040_init_vdd_regs_body codec a).control_data.log =
        codec.control_data.log ++ (vdd_init_write codec.reg_cache a).toList ∧
      (twl6040_init_vdd_regs_body codec a).drvdata = codec.drvdata ∧
      (twl6040_init_vdd_regs_body codec a).bias_level = codec.bias_level ∧
      (∀ b, (twl6040_init_vdd_regs_body codec a).reg_cache b % 256 =
        codec.reg_cache b % 256) := by
  unfold twl6040_init_vdd_regs_body vdd_init_write
  by_cases h1 : reg_supply a ≠ TWL6040_VDD_SUPPLY
  · rw [if_pos h1, if_pos h1]
    simp only [Option.toList, List.append_nil, implies_true, and_self]
  · rw [if_neg h1, if_neg h1]
    split
    · simp only [Option.toList, List.append_nil, implies_true, and_self]
    · have hf : reg_supply ⟨a.val, a.isLt⟩ = TWL6040_VIO_SUPPLY ∨
          codec.drvdata.codec_powered ≠ 0 := Or.inr hp
      refine ⟨?_, twl6040_write_drvdata _ _ _, twl6040_write_bias_level _ _ _, ?_⟩
      · rw [(twl6040_write_forwarded codec a.val _ a.isLt hf).1]
        simp only [Option.toList, Nat.mod_mod]
      · intro b
        rw [twl6040_write_cache codec a.val _ a.isLt]
        by_cases hb : b = a
        · subst hb
          simp only [Fin.eta, Function.update_same, Nat.mod_mod]
        · simp only [Fin.eta, Function.update_noteq hb]

theorem vdd_init_write_congr (c₁ c₂ : Fin TWL6040_CACHEREGNUM → Nat)
    (h : ∀ b, c₁ b % 256 = c₂ b % 256) (a : Fin TWL6040_CACHEREGNUM) :
    vdd_init_write c₁ a = vdd_init_write c₂ a := by
  unfold vdd_init_write
  rw [h a]

/-- The vdd loop over any list of registers, on a powered codec. -/
theorem init_vdd_fold_powered (l : List (Fin TWL6040_CACHEREGNUM)) :
    ∀ codec : snd_soc_codec, codec.drvdata.codec_powered ≠ 0 →
      (l.foldl twl6040_init_vdd_regs_body codec).control_data.log =
          codec.control_data.log ++ l.filterMap (vdd_init_write codec.reg_cache) ∧
        (l.foldl twl6040_init_vdd_regs_body codec).drvdata = codec.drvdata ∧
        (l.foldl twl6040_init_vdd_regs_body codec).bias_level = codec.bias_level ∧
        (∀ b, (l.foldl twl6040_init_vdd_regs_body codec).reg_cache b % 256 =
          codec.reg_cache b % 256) := by
  induction l with
  | nil =>
    intro codec _
    simp only [List.foldl_nil, List.filterMap_nil, List.append_nil, implies_true, and_self]
  | cons a l ih =>
    intro codec hp
    obtain ⟨hlog, hdrv, hbias, hcache⟩ := init_vdd_body_powered codec a hp
    have hp1 : (twl6040_init_vdd_regs_body codec a).drvdata.codec_powered ≠ 0 := by
      rw [hdrv]; exact hp
    obtain ⟨ilog, idrv, ibias, icache⟩ := ih (twl6040_init_vdd_regs_body codec a) hp1
    have hfm : l.filterMap (vdd_init_write (twl6040_init_vdd_regs_body codec a).reg_cache) =
        l.filterMap (vdd_init_write codec.reg_cache) := by
      congr 1
      funext b
      exact vdd_init_write_congr _ _ hcache b
    refine ⟨?_, ?_, ?_, ?_⟩
    · rw [List.foldl_cons, ilog, hlog, hfm, List.append_assoc]
      congr 1
      cases hw : vdd_init_write codec.reg_cache a with
      | none => simp only [Option.toList, List.nil_append, List.filterMap_cons, hw]
      | some op => simp only [Option.toList, List.filterMap_cons, hw, List.singleton_append]
    · rw [List.foldl_cons, idrv, hdrv]
    · rw [List.foldl_cons, ibias, hbias]
    · intro b
      rw [List.foldl_cons, icache b, hcache b]

/-- Replaying a list of vdd re-initialisation writes: a register not in the
list keeps its byte. -/
theorem hw_after_vdd_writes_not_mem (cache : Fin TWL6040_CACHEREGNUM → Nat)
    (r : Fin TWL6040_CACHEREGNUM) (l : List (Fin TWL6040_CACHEREGNUM)) :
    ∀ img : Nat → Nat, r ∉ l →
      hw_after img (l.filterMap (vdd_init_write cache)) r.val = img r.val := by
  induction l with
  | nil => intro img _; rfl
  | cons a l ih =>
    intro img hr
    have hra : r ≠ a := fun h => hr (by rw [h]; exact List.mem_cons_self _ _)
    have hrl : r ∉ l := fun h => hr (List.mem_cons_of_mem _ h)
    cases hw : vdd_init_write cache a with
    | none =>
      rw [List.filterMap_cons, hw]
      exact ih img hrl
    | some op =>
      rw [List.filterMap_cons, hw]
      have hop : op = HwOp.reg_write a.val (cache a % 256) := by
        unfold vdd_init_write at hw
        split at hw
        · exact absurd hw (by simp)
        · split at hw
          · exact absurd hw (by simp)
          · exact (Option.some.inj hw).symm
      subst hop
      show hw_after (hw_apply img (HwOp.reg_write a.val (cache a % 256))) _ r.val = _
      rw [ih _ hrl]
      show Function.update img a.val (cache a % 256) r.val = img r.val
      have : r.val ≠ a.val := fun h => hra (Fin.ext h)
      rw [Function.update_noteq this]

/-- Replaying a list of vdd re-initialisation writes: a register of the list
that is written ends with its cached byte. -/
theorem hw_after_vdd_writes_mem (cache : Fin TWL6040_CACHEREGNUM → Nat)
    (r : Fin TWL6040_CACHEREGNUM)
    (hw : vdd_init_write cache r = some (HwOp.reg_write r.val (cache r % 256)))
    (l : List (Fin TWL6040_CACHEREGNUM)) :
    ∀ img : Nat → Nat, r ∈ l →
      hw_after img (l.filterMap (vdd_init_write cache)) r.val = cache r % 256 := by
  induction l with
  | nil => intro img hr; exact absurd hr (List.not_mem_nil _)
  | cons a l ih =>
    intro img hr
    by_cases hrl : r ∈ l
    · cases hwa : vdd_init_write cache a with
      | none =>
        rw [List.filterMap_cons, hwa]
        exact ih img hrl
      | some op =>
        rw [List.filterMap_cons, hwa]
        exact ih _ hrl
    · have hra : r = a := by
        rcases List.mem_cons.mp hr with h | h
        · exact h
        · exact absurd h hrl
      subst hra
      rw [List.filterMap_cons, hw]
      show hw_after (hw_apply img (HwOp.reg_write r.val (cache r % 256))) _ r.val = _
      rw [hw_after_vdd_writes_not_mem cache r l _ hrl]
      show Function.update img r.val (cache r % 256) r.val = _
      rw [Function.update_same]

/-- The transition Off to Standby of `twl6040_set_bias_level`. -/
theorem set_bias_level_standby_unpowered (codec : snd_soc_codec)
    (hp : codec.drvdata.codec_powered = 0) :
    (twl6040_set_bias_level codec SND_SOC_BIAS_STANDBY).2.control_data.log =
        codec.control_data.log ++ HwOp.enable ::
          (List.finRange TWL6040_CACHEREGNUM).filterMap (vdd_init_write codec.reg_cache) ∧
      (twl6040_set_bias_level codec SND_SOC_BIAS_STANDBY).2.drvdata.codec_powered = 1 ∧
      (twl6040_set_bias_level codec SND_SOC_BIAS_STANDBY).2.drvdata.sysclk_constraints =
        constraint_list.lp_constraints ∧
      (twl6040_set_bias_level codec SND_SOC_BIAS_STANDBY).2.bias_level =
        SND_SOC_BIAS_STANDBY ∧
      (twl6040_set_bias_level codec SND_SOC_BIAS_STANDBY).1 = 0 := by
  have hp1 : ({ codec with
      control_data := twl6040_enable codec.control_data,
      drvdata := { codec.drvdata with
        codec_powered := 1,
        sysclk_constraints := constraint_list.lp_constraints } } :
        snd_soc_codec).drvdata.codec_powered ≠ 0 := by
    simp
  obtain ⟨hlog, hdrv, _, _⟩ :=
    init_vdd_fold_powered (List.finRange TWL6040_CACHEREGNUM) _ hp1
  unfold twl6040_set_bias_level twl6040_init_vdd_regs
  simp only [hp, ne_eq, not_true_eq_false, if_false]
  refine ⟨?_, ?_, ?_⟩
  · rw [hlog]
    simp only [twl6040_enable, List.append_assoc, List.singleton_append]
  · simp only [hdrv]
  · simp only [hdrv, and_self]

theorem vdd_init_write_eligible (cache : Fin TWL6040_CACHEREGNUM → Nat)
    (r : Fin TWL6040_CACHEREGNUM) (hs : reg_supply r = TWL6040_VDD_SUPPLY)
    (hx : ¬ (r.val = TWL6040_REG_VIBCTLL ∨ r.val = TWL6040_REG_VIBDATL ∨
      r.val = TWL6040_REG_VIBCTLR ∨ r.val = TWL6040_REG_VIBDATR ∨
      r.val = TWL6040_REG_HPPLLCTL ∨ r.val = TWL6040_REG_LPPLLCTL ∨
      r.val = TWL6040_REG_LPPLLDIV)) :
    vdd_init_write cache r = some (HwOp.reg_write r.val (cache r % 256)) := by
  unfold vdd_init_write
  rw [if_neg (not_not.mpr hs), if_neg hx]

set_option maxRecDepth 100000 in
/-- C4, as stated, fails: VIBCTLL is under vdd supply, but a value written
to it while the codec is off is not replayed by the transition to Standby;
no write to VIBCTLL is issued and the hardware keeps the default byte. -/
theorem C4_counterexample :
    reg_supply ⟨TWL6040_REG_VIBCTLL, by decide⟩ = TWL6040_VDD_SUPPLY ∧
      probe_codec.drvdata.codec_powered = 0 ∧
      twl6040_read_reg_cache (twl6040_write probe_codec TWL6040_REG_VIBCTLL 0x7F).2
        TWL6040_REG_VIBCTLL = 0x7F ∧
      (twl6040_set_bias_level (twl6040_write probe_codec TWL6040_REG_VIBCTLL 0x7F).2
        SND_SOC_BIAS_STANDBY).2.drvdata.codec_powered = 1 ∧
      hw_after (fun reg => twl6040_reg.getD reg 0)
        (twl6040_set_bias_level (twl6040_write probe_codec TWL6040_REG_VIBCTLL 0x7F).2
          SND_SOC_BIAS_STANDBY).2.control_data.log TWL6040_REG_VIBCTLL = 0x00 ∧
      ¬ (hw_after (fun reg => twl6040_reg.getD reg 0)
        (twl6040_set_bias_level (twl6040_write probe_codec TWL6040_REG_VIBCTLL 0x7F).2
          SND_SOC_BIAS_STANDBY).2.control_data.log TWL6040_REG_VIBCTLL = 0x7F) := by
  decide

/-- C4, amended: for every register under vdd supply other than the vibra
and pll registers (VIBCTLL, VIBDATL, VIBCTLR, VIBDATR, HPPLLCTL, LPPLLCTL,
LPPLLDIV) and every byte `v`, a write issued while the codec is not powered
reaches no hardware, and the following transition to Standby enables the
chip and then issues the re-initialisation writes, which contain the write
of `v` to the register and leave its hardware value equal to `v` whatever
the hardware held before. -/
theorem C4_deferred_write_replayed (codec : snd_soc_codec) (r v : Nat)
    (hr : r < TWL6040_CACHEREGNUM) (hv : v < 256)
    (hs : reg_supply ⟨r, hr⟩ = TWL6040_VDD_SUPPLY)
    (hx : ¬ (r = TWL6040_REG_VIBCTLL ∨ r = TWL6040_REG_VIBDATL ∨
      r = TWL6040_REG_VIBCTLR ∨ r = TWL6040_REG_VIBDATR ∨
      r = TWL6040_REG_HPPLLCTL ∨ r = TWL6040_REG_LPPLLCTL ∨
      r = TWL6040_REG_LPPLLDIV))
    (hp : codec.drvdata.codec_powered = 0) :
    (twl6040_write codec r v).2.control_data = codec.control_data ∧
      (twl6040_set_bias_level (twl6040_write codec r v).2
          SND_SOC_BIAS_STANDBY).2.control_data.log =
        codec.control_data.log ++ HwOp.enable ::
          (List.finRange TWL6040_CACHEREGNUM).filterMap
            (vdd_init_write (twl6040_write codec r v).2.reg_cache) ∧
      HwOp.reg_write r v ∈ (List.finRange TWL6040_CACHEREGNUM).filterMap
        (vdd_init_write (twl6040_write codec r v).2.reg_cache) ∧
      ∀ img : Nat → Nat,
        hw_after img ((List.finRange TWL6040_CACHEREGNUM).filterMap
          (vdd_init_write (twl6040_write codec r v).2.reg_cache)) r = v := by
  have hf : ¬ (reg_supply ⟨r, hr⟩ = TWL6040_VIO_SUPPLY ∨ codec.drvdata.codec_powered ≠ 0) := by
    rw [hs, hp]; decide
  have hd := (twl6040_write_deferred codec r v hr hf).1
  have hp1 : (twl6040_write codec r v).2.drvdata.codec_powered = 0 := by
    rw [twl6040_write_drvdata]; exact hp
  have hc : (twl6040_write codec r v).2.reg_cache ⟨r, hr⟩ % 256 = v := by
    rw [twl6040_write_cache codec r v hr, Function.update_same, Nat.mod_mod]
    exact Nat.mod_eq_of_lt hv
  have hw := vdd_init_write_eligible (twl6040_write codec r v).2.reg_cache ⟨r, hr⟩ hs hx
  rw [hc] at hw
  refine ⟨hd, ?_, ?_, ?_⟩
  · rw [(set_bias_level_standby_unpowered _ hp1).1, hd]
  · exact List.mem_filterMap.mpr ⟨⟨r, hr⟩, List.mem_finRange _, hw⟩
  · intro img
    have h := hw_after_vdd_writes_mem (twl6040_write codec r v).2.reg_cache ⟨r, hr⟩
      (by rw [hc]; exact hw) (List.finRange TWL6040_CACHEREGNUM) img (List.mem_finRange _)
    rw [hc] at h
    exact h

/-- A concrete instance of the amended C4: HSGAIN, value 0x25, on the
probed codec. -/
theorem C4_deferred_write_replayed_witness :
    (twl6040_write probe_codec TWL6040_REG_HSGAIN 0x25).2.control_data =
        probe_codec.control_data ∧
      (twl6040_set_bias_level (twl6040_write probe_codec TWL6040_REG_HSGAIN 0x25).2
          SND_SOC_BIAS_STANDBY).2.control_data.log =
        probe_codec.control_data.log ++ HwOp.enable ::
          (List.finRange TWL6040_CACHEREGNUM).filterMap
            (vdd_init_write (twl6040_write probe_codec TWL6040_REG_HSGAIN 0x25).2.reg_cache) ∧
      HwOp.reg_write TWL6040_REG_HSGAIN 0x25 ∈
        (List.finRange TWL6040_CACHEREGNUM).filterMap
          (vdd_init_write (twl6040_write probe_codec TWL6040_REG_HSGAIN 0x25).2.reg_cache) ∧
      ∀ img : Nat → Nat,
        hw_after img ((List.finRange TWL6040_CACHEREGNUM).filterMap
          (vdd_init_write (twl6040_write probe_codec TWL6040_REG_HSGAIN 0x25).2.reg_cache))
          TWL6040_REG_HSGAIN = 0x25 :=
  C4_deferred_write_replayed probe_codec TWL6040_REG_HSGAIN 0x25 (by decide) (by decide)
    (by decide) (by decide) rfl

/-! ## Ramp steps: lemmas -/

theorem read_reg_cache_of_lt (codec : snd_soc_codec) (reg : Nat)
    (h : reg < TWL6040_CACHEREGNUM) :
    twl6040_read_reg_cache codec reg = codec.reg_cache ⟨reg, h⟩ := by
  unfold twl6040_read_reg_cache
  rw [dif_pos h]

theorem read_reg_cache_write_same (codec : snd_soc_codec) (reg value : Nat)
    (h : reg < TWL6040_CACHEREGNUM) :
    twl6040_read_reg_cache (twl6040_write codec reg value).2 reg = value % 256 := by
  rw [read_reg_cache_of_lt _ _ h, twl6040_write_cache codec reg value h,
    Function.update_same]

theorem read_reg_cache_write_other (codec : snd_soc_codec) (reg reg' value : Nat)
    (hne : reg' ≠ reg) :
    twl6040_read_reg_cache (twl6040_write codec reg value).2 reg' =
      twl6040_read_reg_cache codec reg' := by
  by_cases h' : reg' < TWL6040_CACHEREGNUM
  · rw [read_reg_cache_of_lt _ _ h', read_reg_cache_of_lt _ _ h']
    by_cases h : reg < TWL6040_CACHEREGNUM
    · rw [twl6040_write_cache codec reg value h]
      exact Function.update_noteq (fun e => hne (congrArg Fin.val e)) _ _
    · unfold twl6040_write
      rw [dif_neg h]
  · unfold twl6040_read_reg_cache
    rw [dif_neg h', dif_neg h']

set_option maxRecDepth 100000 in
theorem hs_left_byte_fin : ∀ b : Fin 256, ∀ v : Fin 16,
    (c_not ((((b.val &&& c_not TWL6040_HSL_VOL_MASK) % 256 |||
        (c_not v.val &&& TWL6040_HSL_VOL_MASK)) % 256) % 256)
      &&& TWL6040_HSL_VOL_MASK) % 256 = v.val ∧
    ((c_not ((((b.val &&& c_not TWL6040_HSL_VOL_MASK) % 256 |||
        (c_not v.val &&& TWL6040_HSL_VOL_MASK)) % 256) % 256)
      &&& TWL6040_HSR_VOL_MASK) >>> TWL6040_HSR_VOL_SHIFT) % 256 =
      ((c_not b.val &&& TWL6040_HSR_VOL_MASK) >>> TWL6040_HSR_VOL_SHIFT) % 256 := by
  decide

set_option maxRecDepth 100000 in
theorem hs_right_byte_fin : ∀ b : Fin 256, ∀ v : Fin 16,
    ((c_not ((((b.val &&& c_not TWL6040_HSR_VOL_MASK) % 256 |||
        (c_not v.val <<< TWL6040_HSR_VOL_SHIFT) % 2 ^ 32) % 256) % 256)
      &&& TWL6040_HSR_VOL_MASK) >>> TWL6040_HSR_VOL_SHIFT) % 256 = v.val ∧
    (c_not ((((b.val &&& c_not TWL6040_HSR_VOL_MASK) % 256 |||
        (c_not v.val <<< TWL6040_HSR_VOL_SHIFT) % 2 ^ 32) % 256) % 256)
      &&& TWL6040_HSL_VOL_MASK) % 256 =
      (c_not b.val &&& TWL6040_HSL_VOL_MASK) % 256 := by
  decide

set_option maxRecDepth 100000 in
theorem hs_gain_le_fin : ∀ b : Fin 256,
    (c_not b.val &&& TWL6040_HSL_VOL_MASK) % 256 ≤ 15 ∧
    ((c_not b.val &&& TWL6040_HSR_VOL_MASK) >>> TWL6040_HSR_VOL_SHIFT) % 256 ≤ 15 := by
  decide

/-- The headset gains are at most 15. -/
theorem hs_gain_le (codec : snd_soc_codec) :
    hs_left_gain codec ≤ 15 ∧ hs_right_gain codec ≤ 15 :=
  hs_gain_le_fin ⟨twl6040_read_reg_cache codec TWL6040_REG_HSGAIN % 256,
    Nat.mod_lt _ (by decide)⟩

/-- Effect on the decoded gains of the write the left block of the headset
step issues for a new gain `v`. -/
theorem hs_left_write_gain (codec : snd_soc_codec) (v : Nat) (hv : v ≤ 15) :
    hs_left_gain (twl6040_write codec TWL6040_REG_HSGAIN
        ((twl6040_read_reg_cache codec TWL6040_REG_HSGAIN % 256
            &&& c_not TWL6040_HSL_VOL_MASK) % 256 |||
          (c_not v &&& TWL6040_HSL_VOL_MASK))).2 = v ∧
      hs_right_gain (twl6040_write codec TWL6040_REG_HSGAIN
        ((twl6040_read_reg_cache codec TWL6040_REG_HSGAIN % 256
            &&& c_not TWL6040_HSL_VOL_MASK) % 256 |||
          (c_not v &&& TWL6040_HSL_VOL_MASK))).2 = hs_right_gain codec := by
  unfold hs_left_gain hs_right_gain
  rw [read_reg_cache_write_same _ _ _ (by decide)]
  exact hs_left_byte_fin ⟨twl6040_read_reg_cache codec TWL6040_REG_HSGAIN % 256,
    Nat.mod_lt _ (by decide)⟩ ⟨v, by omega⟩

theorem hs_right_write_gain (codec : snd_soc_codec) (v : Nat) (hv : v ≤ 15) :
    hs_right_gain (twl6040_write codec TWL6040_REG_HSGAIN
        ((twl6040_read_reg_cache codec TWL6040_REG_HSGAIN % 256
            &&& c_not TWL6040_HSR_VOL_MASK) % 256 |||
          (c_not v <<< TWL6040_HSR_VOL_SHIFT) % 2 ^ 32)).2 = v ∧
      hs_left_gain (twl6040_write codec TWL6040_REG_HSGAIN
        ((twl6040_read_reg_cache codec TWL6040_REG_HSGAIN % 256
            &&& c_not TWL6040_HSR_VOL_MASK) % 256 |||
          (c_not v <<< TWL6040_HSR_VOL_SHIFT) % 2 ^ 32)).2 = hs_left_gain codec := by
  unfold hs_left_gain hs_right_gain
  rw [read_reg_cache_write_same _ _ _ (by decide)]
  exact hs_right_byte_fin ⟨twl6040_read_reg_cache codec TWL6040_REG_HSGAIN % 256,
    Nat.mod_lt _ (by decide)⟩ ⟨v, by omega⟩

set_option maxRecDepth 100000 in
theorem hf_byte_fin : ∀ b : Fin 256, ∀ v : Fin 32,
    ((c_sub 0x1D (((((c_sub 0x1D (b.val % 65536) % 65536) &&& c_not TWL6040_HF_VOL_MASK) % 65536 |||
        c_sub 0x1D v.val) % 256) % 65536) % 65536) &&& TWL6040_HF_VOL_MASK) % 65536 = v.val := by
  decide

set_option maxRecDepth 100000 in
theorem hf_gain_le_fin : ∀ b : Fin 256,
    ((c_sub 0x1D (b.val % 65536) % 65536) &&& TWL6040_HF_VOL_MASK) % 65536 ≤ 31 ∧
    (b.val ≤ 0x1D →
      ((c_sub 0x1D (b.val % 65536) % 65536) &&& TWL6040_HF_VOL_MASK) % 65536 = 0x1D - b.val) := by
  decide

set_option maxRecDepth 100000 in
theorem ep_byte_fin : ∀ b : Fin 256, ∀ v : Fin 16,
    ((c_not ((((b.val &&& c_not TWL6040_EP_VOL_MASK) % 256 |||
        ((c_not v.val <<< TWL6040_EP_VOL_SHIFT) % 256 &&& TWL6040_EP_VOL_MASK)) % 256) % 256)
      &&& TWL6040_EP_VOL_MASK) >>> TWL6040_EP_VOL_SHIFT) % 256 = v.val := by
  decide

set_option maxRecDepth 100000 in
theorem ep_gain_le_fin : ∀ b : Fin 256,
    ((c_not b.val &&& TWL6040_EP_VOL_MASK) >>> TWL6040_EP_VOL_SHIFT) % 256 ≤ 15 := by
  decide

/-- The handsfree gains are at most 31 when the cached bytes are bytes. -/
theorem hf_left_gain_le (codec : snd_soc_codec)
    (hb : twl6040_read_reg_cache codec TWL6040_REG_HFLGAIN < 256) :
    hf_left_gain codec ≤ 31 :=
  (hf_gain_le_fin ⟨twl6040_read_reg_cache codec TWL6040_REG_HFLGAIN, hb⟩).1

theorem hf_right_gain_le (codec : snd_soc_codec)
    (hb : twl6040_read_reg_cache codec TWL6040_REG_HFRGAIN < 256) :
    hf_right_gain codec ≤ 31 :=
  (hf_gain_le_fin ⟨twl6040_read_reg_cache codec TWL6040_REG_HFRGAIN, hb⟩).1

/-- A handsfree register value `raw ≤ 0x1D` decodes to the gain
`0x1D - raw`. -/
theorem hf_left_gain_of_le (codec : snd_soc_codec)
    (hb : twl6040_read_reg_cache codec TWL6040_REG_HFLGAIN ≤ 0x1D) :
    hf_left_gain codec = 0x1D - twl6040_read_reg_cache codec TWL6040_REG_HFLGAIN :=
  (hf_gain_le_fin ⟨twl6040_read_reg_cache codec TWL6040_REG_HFLGAIN, by omega⟩).2 hb

theorem hf_right_gain_of_le (codec : snd_soc_codec)
    (hb : twl6040_read_reg_cache codec TWL6040_REG_HFRGAIN ≤ 0x1D) :
    hf_right_gain codec = 0x1D - twl6040_read_reg_cache codec TWL6040_REG_HFRGAIN :=
  (hf_gain_le_fin ⟨twl6040_read_reg_cache codec TWL6040_REG_HFRGAIN, by omega⟩).2 hb

/-- The earphone gain is at most 15. -/
theorem ep_gain_le (codec : snd_soc_codec) : ep_gain codec ≤ 15 :=
  ep_gain_le_fin ⟨twl6040_read_reg_cache codec TWL6040_REG_EARCTL % 256,
    Nat.mod_lt _ (by decide)⟩

theorem hf_left_write_gain (codec : snd_soc_codec) (v : Nat) (hv : v ≤ 31)
    (hb : twl6040_read_reg_cache codec TWL6040_REG_HFLGAIN < 256) :
    hf_left_gain (twl6040_write codec TWL6040_REG_HFLGAIN
        (((c_sub 0x1D (twl6040_read_reg_cache codec TWL6040_REG_HFLGAIN % 65536) % 65536)
            &&& c_not TWL6040_HF_VOL_MASK) % 65536 ||| c_sub 0x1D v)).2 = v ∧
      hf_right_gain (twl6040_write codec TWL6040_REG_HFLGAIN
        (((c_sub 0x1D (twl6040_read_reg_cache codec TWL6040_REG_HFLGAIN % 65536) % 65536)
            &&& c_not TWL6040_HF_VOL_MASK) % 65536 ||| c_sub 0x1D v)).2 =
        hf_right_gain codec := by
  unfold hf_left_gain hf_right_gain
  rw [read_reg_cache_write_same _ _ _ (by decide),
    read_reg_cache_write_other _ _ _ _ (by decide)]
  exact ⟨hf_byte_fin ⟨twl6040_read_reg_cache codec TWL6040_REG_HFLGAIN, hb⟩ ⟨v, by omega⟩,
    rfl⟩

theorem hf_right_write_gain (codec : snd_soc_codec) (v : Nat) (hv : v ≤ 31)
    (hb : twl6040_read_reg_cache codec TWL6040_REG_HFRGAIN < 256) :
    hf_right_gain (twl6040_write codec TWL6040_REG_HFRGAIN
        (((c_sub 0x1D (twl6040_read_reg_cache codec TWL6040_REG_HFRGAIN % 65536) % 65536)
            &&& c_not TWL6040_HF_VOL_MASK) % 65536 ||| c_sub 0x1D v)).2 = v ∧
      hf_left_gain (twl6040_write codec TWL6040_REG_HFRGAIN
        (((c_sub 0x1D (twl6040_read_reg_cache codec TWL6040_REG_HFRGAIN % 65536) % 65536)
            &&& c_not TWL6040_HF_VOL_MASK) % 65536 ||| c_sub 0x1D v)).2 =
        hf_left_gain codec := by
  unfold hf_left_gain hf_right_gain
  rw [read_reg_cache_write_same _ _ _ (by decide),
    read_reg_cache_write_other _ _ _ _ (by decide)]
  exact ⟨hf_byte_fin ⟨twl6040_read_reg_cache codec TWL6040_REG_HFRGAIN, hb⟩ ⟨v, by omega⟩,
    rfl⟩

theorem ep_write_gain (codec : snd_soc_codec) (v : Nat) (hv : v ≤ 15) :
    ep_gain (twl6040_write codec TWL6040_REG_EARCTL
        ((twl6040_read_reg_cache codec TWL6040_REG_EARCTL % 256
            &&& c_not TWL6040_EP_VOL_MASK) % 256 |||
          ((c_not v <<< TWL6040_EP_VOL_SHIFT) % 256 &&& TWL6040_EP_VOL_MASK))).2 = v := by
  unfold ep_gain
  rw [read_reg_cache_write_same _ _ _ (by decide)]
  exact ep_byte_fin ⟨twl6040_read_reg_cache codec TWL6040_REG_EARCTL % 256,
    Nat.mod_lt _ (by decide)⟩ ⟨v, by omega⟩

/-- The hs left block of the ramp step on an Up ramp, in terms of decoded gains. -/
theorem hs_left_up (codec : snd_soc_codec) (s : Nat)
    (hramp : codec.drvdata.headset.ramp = TWL6040_RAMP_UP)
    (ht : codec.drvdata.headset.left_vol ≤ 15) :
    (twl6040_hs_ramp_step_left codec s).2 =
        (if hs_left_gain codec = codec.drvdata.headset.left_vol then 1 else 0) ∧
      hs_left_gain (twl6040_hs_ramp_step_left codec s).1 =
        up_next codec.drvdata.headset.left_vol (min s 15) (hs_left_gain codec) ∧
      hs_right_gain (twl6040_hs_ramp_step_left codec s).1 = hs_right_gain codec := by
  have hg := (hs_gain_le codec).1
  have e : (c_not (twl6040_read_reg_cache codec TWL6040_REG_HSGAIN % 256)
    &&& TWL6040_HSL_VOL_MASK) % 256 = hs_left_gain codec := rfl
  have hs' : (if s > 15 then 15 else s) = min s 15 := by split <;> omega
  unfold twl6040_hs_ramp_step_left up_next
  simp only [hramp, if_true, e, hs']
  by_cases h : hs_left_gain codec = codec.drvdata.headset.left_vol
  · simp only [h, ne_eq, not_true_eq_false, if_false, if_true, and_self]
  · simp only [h, ne_eq, not_false_eq_true, if_true, if_false, true_and]
    have hv : (if hs_left_gain codec + min s 15 > codec.drvdata.headset.left_vol then
          codec.drvdata.headset.left_vol % 256
        else (hs_left_gain codec + min s 15) % 256) =
        (if hs_left_gain codec + min s 15 > codec.drvdata.headset.left_vol then
          codec.drvdata.headset.left_vol
        else hs_left_gain codec + min s 15) := by
      split <;> omega
    rw [hv]
    exact hs_left_write_gain codec _ (by split <;> omega)

/-- The hs left block of the ramp step on a Down ramp, in terms of decoded
gains. -/
theorem hs_left_down (codec : snd_soc_codec) (s : Nat)
    (hramp : codec.drvdata.headset.ramp = TWL6040_RAMP_DOWN) :
    (twl6040_hs_ramp_step_left codec s).2 =
        (if hs_left_gain codec = 0 then 1 else 0) ∧
      hs_left_gain (twl6040_hs_ramp_step_left codec s).1 =
        down_next (min s 15) (hs_left_gain codec) ∧
      hs_right_gain (twl6040_hs_ramp_step_left codec s).1 = hs_right_gain codec := by
  have hg := (hs_gain_le codec).1
  have e : (c_not (twl6040_read_reg_cache codec TWL6040_REG_HSGAIN % 256)
    &&& TWL6040_HSL_VOL_MASK) % 256 = hs_left_gain codec := rfl
  have hs' : (if s > 15 then 15 else s) = min s 15 := by split <;> omega
  have hne : ¬ (TWL6040_RAMP_DOWN = TWL6040_RAMP_UP) := by decide
  unfold twl6040_hs_ramp_step_left down_next
  simp only [hramp, hne, if_true, if_false, e, hs']
  by_cases h : hs_left_gain codec = 0
  · simp only [h, ne_eq, not_true_eq_false, if_false, if_true, and_self]
  · simp only [h, ne_eq, not_false_eq_true, if_true, if_false, true_and]
    have hv : (if (hs_left_gain codec : Int) - ((min s 15 : Nat) : Int) < 0 then 0
        else (hs_left_gain codec - min s 15) % 256) =
        (if hs_left_gain codec < min s 15 then 0
        else hs_left_gain codec - min s 15) := by
      split <;> split <;> omega
    rw [hv]
    exact hs_left_write_gain codec _ (by split <;> omega)

/-- The shape of the hs left block: a channel at the end of its ramp is
marked complete and nothing is written; otherwise the gain field is rewritten
through `twl6040_write`; with no ramp nothing happens. -/
theorem hs_left_shape (codec : snd_soc_codec) (s : Nat) :
    (codec.drvdata.headset.ramp = TWL6040_RAMP_UP →
      (hs_left_gain codec = codec.drvdata.headset.left_vol → twl6040_hs_ramp_step_left codec s = (codec, 1)) ∧
      (hs_left_gain codec ≠ codec.drvdata.headset.left_vol →
        ∃ value, twl6040_hs_ramp_step_left codec s = ((twl6040_write codec TWL6040_REG_HSGAIN value).2, 0))) ∧
    (codec.drvdata.headset.ramp = TWL6040_RAMP_DOWN →
      (hs_left_gain codec = 0 → twl6040_hs_ramp_step_left codec s = (codec, 1)) ∧
      (hs_left_gain codec ≠ 0 →
        ∃ value, twl6040_hs_ramp_step_left codec s = ((twl6040_write codec TWL6040_REG_HSGAIN value).2, 0))) ∧
    (codec.drvdata.headset.ramp ≠ TWL6040_RAMP_UP →
      codec.drvdata.headset.ramp ≠ TWL6040_RAMP_DOWN → twl6040_hs_ramp_step_left codec s = (codec, 0)) ∧
    (twl6040_hs_ramp_step_left codec s = (codec, 1) ∨ twl6040_hs_ramp_step_left codec s = (codec, 0) ∨
      ∃ value, twl6040_hs_ramp_step_left codec s = ((twl6040_write codec TWL6040_REG_HSGAIN value).2, 0)) := by
  have e : (c_not (twl6040_read_reg_cache codec TWL6040_REG_HSGAIN % 256)
    &&& TWL6040_HSL_VOL_MASK) % 256 = hs_left_gain codec := rfl
  have hne : ¬ (TWL6040_RAMP_DOWN = TWL6040_RAMP_UP) := by decide
  unfold twl6040_hs_ramp_step_left
  simp only [e]
  refine ⟨?_, ?_, ?_, ?_⟩
  · intro hramp
    simp only [hramp, if_true]
    constructor
    · intro h
      simp only [h, ne_eq, not_true_eq_false, if_false]
    · intro h
      simp only [h, ne_eq, not_false_eq_true, if_true]
      exact ⟨_, rfl⟩
  · intro hramp
    simp only [hramp, hne, if_true, if_false]
    constructor
    · intro h
      simp only [h, ne_eq, not_true_eq_false, if_false]
    · intro h
      simp only [h, ne_eq, not_false_eq_true, if_true]
      exact ⟨_, rfl⟩
  · intro h1 h2
    simp only [h1, h2, if_false]
  · split
    · split
      · exact Or.inr (Or.inr ⟨_, rfl⟩)
      · exact Or.inl rfl
    · split
      · split
        · exact Or.inr (Or.inr ⟨_, rfl⟩)
        · exact Or.inl rfl
      · exact Or.inr (Or.inl rfl)

/-- The hs right block of the ramp step on an Up ramp, in terms of decoded gains. -/
theorem hs_right_up (codec : snd_soc_codec) (s : Nat)
    (hramp : codec.drvdata.headset.ramp = TWL6040_RAMP_UP)
    (ht : codec.drvdata.headset.right_vol ≤ 15) :
    (twl6040_hs_ramp_step_right codec s).2 =
        (if hs_right_gain codec = codec.drvdata.headset.right_vol then 1 else 0) ∧
      hs_right_gain (twl6040_hs_ramp_step_right codec s).1 =
        up_next codec.drvdata.headset.right_vol (min s 15) (hs_right_gain codec) ∧
      hs_left_gain (twl6040_hs_ramp_step_right codec s).1 = hs_left_gain codec := by
  have hg := (hs_gain_le codec).2
  have e : ((c_not (twl6040_read_reg_cache codec TWL6040_REG_HSGAIN % 256)
    &&& TWL6040_HSR_VOL_MASK) >>> TWL6040_HSR_VOL_SHIFT) % 256 = hs_right_gain codec := rfl
  have hs' : (if s > 15 then 15 else s) = min s 15 := by split <;> omega
  unfold twl6040_hs_ramp_step_right up_next
  simp only [hramp, if_true, e, hs']
  by_cases h : hs_right_gain codec = codec.drvdata.headset.right_vol
  · simp only [h, ne_eq, not_true_eq_false, if_false, if_true, and_self]
  · simp only [h, ne_eq, not_false_eq_true, if_true, if_false, true_and]
    have hv : (if hs_right_gain codec + min s 15 > codec.drvdata.headset.right_vol then
          codec.drvdata.headset.right_vol % 256
        else (hs_right_gain codec + min s 15) % 256) =
        (if hs_right_gain codec + min s 15 > codec.drvdata.headset.right_vol then
          codec.drvdata.headset.right_vol
        else hs_right_gain codec + min s 15) := by
      split <;> omega
    rw [hv]
    exact hs_right_write_gain codec _ (by split <;> omega)

/-- The hs right block of the ramp step on a Down ramp, in terms of decoded
gains. -/
theorem hs_right_down (codec : snd_soc_codec) (s : Nat)
    (hramp : codec.drvdata.headset.ramp = TWL6040_RAMP_DOWN) :
    (twl6040_hs_ramp_step_right codec s).2 =
        (if hs_right_gain codec = 0 then 1 else 0) ∧
      hs_right_gain (twl6040_hs_ramp_step_right codec s).1 =
        down_next (min s 15) (hs_right_gain codec) ∧
      hs_left_gain (twl6040_hs_ramp_step_right codec s).1 = hs_left_gain codec := by
  have hg := (hs_gain_le codec).2
  have e : ((c_not (twl6040_read_reg_cache codec TWL6040_REG_HSGAIN % 256)
    &&& TWL6040_HSR_VOL_MASK) >>> TWL6040_HSR_VOL_SHIFT) % 256 = hs_right_gain codec := rfl
  have hs' : (if s > 15 then 15 else s) = min s 15 := by split <;> omega
  have hne : ¬ (TWL6040_RAMP_DOWN = TWL6040_RAMP_UP) := by decide
  unfold twl6040_hs_ramp_step_right down_next
  simp only [hramp, hne, if_true, if_false, e, hs']
  by_cases h : hs_right_gain codec = 0
  · simp only [h, ne_eq, not_true_eq_false, if_false, if_true, and_self]
  · simp only [h, ne_eq, not_false_eq_true, if_true, if_false, true_and]
    have hv : (if (hs_right_gain codec : Int) - ((min s 15 : Nat) : Int) < 0 then 0
        else (hs_right_gain codec - min s 15) % 256) =
        (if hs_right_gain codec < min s 15 then 0
        else hs_right_gain codec - min s 15) := by
      split <;> split <;> omega
    rw [hv]
    exact hs_right_write_gain codec _ (by split <;> omega)

/-- The shape of the hs right block: a channel at the end of its ramp is
marked complete and nothing is written; otherwise the gain field is rewritten
through `twl6040_write`; with no ramp nothing happens. -/
theorem hs_right_shape (codec : snd_soc_codec) (s : Nat) :
    (codec.drvdata.headset.ramp = TWL6040_RAMP_UP →
      (hs_right_gain codec = codec.drvdata.headset.right_vol → twl6040_hs_ramp_step_right codec s = (codec, 1)) ∧
      (hs_right_gain codec ≠ codec.drvdata.headset.right_vol →
        ∃ value, twl6040_hs_ramp_step_right codec s = ((twl6040_write codec TWL6040_REG_HSGAIN value).2, 0))) ∧
    (codec.drvdata.headset.ramp = TWL6040_RAMP_DOWN →
      (hs_right_gain codec = 0 → twl6040_hs_ramp_step_right codec s = (codec, 1)) ∧
      (hs_right_gain codec ≠ 0 →
        ∃ value, twl6040_hs_ramp_step_right codec s = ((twl6040_write codec TWL6040_REG_HSGAIN value).2, 0))) ∧
    (codec.drvdata.headset.ramp ≠ TWL6040_RAMP_UP →
      codec.drvdata.headset.ramp ≠ TWL6040_RAMP_DOWN → twl6040_hs_ramp_step_right codec s = (codec, 0)) ∧
    (twl6040_hs_ramp_step_right codec s = (codec, 1) ∨ twl6040_hs_ramp_step_right codec s = (codec, 0) ∨
      ∃ value, twl6040_hs_ramp_step_right codec s = ((twl6040_write codec TWL6040_REG_HSGAIN value).2, 0)) := by
  have e : ((c_not (twl6040_read_reg_cache codec TWL6040_REG_HSGAIN % 256)
    &&& TWL6040_HSR_VOL_MASK) >>> TWL6040_HSR_VOL_SHIFT) % 256 = hs_right_gain codec := rfl
  have hne : ¬ (TWL6040_RAMP_DOWN = TWL6040_RAMP_UP) := by decide
  unfold twl6040_hs_ramp_step_right
  simp only [e]
  refine ⟨?_, ?_, ?_, ?_⟩
  · intro hramp
    simp only [hramp, if_true]
    constructor
    · intro h
      simp only [h, ne_eq, not_true_eq_false, if_false]
    · intro h
      simp only [h, ne_eq, not_false_eq_true, if_true]
      exact ⟨_, rfl⟩
  · intro hramp
    simp only [hramp, hne, if_true, if_false]
    constructor
    · intro h
      simp only [h, ne_eq, not_true_eq_false, if_false]
    · intro h
      simp only [h, ne_eq, not_false_eq_true, if_true]
      exact ⟨_, rfl⟩
  · intro h1 h2
    simp only [h1, h2, if_false]
  · split
    · split
      · exact Or.inr (Or.inr ⟨_, rfl⟩)
      · exact Or.inl rfl
    · split
      · split
        · exact Or.inr (Or.inr ⟨_, rfl⟩)
        · exact Or.inl rfl
      · exact Or.inr (Or.inl rfl)

/-- The hf left block of the ramp step on an Up ramp, in terms of decoded gains. -/
theorem hf_left_up (codec : snd_soc_codec) (s : Nat)
    (hramp : codec.drvdata.handsfree.ramp = TWL6040_RAMP_UP)
    (ht : codec.drvdata.handsfree.left_vol ≤ 29)
    (hb : twl6040_read_reg_cache codec TWL6040_REG_HFLGAIN < 256) :
    (twl6040_hf_ramp_step_left codec s).2 =
        (if hf_left_gain codec = codec.drvdata.handsfree.left_vol then 1 else 0) ∧
      hf_left_gain (twl6040_hf_ramp_step_left codec s).1 =
        up_next codec.drvdata.handsfree.left_vol (min s 29) (hf_left_gain codec) ∧
      hf_right_gain (twl6040_hf_ramp_step_left codec s).1 = hf_right_gain codec := by
  have hg := hf_left_gain_le codec hb
  have e : ((c_sub 0x1D (twl6040_read_reg_cache codec TWL6040_REG_HFLGAIN % 65536) % 65536)
    &&& TWL6040_HF_VOL_MASK) % 65536 = hf_left_gain codec := rfl
  have hs' : (if s > 29 then 29 else s) = min s 29 := by split <;> omega
  unfold twl6040_hf_ramp_step_left up_next
  simp only [hramp, if_true, e, hs']
  by_cases h : hf_left_gain codec = codec.drvdata.handsfree.left_vol
  · simp only [h, ne_eq, not_true_eq_false, if_false, if_true, and_self]
  · simp only [h, ne_eq, not_false_eq_true, if_true, if_false, true_and]
    have hv : (if hf_left_gain codec + min s 29 > codec.drvdata.handsfree.left_vol then
          codec.drvdata.handsfree.left_vol % 65536
        else (hf_left_gain codec + min s 29) % 65536) =
        (if hf_left_gain codec + min s 29 > codec.drvdata.handsfree.left_vol then
          codec.drvdata.handsfree.left_vol
        else hf_left_gain codec + min s 29) := by
      split <;> omega
    rw [hv]
    exact hf_left_write_gain codec _ (by split <;> omega) hb

/-- The hf left block of the ramp step on a Down ramp, in terms of decoded
gains. -/
theorem hf_left_down (codec : snd_soc_codec) (s : Nat)
    (hramp : codec.drvdata.handsfree.ramp = TWL6040_RAMP_DOWN)
    (hb : twl6040_read_reg_cache codec TWL6040_REG_HFLGAIN < 256) :
    (twl6040_hf_ramp_step_left codec s).2 =
        (if hf_left_gain codec = 0 then 1 else 0) ∧
      hf_left_gain (twl6040_hf_ramp_step_left codec s).1 =
        down_next (min s 29) (hf_left_gain codec) ∧
      hf_right_gain (twl6040_hf_ramp_step_left codec s).1 = hf_right_gain codec := by
  have hg := hf_left_gain_le codec hb
  have e : ((c_sub 0x1D (twl6040_read_reg_cache codec TWL6040_REG_HFLGAIN % 65536) % 65536)
    &&& TWL6040_HF_VOL_MASK) % 65536 = hf_left_gain codec := rfl
  have hs' : (if s > 29 then 29 else s) = min s 29 := by split <;> omega
  have hne : ¬ (TWL6040_RAMP_DOWN = TWL6040_RAMP_UP) := by decide
  unfold twl6040_hf_ramp_step_left down_next
  simp only [hramp, hne, if_true, if_false, e, hs']
  by_cases h : hf_left_gain codec = 0
  · simp only [h, ne_eq, not_true_eq_false, if_false, if_true, and_self]
  · simp only [h, ne_eq, not_false_eq_true, if_true, if_false, true_and]
    have hv : (if (hf_left_gain codec : Int) - ((min s 29 : Nat) : Int) < 0 then 0
        else (hf_left_gain codec - min s 29) % 65536) =
        (if hf_left_gain codec < min s 29 then 0
        else hf_left_gain codec - min s 29) := by
      split <;> split <;> omega
    rw [hv]
    exact hf_left_write_gain codec _ (by split <;> omega) hb

/-- The shape of the hf left block: a channel at the end of its ramp is
marked complete and nothing is written; otherwise the gain field is rewritten
through `twl6040_write`; with no ramp nothing happens. -/
theorem hf_left_shape (codec : snd_soc_codec) (s : Nat) :
    (codec.drvdata.handsfree.ramp = TWL6040_RAMP_UP →
      (hf_left_gain codec = codec.drvdata.handsfree.left_vol → twl6040_hf_ramp_step_left codec s = (codec, 1)) ∧
      (hf_left_gain codec ≠ codec.drvdata.handsfree.left_vol →
        ∃ value, twl6040_hf_ramp_step_left codec s = ((twl6040_write codec TWL6040_REG_HFLGAIN value).2, 0))) ∧
    (codec.drvdata.handsfree.ramp = TWL6040_RAMP_DOWN →
      (hf_left_gain codec = 0 → twl6040_hf_ramp_step_left codec s = (codec, 1)) ∧
      (hf_left_gain codec ≠ 0 →
        ∃ value, twl6040_hf_ramp_step_left codec s = ((twl6040_write codec TWL6040_REG_HFLGAIN value).2, 0))) ∧
    (codec.drvdata.handsfree.ramp ≠ TWL6040_RAMP_UP →
      codec.drvdata.handsfree.ramp ≠ TWL6040_RAMP_DOWN → twl6040_hf_ramp_step_left codec s = (codec, 0)) ∧
    (twl6040_hf_ramp_step_left codec s = (codec, 1) ∨ twl6040_hf_ramp_step_left codec s = (codec, 0) ∨
      ∃ value, twl6040_hf_ramp_step_left codec s = ((twl6040_write codec TWL6040_REG_HFLGAIN value).2, 0)) := by
  have e : ((c_sub 0x1D (twl6040_read_reg_cache codec TWL6040_REG_HFLGAIN % 65536) % 65536)
    &&& TWL6040_HF_VOL_MASK) % 65536 = hf_left_gain codec := rfl
  have hne : ¬ (TWL6040_RAMP_DOWN = TWL6040_RAMP_UP) := by decide
  unfold twl6040_hf_ramp_step_left
  simp only [e]
  refine ⟨?_, ?_, ?_, ?_⟩
  · intro hramp
    simp only [hramp, if_true]
    constructor
    · intro h
      simp only [h, ne_eq, not_true_eq_false, if_false]
    · intro h
      simp only [h, ne_eq, not_false_eq_true, if_true]
      exact ⟨_, rfl⟩
  · intro hramp
    simp only [hramp, hne, if_true, if_false]
    constructor
    · intro h
      simp only [h, ne_eq, not_true_eq_false, if_false]
    · intro h
      simp only [h, ne_eq, not_false_eq_true, if_true]
      exact ⟨_, rfl⟩
  · intro h1 h2
    simp only [h1, h2, if_false]
  · split
    · split
      · exact Or.inr (Or.inr ⟨_, rfl⟩)
      · exact Or.inl rfl
    · split
      · split
        · exact Or.inr (Or.inr ⟨_, rfl⟩)
        · exact Or.inl rfl
      · exact Or.inr (Or.inl rfl)

/-- The hf right block of the ramp step on an Up ramp, in terms of decoded gains. -/
theorem hf_right_up (codec : snd_soc_codec) (s : Nat)
    (hramp : codec.drvdata.handsfree.ramp = TWL6040_RAMP_UP)
    (ht : codec.drvdata.handsfree.right_vol ≤ 29)
    (hb : twl6040_read_reg_cache codec TWL6040_REG_HFRGAIN < 256) :
    (twl6040_hf_ramp_step_right codec s).2 =
        (if hf_right_gain codec = codec.drvdata.handsfree.right_vol then 1 else 0) ∧
      hf_right_gain (twl6040_hf_ramp_step_right codec s).1 =
        up_next codec.drvdata.handsfree.right_vol (min s 29) (hf_right_gain codec) ∧
      hf_left_gain (twl6040_hf_ramp_step_right codec s).1 = hf_left_gain codec := by
  have hg := hf_right_gain_le codec hb
  have e : ((c_sub 0x1D (twl6040_read_reg_cache codec TWL6040_REG_HFRGAIN % 65536) % 65536)
    &&& TWL6040_HF_VOL_MASK) % 65536 = hf_right_gain codec := rfl
  have hs' : (if s > 29 then 29 else s) = min s 29 := by split <;> omega
  unfold twl6040_hf_ramp_step_right up_next
  simp only [hramp, if_true, e, hs']
  by_cases h : hf_right_gain codec = codec.drvdata.handsfree.right_vol
  · simp only [h, ne_eq, not_true_eq_false, if_false, if_true, and_self]
  · simp only [h, ne_eq, not_false_eq_true, if_true, if_false, true_and]
    have hv : (if hf_right_gain codec + min s 29 > codec.drvdata.handsfree.right_vol then
          codec.drvdata.handsfree.right_vol % 65536
        else (hf_right_gain codec + min s 29) % 65536) =
        (if hf_right_gain codec + min s 29 > codec.drvdata.handsfree.right_vol then
          codec.drvdata.handsfree.right_vol
        else hf_right_gain codec + min s 29) := by
      split <;> omega
    rw [hv]
    exact hf_right_write_gain codec _ (by split <;> omega) hb

/-- The hf right block of the ramp step on a Down ramp, in terms of decoded
gains. -/
theorem hf_right_down (codec : snd_soc_codec) (s : Nat)
    (hramp : codec.drvdata.handsfree.ramp = TWL6040_RAMP_DOWN)
    (hb : twl6040_read_reg_cache codec TWL6040_REG_HFRGAIN < 256) :
    (twl6040_hf_ramp_step_right codec s).2 =
        (if hf_right_gain codec = 0 then 1 else 0) ∧
      hf_right_gain (twl6040_hf_ramp_step_right codec s).1 =
        down_next (min s 29) (hf_right_gain codec) ∧
      hf_left_gain (twl6040_hf_ramp_step_right codec s).1 = hf_left_gain codec := by
  have hg := hf_right_gain_le codec hb
  have e : ((c_sub 0x1D (twl6040_read_reg_cache codec TWL6040_REG_HFRGAIN % 65536) % 65536)
    &&& TWL6040_HF_VOL_MASK) % 65536 = hf_right_gain codec := rfl
  have hs' : (if s > 29 then 29 else s) = min s 29 := by split <;> omega
  have hne : ¬ (TWL6040_RAMP_DOWN = TWL6040_RAMP_UP) := by decide
  unfold twl6040_hf_ramp_step_right down_next
  simp only [hramp, hne, if_true, if_false, e, hs']
  by_cases h : hf_right_gain codec = 0
  · simp only [h, ne_eq, not_true_eq_false, if_false, if_true, and_self]
  · simp only [h, ne_eq, not_false_eq_true, if_true, if_false, true_and]
    have hv : (if (hf_right_gain codec : Int) - ((min s 29 : Nat) : Int) < 0 then 0
        else (hf_right_gain codec - min s 29) % 65536) =
        (if hf_right_gain codec < min s 29 then 0
        else hf_right_gain codec - min s 29) := by
      split <;> split <;> omega
    rw [hv]
    exact hf_right_write_gain codec _ (by split <;> omega) hb

/-- The shape of the hf right block: a channel at the end of its ramp is
marked complete and nothing is written; otherwise the gain field is rewritten
through `twl6040_write`; with no ramp nothing happens. -/
theorem hf_right_shape (codec : snd_soc_codec) (s : Nat) :
    (codec.drvdata.handsfree.ramp = TWL6040_RAMP_UP →
      (hf_right_gain codec = codec.drvdata.handsfree.right_vol → twl6040_hf_ramp_step_right codec s = (codec, 1)) ∧
      (hf_right_gain codec ≠ codec.drvdata.handsfree.right_vol →
        ∃ value, twl6040_hf_ramp_step_right codec s = ((twl6040_write codec TWL6040_REG_HFRGAIN value).2, 0))) ∧
    (codec.drvdata.handsfree.ramp = TWL6040_RAMP_DOWN →
      (hf_right_gain codec = 0 → twl6040_hf_ramp_step_right codec s = (codec, 1)) ∧
      (hf_right_gain codec ≠ 0 →
        ∃ value, twl6040_hf_ramp_step_right codec s = ((twl6040_write codec TWL6040_REG_HFRGAIN value).2, 0))) ∧
    (codec.drvdata.handsfree.ramp ≠ TWL6040_RAMP_UP →
      codec.drvdata.handsfree.ramp ≠ TWL6040_RAMP_DOWN → twl6040_hf_ramp_step_right codec s = (codec, 0)) ∧
    (twl6040_hf_ramp_step_right codec s = (codec, 1) ∨ twl6040_hf_ramp_step_right codec s = (codec, 0) ∨
      ∃ value, twl6040_hf_ramp_step_right codec s = ((twl6040_write codec TWL6040_REG_HFRGAIN value).2, 0)) := by
  have e : ((c_sub 0x1D (twl6040_read_reg_cache codec TWL6040_REG_HFRGAIN % 65536) % 65536)
    &&& TWL6040_HF_VOL_MASK) % 65536 = hf_right_gain codec := rfl
  have hne : ¬ (TWL6040_RAMP_DOWN = TWL6040_RAMP_UP) := by decide
  unfold twl6040_hf_ramp_step_right
  simp only [e]
  refine ⟨?_, ?_, ?_, ?_⟩
  · intro hramp
    simp only [hramp, if_true]
    constructor
    · intro h
      simp only [h, ne_eq, not_true_eq_false, if_false]
    · intro h
      simp only [h, ne_eq, not_false_eq_true, if_true]
      exact ⟨_, rfl⟩
  · intro hramp
    simp only [hramp, hne, if_true, if_false]
    constructor
    · intro h
      simp only [h, ne_eq, not_true_eq_false, if_false]
    · intro h
      simp only [h, ne_eq, not_false_eq_true, if_true]
      exact ⟨_, rfl⟩
  · intro h1 h2
    simp only [h1, h2, if_false]
  · split
    · split
      · exact Or.inr (Or.inr ⟨_, rfl⟩)
      · exact Or.inl rfl
    · split
      · split
        · exact Or.inr (Or.inr ⟨_, rfl⟩)
        · exact Or.inl rfl
      · exact Or.inr (Or.inl rfl)

/-- The ep block of the ramp step on an Up ramp, in terms of decoded gains. -/
theorem ep_up (codec : snd_soc_codec) (s : Nat)
    (hramp : codec.drvdata.earphone.ramp = TWL6040_RAMP_UP)
    (ht : codec.drvdata.earphone.left_vol ≤ 15) :
    (twl6040_ep_ramp_step codec s).2 =
        (if ep_gain codec = codec.drvdata.earphone.left_vol then 1 else 0) ∧
      ep_gain (twl6040_ep_ramp_step codec s).1 =
        up_next codec.drvdata.earphone.left_vol (min s 15) (ep_gain codec) := by
  have hg := ep_gain_le codec
  have e : ((c_not (twl6040_read_reg_cache codec TWL6040_REG_EARCTL % 256)
    &&& TWL6040_EP_VOL_MASK) >>> TWL6040_EP_VOL_SHIFT) % 256 = ep_gain codec := rfl
  have hs' : (if s > 15 then 15 else s) = min s 15 := by split <;> omega
  unfold twl6040_ep_ramp_step up_next
  simp only [hramp, if_true, e, hs']
  by_cases h : ep_gain codec = codec.drvdata.earphone.left_vol
  · simp only [h, ne_eq, not_true_eq_false, if_false, if_true, and_self]
  · simp only [h, ne_eq, not_false_eq_true, if_true, if_false, true_and]
    have hv : (if ep_gain codec + min s 15 > codec.drvdata.earphone.left_vol then
          codec.drvdata.earphone.left_vol % 256
        else (ep_gain codec + min s 15) % 256) =
        (if ep_gain codec + min s 15 > codec.drvdata.earphone.left_vol then
          codec.drvdata.earphone.left_vol
        else ep_gain codec + min s 15) := by
      split <;> omega
    rw [hv]
    exact ep_write_gain codec _ (by split <;> omega)

/-- The ep block of the ramp step on a Down ramp, in terms of decoded
gains. -/
theorem ep_down (codec : snd_soc_codec) (s : Nat)
    (hramp : codec.drvdata.earphone.ramp = TWL6040_RAMP_DOWN) :
    (twl6040_ep_ramp_step codec s).2 =
        (if ep_gain codec = 0 then 1 else 0) ∧
      ep_gain (twl6040_ep_ramp_step codec s).1 =
        down_next (min s 15) (ep_gain codec) := by
  have hg := ep_gain_le codec
  have e : ((c_not (twl6040_read_reg_cache codec TWL6040_REG_EARCTL % 256)
    &&& TWL6040_EP_VOL_MASK) >>> TWL6040_EP_VOL_SHIFT) % 256 = ep_gain codec := rfl
  have hs' : (if s > 15 then 15 else s) = min s 15 := by split <;> omega
  have hne : ¬ (TWL6040_RAMP_DOWN = TWL6040_RAMP_UP) := by decide
  unfold twl6040_ep_ramp_step down_next
  simp only [hramp, hne, if_true, if_false, e, hs']
  by_cases h : ep_gain codec = 0
  · simp only [h, ne_eq, not_true_eq_false, if_false, if_true, and_self]
  · simp only [h, ne_eq, not_false_eq_true, if_true, if_false, true_and]
    have hv : (if (ep_gain codec : Int) - ((min s 15 : Nat) : Int) < 0 then 0
        else (ep_gain codec - min s 15) % 256) =
        (if ep_gain codec < min s 15 then 0
        else ep_gain codec - min s 15) := by
      split <;> split <;> omega
    rw [hv]
    exact ep_write_gain codec _ (by split <;> omega)

/-- The shape of the ep block: a channel at the end of its ramp is
marked complete and nothing is written; otherwise the gain field is rewritten
through `twl6040_write`; with no ramp nothing happens. -/
theorem ep_shape (codec : snd_soc_codec) (s : Nat) :
    (codec.drvdata.earphone.ramp = TWL6040_RAMP_UP →
      (ep_gain codec = codec.drvdata.earphone.left_vol → twl6040_ep_ramp_step codec s = (codec, 1)) ∧
      (ep_gain codec ≠ codec.drvdata.earphone.left_vol →
        ∃ value, twl6040_ep_ramp_step codec s = ((twl6040_write codec TWL6040_REG_EARCTL value).2, 0))) ∧
    (codec.drvdata.earphone.ramp = TWL6040_RAMP_DOWN →
      (ep_gain codec = 0 → twl6040_ep_ramp_step codec s = (codec, 1)) ∧
      (ep_gain codec ≠ 0 →
        ∃ value, twl6040_ep_ramp_step codec s = ((twl6040_write codec TWL6040_REG_EARCTL value).2, 0))) ∧
    (codec.drvdata.earphone.ramp ≠ TWL6040_RAMP_UP →
      codec.drvdata.earphone.ramp ≠ TWL6040_RAMP_DOWN → twl6040_ep_ramp_step codec s = (codec, 0)) ∧
    (twl6040_ep_ramp_step codec s = (codec, 1) ∨ twl6040_ep_ramp_step codec s = (codec, 0) ∨
      ∃ value, twl6040_ep_ramp_step codec s = ((twl6040_write codec TWL6040_REG_EARCTL value).2, 0)) := by
  have e : ((c_not (twl6040_read_reg_cache codec TWL6040_REG_EARCTL % 256)
    &&& TWL6040_EP_VOL_MASK) >>> TWL6040_EP_VOL_SHIFT) % 256 = ep_gain codec := rfl
  have hne : ¬ (TWL6040_RAMP_DOWN = TWL6040_RAMP_UP) := by decide
  unfold twl6040_ep_ramp_step
  simp only [e]
  refine ⟨?_, ?_, ?_, ?_⟩
  · intro hramp
    simp only [hramp, if_true]
    constructor
    · intro h
      simp only [h, ne_eq, not_true_eq_false, if_false]
    · intro h
      simp only [h, ne_eq, not_false_eq_true, if_true]
      exact ⟨_, rfl⟩
  · intro hramp
    simp only [hramp, hne, if_true, if_false]
    constructor
    · intro h
      simp only [h, ne_eq, not_true_eq_false, if_false]
    · intro h
      simp only [h, ne_eq, not_false_eq_true, if_true]
      exact ⟨_, rfl⟩
  · intro h1 h2
    simp only [h1, h2, if_false]
  · split
    · split
      · exact Or.inr (Or.inr ⟨_, rfl⟩)
      · exact Or.inl rfl
    · split
      · split
        · exact Or.inr (Or.inr ⟨_, rfl⟩)
        · exact Or.inl rfl
      · exact Or.inr (Or.inl rfl)

/-! ## Ramp steps: frame -/

theorem read_reg_cache_write_byte (codec : snd_soc_codec) (reg reg' value : Nat)
    (h : twl6040_read_reg_cache codec reg' < 256) :
    twl6040_read_reg_cache (twl6040_write codec reg value).2 reg' < 256 := by
  by_cases hne : reg' = reg
  · subst hne
    by_cases hr : reg' < TWL6040_CACHEREGNUM
    · rw [read_reg_cache_write_same _ _ _ hr]
      exact Nat.mod_lt _ (by decide)
    · unfold twl6040_write
      rw [dif_neg hr]
      exact h
  · rw [read_reg_cache_write_other _ _ _ _ hne]
    exact h

theorem hs_left_drvdata (codec : snd_soc_codec) (s : Nat) :
    (twl6040_hs_ramp_step_left codec s).1.drvdata = codec.drvdata := by
  rcases (hs_left_shape codec s).2.2.2 with h | h | ⟨v, h⟩
  · rw [h]
  · rw [h]
  · rw [h]
    exact twl6040_write_drvdata _ _ _

theorem hs_left_byte (codec : snd_soc_codec) (s reg : Nat)
    (hb : twl6040_read_reg_cache codec reg < 256) :
    twl6040_read_reg_cache (twl6040_hs_ramp_step_left codec s).1 reg < 256 := by
  rcases (hs_left_shape codec s).2.2.2 with h | h | ⟨v, h⟩
  · rw [h]; exact hb
  · rw [h]; exact hb
  · rw [h]
    exact read_reg_cache_write_byte _ _ _ _ hb

theorem hs_right_drvdata (codec : snd_soc_codec) (s : Nat) :
    (twl6040_hs_ramp_step_right codec s).1.drvdata = codec.drvdata := by
  rcases (hs_right_shape codec s).2.2.2 with h | h | ⟨v, h⟩
  · rw [h]
  · rw [h]
  · rw [h]
    exact twl6040_write_drvdata _ _ _

theorem hs_right_byte (codec : snd_soc_codec) (s reg : Nat)
    (hb : twl6040_read_reg_cache codec reg < 256) :
    twl6040_read_reg_cache (twl6040_hs_ramp_step_right codec s).1 reg < 256 := by
  rcases (hs_right_shape codec s).2.2.2 with h | h | ⟨v, h⟩
  · rw [h]; exact hb
  · rw [h]; exact hb
  · rw [h]
    exact read_reg_cache_write_byte _ _ _ _ hb

theorem hf_left_drvdata (codec : snd_soc_codec) (s : Nat) :
    (twl6040_hf_ramp_step_left codec s).1.drvdata = codec.drvdata := by
  rcases (hf_left_shape codec s).2.2.2 with h | h | ⟨v, h⟩
  · rw [h]
  · rw [h]
  · rw [h]
    exact twl6040_write_drvdata _ _ _

theorem hf_left_byte (codec : snd_soc_codec) (s reg : Nat)
    (hb : twl6040_read_reg_cache codec reg < 256) :
    twl6040_read_reg_cache (twl6040_hf_ramp_step_left codec s).1 reg < 256 := by
  rcases (hf_left_shape codec s).2.2.2 with h | h | ⟨v, h⟩
  · rw [h]; exact hb
  · rw [h]; exact hb
  · rw [h]
    exact read_reg_cache_write_byte _ _ _ _ hb

theorem hf_right_drvdata (codec : snd_soc_codec) (s : Nat) :
    (twl6040_hf_ramp_step_right codec s).1.drvdata = codec.drvdata := by
  rcases (hf_right_shape codec s).2.2.2 with h | h | ⟨v, h⟩
  · rw [h]
  · rw [h]
  · rw [h]
    exact twl6040_write_drvdata _ _ _

theorem hf_right_byte (codec : snd_soc_codec) (s reg : Nat)
    (hb : twl6040_read_reg_cache codec reg < 256) :
    twl6040_read_reg_cache (twl6040_hf_ramp_step_right codec s).1 reg < 256 := by
  rcases (hf_right_shape codec s).2.2.2 with h | h | ⟨v, h⟩
  · rw [h]; exact hb
  · rw [h]; exact hb
  · rw [h]
    exact read_reg_cache_write_byte _ _ _ _ hb

theorem ep_drvdata (codec : snd_soc_codec) (s : Nat) :
    (twl6040_ep_ramp_step codec s).1.drvdata = codec.drvdata := by
  rcases (ep_shape codec s).2.2.2 with h | h | ⟨v, h⟩
  · rw [h]
  · rw [h]
  · rw [h]
    exact twl6040_write_drvdata _ _ _

theorem ep_byte (codec : snd_soc_codec) (s reg : Nat)
    (hb : twl6040_read_reg_cache codec reg < 256) :
    twl6040_read_reg_cache (twl6040_ep_ramp_step codec s).1 reg < 256 := by
  rcases (ep_shape codec s).2.2.2 with h | h | ⟨v, h⟩
  · rw [h]; exact hb
  · rw [h]; exact hb
  · rw [h]
    exact read_reg_cache_write_byte _ _ _ _ hb

/-! ## Ramp steps: one tick -/

theorem flag_and (p q : Prop) [Decidable p] [Decidable q] :
    (if p then 1 else 0) &&& (if q then 1 else 0) = if p ∧ q then 1 else 0 := by
  by_cases hp : p <;> by_cases hq : q <;> simp [hp, hq]

/-- One Up tick of the headset step on decoded gains. -/
theorem hs_step_up (codec : snd_soc_codec) (sl sr : Nat)
    (hramp : codec.drvdata.headset.ramp = TWL6040_RAMP_UP)
    (htl : codec.drvdata.headset.left_vol ≤ 15)
    (htr : codec.drvdata.headset.right_vol ≤ 15) :
    (twl6040_hs_ramp_step codec sl sr).2 =
        (if hs_left_gain codec = codec.drvdata.headset.left_vol ∧
            hs_right_gain codec = codec.drvdata.headset.right_vol then 1 else 0) ∧
      hs_left_gain (twl6040_hs_ramp_step codec sl sr).1 =
        up_next codec.drvdata.headset.left_vol (min sl 15) (hs_left_gain codec) ∧
      hs_right_gain (twl6040_hs_ramp_step codec sl sr).1 =
        up_next codec.drvdata.headset.right_vol (min sr 15) (hs_right_gain codec) ∧
      (twl6040_hs_ramp_step codec sl sr).1.drvdata = codec.drvdata := by
  have hd := hs_left_drvdata codec sl
  obtain ⟨l2, lg, lo⟩ := hs_left_up codec sl hramp htl
  obtain ⟨r2, rg, ro⟩ := hs_right_up (twl6040_hs_ramp_step_left codec sl).1 sr
    (by rw [hd]; exact hramp) (by rw [hd]; exact htr)
  unfold twl6040_hs_ramp_step
  refine ⟨?_, ?_, ?_, ?_⟩
  · simp only [l2, r2, lo, hd, flag_and]
  · simp only [ro, lg]
  · simp only [rg, lo, hd]
  · simp only [hs_right_drvdata, hd]

/-- One Down tick of the headset step on decoded gains. -/
theorem hs_step_down (codec : snd_soc_codec) (sl sr : Nat)
    (hramp : codec.drvdata.headset.ramp = TWL6040_RAMP_DOWN) :
    (twl6040_hs_ramp_step codec sl sr).2 =
        (if hs_left_gain codec = 0 ∧ hs_right_gain codec = 0 then 1 else 0) ∧
      hs_left_gain (twl6040_hs_ramp_step codec sl sr).1 =
        down_next (min sl 15) (hs_left_gain codec) ∧
      hs_right_gain (twl6040_hs_ramp_step codec sl sr).1 =
        down_next (min sr 15) (hs_right_gain codec) ∧
      (twl6040_hs_ramp_step codec sl sr).1.drvdata = codec.drvdata := by
  have hd := hs_left_drvdata codec sl
  obtain ⟨l2, lg, lo⟩ := hs_left_down codec sl hramp
  obtain ⟨r2, rg, ro⟩ := hs_right_down (twl6040_hs_ramp_step_left codec sl).1 sr
    (by rw [hd]; exact hramp)
  unfold twl6040_hs_ramp_step
  refine ⟨?_, ?_, ?_, ?_⟩
  · simp only [l2, r2, lo, flag_and]
  · simp only [ro, lg]
  · simp only [rg, lo]
  · simp only [hs_right_drvdata, hd]

/-- One Up tick of the handsfree step on decoded gains. -/
theorem hf_step_up (codec : snd_soc_codec) (sl sr : Nat)
    (hramp : codec.drvdata.handsfree.ramp = TWL6040_RAMP_UP)
    (htl : codec.drvdata.handsfree.left_vol ≤ 29)
    (htr : codec.drvdata.handsfree.right_vol ≤ 29)
    (hbl : twl6040_read_reg_cache codec TWL6040_REG_HFLGAIN < 256)
    (hbr : twl6040_read_reg_cache codec TWL6040_REG_HFRGAIN < 256) :
    (twl6040_hf_ramp_step codec sl sr).2 =
        (if hf_left_gain codec = codec.drvdata.handsfree.left_vol ∧
            hf_right_gain codec = codec.drvdata.handsfree.right_vol then 1 else 0) ∧
      hf_left_gain (twl6040_hf_ramp_step codec sl sr).1 =
        up_next codec.drvdata.handsfree.left_vol (min sl 29) (hf_left_gain codec) ∧
      hf_right_gain (twl6040_hf_ramp_step codec sl sr).1 =
        up_next codec.drvdata.handsfree.right_vol (min sr 29) (hf_right_gain codec) ∧
      (twl6040_hf_ramp_step codec sl sr).1.drvdata = codec.drvdata := by
  have hd := hf_left_drvdata codec sl
  obtain ⟨l2, lg, lo⟩ := hf_left_up codec sl hramp htl hbl
  obtain ⟨r2, rg, ro⟩ := hf_right_up (twl6040_hf_ramp_step_left codec sl).1 sr
    (by rw [hd]; exact hramp) (by rw [hd]; exact htr) (hf_left_byte codec sl _ hbr)
  unfold twl6040_hf_ramp_step
  refine ⟨?_, ?_, ?_, ?_⟩
  · simp only [l2, r2, lo, hd, flag_and]
  · simp only [ro, lg]
  · simp only [rg, lo, hd]
  · simp only [hf_right_drvdata, hd]

/-- One Down tick of the handsfree step on decoded gains. -/
theorem hf_step_down (codec : snd_soc_codec) (sl sr : Nat)
    (hramp : codec.drvdata.handsfree.ramp = TWL6040_RAMP_DOWN)
    (hbl : twl6040_read_reg_cache codec TWL6040_REG_HFLGAIN < 256)
    (hbr : twl6040_read_reg_cache codec TWL6040_REG_HFRGAIN < 256) :
    (twl6040_hf_ramp_step codec sl sr).2 =
        (if hf_left_gain codec = 0 ∧ hf_right_gain codec = 0 then 1 else 0) ∧
      hf_left_gain (twl6040_hf_ramp_step codec sl sr).1 =
        down_next (min sl 29) (hf_left_gain codec) ∧
      hf_right_gain (twl6040_hf_ramp_step codec sl sr).1 =
        down_next (min sr 29) (hf_right_gain codec) ∧
      (twl6040_hf_ramp_step codec sl sr).1.drvdata = codec.drvdata := by
  have hd := hf_left_drvdata codec sl
  obtain ⟨l2, lg, lo⟩ := hf_left_down codec sl hramp hbl
  obtain ⟨r2, rg, ro⟩ := hf_right_down (twl6040_hf_ramp_step_left codec sl).1 sr
    (by rw [hd]; exact hramp) (hf_left_byte codec sl _ hbr)
  unfold twl6040_hf_ramp_step
  refine ⟨?_, ?_, ?_, ?_⟩
  · simp only [l2, r2, lo, flag_and]
  · simp only [ro, lg]
  · simp only [rg, lo]
  · simp only [hf_right_drvdata, hd]

/-- The handsfree step keeps the two gain registers bytes. -/
theorem hf_step_byte (codec : snd_soc_codec) (sl sr reg : Nat)
    (hb : twl6040_read_reg_cache codec reg < 256) :
    twl6040_read_reg_cache (twl6040_hf_ramp_step codec sl sr).1 reg < 256 := by
  unfold twl6040_hf_ramp_step
  exact hf_right_byte _ _ _ (hf_left_byte _ _ _ hb)

/-! ## The ramp loop -/

/-- A property every tick preserves holds when the loop is left. -/
theorem ramp_for_preserves (step : snd_soc_codec → snd_soc_codec × Nat)
    (P : snd_soc_codec → Prop) (hstep : ∀ c, P c → P (step c).1) :
    ∀ (n i : Nat) (codec : snd_soc_codec), P codec → P (ramp_for step n i codec).1 := by
  intro n
  induction n with
  | zero => intro i codec h; exact h
  | succ n ih =>
    intro i codec h
    by_cases hc : (step codec).2 ≠ 0
    · simp only [ramp_for, if_pos hc]
      exact hstep codec h
    · simp only [ramp_for, if_neg hc]
      exact ih (i + 1) _ (hstep codec h)

/-- Convergence of the ramp loop.  If a measure `μ` is 0 exactly when the
step reports completion (changing nothing), and every other tick lowers it,
then a loop allowed more than `μ` iterations is left through the `break`,
with the completion flag 1, `i` below the bound, and the measure at 0; the
number of ticks that changed something is at most the initial measure. -/
theorem ramp_for_converges (step : snd_soc_codec → snd_soc_codec × Nat)
    (Inv : snd_soc_codec → Prop) (μ : snd_soc_codec → Nat)
    (hdone : ∀ c, Inv c → μ c = 0 → step c = (c, 1))
    (hprog : ∀ c, Inv c → μ c ≠ 0 →
      (step c).2 = 0 ∧ Inv (step c).1 ∧ μ (step c).1 < μ c) :
    ∀ (n i : Nat) (codec : snd_soc_codec), Inv codec → μ codec < n →
      (ramp_for step n i codec).2.2 = 1 ∧
        (ramp_for step n i codec).2.1 ≤ i + μ codec ∧
        (ramp_for step n i codec).2.1 < i + n ∧
        μ (ramp_for step n i codec).1 = 0 ∧
        Inv (ramp_for step n i codec).1 := by
  intro n
  induction n with
  | zero => intro i codec _ h; exact absurd h (Nat.not_lt_zero _)
  | succ n ih =>
    intro i codec hinv hlt
    unfold ramp_for
    by_cases h0 : μ codec = 0
    · rw [hdone codec hinv h0]
      simp only [ne_eq, one_ne_zero, not_false_eq_true, if_true]
      exact ⟨trivial, by omega, by omega, h0, hinv⟩
    · obtain ⟨h2, hinv', hdec⟩ := hprog codec hinv h0
      simp only [h2, ne_eq, not_true_eq_false, if_false]
      obtain ⟨a, b, c, d, e⟩ := ih (i + 1) (step codec).1 hinv' (by omega)
      exact ⟨a, by omega, by omega, d, e⟩

/-- The state the loop is left in is the state after some number of ticks. -/
theorem ramp_for_iterate (step : snd_soc_codec → snd_soc_codec × Nat) :
    ∀ (n i : Nat) (codec : snd_soc_codec),
      ∃ k, k ≤ n ∧ (ramp_for step n i codec).1 = (fun c => (step c).1)^[k] codec := by
  intro n
  induction n with
  | zero => intro i codec; exact ⟨0, Nat.le_refl _, rfl⟩
  | succ n ih =>
    intro i codec
    by_cases hc : (step codec).2 ≠ 0
    · simp only [ramp_for, if_pos hc]
      exact ⟨1, by omega, rfl⟩
    · simp only [ramp_for, if_neg hc]
      obtain ⟨k, hk, e⟩ := ih (i + 1) (step codec).1
      exact ⟨k + 1, by omega, by rw [e, Function.iterate_succ_apply]⟩

theorem up_dist_next (t s cur : Nat) (hs : 1 ≤ s ∨ s = t) :
    (up_dist t cur = 0 → up_next t s cur = cur) ∧
      (up_dist t cur ≠ 0 → up_dist t (up_next t s cur) < up_dist t cur) ∧
      up_dist t (up_next t s cur) ≤ up_dist t cur := by
  unfold up_dist up_next
  refine ⟨?_, ?_, ?_⟩ <;> (repeat' split) <;> omega

theorem down_next_lt (s cur : Nat) (hs : 1 ≤ s) :
    (cur = 0 → down_next s cur = cur) ∧ (cur ≠ 0 → down_next s cur < cur) ∧
      down_next s cur ≤ cur := by
  unfold down_next
  refine ⟨?_, ?_, ?_⟩ <;> (repeat' split) <;> omega

/-! ## Claims on the ramp step -/

theorem channel_up_tick_of (blk : snd_soc_codec → Nat → snd_soc_codec × Nat)
    (gain : snd_soc_codec → Nat) (reg mx t : Nat) (codec : snd_soc_codec) (s : Nat)
    (hshape : (gain codec = t → blk codec s = (codec, 1)) ∧
      (gain codec ≠ t → ∃ value, blk codec s = ((twl6040_write codec reg value).2, 0)))
    (hg : gain (blk codec s).1 = up_next t (min s mx) (gain codec))
    (hle : gain codec ≤ t) :
    channel_up_tick blk gain reg mx t codec s := by
  refine ⟨hshape.1, fun hne => ⟨hshape.2 hne, ?_⟩⟩
  rw [hg]
  unfold up_next
  repeat' split
  all_goals omega

theorem channel_down_tick_of (blk : snd_soc_codec → Nat → snd_soc_codec × Nat)
    (gain : snd_soc_codec → Nat) (reg mx : Nat) (codec : snd_soc_codec) (s : Nat)
    (hshape : (gain codec = 0 → blk codec s = (codec, 1)) ∧
      (gain codec ≠ 0 → ∃ value, blk codec s = ((twl6040_write codec reg value).2, 0)))
    (hg : gain (blk codec s).1 = down_next (min s mx) (gain codec)) :
    channel_down_tick blk gain reg mx codec s := by
  refine ⟨hshape.1, fun hne => ⟨hshape.2 hne, ?_⟩⟩
  rw [hg]
  unfold down_next
  repeat' split
  all_goals omega

/-- C5: the Up tick.  On an Up ramp, for each channel of the headset,
handsfree and earphone steps whose decoded gain and target satisfy
`cur ≤ t ≤ max` (15 for headset and earphone, 29 for handsfree), the block
of the channel marks it complete and writes nothing when `cur = t`, and
otherwise rewrites the gain field through `twl6040_write` so that the
decoded gain becomes `cur + min(s, t - cur)` with `s` the step clamped to
`max`.  The right blocks are taken from any state, in particular the one the
left block leaves; the handsfree gain registers hold bytes. -/
theorem C5_up_tick (codec : snd_soc_codec) (s : Nat) :
    (codec.drvdata.headset.ramp = TWL6040_RAMP_UP →
      hs_left_gain codec ≤ codec.drvdata.headset.left_vol →
      codec.drvdata.headset.left_vol ≤ 15 →
      channel_up_tick twl6040_hs_ramp_step_left hs_left_gain TWL6040_REG_HSGAIN 15
        codec.drvdata.headset.left_vol codec s) ∧
    (codec.drvdata.headset.ramp = TWL6040_RAMP_UP →
      hs_right_gain codec ≤ codec.drvdata.headset.right_vol →
      codec.drvdata.headset.right_vol ≤ 15 →
      channel_up_tick twl6040_hs_ramp_step_right hs_right_gain TWL6040_REG_HSGAIN 15
        codec.drvdata.headset.right_vol codec s) ∧
    (codec.drvdata.handsfree.ramp = TWL6040_RAMP_UP →
      twl6040_read_reg_cache codec TWL6040_REG_HFLGAIN < 256 →
      hf_left_gain codec ≤ codec.drvdata.handsfree.left_vol →
      codec.drvdata.handsfree.left_vol ≤ 29 →
      channel_up_tick twl6040_hf_ramp_step_left hf_left_gain TWL6040_REG_HFLGAIN 29
        codec.drvdata.handsfree.left_vol codec s) ∧
    (codec.drvdata.handsfree.ramp = TWL6040_RAMP_UP →
      twl6040_read_reg_cache codec TWL6040_REG_HFRGAIN < 256 →
      hf_right_gain codec ≤ codec.drvdata.handsfree.right_vol →
      codec.drvdata.handsfree.right_vol ≤ 29 →
      channel_up_tick twl6040_hf_ramp_step_right hf_right_gain TWL6040_REG_HFRGAIN 29
        codec.drvdata.handsfree.right_vol codec s) ∧
    (codec.drvdata.earphone.ramp = TWL6040_RAMP_UP →
      ep_gain codec ≤ codec.drvdata.earphone.left_vol →
      codec.drvdata.earphone.left_vol ≤ 15 →
      channel_up_tick twl6040_ep_ramp_step ep_gain TWL6040_REG_EARCTL 15
        codec.drvdata.earphone.left_vol codec s) := by
  refine ⟨?_, ?_, ?_, ?_, ?_⟩
  · intro hr hle ht
    exact channel_up_tick_of _ _ _ _ _ _ _ ((hs_left_shape codec s).1 hr)
      (hs_left_up codec s hr ht).2.1 hle
  · intro hr hle ht
    exact channel_up_tick_of _ _ _ _ _ _ _ ((hs_right_shape codec s).1 hr)
      (hs_right_up codec s hr ht).2.1 hle
  · intro hr hb hle ht
    exact channel_up_tick_of _ _ _ _ _ _ _ ((hf_left_shape codec s).1 hr)
      (hf_left_up codec s hr ht hb).2.1 hle
  · intro hr hb hle ht
    exact channel_up_tick_of _ _ _ _ _ _ _ ((hf_right_shape codec s).1 hr)
      (hf_right_up codec s hr ht hb).2.1 hle
  · intro hr hle ht
    exact channel_up_tick_of _ _ _ _ _ _ _ ((ep_shape codec s).1 hr)
      (ep_up codec s hr ht).2 hle

set_option maxRecDepth 100000 in
/-- A concrete instance of C5: every channel of the codec armed for an Up
ramp from gain 0 to the target 10, step 3. -/
theorem C5_up_tick_witness :
    channel_up_tick twl6040_hs_ramp_step_left hs_left_gain TWL6040_REG_HSGAIN 15
        up_codec.drvdata.headset.left_vol up_codec 3 ∧
      channel_up_tick twl6040_hs_ramp_step_right hs_right_gain TWL6040_REG_HSGAIN 15
        up_codec.drvdata.headset.right_vol up_codec 3 ∧
      channel_up_tick twl6040_hf_ramp_step_left hf_left_gain TWL6040_REG_HFLGAIN 29
        up_codec.drvdata.handsfree.left_vol up_codec 3 ∧
      channel_up_tick twl6040_hf_ramp_step_right hf_right_gain TWL6040_REG_HFRGAIN 29
        up_codec.drvdata.handsfree.right_vol up_codec 3 ∧
      channel_up_tick twl6040_ep_ramp_step ep_gain TWL6040_REG_EARCTL 15
        up_codec.drvdata.earphone.left_vol up_codec 3 :=
  ⟨(C5_up_tick up_codec 3).1 rfl (by decide) (by decide),
   (C5_up_tick up_codec 3).2.1 rfl (by decide) (by decide),
   (C5_up_tick up_codec 3).2.2.1 rfl (by decide) (by decide) (by decide),
   (C5_up_tick up_codec 3).2.2.2.1 rfl (by decide) (by decide) (by decide),
   (C5_up_tick up_codec 3).2.2.2.2 rfl (by decide) (by decide)⟩

/-- C6: the Down tick.  On a Down ramp, for each channel of the headset,
handsfree and earphone steps (the handsfree gain registers holding bytes),
the block of the channel marks it complete and writes nothing when the
decoded gain is 0, and otherwise rewrites the gain field through
`twl6040_write` so that the decoded gain becomes `cur - min(s, cur)` with
`s` the step clamped to the channel maximum; the target does not occur. -/
theorem C6_down_tick (codec : snd_soc_codec) (s : Nat) :
    (codec.drvdata.headset.ramp = TWL6040_RAMP_DOWN →
      channel_down_tick twl6040_hs_ramp_step_left hs_left_gain TWL6040_REG_HSGAIN 15
        codec s) ∧
    (codec.drvdata.headset.ramp = TWL6040_RAMP_DOWN →
      channel_down_tick twl6040_hs_ramp_step_right hs_right_gain TWL6040_REG_HSGAIN 15
        codec s) ∧
    (codec.drvdata.handsfree.ramp = TWL6040_RAMP_DOWN →
      twl6040_read_reg_cache codec TWL6040_REG_HFLGAIN < 256 →
      channel_down_tick twl6040_hf_ramp_step_left hf_left_gain TWL6040_REG_HFLGAIN 29
        codec s) ∧
    (codec.drvdata.handsfree.ramp = TWL6040_RAMP_DOWN →
      twl6040_read_reg_cache codec TWL6040_REG_HFRGAIN < 256 →
      channel_down_tick twl6040_hf_ramp_step_right hf_right_gain TWL6040_REG_HFRGAIN 29
        codec s) ∧
    (codec.drvdata.earphone.ramp = TWL6040_RAMP_DOWN →
      channel_down_tick twl6040_ep_ramp_step ep_gain TWL6040_REG_EARCTL 15 codec s) := by
  refine ⟨?_, ?_, ?_, ?_, ?_⟩
  · intro hr
    exact channel_down_tick_of _ _ _ _ _ _ ((hs_left_shape codec s).2.1 hr)
      (hs_left_down codec s hr).2.1
  · intro hr
    exact channel_down_tick_of _ _ _ _ _ _ ((hs_right_shape codec s).2.1 hr)
      (hs_right_down codec s hr).2.1
  · intro hr hb
    exact channel_down_tick_of _ _ _ _ _ _ ((hf_left_shape codec s).2.1 hr)
      (hf_left_down codec s hr hb).2.1
  · intro hr hb
    exact channel_down_tick_of _ _ _ _ _ _ ((hf_right_shape codec s).2.1 hr)
      (hf_right_down codec s hr hb).2.1
  · intro hr
    exact channel_down_tick_of _ _ _ _ _ _ ((ep_shape codec s).2.1 hr)
      (ep_down codec s hr).2

set_option maxRecDepth 100000 in
/-- A concrete instance of C6: every channel of the codec armed for a Down
ramp from gain 10, step 3. -/
theorem C6_down_tick_witness :
    channel_down_tick twl6040_hs_ramp_step_left hs_left_gain TWL6040_REG_HSGAIN 15
        down_codec 3 ∧
      channel_down_tick twl6040_hs_ramp_step_right hs_right_gain TWL6040_REG_HSGAIN 15
        down_codec 3 ∧
      channel_down_tick twl6040_hf_ramp_step_left hf_left_gain TWL6040_REG_HFLGAIN 29
        down_codec 3 ∧
      channel_down_tick twl6040_hf_ramp_step_right hf_right_gain TWL6040_REG_HFRGAIN 29
        down_codec 3 ∧
      channel_down_tick twl6040_ep_ramp_step ep_gain TWL6040_REG_EARCTL 15 down_codec 3 :=
  ⟨(C6_down_tick down_codec 3).1 rfl,
   (C6_down_tick down_codec 3).2.1 rfl,
   (C6_down_tick down_codec 3).2.2.1 rfl (by decide),
   (C6_down_tick down_codec 3).2.2.2.1 rfl (by decide),
   (C6_down_tick down_codec 3).2.2.2.2 rfl⟩

/-! ## Convergence of the ramp loops -/

theorem up_dist_eq_zero (t cur : Nat) : up_dist t cur = 0 ↔ cur = t := by
  unfold up_dist
  constructor
  · intro h
    by_contra hne
    rw [if_neg hne] at h
    split at h <;> omega
  · intro h
    rw [if_pos h]

theorem up_dist_le (t cur : Nat) : up_dist t cur ≤ max t 1 := by
  unfold up_dist
  repeat' split
  all_goals omega

theorem max_lt_max_of (a b a' b' : Nat) (ha : a ≠ 0 → a' < a) (hb : b ≠ 0 → b' < b)
    (ha' : a' ≤ a) (hb' : b' ≤ b) (h : max a b ≠ 0) : max a' b' < max a b := by
  by_cases h1 : a = 0
  · have h2 : b ≠ 0 := by omega
    have := hb h2
    omega
  · have := ha h1
    by_cases h2 : b = 0
    · omega
    · have := hb h2
      omega

theorem max_eq_zero_of (a b : Nat) (h : max a b = 0) : a = 0 ∧ b = 0 := by
  omega

theorem hs_tick_done_up (codec : snd_soc_codec)
    (hramp : codec.drvdata.headset.ramp = TWL6040_RAMP_UP)
    (hl : hs_left_gain codec = codec.drvdata.headset.left_vol)
    (hr : hs_right_gain codec = codec.drvdata.headset.right_vol) :
    hs_tick codec = (codec, 1) := by
  unfold hs_tick twl6040_hs_ramp_step
  rw [((hs_left_shape codec _).1 hramp).1 hl]
  simp only []
  rw [((hs_right_shape codec _).1 hramp).1 hr]
  simp

theorem hs_tick_done_down (codec : snd_soc_codec)
    (hramp : codec.drvdata.headset.ramp = TWL6040_RAMP_DOWN)
    (hl : hs_left_gain codec = 0) (hr : hs_right_gain codec = 0) :
    hs_tick codec = (codec, 1) := by
  unfold hs_tick twl6040_hs_ramp_step
  rw [((hs_left_shape codec _).2.1 hramp).1 hl]
  simp only []
  rw [((hs_right_shape codec _).2.1 hramp).1 hr]
  simp

theorem hf_tick_done_up (codec : snd_soc_codec)
    (hramp : codec.drvdata.handsfree.ramp = TWL6040_RAMP_UP)
    (hl : hf_left_gain codec = codec.drvdata.handsfree.left_vol)
    (hr : hf_right_gain codec = codec.drvdata.handsfree.right_vol) :
    hf_tick codec = (codec, 1) := by
  unfold hf_tick twl6040_hf_ramp_step
  rw [((hf_left_shape codec _).1 hramp).1 hl]
  simp only []
  rw [((hf_right_shape codec _).1 hramp).1 hr]
  simp

theorem hf_tick_done_down (codec : snd_soc_codec)
    (hramp : codec.drvdata.handsfree.ramp = TWL6040_RAMP_DOWN)
    (hl : hf_left_gain codec = 0) (hr : hf_right_gain codec = 0) :
    hf_tick codec = (codec, 1) := by
  unfold hf_tick twl6040_hf_ramp_step
  rw [((hf_left_shape codec _).2.1 hramp).1 hl]
  simp only []
  rw [((hf_right_shape codec _).2.1 hramp).1 hr]
  simp

/-- The headset loop on an Up ramp. -/
theorem hs_loop_up (codec : snd_soc_codec)
    (hramp : codec.drvdata.headset.ramp = TWL6040_RAMP_UP)
    (htl : codec.drvdata.headset.left_vol ≤ 15)
    (htr : codec.drvdata.headset.right_vol ≤ 15)
    (hsl : 1 ≤ codec.drvdata.headset.left_step ∨
      codec.drvdata.headset.left_step = codec.drvdata.headset.left_vol)
    (hsr : 1 ≤ codec.drvdata.headset.right_step ∨
      codec.drvdata.headset.right_step = codec.drvdata.headset.right_vol) :
    (twl6040_pga_hs_loop codec).2.2 = 1 ∧
      (twl6040_pga_hs_loop codec).2.1 ≤
        max (up_dist codec.drvdata.headset.left_vol (hs_left_gain codec))
          (up_dist codec.drvdata.headset.right_vol (hs_right_gain codec)) ∧
      (twl6040_pga_hs_loop codec).2.1 < 16 ∧
      hs_left_gain (twl6040_pga_hs_loop codec).1 = codec.drvdata.headset.left_vol ∧
      hs_right_gain (twl6040_pga_hs_loop codec).1 = codec.drvdata.headset.right_vol ∧
      (twl6040_pga_hs_loop codec).1.drvdata = codec.drvdata := by
  have hdl := up_dist_le codec.drvdata.headset.left_vol (hs_left_gain codec)
  have hdr := up_dist_le codec.drvdata.headset.right_vol (hs_right_gain codec)
  have h := ramp_for_converges hs_tick (fun c => c.drvdata = codec.drvdata)
    (fun c => max (up_dist codec.drvdata.headset.left_vol (hs_left_gain c))
      (up_dist codec.drvdata.headset.right_vol (hs_right_gain c)))
    (by
      intro c hinv hμ
      replace hinv : c.drvdata = codec.drvdata := hinv
      obtain ⟨h1, h2⟩ := max_eq_zero_of _ _ hμ
      rw [up_dist_eq_zero] at h1 h2
      exact hs_tick_done_up c (by rw [hinv]; exact hramp) (by rw [hinv]; exact h1)
        (by rw [hinv]; exact h2))
    (by
      intro c hinv hμ
      replace hinv : c.drvdata = codec.drvdata := hinv
      replace hμ : max (up_dist codec.drvdata.headset.left_vol (hs_left_gain c))
        (up_dist codec.drvdata.headset.right_vol (hs_right_gain c)) ≠ 0 := hμ
      have ht : hs_tick c = twl6040_hs_ramp_step c codec.drvdata.headset.left_step
          codec.drvdata.headset.right_step := by
        unfold hs_tick
        rw [hinv]
      obtain ⟨f, gl, gr, hd⟩ := hs_step_up c codec.drvdata.headset.left_step
        codec.drvdata.headset.right_step (by rw [hinv]; exact hramp) (by rw [hinv]; exact htl)
        (by rw [hinv]; exact htr)
      rw [hinv] at f gl gr hd
      obtain ⟨_, nl1, nl2⟩ := up_dist_next codec.drvdata.headset.left_vol
        (min codec.drvdata.headset.left_step 15) (hs_left_gain c) (by omega)
      obtain ⟨_, nr1, nr2⟩ := up_dist_next codec.drvdata.headset.right_vol
        (min codec.drvdata.headset.right_step 15) (hs_right_gain c) (by omega)
      rw [ht]
      refine ⟨?_, hd, ?_⟩
      · rw [f, if_neg]
        intro hb
        apply hμ
        rw [(up_dist_eq_zero _ _).mpr hb.1, (up_dist_eq_zero _ _).mpr hb.2]
        rfl
      · show max (up_dist _ (hs_left_gain (twl6040_hs_ramp_step c _ _).1))
          (up_dist _ (hs_right_gain (twl6040_hs_ramp_step c _ _).1)) < _
        rw [gl, gr]
        exact max_lt_max_of _ _ _ _ nl1 nr1 nl2 nr2 hμ)
    16 0 codec rfl (by show max _ _ < 16; omega)
  obtain ⟨a, b, c, d, e⟩ := h
  obtain ⟨h1, h2⟩ := max_eq_zero_of _ _ d
  rw [up_dist_eq_zero] at h1 h2
  exact ⟨a, by simpa using b, by simpa using c, h1, h2, e⟩

/-- The headset loop on a Down ramp. -/
theorem hs_loop_down (codec : snd_soc_codec)
    (hramp : codec.drvdata.headset.ramp = TWL6040_RAMP_DOWN)
    (hsl : 1 ≤ codec.drvdata.headset.left_step)
    (hsr : 1 ≤ codec.drvdata.headset.right_step) :
    (twl6040_pga_hs_loop codec).2.2 = 1 ∧
      (twl6040_pga_hs_loop codec).2.1 ≤ max (hs_left_gain codec) (hs_right_gain codec) ∧
      (twl6040_pga_hs_loop codec).2.1 < 16 ∧
      hs_left_gain (twl6040_pga_hs_loop codec).1 = 0 ∧
      hs_right_gain (twl6040_pga_hs_loop codec).1 = 0 ∧
      (twl6040_pga_hs_loop codec).1.drvdata = codec.drvdata := by
  have hg := hs_gain_le codec
  have h := ramp_for_converges hs_tick (fun c => c.drvdata = codec.drvdata)
    (fun c => max (hs_left_gain c) (hs_right_gain c))
    (by
      intro c hinv hμ
      replace hinv : c.drvdata = codec.drvdata := hinv
      obtain ⟨h1, h2⟩ := max_eq_zero_of _ _ hμ
      exact hs_tick_done_down c (by rw [hinv]; exact hramp) h1 h2)
    (by
      intro c hinv hμ
      replace hinv : c.drvdata = codec.drvdata := hinv
      replace hμ : max (hs_left_gain c) (hs_right_gain c) ≠ 0 := hμ
      have ht : hs_tick c = twl6040_hs_ramp_step c codec.drvdata.headset.left_step
          codec.drvdata.headset.right_step := by
        unfold hs_tick
        rw [hinv]
      obtain ⟨f, gl, gr, hd⟩ := hs_step_down c codec.drvdata.headset.left_step
        codec.drvdata.headset.right_step (by rw [hinv]; exact hramp)
      rw [hinv] at hd
      obtain ⟨_, nl1, nl2⟩ := down_next_lt (min codec.drvdata.headset.left_step 15)
        (hs_left_gain c) (by omega)
      obtain ⟨_, nr1, nr2⟩ := down_next_lt (min codec.drvdata.headset.right_step 15)
        (hs_right_gain c) (by omega)
      rw [ht]
      refine ⟨?_, hd, ?_⟩
      · rw [f, if_neg]
        intro hb
        apply hμ
        rw [hb.1, hb.2]
        rfl
      · show max (hs_left_gain (twl6040_hs_ramp_step c _ _).1)
          (hs_right_gain (twl6040_hs_ramp_step c _ _).1) < _
        rw [gl, gr]
        exact max_lt_max_of _ _ _ _ nl1 nr1 nl2 nr2 hμ)
    16 0 codec rfl (by show max _ _ < 16; omega)
  obtain ⟨a, b, c, d, e⟩ := h
  obtain ⟨h1, h2⟩ := max_eq_zero_of _ _ d
  exact ⟨a, by simpa using b, by simpa using c, h1, h2, e⟩

/-- The handsfree loop on an Up ramp. -/
theorem hf_loop_up (codec : snd_soc_codec)
    (hramp : codec.drvdata.handsfree.ramp = TWL6040_RAMP_UP)
    (htl : codec.drvdata.handsfree.left_vol ≤ 29)
    (htr : codec.drvdata.handsfree.right_vol ≤ 29)
    (hsl : 1 ≤ codec.drvdata.handsfree.left_step ∨
      codec.drvdata.handsfree.left_step = codec.drvdata.handsfree.left_vol)
    (hsr : 1 ≤ codec.drvdata.handsfree.right_step ∨
      codec.drvdata.handsfree.right_step = codec.drvdata.handsfree.right_vol)
    (hbl : twl6040_read_reg_cache codec TWL6040_REG_HFLGAIN < 256)
    (hbr : twl6040_read_reg_cache codec TWL6040_REG_HFRGAIN < 256) :
    (twl6040_pga_hf_loop codec).2.2 = 1 ∧
      (twl6040_pga_hf_loop codec).2.1 ≤
        max (up_dist codec.drvdata.handsfree.left_vol (hf_left_gain codec))
          (up_dist codec.drvdata.handsfree.right_vol (hf_right_gain codec)) ∧
      (twl6040_pga_hf_loop codec).2.1 < 30 ∧
      hf_left_gain (twl6040_pga_hf_loop codec).1 = codec.drvdata.handsfree.left_vol ∧
      hf_right_gain (twl6040_pga_hf_loop codec).1 = codec.drvdata.handsfree.right_vol ∧
      (twl6040_pga_hf_loop codec).1.drvdata = codec.drvdata := by
  have hdl := up_dist_le codec.drvdata.handsfree.left_vol (hf_left_gain codec)
  have hdr := up_dist_le codec.drvdata.handsfree.right_vol (hf_right_gain codec)
  have h := ramp_for_converges hf_tick
    (fun c => c.drvdata = codec.drvdata ∧
      twl6040_read_reg_cache c TWL6040_REG_HFLGAIN < 256 ∧
      twl6040_read_reg_cache c TWL6040_REG_HFRGAIN < 256)
    (fun c => max (up_dist codec.drvdata.handsfree.left_vol (hf_left_gain c))
      (up_dist codec.drvdata.handsfree.right_vol (hf_right_gain c)))
    (by
      intro c hinv hμ
      obtain ⟨hinv, _, _⟩ := hinv
      obtain ⟨h1, h2⟩ := max_eq_zero_of _ _ hμ
      rw [up_dist_eq_zero] at h1 h2
      exact hf_tick_done_up c (by rw [hinv]; exact hramp) (by rw [hinv]; exact h1)
        (by rw [hinv]; exact h2))
    (by
      intro c hinv hμ
      obtain ⟨hinv, hcl, hcr⟩ := hinv
      replace hμ : max (up_dist codec.drvdata.handsfree.left_vol (hf_left_gain c))
        (up_dist codec.drvdata.handsfree.right_vol (hf_right_gain c)) ≠ 0 := hμ
      have ht : hf_tick c = twl6040_hf_ramp_step c codec.drvdata.handsfree.left_step
          codec.drvdata.handsfree.right_step := by
        unfold hf_tick
        rw [hinv]
      obtain ⟨f, gl, gr, hd⟩ := hf_step_up c codec.drvdata.handsfree.left_step
        codec.drvdata.handsfree.right_step (by rw [hinv]; exact hramp)
        (by rw [hinv]; exact htl) (by rw [hinv]; exact htr) hcl hcr
      rw [hinv] at f gl gr hd
      obtain ⟨_, nl1, nl2⟩ := up_dist_next codec.drvdata.handsfree.left_vol
        (min codec.drvdata.handsfree.left_step 29) (hf_left_gain c) (by omega)
      obtain ⟨_, nr1, nr2⟩ := up_dist_next codec.drvdata.handsfree.right_vol
        (min codec.drvdata.handsfree.right_step 29) (hf_right_gain c) (by omega)
      rw [ht]
      refine ⟨?_, ⟨hd, hf_step_byte _ _ _ _ hcl, hf_step_byte _ _ _ _ hcr⟩, ?_⟩
      · rw [f, if_neg]
        intro hb
        apply hμ
        rw [(up_dist_eq_zero _ _).mpr hb.1, (up_dist_eq_zero _ _).mpr hb.2]
        rfl
      · show max (up_dist _ (hf_left_gain (twl6040_hf_ramp_step c _ _).1))
          (up_dist _ (hf_right_gain (twl6040_hf_ramp_step c _ _).1)) < _
        rw [gl, gr]
        exact max_lt_max_of _ _ _ _ nl1 nr1 nl2 nr2 hμ)
    30 0 codec ⟨rfl, hbl, hbr⟩ (by show max _ _ < 30; omega)
  obtain ⟨a, b, c, d, e⟩ := h
  obtain ⟨h1, h2⟩ := max_eq_zero_of _ _ d
  rw [up_dist_eq_zero] at h1 h2
  exact ⟨a, by simpa using b, by simpa using c, h1, h2, e.1⟩

/-- The handsfree loop on a Down ramp. -/
theorem hf_loop_down (codec : snd_soc_codec)
    (hramp : codec.drvdata.handsfree.ramp = TWL6040_RAMP_DOWN)
    (hsl : 1 ≤ codec.drvdata.handsfree.left_step)
    (hsr : 1 ≤ codec.drvdata.handsfree.right_step)
    (hbl : twl6040_read_reg_cache codec TWL6040_REG_HFLGAIN ≤ 0x1D)
    (hbr : twl6040_read_reg_cache codec TWL6040_REG_HFRGAIN ≤ 0x1D) :
    (twl6040_pga_hf_loop codec).2.2 = 1 ∧
      (twl6040_pga_hf_loop codec).2.1 ≤ max (hf_left_gain codec) (hf_right_gain codec) ∧
      (twl6040_pga_hf_loop codec).2.1 < 30 ∧
      hf_left_gain (twl6040_pga_hf_loop codec).1 = 0 ∧
      hf_right_gain (twl6040_pga_hf_loop codec).1 = 0 ∧
      (twl6040_pga_hf_loop codec).1.drvdata = codec.drvdata := by
  have hgl := hf_left_gain_of_le codec hbl
  have hgr := hf_right_gain_of_le codec hbr
  have h := ramp_for_converges hf_tick
    (fun c => c.drvdata = codec.drvdata ∧
      twl6040_read_reg_cache c TWL6040_REG_HFLGAIN < 256 ∧
      twl6040_read_reg_cache c TWL6040_REG_HFRGAIN < 256)
    (fun c => max (hf_left_gain c) (hf_right_gain c))
    (by
      intro c hinv hμ
      obtain ⟨hinv, _, _⟩ := hinv
      obtain ⟨h1, h2⟩ := max_eq_zero_of _ _ hμ
      exact hf_tick_done_down c (by rw [hinv]; exact hramp) h1 h2)
    (by
      intro c hinv hμ
      obtain ⟨hinv, hcl, hcr⟩ := hinv
      replace hμ : max (hf_left_gain c) (hf_right_gain c) ≠ 0 := hμ
      have ht : hf_tick c = twl6040_hf_ramp_step c codec.drvdata.handsfree.left_step
          codec.drvdata.handsfree.right_step := by
        unfold hf_tick
        rw [hinv]
      obtain ⟨f, gl, gr, hd⟩ := hf_step_down c codec.drvdata.handsfree.left_step
        codec.drvdata.handsfree.right_step (by rw [hinv]; exact hramp) hcl hcr
      rw [hinv] at hd
      obtain ⟨_, nl1, nl2⟩ := down_next_lt (min codec.drvdata.handsfree.left_step 29)
        (hf_left_gain c) (by omega)
      obtain ⟨_, nr1, nr2⟩ := down_next_lt (min codec.drvdata.handsfree.right_step 29)
        (hf_right_gain c) (by omega)
      rw [ht]
      refine ⟨?_, ⟨hd, hf_step_byte _ _ _ _ hcl, hf_step_byte _ _ _ _ hcr⟩, ?_⟩
      · rw [f, if_neg]
        intro hb
        apply hμ
        rw [hb.1, hb.2]
        rfl
      · show max (hf_left_gain (twl6040_hf_ramp_step c _ _).1)
          (hf_right_gain (twl6040_hf_ramp_step c _ _).1) < _
        rw [gl, gr]
        exact max_lt_max_of _ _ _ _ nl1 nr1 nl2 nr2 hμ)
    30 0 codec ⟨rfl, by omega, by omega⟩ (by show max _ _ < 30; omega)
  obtain ⟨a, b, c, d, e⟩ := h
  obtain ⟨h1, h2⟩ := max_eq_zero_of _ _ d
  exact ⟨a, by simpa using b, by simpa using c, h1, h2, e.1⟩

/-- The earphone loop on an Up ramp. -/
theorem ep_loop_up (codec : snd_soc_codec)
    (hramp : codec.drvdata.earphone.ramp = TWL6040_RAMP_UP)
    (ht : codec.drvdata.earphone.left_vol ≤ 15)
    (hs : 1 ≤ codec.drvdata.earphone.left_step ∨
      codec.drvdata.earphone.left_step = codec.drvdata.earphone.left_vol) :
    (twl6040_pga_ep_loop codec).2.2 = 1 ∧
      (twl6040_pga_ep_loop codec).2.1 ≤
        up_dist codec.drvdata.earphone.left_vol (ep_gain codec) ∧
      (twl6040_pga_ep_loop codec).2.1 < 16 ∧
      ep_gain (twl6040_pga_ep_loop codec).1 = codec.drvdata.earphone.left_vol ∧
      (twl6040_pga_ep_loop codec).1.drvdata = codec.drvdata := by
  have hdl := up_dist_le codec.drvdata.earphone.left_vol (ep_gain codec)
  have h := ramp_for_converges ep_tick (fun c => c.drvdata = codec.drvdata)
    (fun c => up_dist codec.drvdata.earphone.left_vol (ep_gain c))
    (by
      intro c hinv hμ
      replace hinv : c.drvdata = codec.drvdata := hinv
      replace hμ : up_dist codec.drvdata.earphone.left_vol (ep_gain c) = 0 := hμ
      rw [up_dist_eq_zero] at hμ
      exact ((ep_shape c _).1 (by rw [hinv]; exact hramp)).1 (by rw [hinv]; exact hμ))
    (by
      intro c hinv hμ
      replace hinv : c.drvdata = codec.drvdata := hinv
      replace hμ : up_dist codec.drvdata.earphone.left_vol (ep_gain c) ≠ 0 := hμ
      have htk : ep_tick c = twl6040_ep_ramp_step c codec.drvdata.earphone.left_step := by
        unfold ep_tick
        rw [hinv]
      obtain ⟨f, g⟩ := ep_up c codec.drvdata.earphone.left_step
        (by rw [hinv]; exact hramp) (by rw [hinv]; exact ht)
      have hd := ep_drvdata c codec.drvdata.earphone.left_step
      rw [hinv] at f g hd
      obtain ⟨_, n1, _⟩ := up_dist_next codec.drvdata.earphone.left_vol
        (min codec.drvdata.earphone.left_step 15) (ep_gain c) (by omega)
      rw [htk]
      refine ⟨?_, hd, ?_⟩
      · rw [f, if_neg]
        intro hb
        exact hμ ((up_dist_eq_zero _ _).mpr hb)
      · show up_dist _ (ep_gain (twl6040_ep_ramp_step c _).1) < _
        rw [g]
        exact n1 hμ)
    16 0 codec rfl (by show up_dist _ _ < 16; omega)
  obtain ⟨a, b, c, d, e⟩ := h
  replace d : up_dist codec.drvdata.earphone.left_vol
    (ep_gain (ramp_for ep_tick 16 0 codec).1) = 0 := d
  rw [up_dist_eq_zero] at d
  exact ⟨a, by simpa using b, by simpa using c, d, e⟩

/-- The earphone loop on a Down ramp. -/
theorem ep_loop_down (codec : snd_soc_codec)
    (hramp : codec.drvdata.earphone.ramp = TWL6040_RAMP_DOWN)
    (hs : 1 ≤ codec.drvdata.earphone.left_step) :
    (twl6040_pga_ep_loop codec).2.2 = 1 ∧
      (twl6040_pga_ep_loop codec).2.1 ≤ ep_gain codec ∧
      (twl6040_pga_ep_loop codec).2.1 < 16 ∧
      ep_gain (twl6040_pga_ep_loop codec).1 = 0 ∧
      (twl6040_pga_ep_loop codec).1.drvdata = codec.drvdata := by
  have hg := ep_gain_le codec
  have h := ramp_for_converges ep_tick (fun c => c.drvdata = codec.drvdata)
    (fun c => ep_gain c)
    (by
      intro c hinv hμ
      replace hinv : c.drvdata = codec.drvdata := hinv
      replace hμ : ep_gain c = 0 := hμ
      exact ((ep_shape c _).2.1 (by rw [hinv]; exact hramp)).1 hμ)
    (by
      intro c hinv hμ
      replace hinv : c.drvdata = codec.drvdata := hinv
      replace hμ : ep_gain c ≠ 0 := hμ
      have htk : ep_tick c = twl6040_ep_ramp_step c codec.drvdata.earphone.left_step := by
        unfold ep_tick
        rw [hinv]
      obtain ⟨f, g⟩ := ep_down c codec.drvdata.earphone.left_step
        (by rw [hinv]; exact hramp)
      have hd := ep_drvdata c codec.drvdata.earphone.left_step
      rw [hinv] at hd
      obtain ⟨_, n1, _⟩ := down_next_lt (min codec.drvdata.earphone.left_step 15)
        (ep_gain c) (by omega)
      rw [htk]
      refine ⟨?_, hd, ?_⟩
      · rw [f, if_neg hμ]
      · show ep_gain (twl6040_ep_ramp_step c _).1 < _
        rw [g]
        exact n1 hμ)
    16 0 codec rfl (by show ep_gain _ < 16; omega)
  obtain ⟨a, b, c, d, e⟩ := h
  exact ⟨a, by simpa using b, by simpa using c, d, e⟩

/-- C7: ramp convergence.  For every output, every cache whose gain fields
are in range (handsfree gain registers at most 0x1D), every in-range target
and every per-channel step that is at least 1 (or, on an Up ramp, equal to
the target), the loop of the ramp work function is left through the `break`
with the step reporting completion (flag 1, `i` below the bound of 16 or 30),
and every channel's cached gain then equals its target (Up) or 0 (Down). -/
theorem C7_ramp_converges (codec : snd_soc_codec) :
    (codec.drvdata.headset.ramp = TWL6040_RAMP_UP →
      codec.drvdata.headset.left_vol ≤ 15 → codec.drvdata.headset.right_vol ≤ 15 →
      (1 ≤ codec.drvdata.headset.left_step ∨
        codec.drvdata.headset.left_step = codec.drvdata.headset.left_vol) →
      (1 ≤ codec.drvdata.headset.right_step ∨
        codec.drvdata.headset.right_step = codec.drvdata.headset.right_vol) →
      (twl6040_pga_hs_loop codec).2.2 = 1 ∧ (twl6040_pga_hs_loop codec).2.1 < 16 ∧
        hs_left_gain (twl6040_pga_hs_loop codec).1 = codec.drvdata.headset.left_vol ∧
        hs_right_gain (twl6040_pga_hs_loop codec).1 = codec.drvdata.headset.right_vol) ∧
    (codec.drvdata.headset.ramp = TWL6040_RAMP_DOWN →
      1 ≤ codec.drvdata.headset.left_step → 1 ≤ codec.drvdata.headset.right_step →
      (twl6040_pga_hs_loop codec).2.2 = 1 ∧ (twl6040_pga_hs_loop codec).2.1 < 16 ∧
        hs_left_gain (twl6040_pga_hs_loop codec).1 = 0 ∧
        hs_right_gain (twl6040_pga_hs_loop codec).1 = 0) ∧
    (codec.drvdata.handsfree.ramp = TWL6040_RAMP_UP →
      twl6040_read_reg_cache codec TWL6040_REG_HFLGAIN ≤ 0x1D →
      twl6040_read_reg_cache codec TWL6040_REG_HFRGAIN ≤ 0x1D →
      codec.drvdata.handsfree.left_vol ≤ 29 → codec.drvdata.handsfree.right_vol ≤ 29 →
      (1 ≤ codec.drvdata.handsfree.left_step ∨
        codec.drvdata.handsfree.left_step = codec.drvdata.handsfree.left_vol) →
      (1 ≤ codec.drvdata.handsfree.right_step ∨
        codec.drvdata.handsfree.right_step = codec.drvdata.handsfree.right_vol) →
      (twl6040_pga_hf_loop codec).2.2 = 1 ∧ (twl6040_pga_hf_loop codec).2.1 < 30 ∧
        hf_left_gain (twl6040_pga_hf_loop codec).1 = codec.drvdata.handsfree.left_vol ∧
        hf_right_gain (twl6040_pga_hf_loop codec).1 =
          codec.drvdata.handsfree.right_vol) ∧
    (codec.drvdata.handsfree.ramp = TWL6040_RAMP_DOWN →
      twl6040_read_reg_cache codec TWL6040_REG_HFLGAIN ≤ 0x1D →
      twl6040_read_reg_cache codec TWL6040_REG_HFRGAIN ≤ 0x1D →
      1 ≤ codec.drvdata.handsfree.left_step → 1 ≤ codec.drvdata.handsfree.right_step →
      (twl6040_pga_hf_loop codec).2.2 = 1 ∧ (twl6040_pga_hf_loop codec).2.1 < 30 ∧
        hf_left_gain (twl6040_pga_hf_loop codec).1 = 0 ∧
        hf_right_gain (twl6040_pga_hf_loop codec).1 = 0) ∧
    (codec.drvdata.earphone.ramp = TWL6040_RAMP_UP →
      codec.drvdata.earphone.left_vol ≤ 15 →
      (1 ≤ codec.drvdata.earphone.left_step ∨
        codec.drvdata.earphone.left_step = codec.drvdata.earphone.left_vol) →
      (twl6040_pga_ep_loop codec).2.2 = 1 ∧ (twl6040_pga_ep_loop codec).2.1 < 16 ∧
        ep_gain (twl6040_pga_ep_loop codec).1 = codec.drvdata.earphone.left_vol) ∧
    (codec.drvdata.earphone.ramp = TWL6040_RAMP_DOWN →
      1 ≤ codec.drvdata.earphone.left_step →
      (twl6040_pga_ep_loop codec).2.2 = 1 ∧ (twl6040_pga_ep_loop codec).2.1 < 16 ∧
        ep_gain (twl6040_pga_ep_loop codec).1 = 0) := by
  refine ⟨?_, ?_, ?_, ?_, ?_, ?_⟩
  · intro hr htl htr hsl hsr
    obtain ⟨a, _, c, d, e, _⟩ := hs_loop_up codec hr htl htr hsl hsr
    exact ⟨a, c, d, e⟩
  · intro hr hsl hsr
    obtain ⟨a, _, c, d, e, _⟩ := hs_loop_down codec hr hsl hsr
    exact ⟨a, c, d, e⟩
  · intro hr hbl hbr htl htr hsl hsr
    obtain ⟨a, _, c, d, e, _⟩ := hf_loop_up codec hr htl htr hsl hsr (by omega) (by omega)
    exact ⟨a, c, d, e⟩
  · intro hr hbl hbr hsl hsr
    obtain ⟨a, _, c, d, e, _⟩ := hf_loop_down codec hr hsl hsr hbl hbr
    exact ⟨a, c, d, e⟩
  · intro hr ht hs
    obtain ⟨a, _, c, d, _⟩ := ep_loop_up codec hr ht hs
    exact ⟨a, c, d⟩
  · intro hr hs
    obtain ⟨a, _, c, d, _⟩ := ep_loop_down codec hr hs
    exact ⟨a, c, d⟩

set_option maxRecDepth 100000 in
/-- A concrete instance of C7: the Up ramps of the three outputs from gain 0
to the target 10 and the Down ramps from gain 10, all with step 1. -/
theorem C7_ramp_converges_witness :
    ((twl6040_pga_hs_loop up_codec).2.2 = 1 ∧ (twl6040_pga_hs_loop up_codec).2.1 < 16 ∧
        hs_left_gain (twl6040_pga_hs_loop up_codec).1 = up_codec.drvdata.headset.left_vol ∧
        hs_right_gain (twl6040_pga_hs_loop up_codec).1 =
          up_codec.drvdata.headset.right_vol) ∧
      ((twl6040_pga_hs_loop down_codec).2.2 = 1 ∧ (twl6040_pga_hs_loop down_codec).2.1 < 16 ∧
        hs_left_gain (twl6040_pga_hs_loop down_codec).1 = 0 ∧
        hs_right_gain (twl6040_pga_hs_loop down_codec).1 = 0) ∧
      ((twl6040_pga_hf_loop up_codec).2.2 = 1 ∧ (twl6040_pga_hf_loop up_codec).2.1 < 30 ∧
        hf_left_gain (twl6040_pga_hf_loop up_codec).1 =
          up_codec.drvdata.handsfree.left_vol ∧
        hf_right_gain (twl6040_pga_hf_loop up_codec).1 =
          up_codec.drvdata.handsfree.right_vol) ∧
      ((twl6040_pga_hf_loop down_codec).2.2 = 1 ∧ (twl6040_pga_hf_loop down_codec).2.1 < 30 ∧
        hf_left_gain (twl6040_pga_hf_loop down_codec).1 = 0 ∧
        hf_right_gain (twl6040_pga_hf_loop down_codec).1 = 0) ∧
      ((twl6040_pga_ep_loop up_codec).2.2 = 1 ∧ (twl6040_pga_ep_loop up_codec).2.1 < 16 ∧
        ep_gain (twl6040_pga_ep_loop up_codec).1 = up_codec.drvdata.earphone.left_vol) ∧
      ((twl6040_pga_ep_loop down_codec).2.2 = 1 ∧ (twl6040_pga_ep_loop down_codec).2.1 < 16 ∧
        ep_gain (twl6040_pga_ep_loop down_codec).1 = 0) :=
  ⟨(C7_ramp_converges up_codec).1 rfl (by decide) (by decide) (by decide) (by decide),
   (C7_ramp_converges down_codec).2.1 rfl (by decide) (by decide),
   (C7_ramp_converges up_codec).2.2.1 rfl (by decide) (by decide) (by decide) (by decide)
     (by decide) (by decide),
   (C7_ramp_converges down_codec).2.2.2.1 rfl (by decide) (by decide) (by decide)
     (by decide),
   (C7_ramp_converges up_codec).2.2.2.2.1 rfl (by decide) (by decide),
   (C7_ramp_converges down_codec).2.2.2.2.2 rfl (by decide)⟩

/-! ## Monotonicity of the Up ramp -/

theorem up_next_le (t s cur : Nat) : up_next t s cur ≤ t := by
  unfold up_next
  repeat' split
  all_goals omega

theorem up_next_ge (t s cur : Nat) (h : cur ≤ t) : cur ≤ up_next t s cur := by
  unfold up_next
  repeat' split
  all_goals omega

theorem hs_tick_drvdata (codec : snd_soc_codec) :
    (hs_tick codec).1.drvdata = codec.drvdata := by
  unfold hs_tick twl6040_hs_ramp_step
  simp only [hs_right_drvdata, hs_left_drvdata]

theorem hf_tick_drvdata (codec : snd_soc_codec) :
    (hf_tick codec).1.drvdata = codec.drvdata := by
  unfold hf_tick twl6040_hf_ramp_step
  simp only [hf_right_drvdata, hf_left_drvdata]

theorem ep_tick_drvdata (codec : snd_soc_codec) :
    (ep_tick codec).1.drvdata = codec.drvdata := by
  unfold ep_tick
  exact ep_drvdata _ _

theorem hs_ticks_succ (k : Nat) (codec : snd_soc_codec) :
    hs_ticks (k + 1) codec = (hs_tick (hs_ticks k codec)).1 := by
  unfold hs_ticks
  rw [Function.iterate_succ_apply']

theorem hf_ticks_succ (k : Nat) (codec : snd_soc_codec) :
    hf_ticks (k + 1) codec = (hf_tick (hf_ticks k codec)).1 := by
  unfold hf_ticks
  rw [Function.iterate_succ_apply']

theorem ep_ticks_succ (k : Nat) (codec : snd_soc_codec) :
    ep_ticks (k + 1) codec = (ep_tick (ep_ticks k codec)).1 := by
  unfold ep_ticks
  rw [Function.iterate_succ_apply']

theorem hs_ticks_drvdata (codec : snd_soc_codec) :
    ∀ k, (hs_ticks k codec).drvdata = codec.drvdata := by
  intro k
  induction k with
  | zero => rfl
  | succ k ih => rw [hs_ticks_succ, hs_tick_drvdata, ih]

theorem hf_ticks_drvdata (codec : snd_soc_codec) :
    ∀ k, (hf_ticks k codec).drvdata = codec.drvdata := by
  intro k
  induction k with
  | zero => rfl
  | succ k ih => rw [hf_ticks_succ, hf_tick_drvdata, ih]

theorem ep_ticks_drvdata (codec : snd_soc_codec) :
    ∀ k, (ep_ticks k codec).drvdata = codec.drvdata := by
  intro k
  induction k with
  | zero => rfl
  | succ k ih => rw [ep_ticks_succ, ep_tick_drvdata, ih]

theorem hf_ticks_byte (codec : snd_soc_codec) (reg : Nat)
    (hb : twl6040_read_reg_cache codec reg < 256) :
    ∀ k, twl6040_read_reg_cache (hf_ticks k codec) reg < 256 := by
  intro k
  induction k with
  | zero => exact hb
  | succ k ih =>
    rw [hf_ticks_succ]
    unfold hf_tick
    exact hf_step_byte _ _ _ _ ih

/-- Every Up tick of the headset leaves both gains at most at their target
and does not lower a gain that was at most at its target. -/
theorem hs_ticks_up (codec : snd_soc_codec)
    (hramp : codec.drvdata.headset.ramp = TWL6040_RAMP_UP)
    (htl : codec.drvdata.headset.left_vol ≤ 15)
    (htr : codec.drvdata.headset.right_vol ≤ 15) (k : Nat) :
    hs_left_gain (hs_ticks (k + 1) codec) ≤ codec.drvdata.headset.left_vol ∧
      hs_right_gain (hs_ticks (k + 1) codec) ≤ codec.drvdata.headset.right_vol ∧
      (hs_left_gain (hs_ticks k codec) ≤ codec.drvdata.headset.left_vol →
        hs_left_gain (hs_ticks k codec) ≤ hs_left_gain (hs_ticks (k + 1) codec)) ∧
      (hs_right_gain (hs_ticks k codec) ≤ codec.drvdata.headset.right_vol →
        hs_right_gain (hs_ticks k codec) ≤ hs_right_gain (hs_ticks (k + 1) codec)) := by
  have hd := hs_ticks_drvdata codec k
  obtain ⟨_, gl, gr, _⟩ := hs_step_up (hs_ticks k codec)
    (hs_ticks k codec).drvdata.headset.left_step (hs_ticks k codec).drvdata.headset.right_step
    (by rw [hd]; exact hramp) (by rw [hd]; exact htl) (by rw [hd]; exact htr)
  rw [hs_ticks_succ]
  unfold hs_tick
  rw [gl, gr, hd]
  exact ⟨up_next_le _ _ _, up_next_le _ _ _, up_next_ge _ _ _, up_next_ge _ _ _⟩

/-- Every Up tick of the handsfree output leaves both gains at most at their
target and does not lower a gain that was at most at its target. -/
theorem hf_ticks_up (codec : snd_soc_codec)
    (hramp : codec.drvdata.handsfree.ramp = TWL6040_RAMP_UP)
    (htl : codec.drvdata.handsfree.left_vol ≤ 29)
    (htr : codec.drvdata.handsfree.right_vol ≤ 29)
    (hbl : twl6040_read_reg_cache codec TWL6040_REG_HFLGAIN < 256)
    (hbr : twl6040_read_reg_cache codec TWL6040_REG_HFRGAIN < 256) (k : Nat) :
    hf_left_gain (hf_ticks (k + 1) codec) ≤ codec.drvdata.handsfree.left_vol ∧
      hf_right_gain (hf_ticks (k + 1) codec) ≤ codec.drvdata.handsfree.right_vol ∧
      (hf_left_gain (hf_ticks k codec) ≤ codec.drvdata.handsfree.left_vol →
        hf_left_gain (hf_ticks k codec) ≤ hf_left_gain (hf_ticks (k + 1) codec)) ∧
      (hf_right_gain (hf_ticks k codec) ≤ codec.drvdata.handsfree.right_vol →
        hf_right_gain (hf_ticks k codec) ≤ hf_right_gain (hf_ticks (k + 1) codec)) := by
  have hd := hf_ticks_drvdata codec k
  obtain ⟨_, gl, gr, _⟩ := hf_step_up (hf_ticks k codec)
    (hf_ticks k codec).drvdata.handsfree.left_step
    (hf_ticks k codec).drvdata.handsfree.right_step
    (by rw [hd]; exact hramp) (by rw [hd]; exact htl) (by rw [hd]; exact htr)
    (hf_ticks_byte codec _ hbl k) (hf_ticks_byte codec _ hbr k)
  rw [hf_ticks_succ]
  unfold hf_tick
  rw [gl, gr, hd]
  exact ⟨up_next_le _ _ _, up_next_le _ _ _, up_next_ge _ _ _, up_next_ge _ _ _⟩

/-- Every Up tick of the earphone leaves the gain at most at the target and
does not lower a gain that was at most at the target. -/
theorem ep_ticks_up (codec : snd_soc_codec)
    (hramp : codec.drvdata.earphone.ramp = TWL6040_RAMP_UP)
    (ht : codec.drvdata.earphone.left_vol ≤ 15) (k : Nat) :
    ep_gain (ep_ticks (k + 1) codec) ≤ codec.drvdata.earphone.left_vol ∧
      (ep_gain (ep_ticks k codec) ≤ codec.drvdata.earphone.left_vol →
        ep_gain (ep_ticks k codec) ≤ ep_gain (ep_ticks (k + 1) codec)) := by
  have hd := ep_ticks_drvdata codec k
  obtain ⟨_, g⟩ := ep_up (ep_ticks k codec) (ep_ticks k codec).drvdata.earphone.left_step
    (by rw [hd]; exact hramp) (by rw [hd]; exact ht)
  rw [ep_ticks_succ]
  unfold ep_tick
  rw [g, hd]
  exact ⟨up_next_le _ _ _, up_next_ge _ _ _⟩

/-- A sequence whose every step stays at most `t` and does not decrease
below a value at most `t` is, from a start at most `t`, non-decreasing and
bounded by `t`. -/
theorem mono_of_steps (g : Nat → Nat) (t : Nat)
    (hle : ∀ k, g (k + 1) ≤ t) (hge : ∀ k, g k ≤ t → g k ≤ g (k + 1)) :
    (g 0 ≤ t → ∀ k, g k ≤ g (k + 1) ∧ g k ≤ t) ∧
      (∀ k, 1 ≤ k → g k ≤ g (k + 1) ∧ g k ≤ t) := by
  have hb : ∀ k, 1 ≤ k → g k ≤ t := by
    intro k hk
    obtain ⟨j, rfl⟩ : ∃ j, k = j + 1 := ⟨k - 1, by omega⟩
    exact hle j
  refine ⟨?_, ?_⟩
  · intro h0 k
    have hk : g k ≤ t := by
      cases k with
      | zero => exact h0
      | succ j => exact hle j
    exact ⟨hge k hk, hk⟩
  · intro k hk
    exact ⟨hge k (hb k hk), hb k hk⟩

theorem up_next_above (t s cur : Nat) (h : t < cur) : up_next t s cur = t := by
  unfold up_next
  rw [if_neg (by omega), if_pos (by omega)]

/-- The first Up tick of the headset lowers a gain that starts above its
target to the target. -/
theorem hs_first_tick_above (codec : snd_soc_codec)
    (hramp : codec.drvdata.headset.ramp = TWL6040_RAMP_UP)
    (htl : codec.drvdata.headset.left_vol ≤ 15)
    (htr : codec.drvdata.headset.right_vol ≤ 15) :
    (codec.drvdata.headset.left_vol < hs_left_gain codec →
        hs_left_gain (hs_ticks 1 codec) = codec.drvdata.headset.left_vol) ∧
      (codec.drvdata.headset.right_vol < hs_right_gain codec →
        hs_right_gain (hs_ticks 1 codec) = codec.drvdata.headset.right_vol) := by
  obtain ⟨_, gl, gr, _⟩ := hs_step_up codec codec.drvdata.headset.left_step
    codec.drvdata.headset.right_step hramp htl htr
  have e : hs_ticks 1 codec = (hs_tick codec).1 := rfl
  rw [e]
  unfold hs_tick
  rw [gl, gr]
  exact ⟨up_next_above _ _ _, up_next_above _ _ _⟩

/-- The first Up tick of the handsfree output lowers a gain that starts
above its target to the target. -/
theorem hf_first_tick_above (codec : snd_soc_codec)
    (hramp : codec.drvdata.handsfree.ramp = TWL6040_RAMP_UP)
    (htl : codec.drvdata.handsfree.left_vol ≤ 29)
    (htr : codec.drvdata.handsfree.right_vol ≤ 29)
    (hbl : twl6040_read_reg_cache codec TWL6040_REG_HFLGAIN < 256)
    (hbr : twl6040_read_reg_cache codec TWL6040_REG_HFRGAIN < 256) :
    (codec.drvdata.handsfree.left_vol < hf_left_gain codec →
        hf_left_gain (hf_ticks 1 codec) = codec.drvdata.handsfree.left_vol) ∧
      (codec.drvdata.handsfree.right_vol < hf_right_gain codec →
        hf_right_gain (hf_ticks 1 codec) = codec.drvdata.handsfree.right_vol) := by
  obtain ⟨_, gl, gr, _⟩ := hf_step_up codec codec.drvdata.handsfree.left_step
    codec.drvdata.handsfree.right_step hramp htl htr hbl hbr
  have e : hf_ticks 1 codec = (hf_tick codec).1 := rfl
  rw [e]
  unfold hf_tick
  rw [gl, gr]
  exact ⟨up_next_above _ _ _, up_next_above _ _ _⟩

/-- The first Up tick of the earphone lowers a gain that starts above the
target to the target. -/
theorem ep_first_tick_above (codec : snd_soc_codec)
    (hramp : codec.drvdata.earphone.ramp = TWL6040_RAMP_UP)
    (ht : codec.drvdata.earphone.left_vol ≤ 15) :
    codec.drvdata.earphone.left_vol < ep_gain codec →
      ep_gain (ep_ticks 1 codec) = codec.drvdata.earphone.left_vol := by
  obtain ⟨_, g⟩ := ep_up codec codec.drvdata.earphone.left_step hramp ht
  have e : ep_ticks 1 codec = (ep_tick codec).1 := rfl
  rw [e]
  unfold ep_tick
  rw [g]
  exact up_next_above _ _ _

set_option maxRecDepth 100000 in
/-- C8, as stated, fails: on an Up ramp to the target 10 that starts from
the cached gain 15, the first tick lowers the headset left gain from 15 to
10, and the initial gain is above the target. -/
theorem C8_counterexample :
    loud_up_codec.drvdata.headset.ramp = TWL6040_RAMP_UP ∧
      loud_up_codec.drvdata.headset.left_vol = 10 ∧
      hs_left_gain (hs_ticks 0 loud_up_codec) = 15 ∧
      hs_left_gain (hs_ticks 1 loud_up_codec) = 10 ∧
      ¬ (hs_left_gain (hs_ticks 0 loud_up_codec) ≤
        hs_left_gain (hs_ticks 1 loud_up_codec)) ∧
      ¬ (hs_left_gain (hs_ticks 0 loud_up_codec) ≤
        loud_up_codec.drvdata.headset.left_vol) := by
  decide

/-- C8, amended: Up-ramp monotonicity.  During an Up ramp of any output with
in-range targets (the handsfree gain registers holding bytes), for every
channel whose initial cached gain is at most its target the sequence of
decoded gains over successive ramp-step ticks is non-decreasing and every
gain in it is bounded above by the target.  When the initial cached gain is
above the target, the first tick lowers it to the target; from any initial
gain, the gains are non-decreasing and bounded above by the target from the
first tick on. -/
theorem C8_up_ramp_monotone (codec : snd_soc_codec) :
    (codec.drvdata.headset.ramp = TWL6040_RAMP_UP →
      codec.drvdata.headset.left_vol ≤ 15 → codec.drvdata.headset.right_vol ≤ 15 →
      ((hs_left_gain codec ≤ codec.drvdata.headset.left_vol →
          ∀ k, hs_left_gain (hs_ticks k codec) ≤ hs_left_gain (hs_ticks (k + 1) codec) ∧
            hs_left_gain (hs_ticks k codec) ≤ codec.drvdata.headset.left_vol) ∧
        (∀ k, 1 ≤ k →
          hs_left_gain (hs_ticks k codec) ≤ hs_left_gain (hs_ticks (k + 1) codec) ∧
            hs_left_gain (hs_ticks k codec) ≤ codec.drvdata.headset.left_vol) ∧
        (codec.drvdata.headset.left_vol < hs_left_gain codec →
          hs_left_gain (hs_ticks 1 codec) = codec.drvdata.headset.left_vol)) ∧
      ((hs_right_gain codec ≤ codec.drvdata.headset.right_vol →
          ∀ k, hs_right_gain (hs_ticks k codec) ≤ hs_right_gain (hs_ticks (k + 1) codec) ∧
            hs_right_gain (hs_ticks k codec) ≤ codec.drvdata.headset.right_vol) ∧
        (∀ k, 1 ≤ k →
          hs_right_gain (hs_ticks k codec) ≤ hs_right_gain (hs_ticks (k + 1) codec) ∧
            hs_right_gain (hs_ticks k codec) ≤ codec.drvdata.headset.right_vol) ∧
        (codec.drvdata.headset.right_vol < hs_right_gain codec →
          hs_right_gain (hs_ticks 1 codec) = codec.drvdata.headset.right_vol))) ∧
    (codec.drvdata.handsfree.ramp = TWL6040_RAMP_UP →
      codec.drvdata.handsfree.left_vol ≤ 29 → codec.drvdata.handsfree.right_vol ≤ 29 →
      twl6040_read_reg_cache codec TWL6040_REG_HFLGAIN < 256 →
      twl6040_read_reg_cache codec TWL6040_REG_HFRGAIN < 256 →
      ((hf_left_gain codec ≤ codec.drvdata.handsfree.left_vol →
          ∀ k, hf_left_gain (hf_ticks k codec) ≤ hf_left_gain (hf_ticks (k + 1) codec) ∧
            hf_left_gain (hf_ticks k codec) ≤ codec.drvdata.handsfree.left_vol) ∧
        (∀ k, 1 ≤ k →
          hf_left_gain (hf_ticks k codec) ≤ hf_left_gain (hf_ticks (k + 1) codec) ∧
            hf_left_gain (hf_ticks k codec) ≤ codec.drvdata.handsfree.left_vol) ∧
        (codec.drvdata.handsfree.left_vol < hf_left_gain codec →
          hf_left_gain (hf_ticks 1 codec) = codec.drvdata.handsfree.left_vol)) ∧
      ((hf_right_gain codec ≤ codec.drvdata.handsfree.right_vol →
          ∀ k, hf_right_gain (hf_ticks k codec) ≤ hf_right_gain (hf_ticks (k + 1) codec) ∧
            hf_right_gain (hf_ticks k codec) ≤ codec.drvdata.handsfree.right_vol) ∧
        (∀ k, 1 ≤ k →
          hf_right_gain (hf_ticks k codec) ≤ hf_right_gain (hf_ticks (k + 1) codec) ∧
            hf_right_gain (hf_ticks k codec) ≤ codec.drvdata.handsfree.right_vol) ∧
        (codec.drvdata.handsfree.right_vol < hf_right_gain codec →
          hf_right_gain (hf_ticks 1 codec) = codec.drvdata.handsfree.right_vol))) ∧
    (codec.drvdata.earphone.ramp = TWL6040_RAMP_UP →
      codec.drvdata.earphone.left_vol ≤ 15 →
      ((ep_gain codec ≤ codec.drvdata.earphone.left_vol →
          ∀ k, ep_gain (ep_ticks k codec) ≤ ep_gain (ep_ticks (k + 1) codec) ∧
            ep_gain (ep_ticks k codec) ≤ codec.drvdata.earphone.left_vol) ∧
        (∀ k, 1 ≤ k →
          ep_gain (ep_ticks k codec) ≤ ep_gain (ep_ticks (k + 1) codec) ∧
            ep_gain (ep_ticks k codec) ≤ codec.drvdata.earphone.left_vol) ∧
        (codec.drvdata.earphone.left_vol < ep_gain codec →
          ep_gain (ep_ticks 1 codec) = codec.drvdata.earphone.left_vol))) := by
  refine ⟨?_, ?_, ?_⟩
  · intro hr htl htr
    have ml := mono_of_steps (fun k => hs_left_gain (hs_ticks k codec)) _
      (fun k => (hs_ticks_up codec hr htl htr k).1)
      (fun k => (hs_ticks_up codec hr htl htr k).2.2.1)
    have mr := mono_of_steps (fun k => hs_right_gain (hs_ticks k codec)) _
      (fun k => (hs_ticks_up codec hr htl htr k).2.1)
      (fun k => (hs_ticks_up codec hr htl htr k).2.2.2)
    exact ⟨⟨ml.1, ml.2, (hs_first_tick_above codec hr htl htr).1⟩,
      ⟨mr.1, mr.2, (hs_first_tick_above codec hr htl htr).2⟩⟩
  · intro hr htl htr hbl hbr
    have ml := mono_of_steps (fun k => hf_left_gain (hf_ticks k codec)) _
      (fun k => (hf_ticks_up codec hr htl htr hbl hbr k).1)
      (fun k => (hf_ticks_up codec hr htl htr hbl hbr k).2.2.1)
    have mr := mono_of_steps (fun k => hf_right_gain (hf_ticks k codec)) _
      (fun k => (hf_ticks_up codec hr htl htr hbl hbr k).2.1)
      (fun k => (hf_ticks_up codec hr htl htr hbl hbr k).2.2.2)
    exact ⟨⟨ml.1, ml.2, (hf_first_tick_above codec hr htl htr hbl hbr).1⟩,
      ⟨mr.1, mr.2, (hf_first_tick_above codec hr htl htr hbl hbr).2⟩⟩
  · intro hr ht
    have m := mono_of_steps (fun k => ep_gain (ep_ticks k codec)) _
      (fun k => (ep_ticks_up codec hr ht k).1)
      (fun k => (ep_ticks_up codec hr ht k).2)
    exact ⟨m.1, m.2, ep_first_tick_above codec hr ht⟩

set_option maxRecDepth 100000 in
/-- A concrete instance of the amended C8: the Up ramps from gain 0 to the
target 10 (ticks 3 and 4), and the Up ramps that start above the target, at
the gains 15, 29 and 15: the first tick lowers the gain to the target 10,
and the ticks 1 and 2 are in order. -/
theorem C8_up_ramp_monotone_witness :
    (hs_left_gain (hs_ticks 3 up_codec) ≤ hs_left_gain (hs_ticks (3 + 1) up_codec) ∧
        hs_left_gain (hs_ticks 3 up_codec) ≤ up_codec.drvdata.headset.left_vol) ∧
      (hs_right_gain (hs_ticks 1 loud_up_codec) ≤
          hs_right_gain (hs_ticks (1 + 1) loud_up_codec) ∧
        hs_right_gain (hs_ticks 1 loud_up_codec) ≤
          loud_up_codec.drvdata.headset.right_vol) ∧
      (hf_left_gain (hf_ticks 3 up_codec) ≤ hf_left_gain (hf_ticks (3 + 1) up_codec) ∧
        hf_left_gain (hf_ticks 3 up_codec) ≤ up_codec.drvdata.handsfree.left_vol) ∧
      (hf_right_gain (hf_ticks 1 loud_up_codec) ≤
          hf_right_gain (hf_ticks (1 + 1) loud_up_codec) ∧
        hf_right_gain (hf_ticks 1 loud_up_codec) ≤
          loud_up_codec.drvdata.handsfree.right_vol) ∧
      (ep_gain (ep_ticks 3 up_codec) ≤ ep_gain (ep_ticks (3 + 1) up_codec) ∧
        ep_gain (ep_ticks 3 up_codec) ≤ up_codec.drvdata.earphone.left_vol) ∧
      (ep_gain (ep_ticks 1 loud_up_codec) ≤ ep_gain (ep_ticks (1 + 1) loud_up_codec) ∧
        ep_gain (ep_ticks 1 loud_up_codec) ≤ loud_up_codec.drvdata.earphone.left_vol) ∧
      (hs_left_gain loud_up_codec = 15 ∧ hs_left_gain (hs_ticks 1 loud_up_codec) = 10) ∧
      (hf_right_gain loud_up_codec = 29 ∧ hf_right_gain (hf_ticks 1 loud_up_codec) = 10) ∧
      (ep_gain loud_up_codec = 15 ∧ ep_gain (ep_ticks 1 loud_up_codec) = 10) :=
  ⟨((C8_up_ramp_monotone up_codec).1 rfl (by decide) (by decide)).1.1 (by decide) 3,
   ((C8_up_ramp_monotone loud_up_codec).1 rfl (by decide) (by decide)).2.2.1 1 (by decide),
   ((C8_up_ramp_monotone up_codec).2.1 rfl (by decide) (by decide) (by decide)
     (by decide)).1.1 (by decide) 3,
   ((C8_up_ramp_monotone loud_up_codec).2.1 rfl (by decide) (by decide) (by decide)
     (by decide)).2.2.1 1 (by decide),
   ((C8_up_ramp_monotone up_codec).2.2 rfl (by decide)).1 (by decide) 3,
   ((C8_up_ramp_monotone loud_up_codec).2.2 rfl (by decide)).2.1 1 (by decide),
   ⟨by decide,
    (((C8_up_ramp_monotone loud_up_codec).1 rfl (by decide) (by decide)).1.2.2
      (by decide)).trans rfl⟩,
   ⟨by decide,
    (((C8_up_ramp_monotone loud_up_codec).2.1 rfl (by decide) (by decide) (by decide)
      (by decide)).2.2.2 (by decide)).trans rfl⟩,
   ⟨by decide,
    (((C8_up_ramp_monotone loud_up_codec).2.2 rfl (by decide)).2.2 (by decide)).trans rfl⟩⟩

/-! ## The ramp work functions -/

theorem hs_loop_drvdata (codec : snd_soc_codec) :
    (twl6040_pga_hs_loop codec).1.drvdata = codec.drvdata :=
  ramp_for_preserves hs_tick (fun c => c.drvdata = codec.drvdata)
    (fun c h => (hs_tick_drvdata c).trans h) 16 0 codec rfl

theorem hf_loop_drvdata (codec : snd_soc_codec) :
    (twl6040_pga_hf_loop codec).1.drvdata = codec.drvdata :=
  ramp_for_preserves hf_tick (fun c => c.drvdata = codec.drvdata)
    (fun c h => (hf_tick_drvdata c).trans h) 30 0 codec rfl

theorem ep_loop_drvdata (codec : snd_soc_codec) :
    (twl6040_pga_ep_loop codec).1.drvdata = codec.drvdata :=
  ramp_for_preserves ep_tick (fun c => c.drvdata = codec.drvdata)
    (fun c h => (ep_tick_drvdata c).trans h) 16 0 codec rfl

/-- The headset work function when a ramp is armed: the loop, then the
update of the output. -/
theorem pga_hs_work_armed (codec : snd_soc_codec)
    (h : codec.drvdata.headset.ramp ≠ TWL6040_RAMP_NONE) :
    twl6040_pga_hs_work codec =
      { (twl6040_pga_hs_loop codec).1 with
        drvdata := { codec.drvdata with headset := ramp_finish codec.drvdata.headset } } := by
  unfold twl6040_pga_hs_work
  rw [if_neg h]
  simp only [hs_loop_drvdata]

theorem pga_hf_work_armed (codec : snd_soc_codec)
    (h : codec.drvdata.handsfree.ramp ≠ TWL6040_RAMP_NONE) :
    twl6040_pga_hf_work codec =
      { (twl6040_pga_hf_loop codec).1 with
        drvdata := { codec.drvdata with
          handsfree := ramp_finish codec.drvdata.handsfree } } := by
  unfold twl6040_pga_hf_work
  rw [if_neg h]
  simp only [hf_loop_drvdata]

theorem pga_ep_work_armed (codec : snd_soc_codec)
    (h : codec.drvdata.earphone.ramp ≠ TWL6040_RAMP_NONE) :
    twl6040_pga_ep_work codec =
      { (twl6040_pga_ep_loop codec).1 with
        drvdata := { codec.drvdata with earphone := ramp_finish codec.drvdata.earphone } } := by
  unfold twl6040_pga_ep_work
  rw [if_neg h]
  simp only [ep_loop_drvdata]

theorem ramp_finish_down (out : twl6040_output) (h : out.ramp = TWL6040_RAMP_DOWN) :
    (ramp_finish out).active = 0 ∧ (ramp_finish out).ramp_done = out.ramp_done + 1 ∧
      (ramp_finish out).ramp = TWL6040_RAMP_NONE := by
  unfold ramp_finish
  rw [if_pos h]
  exact ⟨rfl, rfl, rfl⟩

theorem ramp_finish_up (out : twl6040_output) (h : out.ramp = TWL6040_RAMP_UP) :
    (ramp_finish out).active = 1 ∧ (ramp_finish out).ramp_done = out.ramp_done ∧
      (ramp_finish out).ramp = TWL6040_RAMP_NONE := by
  unfold ramp_finish
  rw [if_neg (by rw [h]; decide)]
  exact ⟨rfl, rfl, rfl⟩

/-- C9: effects of the ramp work functions.  Run with direction Down, a
work function ends with `active = 0` and the completion `ramp_done`
signalled once; with direction Up it ends with `active = 1` and the
completion untouched; in both cases the direction is reset to None.
Entered with direction None it returns the codec unchanged: no state
change and no register write. -/
theorem C9_ramp_work_effects (codec : snd_soc_codec) :
    ((codec.drvdata.headset.ramp = TWL6040_RAMP_DOWN →
        (twl6040_pga_hs_work codec).drvdata.headset.active = 0 ∧
        (twl6040_pga_hs_work codec).drvdata.headset.ramp_done =
          codec.drvdata.headset.ramp_done + 1 ∧
        (twl6040_pga_hs_work codec).drvdata.headset.ramp = TWL6040_RAMP_NONE) ∧
      (codec.drvdata.headset.ramp = TWL6040_RAMP_UP →
        (twl6040_pga_hs_work codec).drvdata.headset.active = 1 ∧
        (twl6040_pga_hs_work codec).drvdata.headset.ramp_done =
          codec.drvdata.headset.ramp_done ∧
        (twl6040_pga_hs_work codec).drvdata.headset.ramp = TWL6040_RAMP_NONE) ∧
      (codec.drvdata.headset.ramp = TWL6040_RAMP_NONE →
        twl6040_pga_hs_work codec = codec)) ∧
    ((codec.drvdata.handsfree.ramp = TWL6040_RAMP_DOWN →
        (twl6040_pga_hf_work codec).drvdata.handsfree.active = 0 ∧
        (twl6040_pga_hf_work codec).drvdata.handsfree.ramp_done =
          codec.drvdata.handsfree.ramp_done + 1 ∧
        (twl6040_pga_hf_work codec).drvdata.handsfree.ramp = TWL6040_RAMP_NONE) ∧
      (codec.drvdata.handsfree.ramp = TWL6040_RAMP_UP →
        (twl6040_pga_hf_work codec).drvdata.handsfree.active = 1 ∧
        (twl6040_pga_hf_work codec).drvdata.handsfree.ramp_done =
          codec.drvdata.handsfree.ramp_done ∧
        (twl6040_pga_hf_work codec).drvdata.handsfree.ramp = TWL6040_RAMP_NONE) ∧
      (codec.drvdata.handsfree.ramp = TWL6040_RAMP_NONE →
        twl6040_pga_hf_work codec = codec)) ∧
    ((codec.drvdata.earphone.ramp = TWL6040_RAMP_DOWN →
        (twl6040_pga_ep_work codec).drvdata.earphone.active = 0 ∧
        (twl6040_pga_ep_work codec).drvdata.earphone.ramp_done =
          codec.drvdata.earphone.ramp_done + 1 ∧
        (twl6040_pga_ep_work codec).drvdata.earphone.ramp = TWL6040_RAMP_NONE) ∧
      (codec.drvdata.earphone.ramp = TWL6040_RAMP_UP →
        (twl6040_pga_ep_work codec).drvdata.earphone.active = 1 ∧
        (twl6040_pga_ep_work codec).drvdata.earphone.ramp_done =
          codec.drvdata.earphone.ramp_done ∧
        (twl6040_pga_ep_work codec).drvdata.earphone.ramp = TWL6040_RAMP_NONE) ∧
      (codec.drvdata.earphone.ramp = TWL6040_RAMP_NONE →
        twl6040_pga_ep_work codec = codec)) := by
  refine ⟨⟨?_, ?_, ?_⟩, ⟨?_, ?_, ?_⟩, ⟨?_, ?_, ?_⟩⟩
  · intro h
    rw [pga_hs_work_armed codec (by rw [h]; decide)]
    exact ramp_finish_down _ h
  · intro h
    rw [pga_hs_work_armed codec (by rw [h]; decide)]
    exact ramp_finish_up _ h
  · intro h
    unfold twl6040_pga_hs_work
    rw [if_pos h]
  · intro h
    rw [pga_hf_work_armed codec (by rw [h]; decide)]
    exact ramp_finish_down _ h
  · intro h
    rw [pga_hf_work_armed codec (by rw [h]; decide)]
    exact ramp_finish_up _ h
  · intro h
    unfold twl6040_pga_hf_work
    rw [if_pos h]
  · intro h
    rw [pga_ep_work_armed codec (by rw [h]; decide)]
    exact ramp_finish_down _ h
  · intro h
    rw [pga_ep_work_armed codec (by rw [h]; decide)]
    exact ramp_finish_up _ h
  · intro h
    unfold twl6040_pga_ep_work
    rw [if_pos h]

/-- A concrete instance of C9: the Down ramps of `down_codec`, the Up ramps
of `up_codec` and the probed codec, on which no ramp is armed. -/
theorem C9_ramp_work_effects_witness :
    ((twl6040_pga_hs_work down_codec).drvdata.headset.active = 0 ∧
        (twl6040_pga_hs_work down_codec).drvdata.headset.ramp_done =
          down_codec.drvdata.headset.ramp_done + 1 ∧
        (twl6040_pga_hs_work down_codec).drvdata.headset.ramp = TWL6040_RAMP_NONE) ∧
      ((twl6040_pga_hs_work up_codec).drvdata.headset.active = 1 ∧
        (twl6040_pga_hs_work up_codec).drvdata.headset.ramp_done =
          up_codec.drvdata.headset.ramp_done ∧
        (twl6040_pga_hs_work up_codec).drvdata.headset.ramp = TWL6040_RAMP_NONE) ∧
      twl6040_pga_hs_work probe_codec = probe_codec ∧
      ((twl6040_pga_hf_work down_codec).drvdata.handsfree.active = 0 ∧
        (twl6040_pga_hf_work down_codec).drvdata.handsfree.ramp_done =
          down_codec.drvdata.handsfree.ramp_done + 1 ∧
        (twl6040_pga_hf_work down_codec).drvdata.handsfree.ramp = TWL6040_RAMP_NONE) ∧
      ((twl6040_pga_hf_work up_codec).drvdata.handsfree.active = 1 ∧
        (twl6040_pga_hf_work up_codec).drvdata.handsfree.ramp_done =
          up_codec.drvdata.handsfree.ramp_done ∧
        (twl6040_pga_hf_work up_codec).drvdata.handsfree.ramp = TWL6040_RAMP_NONE) ∧
      twl6040_pga_hf_work probe_codec = probe_codec ∧
      ((twl6040_pga_ep_work down_codec).drvdata.earphone.active = 0 ∧
        (twl6040_pga_ep_work down_codec).drvdata.earphone.ramp_done =
          down_codec.drvdata.earphone.ramp_done + 1 ∧
        (twl6040_pga_ep_work down_codec).drvdata.earphone.ramp = TWL6040_RAMP_NONE) ∧
      ((twl6040_pga_ep_work up_codec).drvdata.earphone.active = 1 ∧
        (twl6040_pga_ep_work up_codec).drvdata.earphone.ramp_done =
          up_codec.drvdata.earphone.ramp_done ∧
        (twl6040_pga_ep_work up_codec).drvdata.earphone.ramp = TWL6040_RAMP_NONE) ∧
      twl6040_pga_ep_work probe_codec = probe_codec :=
  ⟨(C9_ramp_work_effects down_codec).1.1 rfl,
   (C9_ramp_work_effects up_codec).1.2.1 rfl,
   (C9_ramp_work_effects probe_codec).1.2.2 rfl,
   (C9_ramp_work_effects down_codec).2.1.1 rfl,
   (C9_ramp_work_effects up_codec).2.1.2.1 rfl,
   (C9_ramp_work_effects probe_codec).2.1.2.2 rfl,
   (C9_ramp_work_effects down_codec).2.2.1 rfl,
   (C9_ramp_work_effects up_codec).2.2.2.1 rfl,
   (C9_ramp_work_effects probe_codec).2.2.2.2 rfl⟩

/-! ## Power-up of an output -/

theorem up_next_jump (t mx cur : Nat) (h : t ≤ mx) : up_next t (min t mx) cur = t := by
  unfold up_next
  repeat' split
  all_goals omega

/-- A loop whose second tick reports completion is left after at most two
ticks, in the state the first tick produced. -/
theorem ramp_for_jump (step : snd_soc_codec → snd_soc_codec × Nat) (n i : Nat)
    (codec : snd_soc_codec) (hn : 2 ≤ n)
    (hflag : (step codec).2 = 0 ∨ step codec = (codec, 1))
    (hnext : step (step codec).1 = ((step codec).1, 1)) :
    (ramp_for step n i codec).2.2 = 1 ∧
      (ramp_for step n i codec).2.1 ≤ i + 1 ∧
      (ramp_for step n i codec).1 = (step codec).1 := by
  obtain ⟨m, rfl⟩ : ∃ m, n = m + 2 := ⟨n - 2, by omega⟩
  rcases hflag with h0 | h1
  · have e : ramp_for step (m + 2) i codec = ((step codec).1, i + 1, 1) := by
      simp only [ramp_for, h0, hnext, ne_eq, not_true_eq_false, if_false, one_ne_zero,
        not_false_eq_true, if_true]
    rw [e]
    exact ⟨rfl, Nat.le_refl _, rfl⟩
  · have e : ramp_for step (m + 2) i codec = (codec, i, 1) := by
      simp only [ramp_for, h1, ne_eq, one_ne_zero, not_false_eq_true, if_true]
    rw [e, h1]
    exact ⟨rfl, Nat.le_succ _, rfl⟩

/-- `out_drv_event` for the power-up of the inactive headset. -/
theorem out_drv_event_hs_pmu (codec : snd_soc_codec)
    (w : snd_soc_codec → snd_soc_codec × Nat)
    (ha : codec.drvdata.headset.active = 0) :
    out_drv_event codec 2 SND_SOC_DAPM_POST_PMU w =
      (0, { codec with
        drvdata := { codec.drvdata with
          headset := { codec.drvdata.headset with
            work_queued := true, left_step := codec.drvdata.headset.left_vol,
            right_step := codec.drvdata.headset.right_vol, step_delay := 5,
            ramp := TWL6040_RAMP_UP } } }) := by
  simp [out_drv_event, out_drv_select, get_out, set_out, ha]

theorem out_drv_event_hf_pmu (codec : snd_soc_codec)
    (w : snd_soc_codec → snd_soc_codec × Nat) (shift : Nat) (hs : shift = 4 ∨ shift = 6)
    (ha : codec.drvdata.handsfree.active = 0) :
    out_drv_event codec shift SND_SOC_DAPM_POST_PMU w =
      (0, { codec with
        drvdata := { codec.drvdata with
          handsfree := { codec.drvdata.handsfree with
            work_queued := true, left_step := codec.drvdata.handsfree.left_vol,
            right_step := codec.drvdata.handsfree.right_vol, step_delay := 5,
            ramp := TWL6040_RAMP_UP } } }) := by
  rcases hs with rfl | rfl <;>
    simp [out_drv_event, out_drv_select, get_out, set_out, ha]

theorem out_drv_event_ep_pmu (codec : snd_soc_codec)
    (w : snd_soc_codec → snd_soc_codec × Nat)
    (ha : codec.drvdata.earphone.active = 0) :
    out_drv_event codec 0 SND_SOC_DAPM_POST_PMU w =
      (0, { codec with
        drvdata := { codec.drvdata with
          earphone := { codec.drvdata.earphone with
            work_queued := true, left_step := codec.drvdata.earphone.left_vol,
            right_step := codec.drvdata.earphone.right_vol, step_delay := 5,
            ramp := TWL6040_RAMP_UP } } }) := by
  simp [out_drv_event, out_drv_select, get_out, set_out, ha]

/-- The headset task with the steps equal to the in-range targets: the first
tick sets both gains to their targets, the loop is left after at most two
ticks, and the work ends active with the gains at the targets. -/
theorem hs_jump (codec : snd_soc_codec)
    (hramp : codec.drvdata.headset.ramp = TWL6040_RAMP_UP)
    (htl : codec.drvdata.headset.left_vol ≤ 15)
    (htr : codec.drvdata.headset.right_vol ≤ 15)
    (hsl : codec.drvdata.headset.left_step = codec.drvdata.headset.left_vol)
    (hsr : codec.drvdata.headset.right_step = codec.drvdata.headset.right_vol) :
    hs_left_gain (hs_tick codec).1 = codec.drvdata.headset.left_vol ∧
      hs_right_gain (hs_tick codec).1 = codec.drvdata.headset.right_vol ∧
      (twl6040_pga_hs_loop codec).2.2 = 1 ∧
      (twl6040_pga_hs_loop codec).2.1 ≤ 1 ∧
      (twl6040_pga_hs_work codec).drvdata.headset.active = 1 ∧
      (twl6040_pga_hs_work codec).drvdata.headset.ramp = TWL6040_RAMP_NONE ∧
      hs_left_gain (twl6040_pga_hs_work codec) = codec.drvdata.headset.left_vol ∧
      hs_right_gain (twl6040_pga_hs_work codec) = codec.drvdata.headset.right_vol := by
  obtain ⟨f, gl, gr, hd⟩ := hs_step_up codec codec.drvdata.headset.left_vol
    codec.drvdata.headset.right_vol hramp htl htr
  rw [up_next_jump _ _ _ htl] at gl
  rw [up_next_jump _ _ _ htr] at gr
  have ht : hs_tick codec = twl6040_hs_ramp_step codec codec.drvdata.headset.left_vol
      codec.drvdata.headset.right_vol := by
    unfold hs_tick
    rw [hsl, hsr]
  have hflag : (hs_tick codec).2 = 0 ∨ hs_tick codec = (codec, 1) := by
    by_cases hb : hs_left_gain codec = codec.drvdata.headset.left_vol ∧
        hs_right_gain codec = codec.drvdata.headset.right_vol
    · exact Or.inr (hs_tick_done_up codec hramp hb.1 hb.2)
    · left
      rw [ht, f, if_neg hb]
  have hnext : hs_tick (hs_tick codec).1 = ((hs_tick codec).1, 1) := by
    apply hs_tick_done_up
    · rw [hs_tick_drvdata]; exact hramp
    · rw [hs_tick_drvdata, ht]; exact gl
    · rw [hs_tick_drvdata, ht]; exact gr
  have el : twl6040_pga_hs_loop codec = ramp_for hs_tick 16 0 codec := rfl
  obtain ⟨j1, j2, j3⟩ := ramp_for_jump hs_tick 16 0 codec (by decide) hflag hnext
  rw [← el] at j1 j2 j3
  have hl : (twl6040_pga_hs_loop codec).1 = (hs_tick codec).1 := j3
  have hw := pga_hs_work_armed codec (by rw [hramp]; decide)
  have hgl : hs_left_gain (twl6040_pga_hs_work codec) =
      hs_left_gain (twl6040_pga_hs_loop codec).1 := by rw [hw]; rfl
  have hgr : hs_right_gain (twl6040_pga_hs_work codec) =
      hs_right_gain (twl6040_pga_hs_loop codec).1 := by rw [hw]; rfl
  refine ⟨by rw [ht]; exact gl, by rw [ht]; exact gr, j1, by omega, ?_, ?_, ?_, ?_⟩
  · rw [hw]; exact (ramp_finish_up _ hramp).1
  · rw [hw]; exact (ramp_finish_up _ hramp).2.2
  · rw [hgl, hl, ht]; exact gl
  · rw [hgr, hl, ht]; exact gr

/-- The handsfree task with the steps equal to the in-range targets. -/
theorem hf_jump (codec : snd_soc_codec)
    (hramp : codec.drvdata.handsfree.ramp = TWL6040_RAMP_UP)
    (htl : codec.drvdata.handsfree.left_vol ≤ 29)
    (htr : codec.drvdata.handsfree.right_vol ≤ 29)
    (hsl : codec.drvdata.handsfree.left_step = codec.drvdata.handsfree.left_vol)
    (hsr : codec.drvdata.handsfree.right_step = codec.drvdata.handsfree.right_vol)
    (hbl : twl6040_read_reg_cache codec TWL6040_REG_HFLGAIN < 256)
    (hbr : twl6040_read_reg_cache codec TWL6040_REG_HFRGAIN < 256) :
    hf_left_gain (hf_tick codec).1 = codec.drvdata.handsfree.left_vol ∧
      hf_right_gain (hf_tick codec).1 = codec.drvdata.handsfree.right_vol ∧
      (twl6040_pga_hf_loop codec).2.2 = 1 ∧
      (twl6040_pga_hf_loop codec).2.1 ≤ 1 ∧
      (twl6040_pga_hf_work codec).drvdata.handsfree.active = 1 ∧
      (twl6040_pga_hf_work codec).drvdata.handsfree.ramp = TWL6040_RAMP_NONE ∧
      hf_left_gain (twl6040_pga_hf_work codec) = codec.drvdata.handsfree.left_vol ∧
      hf_right_gain (twl6040_pga_hf_work codec) = codec.drvdata.handsfree.right_vol := by
  obtain ⟨f, gl, gr, hd⟩ := hf_step_up codec codec.drvdata.handsfree.left_vol
    codec.drvdata.handsfree.right_vol hramp htl htr hbl hbr
  rw [up_next_jump _ _ _ htl] at gl
  rw [up_next_jump _ _ _ htr] at gr
  have ht : hf_tick codec = twl6040_hf_ramp_step codec codec.drvdata.handsfree.left_vol
      codec.drvdata.handsfree.right_vol := by
    unfold hf_tick
    rw [hsl, hsr]
  have hflag : (hf_tick codec).2 = 0 ∨ hf_tick codec = (codec, 1) := by
    by_cases hb : hf_left_gain codec = codec.drvdata.handsfree.left_vol ∧
        hf_right_gain codec = codec.drvdata.handsfree.right_vol
    · exact Or.inr (hf_tick_done_up codec hramp hb.1 hb.2)
    · left
      rw [ht, f, if_neg hb]
  have hnext : hf_tick (hf_tick codec).1 = ((hf_tick codec).1, 1) := by
    apply hf_tick_done_up
    · rw [hf_tick_drvdata]; exact hramp
    · rw [hf_tick_drvdata, ht]; exact gl
    · rw [hf_tick_drvdata, ht]; exact gr
  have el : twl6040_pga_hf_loop codec = ramp_for hf_tick 30 0 codec := rfl
  obtain ⟨j1, j2, j3⟩ := ramp_for_jump hf_tick 30 0 codec (by decide) hflag hnext
  rw [← el] at j1 j2 j3
  have hl : (twl6040_pga_hf_loop codec).1 = (hf_tick codec).1 := j3
  have hw := pga_hf_work_armed codec (by rw [hramp]; decide)
  have hgl : hf_left_gain (twl6040_pga_hf_work codec) =
      hf_left_gain (twl6040_pga_hf_loop codec).1 := by rw [hw]; rfl
  have hgr : hf_right_gain (twl6040_pga_hf_work codec) =
      hf_right_gain (twl6040_pga_hf_loop codec).1 := by rw [hw]; rfl
  refine ⟨by rw [ht]; exact gl, by rw [ht]; exact gr, j1, by omega, ?_, ?_, ?_, ?_⟩
  · rw [hw]; exact (ramp_finish_up _ hramp).1
  · rw [hw]; exact (ramp_finish_up _ hramp).2.2
  · rw [hgl, hl, ht]; exact gl
  · rw [hgr, hl, ht]; exact gr

/-- The earphone task with the step equal to the in-range target. -/
theorem ep_jump (codec : snd_soc_codec)
    (hramp : codec.drvdata.earphone.ramp = TWL6040_RAMP_UP)
    (htl : codec.drvdata.earphone.left_vol ≤ 15)
    (hsl : codec.drvdata.earphone.left_step = codec.drvdata.earphone.left_vol) :
    ep_gain (ep_tick codec).1 = codec.drvdata.earphone.left_vol ∧
      (twl6040_pga_ep_loop codec).2.2 = 1 ∧
      (twl6040_pga_ep_loop codec).2.1 ≤ 1 ∧
      (twl6040_pga_ep_work codec).drvdata.earphone.active = 1 ∧
      (twl6040_pga_ep_work codec).drvdata.earphone.ramp = TWL6040_RAMP_NONE ∧
      ep_gain (twl6040_pga_ep_work codec) = codec.drvdata.earphone.left_vol := by
  obtain ⟨f, g⟩ := ep_up codec codec.drvdata.earphone.left_vol hramp htl
  rw [up_next_jump _ _ _ htl] at g
  have ht : ep_tick codec = twl6040_ep_ramp_step codec codec.drvdata.earphone.left_vol := by
    unfold ep_tick
    rw [hsl]
  have hflag : (ep_tick codec).2 = 0 ∨ ep_tick codec = (codec, 1) := by
    by_cases hb : ep_gain codec = codec.drvdata.earphone.left_vol
    · exact Or.inr (((ep_shape codec _).1 hramp).1 hb)
    · left
      rw [ht, f, if_neg hb]
  have hnext : ep_tick (ep_tick codec).1 = ((ep_tick codec).1, 1) := by
    apply ((ep_shape (ep_tick codec).1 _).1 _).1
    · rw [ep_tick_drvdata, ht]; exact g
    · rw [ep_tick_drvdata]; exact hramp
  have el : twl6040_pga_ep_loop codec = ramp_for ep_tick 16 0 codec := rfl
  obtain ⟨j1, j2, j3⟩ := ramp_for_jump ep_tick 16 0 codec (by decide) hflag hnext
  rw [← el] at j1 j2 j3
  have hl : (twl6040_pga_ep_loop codec).1 = (ep_tick codec).1 := j3
  have hw := pga_ep_work_armed codec (by rw [hramp]; decide)
  have hg : ep_gain (twl6040_pga_ep_work codec) =
      ep_gain (twl6040_pga_ep_loop codec).1 := by rw [hw]; rfl
  refine ⟨by rw [ht]; exact g, j1, by omega, ?_, ?_, ?_⟩
  · rw [hw]; exact (ramp_finish_up _ hramp).1
  · rw [hw]; exact (ramp_finish_up _ hramp).2.2
  · rw [hg, hl, ht]; exact g

/-- C10: the power-up jump.  For every output that is not active and whose
targets are within hardware range (the handsfree gain registers holding
bytes), `out_drv_event(POST_PMU)` returns 0, writes no register, sets
`ramp` to Up, sets `left_step`/`right_step` to `left_vol`/`right_vol` and
queues the ramp task.  When the task runs, its first tick sets the cached
gain of every channel to its target from any starting gain, the loop is left
through the `break` with `i ≤ 1` (at most two ticks), and the task ends with
`active = 1` and the cached gains equal to the targets. -/
theorem C10_power_up_jump (codec : snd_soc_codec)
    (w : snd_soc_codec → snd_soc_codec × Nat) :
    (codec.drvdata.headset.active = 0 →
      codec.drvdata.headset.left_vol ≤ 15 → codec.drvdata.headset.right_vol ≤ 15 →
      (out_drv_event codec 2 SND_SOC_DAPM_POST_PMU w).1 = 0 ∧
      (power_up codec 2 w).drvdata.headset.ramp = TWL6040_RAMP_UP ∧
      (power_up codec 2 w).drvdata.headset.left_step = codec.drvdata.headset.left_vol ∧
      (power_up codec 2 w).drvdata.headset.right_step = codec.drvdata.headset.right_vol ∧
      (power_up codec 2 w).drvdata.headset.left_vol = codec.drvdata.headset.left_vol ∧
      (power_up codec 2 w).drvdata.headset.right_vol = codec.drvdata.headset.right_vol ∧
      (power_up codec 2 w).drvdata.headset.work_queued = true ∧
      (power_up codec 2 w).reg_cache = codec.reg_cache ∧
      (power_up codec 2 w).control_data = codec.control_data ∧
      hs_left_gain (hs_tick (dequeue_work (power_up codec 2 w) output_sel.headset)).1 =
        codec.drvdata.headset.left_vol ∧
      hs_right_gain (hs_tick (dequeue_work (power_up codec 2 w) output_sel.headset)).1 =
        codec.drvdata.headset.right_vol ∧
      (twl6040_pga_hs_loop
        (dequeue_work (power_up codec 2 w) output_sel.headset)).2.2 = 1 ∧
      (twl6040_pga_hs_loop
        (dequeue_work (power_up codec 2 w) output_sel.headset)).2.1 ≤ 1 ∧
      (run_ramp_work (power_up codec 2 w) output_sel.headset).drvdata.headset.active = 1 ∧
      hs_left_gain (run_ramp_work (power_up codec 2 w) output_sel.headset) =
        codec.drvdata.headset.left_vol ∧
      hs_right_gain (run_ramp_work (power_up codec 2 w) output_sel.headset) =
        codec.drvdata.headset.right_vol) ∧
    (∀ shift, shift = 4 ∨ shift = 6 →
      codec.drvdata.handsfree.active = 0 →
      codec.drvdata.handsfree.left_vol ≤ 29 → codec.drvdata.handsfree.right_vol ≤ 29 →
      twl6040_read_reg_cache codec TWL6040_REG_HFLGAIN < 256 →
      twl6040_read_reg_cache codec TWL6040_REG_HFRGAIN < 256 →
      (out_drv_event codec shift SND_SOC_DAPM_POST_PMU w).1 = 0 ∧
      (power_up codec shift w).drvdata.handsfree.ramp = TWL6040_RAMP_UP ∧
      (power_up codec shift w).drvdata.handsfree.left_step =
        codec.drvdata.handsfree.left_vol ∧
      (power_up codec shift w).drvdata.handsfree.right_step =
        codec.drvdata.handsfree.right_vol ∧
      (power_up codec shift w).drvdata.handsfree.left_vol =
        codec.drvdata.handsfree.left_vol ∧
      (power_up codec shift w).drvdata.handsfree.right_vol =
        codec.drvdata.handsfree.right_vol ∧
      (power_up codec shift w).drvdata.handsfree.work_queued = true ∧
      (power_up codec shift w).reg_cache = codec.reg_cache ∧
      (power_up codec shift w).control_data = codec.control_data ∧
      hf_left_gain (hf_tick (dequeue_work (power_up codec shift w) output_sel.handsfree)).1 =
        codec.drvdata.handsfree.left_vol ∧
      hf_right_gain
          (hf_tick (dequeue_work (power_up codec shift w) output_sel.handsfree)).1 =
        codec.drvdata.handsfree.right_vol ∧
      (twl6040_pga_hf_loop
        (dequeue_work (power_up codec shift w) output_sel.handsfree)).2.2 = 1 ∧
      (twl6040_pga_hf_loop
        (dequeue_work (power_up codec shift w) output_sel.handsfree)).2.1 ≤ 1 ∧
      (run_ramp_work (power_up codec shift w)
        output_sel.handsfree).drvdata.handsfree.active = 1 ∧
      hf_left_gain (run_ramp_work (power_up codec shift w) output_sel.handsfree) =
        codec.drvdata.handsfree.left_vol ∧
      hf_right_gain (run_ramp_work (power_up codec shift w) output_sel.handsfree) =
        codec.drvdata.handsfree.right_vol) ∧
    (codec.drvdata.earphone.active = 0 →
      codec.drvdata.earphone.left_vol ≤ 15 →
      (out_drv_event codec 0 SND_SOC_DAPM_POST_PMU w).1 = 0 ∧
      (power_up codec 0 w).drvdata.earphone.ramp = TWL6040_RAMP_UP ∧
      (power_up codec 0 w).drvdata.earphone.left_step = codec.drvdata.earphone.left_vol ∧
      (power_up codec 0 w).drvdata.earphone.right_step = codec.drvdata.earphone.right_vol ∧
      (power_up codec 0 w).drvdata.earphone.left_vol = codec.drvdata.earphone.left_vol ∧
      (power_up codec 0 w).drvdata.earphone.right_vol = codec.drvdata.earphone.right_vol ∧
      (power_up codec 0 w).drvdata.earphone.work_queued = true ∧
      (power_up codec 0 w).reg_cache = codec.reg_cache ∧
      (power_up codec 0 w).control_data = codec.control_data ∧
      ep_gain (ep_tick (dequeue_work (power_up codec 0 w) output_sel.earphone)).1 =
        codec.drvdata.earphone.left_vol ∧
      (twl6040_pga_ep_loop
        (dequeue_work (power_up codec 0 w) output_sel.earphone)).2.2 = 1 ∧
      (twl6040_pga_ep_loop
        (dequeue_work (power_up codec 0 w) output_sel.earphone)).2.1 ≤ 1 ∧
      (run_ramp_work (power_up codec 0 w) output_sel.earphone).drvdata.earphone.active = 1 ∧
      ep_gain (run_ramp_work (power_up codec 0 w) output_sel.earphone) =
        codec.drvdata.earphone.left_vol) := by
  refine ⟨?_, ?_, ?_⟩
  · intro ha htl htr
    have e := out_drv_event_hs_pmu codec w ha
    unfold power_up
    rw [e]
    obtain ⟨a1, a2, a3, a4, a5, a6, a7, a8⟩ := hs_jump
      (dequeue_work { codec with
        drvdata := { codec.drvdata with
          headset := { codec.drvdata.headset with
            work_queued := true, left_step := codec.drvdata.headset.left_vol,
            right_step := codec.drvdata.headset.right_vol, step_delay := 5,
            ramp := TWL6040_RAMP_UP } } } output_sel.headset)
      rfl htl htr rfl rfl
    exact ⟨rfl, rfl, rfl, rfl, rfl, rfl, rfl, rfl, rfl, a1, a2, a3, a4, a5, a7, a8⟩
  · intro shift hs ha htl htr hbl hbr
    have e := out_drv_event_hf_pmu codec w shift hs ha
    unfold power_up
    rw [e]
    obtain ⟨a1, a2, a3, a4, a5, a6, a7, a8⟩ := hf_jump
      (dequeue_work { codec with
        drvdata := { codec.drvdata with
          handsfree := { codec.drvdata.handsfree with
            work_queued := true, left_step := codec.drvdata.handsfree.left_vol,
            right_step := codec.drvdata.handsfree.right_vol, step_delay := 5,
            ramp := TWL6040_RAMP_UP } } } output_sel.handsfree)
      rfl htl htr rfl rfl hbl hbr
    exact ⟨rfl, rfl, rfl, rfl, rfl, rfl, rfl, rfl, rfl, a1, a2, a3, a4, a5, a7, a8⟩
  · intro ha htl
    have e := out_drv_event_ep_pmu codec w ha
    unfold power_up
    rw [e]
    obtain ⟨a1, a2, a3, a4, a5, a6⟩ := ep_jump
      (dequeue_work { codec with
        drvdata := { codec.drvdata with
          earphone := { codec.drvdata.earphone with
            work_queued := true, left_step := codec.drvdata.earphone.left_vol,
            right_step := codec.drvdata.earphone.right_vol, step_delay := 5,
            ramp := TWL6040_RAMP_UP } } } output_sel.earphone)
      rfl htl rfl
    exact ⟨rfl, rfl, rfl, rfl, rfl, rfl, rfl, rfl, rfl, a1, a2, a3, a4, a6⟩

set_option maxRecDepth 100000 in
/-- A concrete instance of C10: the headset with the targets (10, 10) and
the configured steps (1, 1), the handsfree output (through the Aux driver,
shift 6) and the earphone, all inactive with the cached gains at 0.  After
the power-up event the task leaves the loop with `i ≤ 1` and ends active
with the cached gains at (10, 10). -/
theorem C10_power_up_jump_witness :
    ((power_up idle_codec 2 wait_timeout).drvdata.headset.left_step = 10 ∧
        (power_up idle_codec 2 wait_timeout).drvdata.headset.right_step = 10 ∧
        (twl6040_pga_hs_loop
          (dequeue_work (power_up idle_codec 2 wait_timeout) output_sel.headset)).2.1 ≤ 1 ∧
        (run_ramp_work (power_up idle_codec 2 wait_timeout)
          output_sel.headset).drvdata.headset.active = 1 ∧
        hs_left_gain (run_ramp_work (power_up idle_codec 2 wait_timeout)
          output_sel.headset) = 10 ∧
        hs_right_gain (run_ramp_work (power_up idle_codec 2 wait_timeout)
          output_sel.headset) = 10) ∧
      ((twl6040_pga_hf_loop
          (dequeue_work (power_up idle_codec 6 wait_timeout) output_sel.handsfree)).2.1 ≤ 1 ∧
        (run_ramp_work (power_up idle_codec 6 wait_timeout)
          output_sel.handsfree).drvdata.handsfree.active = 1 ∧
        hf_left_gain (run_ramp_work (power_up idle_codec 6 wait_timeout)
          output_sel.handsfree) = 10 ∧
        hf_right_gain (run_ramp_work (power_up idle_codec 6 wait_timeout)
          output_sel.handsfree) = 10) ∧
      ((twl6040_pga_ep_loop
          (dequeue_work (power_up idle_codec 0 wait_timeout) output_sel.earphone)).2.1 ≤ 1 ∧
        (run_ramp_work (power_up idle_codec 0 wait_timeout)
          output_sel.earphone).drvdata.earphone.active = 1 ∧
        ep_gain (run_ramp_work (power_up idle_codec 0 wait_timeout)
          output_sel.earphone) = 10) :=
  have hs := (C10_power_up_jump idle_codec wait_timeout).1 rfl (by decide) (by decide)
  have hf := (C10_power_up_jump idle_codec wait_timeout).2.1 6 (Or.inr rfl) rfl (by decide)
    (by decide) (by decide) (by decide)
  have ep := (C10_power_up_jump idle_codec wait_timeout).2.2 rfl (by decide)
  ⟨⟨hs.2.2.1, hs.2.2.2.1, hs.2.2.2.2.2.2.2.2.2.2.2.2.1, hs.2.2.2.2.2.2.2.2.2.2.2.2.2.1,
      hs.2.2.2.2.2.2.2.2.2.2.2.2.2.2.1, hs.2.2.2.2.2.2.2.2.2.2.2.2.2.2.2⟩,
    ⟨hf.2.2.2.2.2.2.2.2.2.2.2.2.1, hf.2.2.2.2.2.2.2.2.2.2.2.2.2.1,
      hf.2.2.2.2.2.2.2.2.2.2.2.2.2.2.1, hf.2.2.2.2.2.2.2.2.2.2.2.2.2.2.2⟩,
    ⟨ep.2.2.2.2.2.2.2.2.2.2.2.1, ep.2.2.2.2.2.2.2.2.2.2.2.2.1,
      ep.2.2.2.2.2.2.2.2.2.2.2.2.2⟩⟩

/-! ## Power-down of an output -/

/-- `out_drv_event` for the power-down of the active headset: the ramp is
armed with the configured steps and the caller waits. -/
theorem out_drv_event_hs_pmd (codec : snd_soc_codec)
    (w : snd_soc_codec → snd_soc_codec × Nat)
    (ha : codec.drvdata.headset.active ≠ 0) :
    out_drv_event codec 2 SND_SOC_DAPM_PRE_PMD w =
      (0, (w { codec with
        drvdata := { codec.drvdata with
          headset := { codec.drvdata.headset with
            work_queued := true, left_step := codec.drvdata.hs_left_step,
            right_step := codec.drvdata.hs_right_step, step_delay := 5,
            ramp := TWL6040_RAMP_DOWN, ramp_done := 0 } } }).1) := by
  simp [out_drv_event, out_drv_select, get_out, set_out, ha]

theorem out_drv_event_hf_pmd (codec : snd_soc_codec)
    (w : snd_soc_codec → snd_soc_codec × Nat) (shift : Nat) (hs : shift = 4 ∨ shift = 6)
    (ha : codec.drvdata.handsfree.active ≠ 0) :
    out_drv_event codec shift SND_SOC_DAPM_PRE_PMD w =
      (0, (w { codec with
        drvdata := { codec.drvdata with
          handsfree := { codec.drvdata.handsfree with
            work_queued := true, left_step := codec.drvdata.hf_left_step,
            right_step := codec.drvdata.hf_right_step, step_delay := 5,
            ramp := TWL6040_RAMP_DOWN, ramp_done := 0 } } }).1) := by
  rcases hs with rfl | rfl <;>
    simp [out_drv_event, out_drv_select, get_out, set_out, ha]

theorem out_drv_event_ep_pmd (codec : snd_soc_codec)
    (w : snd_soc_codec → snd_soc_codec × Nat)
    (ha : codec.drvdata.earphone.active ≠ 0) :
    out_drv_event codec 0 SND_SOC_DAPM_PRE_PMD w =
      (0, (w { codec with
        drvdata := { codec.drvdata with
          earphone := { codec.drvdata.earphone with
            work_queued := true, left_step := codec.drvdata.ep_step, step_delay := 5,
            ramp := TWL6040_RAMP_DOWN, ramp_done := 0 } } }).1) := by
  simp [out_drv_event, out_drv_select, get_out, set_out, ha]

/-- The headset task on a Down ramp with steps of at least 1: it ends
inactive, with the completion signalled, both gains at 0 and the targets
untouched. -/
theorem hs_fade (codec : snd_soc_codec)
    (hramp : codec.drvdata.headset.ramp = TWL6040_RAMP_DOWN)
    (hsl : 1 ≤ codec.drvdata.headset.left_step)
    (hsr : 1 ≤ codec.drvdata.headset.right_step) :
    hs_left_gain (twl6040_pga_hs_work codec) = 0 ∧
      hs_right_gain (twl6040_pga_hs_work codec) = 0 ∧
      (twl6040_pga_hs_work codec).drvdata.headset.active = 0 ∧
      (twl6040_pga_hs_work codec).drvdata.headset.ramp_done =
        codec.drvdata.headset.ramp_done + 1 ∧
      (twl6040_pga_hs_work codec).drvdata.headset.ramp = TWL6040_RAMP_NONE ∧
      (twl6040_pga_hs_work codec).drvdata.headset.left_vol =
        codec.drvdata.headset.left_vol ∧
      (twl6040_pga_hs_work codec).drvdata.headset.right_vol =
        codec.drvdata.headset.right_vol := by
  obtain ⟨_, _, _, gl, gr, _⟩ := hs_loop_down codec hramp hsl hsr
  have hw := pga_hs_work_armed codec (by rw [hramp]; decide)
  have hgl : hs_left_gain (twl6040_pga_hs_work codec) =
      hs_left_gain (twl6040_pga_hs_loop codec).1 := by rw [hw]; rfl
  have hgr : hs_right_gain (twl6040_pga_hs_work codec) =
      hs_right_gain (twl6040_pga_hs_loop codec).1 := by rw [hw]; rfl
  obtain ⟨f1, f2, f3⟩ := ramp_finish_down _ hramp
  refine ⟨by rw [hgl]; exact gl, by rw [hgr]; exact gr, ?_, ?_, ?_, ?_, ?_⟩
  · rw [hw]; exact f1
  · rw [hw]; exact f2
  · rw [hw]; exact f3
  · rw [hw]; unfold ramp_finish; rw [if_pos hramp]
  · rw [hw]; unfold ramp_finish; rw [if_pos hramp]

/-- The handsfree task on a Down ramp with steps of at least 1 and the gain
registers in range. -/
theorem hf_fade (codec : snd_soc_codec)
    (hramp : codec.drvdata.handsfree.ramp = TWL6040_RAMP_DOWN)
    (hsl : 1 ≤ codec.drvdata.handsfree.left_step)
    (hsr : 1 ≤ codec.drvdata.handsfree.right_step)
    (hbl : twl6040_read_reg_cache codec TWL6040_REG_HFLGAIN ≤ 0x1D)
    (hbr : twl6040_read_reg_cache codec TWL6040_REG_HFRGAIN ≤ 0x1D) :
    hf_left_gain (twl6040_pga_hf_work codec) = 0 ∧
      hf_right_gain (twl6040_pga_hf_work codec) = 0 ∧
      (twl6040_pga_hf_work codec).drvdata.handsfree.active = 0 ∧
      (twl6040_pga_hf_work codec).drvdata.handsfree.ramp_done =
        codec.drvdata.handsfree.ramp_done + 1 ∧
      (twl6040_pga_hf_work codec).drvdata.handsfree.ramp = TWL6040_RAMP_NONE ∧
      (twl6040_pga_hf_work codec).drvdata.handsfree.left_vol =
        codec.drvdata.handsfree.left_vol ∧
      (twl6040_pga_hf_work codec).drvdata.handsfree.right_vol =
        codec.drvdata.handsfree.right_vol := by
  obtain ⟨_, _, _, gl, gr, _⟩ := hf_loop_down codec hramp hsl hsr hbl hbr
  have hw := pga_hf_work_armed codec (by rw [hramp]; decide)
  have hgl : hf_left_gain (twl6040_pga_hf_work codec) =
      hf_left_gain (twl6040_pga_hf_loop codec).1 := by rw [hw]; rfl
  have hgr : hf_right_gain (twl6040_pga_hf_work codec) =
      hf_right_gain (twl6040_pga_hf_loop codec).1 := by rw [hw]; rfl
  obtain ⟨f1, f2, f3⟩ := ramp_finish_down _ hramp
  refine ⟨by rw [hgl]; exact gl, by rw [hgr]; exact gr, ?_, ?_, ?_, ?_, ?_⟩
  · rw [hw]; exact f1
  · rw [hw]; exact f2
  · rw [hw]; exact f3
  · rw [hw]; unfold ramp_finish; rw [if_pos hramp]
  · rw [hw]; unfold ramp_finish; rw [if_pos hramp]

/-- The earphone task on a Down ramp with a step of at least 1. -/
theorem ep_fade (codec : snd_soc_codec)
    (hramp : codec.drvdata.earphone.ramp = TWL6040_RAMP_DOWN)
    (hs : 1 ≤ codec.drvdata.earphone.left_step) :
    ep_gain (twl6040_pga_ep_work codec) = 0 ∧
      (twl6040_pga_ep_work codec).drvdata.earphone.active = 0 ∧
      (twl6040_pga_ep_work codec).drvdata.earphone.ramp_done =
        codec.drvdata.earphone.ramp_done + 1 ∧
      (twl6040_pga_ep_work codec).drvdata.earphone.ramp = TWL6040_RAMP_NONE ∧
      (twl6040_pga_ep_work codec).drvdata.earphone.left_vol =
        codec.drvdata.earphone.left_vol ∧
      (twl6040_pga_ep_work codec).drvdata.earphone.right_vol =
        codec.drvdata.earphone.right_vol := by
  obtain ⟨_, _, _, g, _⟩ := ep_loop_down codec hramp hs
  have hw := pga_ep_work_armed codec (by rw [hramp]; decide)
  have hg : ep_gain (twl6040_pga_ep_work codec) =
      ep_gain (twl6040_pga_ep_loop codec).1 := by rw [hw]; rfl
  obtain ⟨f1, f2, f3⟩ := ramp_finish_down _ hramp
  refine ⟨by rw [hg]; exact g, ?_, ?_, ?_, ?_, ?_⟩
  · rw [hw]; exact f1
  · rw [hw]; exact f2
  · rw [hw]; exact f3
  · rw [hw]; unfold ramp_finish; rw [if_pos hramp]
  · rw [hw]; unfold ramp_finish; rw [if_pos hramp]

/-- C11: the power-down fade.  For every active output whose configured
ramp steps are at least 1 and whose cached gain fields are in range
(handsfree gain registers at most 0x1D), `out_drv_event(PRE_PMD)` returns
0 after arming a Down ramp with the configured steps of the output
(`priv->hs_left_step`, ..., not the targets), resetting the completion,
queueing the ramp task and waiting: for every behaviour `w` of the wait the
codec it returns is the one the wait leaves from the armed codec.  Arming
writes no register.  When the queued task has run, every channel's cached
gain is 0, `active` is 0, the completion is signalled once, and
`left_vol`/`right_vol` are unchanged. -/
theorem C11_power_down_fade (codec : snd_soc_codec) :
    (codec.drvdata.headset.active ≠ 0 →
      1 ≤ codec.drvdata.hs_left_step → 1 ≤ codec.drvdata.hs_right_step →
      (∀ w, out_drv_event codec 2 SND_SOC_DAPM_PRE_PMD w =
        (0, (w (power_down_armed codec 2)).1)) ∧
      (power_down_armed codec 2).drvdata.headset.ramp = TWL6040_RAMP_DOWN ∧
      (power_down_armed codec 2).drvdata.headset.left_step = codec.drvdata.hs_left_step ∧
      (power_down_armed codec 2).drvdata.headset.right_step = codec.drvdata.hs_right_step ∧
      (power_down_armed codec 2).drvdata.headset.work_queued = true ∧
      (power_down_armed codec 2).drvdata.headset.ramp_done = 0 ∧
      (power_down_armed codec 2).reg_cache = codec.reg_cache ∧
      (power_down_armed codec 2).control_data = codec.control_data ∧
      hs_left_gain (run_ramp_work (power_down_armed codec 2) output_sel.headset) = 0 ∧
      hs_right_gain (run_ramp_work (power_down_armed codec 2) output_sel.headset) = 0 ∧
      (run_ramp_work (power_down_armed codec 2)
        output_sel.headset).drvdata.headset.active = 0 ∧
      (run_ramp_work (power_down_armed codec 2)
        output_sel.headset).drvdata.headset.ramp_done = 1 ∧
      (run_ramp_work (power_down_armed codec 2)
        output_sel.headset).drvdata.headset.left_vol = codec.drvdata.headset.left_vol ∧
      (run_ramp_work (power_down_armed codec 2)
        output_sel.headset).drvdata.headset.right_vol =
          codec.drvdata.headset.right_vol) ∧
    (∀ shift, shift = 4 ∨ shift = 6 →
      codec.drvdata.handsfree.active ≠ 0 →
      1 ≤ codec.drvdata.hf_left_step → 1 ≤ codec.drvdata.hf_right_step →
      twl6040_read_reg_cache codec TWL6040_REG_HFLGAIN ≤ 0x1D →
      twl6040_read_reg_cache codec TWL6040_REG_HFRGAIN ≤ 0x1D →
      (∀ w, out_drv_event codec shift SND_SOC_DAPM_PRE_PMD w =
        (0, (w (power_down_armed codec shift)).1)) ∧
      (power_down_armed codec shift).drvdata.handsfree.ramp = TWL6040_RAMP_DOWN ∧
      (power_down_armed codec shift).drvdata.handsfree.left_step =
        codec.drvdata.hf_left_step ∧
      (power_down_armed codec shift).drvdata.handsfree.right_step =
        codec.drvdata.hf_right_step ∧
      (power_down_armed codec shift).drvdata.handsfree.work_queued = true ∧
      (power_down_armed codec shift).drvdata.handsfree.ramp_done = 0 ∧
      (power_down_armed codec shift).reg_cache = codec.reg_cache ∧
      (power_down_armed codec shift).control_data = codec.control_data ∧
      hf_left_gain (run_ramp_work (power_down_armed codec shift) output_sel.handsfree) = 0 ∧
      hf_right_gain
        (run_ramp_work (power_down_armed codec shift) output_sel.handsfree) = 0 ∧
      (run_ramp_work (power_down_armed codec shift)
        output_sel.handsfree).drvdata.handsfree.active = 0 ∧
      (run_ramp_work (power_down_armed codec shift)
        output_sel.handsfree).drvdata.handsfree.ramp_done = 1 ∧
      (run_ramp_work (power_down_armed codec shift)
        output_sel.handsfree).drvdata.handsfree.left_vol =
          codec.drvdata.handsfree.left_vol ∧
      (run_ramp_work (power_down_armed codec shift)
        output_sel.handsfree).drvdata.handsfree.right_vol =
          codec.drvdata.handsfree.right_vol) ∧
    (codec.drvdata.earphone.active ≠ 0 →
      1 ≤ codec.drvdata.ep_step →
      (∀ w, out_drv_event codec 0 SND_SOC_DAPM_PRE_PMD w =
        (0, (w (power_down_armed codec 0)).1)) ∧
      (power_down_armed codec 0).drvdata.earphone.ramp = TWL6040_RAMP_DOWN ∧
      (power_down_armed codec 0).drvdata.earphone.left_step = codec.drvdata.ep_step ∧
      (power_down_armed codec 0).drvdata.earphone.work_queued = true ∧
      (power_down_armed codec 0).drvdata.earphone.ramp_done = 0 ∧
      (power_down_armed codec 0).reg_cache = codec.reg_cache ∧
      (power_down_armed codec 0).control_data = codec.control_data ∧
      ep_gain (run_ramp_work (power_down_armed codec 0) output_sel.earphone) = 0 ∧
      (run_ramp_work (power_down_armed codec 0)
        output_sel.earphone).drvdata.earphone.active = 0 ∧
      (run_ramp_work (power_down_armed codec 0)
        output_sel.earphone).drvdata.earphone.ramp_done = 1 ∧
      (run_ramp_work (power_down_armed codec 0)
        output_sel.earphone).drvdata.earphone.left_vol = codec.drvdata.earphone.left_vol ∧
      (run_ramp_work (power_down_armed codec 0)
        output_sel.earphone).drvdata.earphone.right_vol =
          codec.drvdata.earphone.right_vol) := by
  refine ⟨?_, ?_, ?_⟩
  · intro ha hsl hsr
    have e : ∀ w, out_drv_event codec 2 SND_SOC_DAPM_PRE_PMD w = _ :=
      fun w => out_drv_event_hs_pmd codec w ha
    have hA : power_down_armed codec 2 = _ := congrArg Prod.snd (e (fun c => (c, 0)))
    rw [hA]
    obtain ⟨a1, a2, a3, a4, _, a6, a7⟩ := hs_fade
      (dequeue_work { codec with
        drvdata := { codec.drvdata with
          headset := { codec.drvdata.headset with
            work_queued := true, left_step := codec.drvdata.hs_left_step,
            right_step := codec.drvdata.hs_right_step, step_delay := 5,
            ramp := TWL6040_RAMP_DOWN, ramp_done := 0 } } } output_sel.headset)
      rfl hsl hsr
    exact ⟨e, rfl, rfl, rfl, rfl, rfl, rfl, rfl, a1, a2, a3, a4, a6, a7⟩
  · intro shift hs ha hsl hsr hbl hbr
    have e : ∀ w, out_drv_event codec shift SND_SOC_DAPM_PRE_PMD w = _ :=
      fun w => out_drv_event_hf_pmd codec w shift hs ha
    have hA : power_down_armed codec shift = _ := congrArg Prod.snd (e (fun c => (c, 0)))
    rw [hA]
    obtain ⟨a1, a2, a3, a4, _, a6, a7⟩ := hf_fade
      (dequeue_work { codec with
        drvdata := { codec.drvdata with
          handsfree := { codec.drvdata.handsfree with
            work_queued := true, left_step := codec.drvdata.hf_left_step,
            right_step := codec.drvdata.hf_right_step, step_delay := 5,
            ramp := TWL6040_RAMP_DOWN, ramp_done := 0 } } } output_sel.handsfree)
      rfl hsl hsr hbl hbr
    exact ⟨e, rfl, rfl, rfl, rfl, rfl, rfl, rfl, a1, a2, a3, a4, a6, a7⟩
  · intro ha hs
    have e : ∀ w, out_drv_event codec 0 SND_SOC_DAPM_PRE_PMD w = _ :=
      fun w => out_drv_event_ep_pmd codec w ha
    have hA : power_down_armed codec 0 = _ := congrArg Prod.snd (e (fun c => (c, 0)))
    rw [hA]
    obtain ⟨a1, a2, a3, _, a5, a6⟩ := ep_fade
      (dequeue_work { codec with
        drvdata := { codec.drvdata with
          earphone := { codec.drvdata.earphone with
            work_queued := true, left_step := codec.drvdata.ep_step, step_delay := 5,
            ramp := TWL6040_RAMP_DOWN, ramp_done := 0 } } } output_sel.earphone)
      rfl hs
    exact ⟨e, rfl, rfl, rfl, rfl, rfl, rfl, a1, a2, a3, a5, a6⟩

set_option maxRecDepth 100000 in
/-- A concrete instance of C11: the three active outputs of `playing_codec`,
at the gains (10, 10) with the configured steps 1, end at gain 0 and
inactive with the targets still (10, 10). -/
theorem C11_power_down_fade_witness :
    (hs_left_gain (run_ramp_work (power_down_armed playing_codec 2) output_sel.headset) = 0 ∧
        hs_right_gain
          (run_ramp_work (power_down_armed playing_codec 2) output_sel.headset) = 0 ∧
        (run_ramp_work (power_down_armed playing_codec 2)
          output_sel.headset).drvdata.headset.active = 0 ∧
        (run_ramp_work (power_down_armed playing_codec 2)
          output_sel.headset).drvdata.headset.ramp_done = 1 ∧
        (run_ramp_work (power_down_armed playing_codec 2)
          output_sel.headset).drvdata.headset.left_vol = 10 ∧
        (run_ramp_work (power_down_armed playing_codec 2)
          output_sel.headset).drvdata.headset.right_vol = 10) ∧
      (hf_left_gain
          (run_ramp_work (power_down_armed playing_codec 4) output_sel.handsfree) = 0 ∧
        hf_right_gain
          (run_ramp_work (power_down_armed playing_codec 4) output_sel.handsfree) = 0 ∧
        (run_ramp_work (power_down_armed playing_codec 4)
          output_sel.handsfree).drvdata.handsfree.active = 0) ∧
      (ep_gain (run_ramp_work (power_down_armed playing_codec 0) output_sel.earphone) = 0 ∧
        (run_ramp_work (power_down_armed playing_codec 0)
          output_sel.earphone).drvdata.earphone.active = 0) :=
  have hs := (C11_power_down_fade playing_codec).1 (by decide) (by decide) (by decide)
  have hf := (C11_power_down_fade playing_codec).2.1 4 (Or.inl rfl) (by decide) (by decide)
    (by decide) (by decide) (by decide)
  have ep := (C11_power_down_fade playing_codec).2.2 (by decide) (by decide)
  ⟨⟨hs.2.2.2.2.2.2.2.2.1, hs.2.2.2.2.2.2.2.2.2.1, hs.2.2.2.2.2.2.2.2.2.2.1,
      hs.2.2.2.2.2.2.2.2.2.2.2.1, hs.2.2.2.2.2.2.2.2.2.2.2.2.1,
      hs.2.2.2.2.2.2.2.2.2.2.2.2.2⟩,
    ⟨hf.2.2.2.2.2.2.2.2.1, hf.2.2.2.2.2.2.2.2.2.1, hf.2.2.2.2.2.2.2.2.2.2.1⟩,
    ⟨ep.2.2.2.2.2.2.2.1, ep.2.2.2.2.2.2.2.2.1⟩⟩

set_option maxRecDepth 100000 in
/-- C12, as stated, fails: after the power-up of the headset with the
targets (10, 10) the output is active with `left_step = 10`; a second
power-up event returns 0 and queues nothing, but it overwrites `left_step`
with the configured step 1, so the output state is not left unchanged. -/
theorem C12_counterexample :
    (run_ramp_work (power_up idle_codec 2 wait_timeout)
        output_sel.headset).drvdata.headset.active = 1 ∧
      (run_ramp_work (power_up idle_codec 2 wait_timeout)
        output_sel.headset).drvdata.headset.left_step = 10 ∧
      (out_drv_event (run_ramp_work (power_up idle_codec 2 wait_timeout) output_sel.headset)
        2 SND_SOC_DAPM_POST_PMU wait_timeout).1 = 0 ∧
      (out_drv_event (run_ramp_work (power_up idle_codec 2 wait_timeout) output_sel.headset)
        2 SND_SOC_DAPM_POST_PMU wait_timeout).2.drvdata.headset.left_step = 1 ∧
      ¬ ((out_drv_event
            (run_ramp_work (power_up idle_codec 2 wait_timeout) output_sel.headset)
            2 SND_SOC_DAPM_POST_PMU wait_timeout).2.drvdata.headset.left_step =
          (run_ramp_work (power_up idle_codec 2 wait_timeout)
            output_sel.headset).drvdata.headset.left_step) := by
  decide

/-- C12, amended: the power-up event on an already-active output returns 0,
queues no ramp task and issues no register write (cache and chip handle
unchanged), and leaves `active`, the ramp direction, the targets and the
completion of the output unchanged.  It still runs the first switch of
`out_drv_event`: a pending ramp task is cancelled, `left_step` and
`right_step` are reset to the configured steps of the output (`left_step`
alone for the earphone) and `step_delay` is set to 5. -/
theorem C12_power_up_active (codec : snd_soc_codec)
    (w : snd_soc_codec → snd_soc_codec × Nat) :
    (codec.drvdata.headset.active ≠ 0 →
      out_drv_event codec 2 SND_SOC_DAPM_POST_PMU w =
        (0, { codec with
          drvdata := { codec.drvdata with
            headset := { codec.drvdata.headset with
              work_queued := false, left_step := codec.drvdata.hs_left_step,
              right_step := codec.drvdata.hs_right_step, step_delay := 5 } } })) ∧
    (∀ shift, shift = 4 ∨ shift = 6 →
      codec.drvdata.handsfree.active ≠ 0 →
      out_drv_event codec shift SND_SOC_DAPM_POST_PMU w =
        (0, { codec with
          drvdata := { codec.drvdata with
            handsfree := { codec.drvdata.handsfree with
              work_queued := false, left_step := codec.drvdata.hf_left_step,
              right_step := codec.drvdata.hf_right_step, step_delay := 5 } } })) ∧
    (codec.drvdata.earphone.active ≠ 0 →
      out_drv_event codec 0 SND_SOC_DAPM_POST_PMU w =
        (0, { codec with
          drvdata := { codec.drvdata with
            earphone := { codec.drvdata.earphone with
              work_queued := false, left_step := codec.drvdata.ep_step,
              step_delay := 5 } } })) := by
  refine ⟨?_, ?_, ?_⟩
  · intro ha
    simp [out_drv_event, out_drv_select, get_out, set_out, ha]
  · intro shift hs ha
    rcases hs with rfl | rfl <;>
      simp [out_drv_event, out_drv_select, get_out, set_out, ha]
  · intro ha
    simp [out_drv_event, out_drv_select, get_out, set_out, ha]

/-- A concrete instance of the amended C12: the three active outputs of
`playing_codec`. -/
theorem C12_power_up_active_witness :
    out_drv_event playing_codec 2 SND_SOC_DAPM_POST_PMU wait_timeout =
        (0, { playing_codec with
          drvdata := { playing_codec.drvdata with
            headset := { playing_codec.drvdata.headset with
              work_queued := false, left_step := playing_codec.drvdata.hs_left_step,
              right_step := playing_codec.drvdata.hs_right_step, step_delay := 5 } } }) ∧
      out_drv_event playing_codec 6 SND_SOC_DAPM_POST_PMU wait_timeout =
        (0, { playing_codec with
          drvdata := { playing_codec.drvdata with
            handsfree := { playing_codec.drvdata.handsfree with
              work_queued := false, left_step := playing_codec.drvdata.hf_left_step,
              right_step := playing_codec.drvdata.hf_right_step, step_delay := 5 } } }) ∧
      out_drv_event playing_codec 0 SND_SOC_DAPM_POST_PMU wait_timeout =
        (0, { playing_codec with
          drvdata := { playing_codec.drvdata with
            earphone := { playing_codec.drvdata.earphone with
              work_queued := false, left_step := playing_codec.drvdata.ep_step,
              step_delay := 5 } } }) :=
  ⟨(C12_power_up_active playing_codec wait_timeout).1 (by decide),
   (C12_power_up_active playing_codec wait_timeout).2.1 6 (Or.inr rfl) (by decide),
   (C12_power_up_active playing_codec wait_timeout).2.2 (by decide)⟩

/-! ## Volume controls: lemmas and claims -/

/-- C13: shadowed targets.  For each of the gain controls (HSGAIN, HFLGAIN,
EARCTL) whose output is not active, `twl6040_put_volsw` stores the requested
values (as `u16`) in `left_vol`/`right_vol` of the output and returns 1
without calling `snd_soc_put_volsw` or `snd_soc_put_volsw_2r`, whatever these
helpers would do: the register cache and the chip handle are unchanged.  The
helpers are called only when the output is active: `snd_soc_put_volsw_2r` for
HFLGAIN, `snd_soc_put_volsw` for HSGAIN and EARCTL, on the codec with the new
targets. -/
theorem C13_put_volsw_shadow (codec : snd_soc_codec) (value0 value1 : Int)
    (put put_2r : snd_soc_codec → Int × snd_soc_codec) :
    (codec.drvdata.headset.active = 0 →
      twl6040_put_volsw codec TWL6040_REG_HSGAIN value0 value1 put put_2r =
        (1, { codec with
          drvdata := { codec.drvdata with
            headset := { codec.drvdata.headset with
              left_vol := to_u16 value0, right_vol := to_u16 value1 } } })) ∧
    (codec.drvdata.handsfree.active = 0 →
      twl6040_put_volsw codec TWL6040_REG_HFLGAIN value0 value1 put put_2r =
        (1, { codec with
          drvdata := { codec.drvdata with
            handsfree := { codec.drvdata.handsfree with
              left_vol := to_u16 value0, right_vol := to_u16 value1 } } })) ∧
    (codec.drvdata.earphone.active = 0 →
      twl6040_put_volsw codec TWL6040_REG_EARCTL value0 value1 put put_2r =
        (1, { codec with
          drvdata := { codec.drvdata with
            earphone := { codec.drvdata.earphone with
              left_vol := to_u16 value0, right_vol := to_u16 value1 } } })) ∧
    (codec.drvdata.headset.active ≠ 0 →
      (twl6040_put_volsw codec TWL6040_REG_HSGAIN value0 value1 put put_2r).2 =
        (put { codec with
          drvdata := { codec.drvdata with
            headset := { codec.drvdata.headset with
              left_vol := to_u16 value0, right_vol := to_u16 value1 } } }).2) ∧
    (codec.drvdata.handsfree.active ≠ 0 →
      (twl6040_put_volsw codec TWL6040_REG_HFLGAIN value0 value1 put put_2r).2 =
        (put_2r { codec with
          drvdata := { codec.drvdata with
            handsfree := { codec.drvdata.handsfree with
              left_vol := to_u16 value0, right_vol := to_u16 value1 } } }).2) ∧
    (codec.drvdata.earphone.active ≠ 0 →
      (twl6040_put_volsw codec TWL6040_REG_EARCTL value0 value1 put put_2r).2 =
        (put { codec with
          drvdata := { codec.drvdata with
            earphone := { codec.drvdata.earphone with
              left_vol := to_u16 value0, right_vol := to_u16 value1 } } }).2) ∧
    (0 ≤ value0 → value0 < 65536 → to_u16 value0 = value0.toNat) := by
  refine ⟨?_, ?_, ?_, ?_, ?_, ?_, ?_⟩
  · intro ha
    simp [twl6040_put_volsw, get_out, set_out, ha]
  · intro ha
    simp [twl6040_put_volsw, get_out, set_out, ha]
  · intro ha
    simp [twl6040_put_volsw, get_out, set_out, ha]
  · intro ha
    have e : twl6040_put_volsw codec TWL6040_REG_HSGAIN value0 value1 put put_2r =
        if (put { codec with
          drvdata := { codec.drvdata with
            headset := { codec.drvdata.headset with
              left_vol := to_u16 value0, right_vol := to_u16 value1 } } }).1 < 0 then
          ((put { codec with
          drvdata := { codec.drvdata with
            headset := { codec.drvdata.headset with
              left_vol := to_u16 value0, right_vol := to_u16 value1 } } }).1, (put { codec with
          drvdata := { codec.drvdata with
            headset := { codec.drvdata.headset with
              left_vol := to_u16 value0, right_vol := to_u16 value1 } } }).2)
        else (1, (put { codec with
          drvdata := { codec.drvdata with
            headset := { codec.drvdata.headset with
              left_vol := to_u16 value0, right_vol := to_u16 value1 } } }).2) := by
      simp [twl6040_put_volsw, get_out, set_out, ha]
    rw [e]
    split <;> rfl
  · intro ha
    have e : twl6040_put_volsw codec TWL6040_REG_HFLGAIN value0 value1 put put_2r =
        if (put_2r { codec with
          drvdata := { codec.drvdata with
            handsfree := { codec.drvdata.handsfree with
              left_vol := to_u16 value0, right_vol := to_u16 value1 } } }).1 < 0 then
          ((put_2r { codec with
          drvdata := { codec.drvdata with
            handsfree := { codec.drvdata.handsfree with
              left_vol := to_u16 value0, right_vol := to_u16 value1 } } }).1, (put_2r { codec with
          drvdata := { codec.drvdata with
            handsfree := { codec.drvdata.handsfree with
              left_vol := to_u16 value0, right_vol := to_u16 value1 } } }).2)
        else (1, (put_2r { codec with
          drvdata := { codec.drvdata with
            handsfree := { codec.drvdata.handsfree with
              left_vol := to_u16 value0, right_vol := to_u16 value1 } } }).2) := by
      simp [twl6040_put_volsw, get_out, set_out, ha]
    rw [e]
    split <;> rfl
  · intro ha
    have e : twl6040_put_volsw codec TWL6040_REG_EARCTL value0 value1 put put_2r =
        if (put { codec with
          drvdata := { codec.drvdata with
            earphone := { codec.drvdata.earphone with
              left_vol := to_u16 value0, right_vol := to_u16 value1 } } }).1 < 0 then
          ((put { codec with
          drvdata := { codec.drvdata with
            earphone := { codec.drvdata.earphone with
              left_vol := to_u16 value0, right_vol := to_u16 value1 } } }).1, (put { codec with
          drvdata := { codec.drvdata with
            earphone := { codec.drvdata.earphone with
              left_vol := to_u16 value0, right_vol := to_u16 value1 } } }).2)
        else (1, (put { codec with
          drvdata := { codec.drvdata with
            earphone := { codec.drvdata.earphone with
              left_vol := to_u16 value0, right_vol := to_u16 value1 } } }).2) := by
      simp [twl6040_put_volsw, get_out, set_out, ha]
    rw [e]
    split <;> rfl
  · intro h0 h1
    unfold to_u16
    rw [Int.emod_eq_of_lt h0 h1]

/-- A concrete instance of C13: the inactive outputs of `idle_codec`, the
active outputs of `playing_codec` with helpers that fail, and the value 7. -/
theorem C13_put_volsw_shadow_witness :
    twl6040_put_volsw idle_codec TWL6040_REG_HSGAIN 7 9 put_volsw_fails put_volsw_fails =
        (1, { idle_codec with
          drvdata := { idle_codec.drvdata with
            headset := { idle_codec.drvdata.headset with
              left_vol := to_u16 7, right_vol := to_u16 9 } } }) ∧
      twl6040_put_volsw idle_codec TWL6040_REG_HFLGAIN 7 9 put_volsw_fails put_volsw_fails =
        (1, { idle_codec with
          drvdata := { idle_codec.drvdata with
            handsfree := { idle_codec.drvdata.handsfree with
              left_vol := to_u16 7, right_vol := to_u16 9 } } }) ∧
      twl6040_put_volsw idle_codec TWL6040_REG_EARCTL 7 9 put_volsw_fails put_volsw_fails =
        (1, { idle_codec with
          drvdata := { idle_codec.drvdata with
            earphone := { idle_codec.drvdata.earphone with
              left_vol := to_u16 7, right_vol := to_u16 9 } } }) ∧
      (twl6040_put_volsw playing_codec TWL6040_REG_HSGAIN 7 9 put_volsw_fails
          put_volsw_fails).2 =
        (put_volsw_fails { playing_codec with
          drvdata := { playing_codec.drvdata with
            headset := { playing_codec.drvdata.headset with
              left_vol := to_u16 7, right_vol := to_u16 9 } } }).2 ∧
      (twl6040_put_volsw playing_codec TWL6040_REG_HFLGAIN 7 9 put_volsw_fails
          put_volsw_fails).2 =
        (put_volsw_fails { playing_codec with
          drvdata := { playing_codec.drvdata with
            handsfree := { playing_codec.drvdata.handsfree with
              left_vol := to_u16 7, right_vol := to_u16 9 } } }).2 ∧
      (twl6040_put_volsw playing_codec TWL6040_REG_EARCTL 7 9 put_volsw_fails
          put_volsw_fails).2 =
        (put_volsw_fails { playing_codec with
          drvdata := { playing_codec.drvdata with
            earphone := { playing_codec.drvdata.earphone with
              left_vol := to_u16 7, right_vol := to_u16 9 } } }).2 ∧
      to_u16 7 = (7 : Int).toNat :=
  ⟨(C13_put_volsw_shadow idle_codec 7 9 put_volsw_fails put_volsw_fails).1 rfl,
   (C13_put_volsw_shadow idle_codec 7 9 put_volsw_fails put_volsw_fails).2.1 rfl,
   (C13_put_volsw_shadow idle_codec 7 9 put_volsw_fails put_volsw_fails).2.2.1 rfl,
   (C13_put_volsw_shadow playing_codec 7 9 put_volsw_fails put_volsw_fails).2.2.2.1
     (by decide),
   (C13_put_volsw_shadow playing_codec 7 9 put_volsw_fails put_volsw_fails).2.2.2.2.1
     (by decide),
   (C13_put_volsw_shadow playing_codec 7 9 put_volsw_fails put_volsw_fails).2.2.2.2.2.1
     (by decide),
   (C13_put_volsw_shadow playing_codec 7 9 put_volsw_fails put_volsw_fails).2.2.2.2.2.2
     (by decide) (by decide)⟩

/-! ## Bias level: lemmas and claims -/

/-- `twl6040_set_bias_level` on a level other than Standby and Off, or on
Standby with the codec powered, or on Off with the codec not powered: only
the level is recorded and the clocks are read again. -/
theorem set_bias_level_no_transition (codec : snd_soc_codec) (level : snd_soc_bias_level)
    (h : level = SND_SOC_BIAS_ON ∨ level = SND_SOC_BIAS_PREPARE ∨
      (level = SND_SOC_BIAS_STANDBY ∧ codec.drvdata.codec_powered ≠ 0) ∨
      (level = SND_SOC_BIAS_OFF ∧ codec.drvdata.codec_powered = 0)) :
    twl6040_set_bias_level codec level =
      (0, { codec with
        bias_level := level,
        drvdata := { codec.drvdata with
          pll := twl6040_get_pll codec.control_data,
          sysclk := twl6040_get_sysclk codec.control_data } }) := by
  rcases h with rfl | rfl | ⟨rfl, hp⟩ | ⟨rfl, hp⟩
  · rfl
  · rfl
  · simp only [twl6040_set_bias_level, hp, ne_eq, not_false_eq_true, if_true]
  · simp only [twl6040_set_bias_level, hp, if_true]

/-- The transition to Off of a powered codec. -/
theorem set_bias_level_off_powered (codec : snd_soc_codec)
    (hp : codec.drvdata.codec_powered ≠ 0) :
    twl6040_set_bias_level codec SND_SOC_BIAS_OFF =
      (0, { codec with
        control_data := twl6040_disable codec.control_data,
        bias_level := SND_SOC_BIAS_OFF,
        drvdata := { codec.drvdata with
          codec_powered := 0,
          pll := twl6040_get_pll (twl6040_disable codec.control_data),
          sysclk := twl6040_get_sysclk (twl6040_disable codec.control_data) } }) := by
  simp only [twl6040_set_bias_level, hp, if_false]

/-- The level recorded and the power flag left by `twl6040_set_bias_level`. -/
theorem set_bias_level_power (codec : snd_soc_codec) (level : snd_soc_bias_level) :
    (twl6040_set_bias_level codec level).2.bias_level = level ∧
      (twl6040_set_bias_level codec level).1 = 0 ∧
      (level = SND_SOC_BIAS_OFF →
        (twl6040_set_bias_level codec level).2.drvdata.codec_powered = 0) ∧
      (level = SND_SOC_BIAS_STANDBY →
        (twl6040_set_bias_level codec level).2.drvdata.codec_powered ≠ 0 ∧
        (codec.drvdata.codec_powered = 0 →
          (twl6040_set_bias_level codec level).2.drvdata.codec_powered = 1) ∧
        (codec.drvdata.codec_powered ≠ 0 →
          (twl6040_set_bias_level codec level).2.drvdata.codec_powered =
            codec.drvdata.codec_powered)) ∧
      (level = SND_SOC_BIAS_ON ∨ level = SND_SOC_BIAS_PREPARE →
        (twl6040_set_bias_level codec level).2.drvdata.codec_powered =
          codec.drvdata.codec_powered) := by
  refine ⟨?_, ?_, ?_, ?_, ?_⟩
  · rfl
  · rfl
  · rintro rfl
    by_cases hp : codec.drvdata.codec_powered = 0
    · rw [set_bias_level_no_transition codec _ (Or.inr (Or.inr (Or.inr ⟨rfl, hp⟩)))]
      exact hp
    · rw [set_bias_level_off_powered codec hp]
  · rintro rfl
    by_cases hp : codec.drvdata.codec_powered = 0
    · have h1 := (set_bias_level_standby_unpowered codec hp).2.1
      exact ⟨by rw [h1]; decide, fun _ => h1, fun h => absurd hp h⟩
    · rw [set_bias_level_no_transition codec _ (Or.inr (Or.inr (Or.inl ⟨rfl, hp⟩)))]
      exact ⟨hp, fun h => absurd h hp, fun _ => rfl⟩
  · intro h
    rcases h with rfl | rfl
    · rfl
    · rfl

/-- The vdd re-initialisation issues write transactions only. -/
theorem vdd_init_writes_are_writes (cache : Fin TWL6040_CACHEREGNUM → Nat)
    (l : List (Fin TWL6040_CACHEREGNUM)) (op : HwOp)
    (h : op ∈ l.filterMap (vdd_init_write cache)) :
    ∃ reg : Fin TWL6040_CACHEREGNUM, op = HwOp.reg_write reg.val (cache reg % 256) ∧
      reg_supply reg = TWL6040_VDD_SUPPLY := by
  obtain ⟨a, _, ha⟩ := List.mem_filterMap.mp h
  unfold vdd_init_write at ha
  split at ha
  · exact absurd ha (by simp)
  · rename_i hs
    split at ha
    · exact absurd ha (by simp)
    · exact ⟨a, (Option.some.inj ha).symm, not_not.mp hs⟩

/-- C14: Off to Standby.  On a codec that is not powered,
`twl6040_set_bias_level(STANDBY)` returns 0, records the level Standby, sets
`codec_powered` to 1 and selects `lp_constraints`.  The transactions it
issues are `twl6040_enable`, once, followed by the writes of
`twl6040_init_vdd_regs`, which runs on the codec that is already enabled and
marked powered: each register the re-initialisation writes (under vdd
supply, not a vibra or pll register) has its cached byte forwarded to the
hardware, and nothing but writes follows the enable. -/
theorem C14_off_to_standby (codec : snd_soc_codec)
    (hp : codec.drvdata.codec_powered = 0) :
    (twl6040_set_bias_level codec SND_SOC_BIAS_STANDBY).1 = 0 ∧
      (twl6040_set_bias_level codec SND_SOC_BIAS_STANDBY).2.bias_level =
        SND_SOC_BIAS_STANDBY ∧
      (twl6040_set_bias_level codec SND_SOC_BIAS_STANDBY).2.drvdata.codec_powered = 1 ∧
      (twl6040_set_bias_level codec SND_SOC_BIAS_STANDBY).2.drvdata.sysclk_constraints =
        constraint_list.lp_constraints ∧
      (twl6040_set_bias_level codec SND_SOC_BIAS_STANDBY).2.control_data =
        (twl6040_init_vdd_regs { codec with
          control_data := twl6040_enable codec.control_data,
          drvdata := { codec.drvdata with
            codec_powered := 1,
            sysclk_constraints := constraint_list.lp_constraints } }).control_data ∧
      (twl6040_set_bias_level codec SND_SOC_BIAS_STANDBY).2.control_data.log =
        codec.control_data.log ++ HwOp.enable ::
          (List.finRange TWL6040_CACHEREGNUM).filterMap (vdd_init_write codec.reg_cache) ∧
      (∀ op ∈ (List.finRange TWL6040_CACHEREGNUM).filterMap
          (vdd_init_write codec.reg_cache),
        ∃ reg : Fin TWL6040_CACHEREGNUM,
          op = HwOp.reg_write reg.val (codec.reg_cache reg % 256)) ∧
      (∀ reg : Fin TWL6040_CACHEREGNUM, reg_supply reg = TWL6040_VDD_SUPPLY →
        ¬ (reg.val = TWL6040_REG_VIBCTLL ∨ reg.val = TWL6040_REG_VIBDATL ∨
          reg.val = TWL6040_REG_VIBCTLR ∨ reg.val = TWL6040_REG_VIBDATR ∨
          reg.val = TWL6040_REG_HPPLLCTL ∨ reg.val = TWL6040_REG_LPPLLCTL ∨
          reg.val = TWL6040_REG_LPPLLDIV) →
        HwOp.reg_write reg.val (codec.reg_cache reg % 256) ∈
          (List.finRange TWL6040_CACHEREGNUM).filterMap
            (vdd_init_write codec.reg_cache)) ∧
      ((HwOp.enable :: (List.finRange TWL6040_CACHEREGNUM).filterMap
          (vdd_init_write codec.reg_cache)).count HwOp.enable = 1) := by
  obtain ⟨hlog, hpow, hcon, hbias, hret⟩ := set_bias_level_standby_unpowered codec hp
  have hw : ∀ op ∈ (List.finRange TWL6040_CACHEREGNUM).filterMap
      (vdd_init_write codec.reg_cache),
      ∃ reg : Fin TWL6040_CACHEREGNUM,
        op = HwOp.reg_write reg.val (codec.reg_cache reg % 256) := by
    intro op hop
    obtain ⟨reg, h, _⟩ := vdd_init_writes_are_writes _ _ op hop
    exact ⟨reg, h⟩
  refine ⟨hret, hbias, hpow, hcon, ?_, hlog, hw, ?_, ?_⟩
  · simp only [twl6040_set_bias_level, hp, ne_eq, not_true_eq_false, if_false]
  · intro reg hs hx
    exact List.mem_filterMap.mpr
      ⟨reg, List.mem_finRange _, vdd_init_write_eligible codec.reg_cache reg hs hx⟩
  · rw [List.count_cons_self, List.count_eq_zero_of_not_mem]
    intro hmem
    obtain ⟨reg, h⟩ := hw _ hmem
    exact HwOp.noConfusion h

/-- A concrete instance of C14: the probed codec, which is not powered. -/
theorem C14_off_to_standby_witness :
    (twl6040_set_bias_level probe_codec SND_SOC_BIAS_STANDBY).1 = 0 ∧
      (twl6040_set_bias_level probe_codec SND_SOC_BIAS_STANDBY).2.bias_level =
        SND_SOC_BIAS_STANDBY ∧
      (twl6040_set_bias_level probe_codec SND_SOC_BIAS_STANDBY).2.drvdata.codec_powered = 1 ∧
      (twl6040_set_bias_level probe_codec
        SND_SOC_BIAS_STANDBY).2.drvdata.sysclk_constraints =
          constraint_list.lp_constraints ∧
      (twl6040_set_bias_level probe_codec SND_SOC_BIAS_STANDBY).2.control_data.log =
        probe_codec.control_data.log ++ HwOp.enable ::
          (List.finRange TWL6040_CACHEREGNUM).filterMap
            (vdd_init_write probe_codec.reg_cache) :=
  have h := C14_off_to_standby probe_codec rfl
  ⟨h.1, h.2.1, h.2.2.1, h.2.2.2.1, h.2.2.2.2.2.1⟩

/-- C15: bias-level idempotence.  For every level and every codec, a second
call of `twl6040_set_bias_level` with the same level right after the first
returns 0 and leaves the chip handle (no `twl6040_enable`, no
`twl6040_disable`, no register write), `codec_powered`, the bias level,
`sysclk_constraints` and the register cache exactly as the first call left
them.  From a powered codec, the transition to Off calls `twl6040_disable`
once, issues nothing else and clears `codec_powered`. -/
theorem C15_bias_level_idempotent (codec : snd_soc_codec) (level : snd_soc_bias_level) :
    ((twl6040_set_bias_level (twl6040_set_bias_level codec level).2 level).1 = 0 ∧
      (twl6040_set_bias_level (twl6040_set_bias_level codec level).2 level).2.control_data =
        (twl6040_set_bias_level codec level).2.control_data ∧
      (twl6040_set_bias_level
          (twl6040_set_bias_level codec level).2 level).2.drvdata.codec_powered =
        (twl6040_set_bias_level codec level).2.drvdata.codec_powered ∧
      (twl6040_set_bias_level (twl6040_set_bias_level codec level).2 level).2.bias_level =
        (twl6040_set_bias_level codec level).2.bias_level ∧
      (twl6040_set_bias_level
          (twl6040_set_bias_level codec level).2 level).2.drvdata.sysclk_constraints =
        (twl6040_set_bias_level codec level).2.drvdata.sysclk_constraints ∧
      (twl6040_set_bias_level (twl6040_set_bias_level codec level).2 level).2.reg_cache =
        (twl6040_set_bias_level codec level).2.reg_cache) ∧
    (codec.drvdata.codec_powered ≠ 0 →
      (twl6040_set_bias_level codec SND_SOC_BIAS_OFF).2.control_data.log =
        codec.control_data.log ++ [HwOp.disable] ∧
      (twl6040_set_bias_level codec SND_SOC_BIAS_OFF).2.drvdata.codec_powered = 0 ∧
      (twl6040_set_bias_level codec SND_SOC_BIAS_OFF).2.bias_level = SND_SOC_BIAS_OFF ∧
      (twl6040_set_bias_level codec SND_SOC_BIAS_OFF).2.reg_cache = codec.reg_cache) := by
  constructor
  · have hnt : level = SND_SOC_BIAS_ON ∨ level = SND_SOC_BIAS_PREPARE ∨
        (level = SND_SOC_BIAS_STANDBY ∧
          (twl6040_set_bias_level codec level).2.drvdata.codec_powered ≠ 0) ∨
        (level = SND_SOC_BIAS_OFF ∧
          (twl6040_set_bias_level codec level).2.drvdata.codec_powered = 0) := by
      obtain ⟨_, _, hoff, hsb, _⟩ := set_bias_level_power codec level
      cases level with
      | SND_SOC_BIAS_OFF => exact Or.inr (Or.inr (Or.inr ⟨rfl, hoff rfl⟩))
      | SND_SOC_BIAS_STANDBY => exact Or.inr (Or.inr (Or.inl ⟨rfl, (hsb rfl).1⟩))
      | SND_SOC_BIAS_PREPARE => exact Or.inr (Or.inl rfl)
      | SND_SOC_BIAS_ON => exact Or.inl rfl
    rw [set_bias_level_no_transition _ level hnt]
    exact ⟨rfl, rfl, rfl, rfl, rfl, rfl⟩
  · intro hp
    rw [set_bias_level_off_powered codec hp]
    exact ⟨rfl, rfl, rfl, rfl⟩

/-- A concrete instance of C15: from the powered codec, the transition to
Off. -/
theorem C15_bias_level_idempotent_witness :
    (twl6040_set_bias_level probe_codec_powered SND_SOC_BIAS_OFF).2.control_data.log =
        probe_codec_powered.control_data.log ++ [HwOp.disable] ∧
      (twl6040_set_bias_level probe_codec_powered SND_SOC_BIAS_OFF).2.drvdata.codec_powered =
        0 ∧
      (twl6040_set_bias_level probe_codec_powered SND_SOC_BIAS_OFF).2.bias_level =
        SND_SOC_BIAS_OFF ∧
      (twl6040_set_bias_level probe_codec_powered SND_SOC_BIAS_OFF).2.reg_cache =
        probe_codec_powered.reg_cache :=
  (C15_bias_level_idempotent probe_codec_powered SND_SOC_BIAS_OFF).2 (by decide)

/-- The invariant of the power state: `codec_powered` is 0 or 1, and it is
0 whenever the bias level is Off. -/
theorem run_call_invariant (codec : snd_soc_codec) (call : codec_call)
    (h : codec.drvdata.codec_powered ≤ 1 ∧
      (codec.drvdata.codec_powered ≠ 0 → codec.bias_level ≠ SND_SOC_BIAS_OFF)) :
    (run_call codec call).drvdata.codec_powered ≤ 1 ∧
      ((run_call codec call).drvdata.codec_powered ≠ 0 →
        (run_call codec call).bias_level ≠ SND_SOC_BIAS_OFF) := by
  cases call with
  | write reg value =>
    have hd : (run_call codec (codec_call.write reg value)).drvdata = codec.drvdata :=
      twl6040_write_drvdata codec reg value
    have hl : (run_call codec (codec_call.write reg value)).bias_level = codec.bias_level :=
      twl6040_write_bias_level codec reg value
    rw [hd, hl]
    exact h
  | set_bias_level level =>
    obtain ⟨hb, _, hoff, hsb, hon⟩ := set_bias_level_power codec level
    show (twl6040_set_bias_level codec level).2.drvdata.codec_powered ≤ 1 ∧
      ((twl6040_set_bias_level codec level).2.drvdata.codec_powered ≠ 0 →
        (twl6040_set_bias_level codec level).2.bias_level ≠ SND_SOC_BIAS_OFF)
    rw [hb]
    cases level with
    | SND_SOC_BIAS_OFF =>
      rw [hoff rfl]
      exact ⟨Nat.zero_le _, fun hne => absurd rfl hne⟩
    | SND_SOC_BIAS_STANDBY =>
      refine ⟨?_, fun _ => by decide⟩
      by_cases hp : codec.drvdata.codec_powered = 0
      · rw [(hsb rfl).2.1 hp]
      · rw [(hsb rfl).2.2 hp]
        exact h.1
    | SND_SOC_BIAS_PREPARE =>
      rw [hon (Or.inr rfl)]
      exact ⟨h.1, fun _ => by decide⟩
    | SND_SOC_BIAS_ON =>
      rw [hon (Or.inl rfl)]
      exact ⟨h.1, fun _ => by decide⟩

theorem run_calls_invariant (calls : List codec_call) :
    ∀ codec : snd_soc_codec,
      (codec.drvdata.codec_powered ≤ 1 ∧
        (codec.drvdata.codec_powered ≠ 0 → codec.bias_level ≠ SND_SOC_BIAS_OFF)) →
      (run_calls codec calls).drvdata.codec_powered ≤ 1 ∧
        ((run_calls codec calls).drvdata.codec_powered ≠ 0 →
          (run_calls codec calls).bias_level ≠ SND_SOC_BIAS_OFF) := by
  induction calls with
  | nil => intro codec h; exact h
  | cons call calls ih =>
    intro codec h
    exact ih (run_call codec call) (run_call_invariant codec call h)

/-- C16: the power-state invariant.  In every state reached from an initial
state with `codec_powered = 0` (whatever its bias level, Off in particular)
by any sequence of `twl6040_set_bias_level` and `twl6040_write` calls,
`codec_powered` is 0 or 1 and `codec_powered = 1` implies that the bias
level is not Off; hence a write to a register under vdd supply issues a
hardware transaction only when the bias level is not Off. -/
theorem C16_power_state_invariant (codec : snd_soc_codec) (calls : List codec_call)
    (hp : codec.drvdata.codec_powered = 0) :
    (run_calls codec calls).drvdata.codec_powered ≤ 1 ∧
      ((run_calls codec calls).drvdata.codec_powered = 1 →
        (run_calls codec calls).bias_level ≠ SND_SOC_BIAS_OFF) ∧
      (∀ (r v : Nat) (hr : r < TWL6040_CACHEREGNUM),
        reg_supply ⟨r, hr⟩ = TWL6040_VDD_SUPPLY →
        (twl6040_write (run_calls codec calls) r v).2.control_data.log ≠
          (run_calls codec calls).control_data.log →
        (run_calls codec calls).bias_level ≠ SND_SOC_BIAS_OFF) := by
  obtain ⟨h1, h2⟩ := run_calls_invariant calls codec
    ⟨by rw [hp]; exact Nat.zero_le _, fun h => absurd hp h⟩
  refine ⟨h1, fun h => h2 (by rw [h]; decide), ?_⟩
  intro r v hr hs hlog
  apply h2
  intro h0
  apply hlog
  have hf : ¬ (reg_supply ⟨r, hr⟩ = TWL6040_VIO_SUPPLY ∨
      (run_calls codec calls).drvdata.codec_powered ≠ 0) := by
    rw [hs, h0]; decide
  rw [(twl6040_write_deferred _ r v hr hf).1]

set_option maxRecDepth 100000 in
/-- A concrete instance of C16: from the probed codec, a write to HSGAIN,
the transition to Standby, another write and the level On. -/
theorem C16_power_state_invariant_witness :
    (run_calls probe_codec
        [codec_call.write TWL6040_REG_HSGAIN 0x25,
          codec_call.set_bias_level SND_SOC_BIAS_STANDBY,
          codec_call.write TWL6040_REG_HSGAIN 0x35,
          codec_call.set_bias_level SND_SOC_BIAS_ON]).drvdata.codec_powered ≤ 1 ∧
      ((run_calls probe_codec
          [codec_call.write TWL6040_REG_HSGAIN 0x25,
            codec_call.set_bias_level SND_SOC_BIAS_STANDBY,
            codec_call.write TWL6040_REG_HSGAIN 0x35,
            codec_call.set_bias_level SND_SOC_BIAS_ON]).drvdata.codec_powered = 1 →
        (run_calls probe_codec
          [codec_call.write TWL6040_REG_HSGAIN 0x25,
            codec_call.set_bias_level SND_SOC_BIAS_STANDBY,
            codec_call.write TWL6040_REG_HSGAIN 0x35,
            codec_call.set_bias_level SND_SOC_BIAS_ON]).bias_level ≠ SND_SOC_BIAS_OFF) :=
  have h := C16_power_state_invariant probe_codec
    [codec_call.write TWL6040_REG_HSGAIN 0x25,
      codec_call.set_bias_level SND_SOC_BIAS_STANDBY,
      codec_call.write TWL6040_REG_HSGAIN 0x35,
      codec_call.set_bias_level SND_SOC_BIAS_ON] rfl
  ⟨h.1, h.2.1⟩

/-! ## Errors of the register accessors -/

/-- C17: OutOfRange.  On a cache of bytes, `twl6040_read_reg_cache` returns
the out-of-range error (`-EIO`, as the `unsigned int` `2 ^ 32 - 5`) if and
only if `reg ≥ TWL6040_CACHEREGNUM`.  For every such `reg` the cached read
returns it whatever the cache holds, and `twl6040_write` and
`twl6040_read_reg_volatile` return `-EIO` and leave the codec as it is: no
cache entry changes and the chip handle sees no transaction. -/
theorem C17_out_of_range (codec : snd_soc_codec) (reg v : Nat) :
    ((∀ r, codec.reg_cache r < 256) →
      (twl6040_read_reg_cache codec reg = 2 ^ 32 - EIO_errno ↔
        TWL6040_CACHEREGNUM ≤ reg)) ∧
    (TWL6040_CACHEREGNUM ≤ reg →
      twl6040_read_reg_cache codec reg = 2 ^ 32 - EIO_errno ∧
      twl6040_write codec reg v = (- (EIO_errno : Int), codec) ∧
      twl6040_read_reg_volatile codec reg = (- (EIO_errno : Int), codec)) := by
  constructor
  · intro hb
    constructor
    · intro h
      by_contra hlt
      have hr : reg < TWL6040_CACHEREGNUM := Nat.lt_of_not_le hlt
      rw [read_reg_cache_of_lt codec reg hr] at h
      have := hb ⟨reg, hr⟩
      rw [h] at this
      exact absurd this (by decide)
    · intro h
      unfold twl6040_read_reg_cache
      rw [dif_neg (Nat.not_lt.mpr h)]
  · intro h
    have hn : ¬ reg < TWL6040_CACHEREGNUM := Nat.not_lt.mpr h
    refine ⟨?_, ?_, ?_⟩
    · unfold twl6040_read_reg_cache
      rw [dif_neg hn]
    · unfold twl6040_write
      rw [dif_neg hn]
    · unfold twl6040_read_reg_volatile
      rw [dif_neg hn]

/-- A concrete instance of C17: register 47 on the probed codec, whose cache
holds the default image. -/
theorem C17_out_of_range_witness :
    (twl6040_read_reg_cache probe_codec 47 = 2 ^ 32 - EIO_errno ↔
        TWL6040_CACHEREGNUM ≤ 47) ∧
      (twl6040_read_reg_cache probe_codec 47 = 2 ^ 32 - EIO_errno ∧
        twl6040_write probe_codec 47 0x25 = (- (EIO_errno : Int), probe_codec) ∧
        twl6040_read_reg_volatile probe_codec 47 = (- (EIO_errno : Int), probe_codec)) :=
  ⟨(C17_out_of_range probe_codec 47 0x25).1 (by decide),
   (C17_out_of_range probe_codec 47 0x25).2 (by decide)⟩

/-- C18: TransportFailure keeps the cache consistent.  For every in-range
register whose write is forwarded to the hardware (under vio supply, or the
codec powered), `twl6040_write` issues the write transaction and returns
whatever `twl6040_reg_write` returns, an error `e` in particular; the cache
entry of the register holds the new byte all the same and every other cache
entry is unchanged. -/
theorem C18_transport_failure (codec : snd_soc_codec) (r v : Nat) (e : Int)
    (hr : r < TWL6040_CACHEREGNUM)
    (hf : reg_supply ⟨r, hr⟩ = TWL6040_VIO_SUPPLY ∨ codec.drvdata.codec_powered ≠ 0)
    (he : (twl6040_reg_write codec.control_data r v).1 = e) :
    (twl6040_write codec r v).1 = e ∧
      (twl6040_write codec r v).2.control_data.log =
        codec.control_data.log ++ [HwOp.reg_write r (v % 256)] ∧
      (twl6040_write codec r v).2.reg_cache ⟨r, hr⟩ = v % 256 ∧
      (∀ b : Fin TWL6040_CACHEREGNUM, b ≠ ⟨r, hr⟩ →
        (twl6040_write codec r v).2.reg_cache b = codec.reg_cache b) := by
  obtain ⟨hc, hret⟩ := twl6040_write_forwarded codec r v hr hf
  refine ⟨?_, ?_, ?_, ?_⟩
  · rw [hret, ← he]
    rfl
  · rw [hc]
  · rw [twl6040_write_cache codec r v hr, Function.update_same]
  · intro b hb
    rw [twl6040_write_cache codec r v hr, Function.update_noteq hb]

/-- A concrete instance of C18: a write to HSGAIN on the powered codec whose
transport fails with -5. -/
theorem C18_transport_failure_witness :
    (twl6040_write failing_codec TWL6040_REG_HSGAIN 0x25).1 = -5 ∧
      (twl6040_write failing_codec TWL6040_REG_HSGAIN 0x25).2.control_data.log =
        failing_codec.control_data.log ++ [HwOp.reg_write TWL6040_REG_HSGAIN (0x25 % 256)] ∧
      (twl6040_write failing_codec TWL6040_REG_HSGAIN 0x25).2.reg_cache
        ⟨TWL6040_REG_HSGAIN, by decide⟩ = 0x25 % 256 ∧
      (∀ b : Fin TWL6040_CACHEREGNUM, b ≠ ⟨TWL6040_REG_HSGAIN, by decide⟩ →
        (twl6040_write failing_codec TWL6040_REG_HSGAIN 0x25).2.reg_cache b =
          failing_codec.reg_cache b) :=
  C18_transport_failure failing_codec TWL6040_REG_HSGAIN 0x25 (-5) (by decide)
    (Or.inr (by decide)) rfl

/-- The hardware read of `twl6040_read_reg_volatile`: the read transaction
is issued and the byte read is stored in the cache entry of the register. -/
theorem read_reg_volatile_read (codec : snd_soc_codec) (reg : Nat)
    (hr : reg < TWL6040_CACHEREGNUM)
    (h : ¬ (reg_supply ⟨reg, hr⟩ = TWL6040_VDD_SUPPLY ∧ codec.drvdata.codec_powered = 0)) :
    twl6040_read_reg_volatile codec reg =
      (((codec.control_data.read_val codec.control_data.log reg % 256 : Nat) : Int),
        { codec with
          control_data := { codec.control_data with
            log := codec.control_data.log ++ [HwOp.reg_read reg] },
          reg_cache := Function.update codec.reg_cache ⟨reg, hr⟩
            (codec.control_data.read_val codec.control_data.log reg % 256) }) := by
  unfold twl6040_read_reg_volatile
  rw [dif_pos hr, if_neg h]
  simp only [twl6040_reg_read, twl6040_write_reg_cache_of_lt _ _ _ hr, Nat.mod_mod]

/-- C19: NotAccessible.  For every in-range register,
`twl6040_read_reg_volatile` returns `-EINVAL` if and only if the register is
under vdd supply and the codec is not powered, and then it leaves the codec
as it is: no hardware read, cache unchanged.  Otherwise it issues the
hardware read, stores the byte read in the cache entry of the register,
leaves the other entries alone, and returns that byte. -/
theorem C19_not_accessible (codec : snd_soc_codec) (reg : Nat)
    (hr : reg < TWL6040_CACHEREGNUM) :
    ((twl6040_read_reg_volatile codec reg).1 = - (EINVAL_errno : Int) ↔
        (reg_supply ⟨reg, hr⟩ = TWL6040_VDD_SUPPLY ∧ codec.drvdata.codec_powered = 0)) ∧
      ((reg_supply ⟨reg, hr⟩ = TWL6040_VDD_SUPPLY ∧ codec.drvdata.codec_powered = 0) →
        twl6040_read_reg_volatile codec reg = (- (EINVAL_errno : Int), codec)) ∧
      (¬ (reg_supply ⟨reg, hr⟩ = TWL6040_VDD_SUPPLY ∧ codec.drvdata.codec_powered = 0) →
        (twl6040_read_reg_volatile codec reg).1 =
          ((codec.control_data.read_val codec.control_data.log reg % 256 : Nat) : Int) ∧
        (twl6040_read_reg_volatile codec reg).2.control_data.log =
          codec.control_data.log ++ [HwOp.reg_read reg] ∧
        (twl6040_read_reg_volatile codec reg).2.reg_cache ⟨reg, hr⟩ =
          codec.control_data.read_val codec.control_data.log reg % 256 ∧
        (∀ b : Fin TWL6040_CACHEREGNUM, b ≠ ⟨reg, hr⟩ →
          (twl6040_read_reg_volatile codec reg).2.reg_cache b = codec.reg_cache b) ∧
        (twl6040_read_reg_volatile codec reg).2.drvdata = codec.drvdata) := by
  have hgate : (reg_supply ⟨reg, hr⟩ = TWL6040_VDD_SUPPLY ∧
      codec.drvdata.codec_powered = 0) →
      twl6040_read_reg_volatile codec reg = (- (EINVAL_errno : Int), codec) := by
    intro h
    unfold twl6040_read_reg_volatile
    rw [dif_pos hr, if_pos h]
  refine ⟨⟨?_, fun h => by rw [hgate h]⟩, hgate, ?_⟩
  · intro h
    by_contra hn
    rw [read_reg_volatile_read codec reg hr hn] at h
    have h0 : (0 : Int) ≤
        ((codec.control_data.read_val codec.control_data.log reg % 256 : Nat) : Int) :=
      Int.ofNat_nonneg _
    have h1 : ((codec.control_data.read_val codec.control_data.log reg % 256 : Nat) : Int) =
        - (EINVAL_errno : Int) := h
    rw [h1] at h0
    exact absurd h0 (by decide)
  · intro hn
    rw [read_reg_volatile_read codec reg hr hn]
    refine ⟨rfl, rfl, ?_, ?_, rfl⟩
    · show Function.update codec.reg_cache ⟨reg, hr⟩ _ ⟨reg, hr⟩ = _
      rw [Function.update_same]
    · intro b hb
      show Function.update codec.reg_cache ⟨reg, hr⟩ _ b = _
      rw [Function.update_noteq hb]

/-- A concrete instance of C19: HSGAIN, under vdd supply, on the probed
codec, which is not powered, and on the powered codec. -/
theorem C19_not_accessible_witness :
    twl6040_read_reg_volatile probe_codec TWL6040_REG_HSGAIN =
        (- (EINVAL_errno : Int), probe_codec) ∧
      (twl6040_read_reg_volatile probe_codec_powered TWL6040_REG_HSGAIN).2.control_data.log =
        probe_codec_powered.control_data.log ++ [HwOp.reg_read TWL6040_REG_HSGAIN] :=
  ⟨(C19_not_accessible probe_codec TWL6040_REG_HSGAIN (by decide)).2.1 (by decide),
   ((C19_not_accessible probe_codec_powered TWL6040_REG_HSGAIN (by decide)).2.2
     (by decide)).2.1⟩

/-! ## Re-initialisation of the vio domain -/

set_option maxRecDepth 100000 in
theorem init_vio_regs_unrolled (codec : snd_soc_codec) :
    twl6040_init_vio_regs codec = vio_init_unrolled codec := by
  rfl

set_option maxRecDepth 100000 in
/-- The list of transactions is what the switch of the loop yields register
by register. -/
theorem vio_init_ops_eq (cache : Fin TWL6040_CACHEREGNUM → Nat) :
    (List.finRange TWL6040_CACHEREGNUM).filterMap (vio_init_op cache) =
      vio_init_ops cache := by
  rfl

/-- A write to a register under vio supply is always forwarded. -/
theorem twl6040_write_vio (codec : snd_soc_codec) (reg value : Nat)
    (hr : reg < TWL6040_CACHEREGNUM) (hs : reg_supply ⟨reg, hr⟩ = TWL6040_VIO_SUPPLY) :
    (twl6040_write codec reg value).2 =
      { codec with
        reg_cache := Function.update codec.reg_cache ⟨reg, hr⟩ (value % 256),
        control_data := { codec.control_data with
          log := codec.control_data.log ++ [HwOp.reg_write reg (value % 256)] } } := by
  unfold twl6040_write
  simp only [hr, dite_true, twl6040_write_reg_cache_of_lt, hs, true_or, if_true,
    twl6040_reg_write]

/-- A read-back of a register under vio supply always reaches the hardware. -/
theorem read_reg_volatile_vio (codec : snd_soc_codec) (reg : Nat)
    (hr : reg < TWL6040_CACHEREGNUM) (hs : reg_supply ⟨reg, hr⟩ = TWL6040_VIO_SUPPLY) :
    (twl6040_read_reg_volatile codec reg).2 =
      { codec with
        control_data := { codec.control_data with
          log := codec.control_data.log ++ [HwOp.reg_read reg] },
        reg_cache := Function.update codec.reg_cache ⟨reg, hr⟩
          (codec.control_data.read_val codec.control_data.log reg % 256) } := by
  have hn : ¬ (reg_supply ⟨reg, hr⟩ = TWL6040_VDD_SUPPLY ∧
      codec.drvdata.codec_powered = 0) := by
    rw [hs]
    intro h
    exact absurd h.1 (by decide)
  rw [read_reg_volatile_read codec reg hr hn]

/-- The state `twl6040_init_vio_regs` leaves: the transactions appended to
the log, the two read-back bytes in the cache, the driver data and the bias
level untouched. -/
theorem init_vio_regs_state (codec : snd_soc_codec) :
    (twl6040_init_vio_regs codec).control_data.log =
        codec.control_data.log ++ vio_init_ops codec.reg_cache ∧
      (twl6040_init_vio_regs codec).reg_cache ⟨TWL6040_REG_HSOTRIM, by decide⟩ =
        codec.control_data.read_val
          (codec.control_data.log ++ (vio_init_ops codec.reg_cache).take 7)
          TWL6040_REG_HSOTRIM % 256 ∧
      (twl6040_init_vio_regs codec).reg_cache ⟨TWL6040_REG_HFOTRIM, by decide⟩ =
        codec.control_data.read_val
          (codec.control_data.log ++ (vio_init_ops codec.reg_cache).take 8)
          TWL6040_REG_HFOTRIM % 256 ∧
      (twl6040_init_vio_regs codec).drvdata = codec.drvdata ∧
      (twl6040_init_vio_regs codec).bias_level = codec.bias_level := by
  rw [init_vio_regs_unrolled]
  simp only [vio_init_unrolled,
    twl6040_write_vio _ TWL6040_REG_AMICBCTL _ (by decide) (by decide),
    twl6040_write_vio _ TWL6040_REG_DMICBCTL _ (by decide) (by decide),
    twl6040_write_vio _ TWL6040_REG_HKCTL1 _ (by decide) (by decide),
    twl6040_write_vio _ TWL6040_REG_HKCTL2 _ (by decide) (by decide),
    twl6040_write_vio _ TWL6040_REG_TRIM1 _ (by decide) (by decide),
    twl6040_write_vio _ TWL6040_REG_TRIM2 _ (by decide) (by decide),
    twl6040_write_vio _ TWL6040_REG_TRIM3 _ (by decide) (by decide),
    read_reg_volatile_vio _ TWL6040_REG_HSOTRIM (by decide) (by decide),
    read_reg_volatile_vio _ TWL6040_REG_HFOTRIM (by decide) (by decide)]
  refine ⟨?_, ?_, ?_, trivial, trivial⟩
  · simp [vio_init_ops, Function.update]
  · simp [vio_init_ops, Function.update]
  · simp [vio_init_ops, Function.update]

set_option maxRecDepth 100000 in
/-- C20, as stated, fails: on the probed codec, whose log is empty, the vio
re-initialisation issues the hardware write of the cached byte 0 to the trim
register TRIM1 (and likewise to TRIM2 and TRIM3), and it issues no read-back
of these three registers. -/
theorem C20_counterexample :
    probe_codec.control_data.log = [] ∧
      HwOp.reg_write TWL6040_REG_TRIM1 0 ∈
        (twl6040_init_vio_regs probe_codec).control_data.log ∧
      HwOp.reg_write TWL6040_REG_TRIM2 0 ∈
        (twl6040_init_vio_regs probe_codec).control_data.log ∧
      HwOp.reg_write TWL6040_REG_TRIM3 0 ∈
        (twl6040_init_vio_regs probe_codec).control_data.log ∧
      HwOp.reg_read TWL6040_REG_TRIM1 ∉
        (twl6040_init_vio_regs probe_codec).control_data.log ∧
      ¬ (∀ v, HwOp.reg_write TWL6040_REG_TRIM1 v ∉
        (twl6040_init_vio_regs probe_codec).control_data.log) := by
  refine ⟨by decide, by decide, by decide, by decide, by decide, ?_⟩
  intro h
  exact h 0 (by decide)

/-- C20, amended: `twl6040_init_vio_regs` appends to the log exactly the
transactions of `vio_init_ops`, which are what the switch of the loop yields
register by register.  Among them there is no hardware write to ASICID,
ASICREV, STATUS, HSOTRIM or HFOTRIM, whatever the value; HSOTRIM and HFOTRIM
are read back, in this order after the seven writes, and the byte the
hardware returns is stored in their cache entries.  TRIM1, TRIM2 and TRIM3
are not read back: they are written with their cached bytes.  The driver
data and the bias level are untouched. -/
theorem C20_vio_reinit (codec : snd_soc_codec) :
    (twl6040_init_vio_regs codec).control_data.log =
        codec.control_data.log ++ vio_init_ops codec.reg_cache ∧
      (List.finRange TWL6040_CACHEREGNUM).filterMap (vio_init_op codec.reg_cache) =
        vio_init_ops codec.reg_cache ∧
      (∀ v, HwOp.reg_write TWL6040_REG_ASICID v ∉ vio_init_ops codec.reg_cache ∧
        HwOp.reg_write TWL6040_REG_ASICREV v ∉ vio_init_ops codec.reg_cache ∧
        HwOp.reg_write TWL6040_REG_STATUS v ∉ vio_init_ops codec.reg_cache ∧
        HwOp.reg_write TWL6040_REG_HSOTRIM v ∉ vio_init_ops codec.reg_cache ∧
        HwOp.reg_write TWL6040_REG_HFOTRIM v ∉ vio_init_ops codec.reg_cache) ∧
      (HwOp.reg_read TWL6040_REG_HSOTRIM ∈ vio_init_ops codec.reg_cache ∧
        HwOp.reg_read TWL6040_REG_HFOTRIM ∈ vio_init_ops codec.reg_cache) ∧
      ((twl6040_init_vio_regs codec).reg_cache ⟨TWL6040_REG_HSOTRIM, by decide⟩ =
          codec.control_data.read_val
            (codec.control_data.log ++ (vio_init_ops codec.reg_cache).take 7)
            TWL6040_REG_HSOTRIM % 256 ∧
        (twl6040_init_vio_regs codec).reg_cache ⟨TWL6040_REG_HFOTRIM, by decide⟩ =
          codec.control_data.read_val
            (codec.control_data.log ++ (vio_init_ops codec.reg_cache).take 8)
            TWL6040_REG_HFOTRIM % 256) ∧
      (HwOp.reg_write TWL6040_REG_TRIM1
          (codec.reg_cache ⟨TWL6040_REG_TRIM1, by decide⟩ % 256) ∈
            vio_init_ops codec.reg_cache ∧
        HwOp.reg_write TWL6040_REG_TRIM2
          (codec.reg_cache ⟨TWL6040_REG_TRIM2, by decide⟩ % 256) ∈
            vio_init_ops codec.reg_cache ∧
        HwOp.reg_write TWL6040_REG_TRIM3
          (codec.reg_cache ⟨TWL6040_REG_TRIM3, by decide⟩ % 256) ∈
            vio_init_ops codec.reg_cache) ∧
      (HwOp.reg_read TWL6040_REG_TRIM1 ∉ vio_init_ops codec.reg_cache ∧
        HwOp.reg_read TWL6040_REG_TRIM2 ∉ vio_init_ops codec.reg_cache ∧
        HwOp.reg_read TWL6040_REG_TRIM3 ∉ vio_init_ops codec.reg_cache) ∧
      (twl6040_init_vio_regs codec).drvdata = codec.drvdata ∧
      (twl6040_init_vio_regs codec).bias_level = codec.bias_level := by
  obtain ⟨hl, hhs, hhf, hd, hb⟩ := init_vio_regs_state codec
  refine ⟨hl, vio_init_ops_eq codec.reg_cache, ?_, ?_, ⟨hhs, hhf⟩, ?_, ?_, hd, hb⟩
  · intro v
    simp [vio_init_ops]
  · simp [vio_init_ops]
  · simp [vio_init_ops]
  · simp [vio_init_ops]

set_option maxRecDepth 100000 in
/-- A concrete instance of C20: on a chip that holds the offset trims 0x12
and 0x34, the vio re-initialisation of the probed codec issues seven writes
and two read-backs, and the cache entries of HSOTRIM and HFOTRIM, 0 in the
default image, hold 0x12 and 0x34 afterwards. -/
theorem C20_vio_reinit_witness :
    (twl6040_init_vio_regs trimmed_codec).control_data.log =
        [HwOp.reg_write TWL6040_REG_AMICBCTL 0, HwOp.reg_write TWL6040_REG_DMICBCTL 0,
         HwOp.reg_write TWL6040_REG_HKCTL1 0, HwOp.reg_write TWL6040_REG_HKCTL2 0,
         HwOp.reg_write TWL6040_REG_TRIM1 0, HwOp.reg_write TWL6040_REG_TRIM2 0,
         HwOp.reg_write TWL6040_REG_TRIM3 0,
         HwOp.reg_read TWL6040_REG_HSOTRIM, HwOp.reg_read TWL6040_REG_HFOTRIM] ∧
      trimmed_codec.reg_cache ⟨TWL6040_REG_HSOTRIM, by decide⟩ = 0 ∧
      (twl6040_init_vio_regs trimmed_codec).reg_cache ⟨TWL6040_REG_HSOTRIM, by decide⟩ =
        0x12 ∧
      (twl6040_init_vio_regs trimmed_codec).reg_cache ⟨TWL6040_REG_HFOTRIM, by decide⟩ =
        0x34 :=
  ⟨(C20_vio_reinit trimmed_codec).1.trans (by decide), by decide,
   (C20_vio_reinit trimmed_codec).2.2.2.2.1.1.trans (by decide),
   (C20_vio_reinit trimmed_codec).2.2.2.2.1.2.trans (by decide)⟩

/-! ## Re-initialisation of the vdd domain -/

set_option maxRecDepth 100000 in
/-- The writes of the vdd loop are the writes of the cached bytes of the
registers of `vdd_init_reg_list`, in the order of the list. -/
theorem vdd_init_writes_eq (cache : Fin TWL6040_CACHEREGNUM → Nat) :
    (List.finRange TWL6040_CACHEREGNUM).filterMap (vdd_init_write cache) =
      vdd_init_reg_list.map (fun r => HwOp.reg_write r.val (cache r % 256)) := by
  rfl

set_option maxRecDepth 100000 in
/-- A register is in `vdd_init_reg_list` exactly when it is under vdd supply
and the switch of the loop does not skip it. -/
theorem mem_vdd_init_reg_list : ∀ r : Fin TWL6040_CACHEREGNUM,
    r ∈ vdd_init_reg_list ↔
      (reg_supply r = TWL6040_VDD_SUPPLY ∧
        ¬ (r.val = TWL6040_REG_VIBCTLL ∨ r.val = TWL6040_REG_VIBDATL ∨
          r.val = TWL6040_REG_VIBCTLR ∨ r.val = TWL6040_REG_VIBDATR ∨
          r.val = TWL6040_REG_HPPLLCTL ∨ r.val = TWL6040_REG_LPPLLCTL ∨
          r.val = TWL6040_REG_LPPLLDIV)) := by
  decide

set_option maxRecDepth 100000 in
theorem vdd_init_reg_list_sorted : vdd_init_reg_list.Pairwise (fun a b => a < b) := by
  decide

/-- C21: re-initialisation of the gated (vdd) domain.  When the codec is
powered, `twl6040_init_vdd_regs` appends to the transaction log the hardware
writes `(r, cache[r])` of the registers `r` of `vdd_init_reg_list`, one for
each, in the order of the list, and nothing else.  The list is strictly
ascending (so no register occurs twice) and a register is in it exactly when
it is tagged VDD and is none of VIBCTLL, VIBDATL, VIBCTLR, VIBDATR, HPPLLCTL,
LPPLLCTL, LPPLLDIV: a write `(r, v)` is issued only for such a register, with
`v` its cached byte, and exactly once. -/
theorem C21_vdd_reinit (codec : snd_soc_codec)
    (hp : codec.drvdata.codec_powered ≠ 0) :
    (twl6040_init_vdd_regs codec).control_data.log =
        codec.control_data.log ++
          vdd_init_reg_list.map (fun r => HwOp.reg_write r.val (codec.reg_cache r % 256)) ∧
      vdd_init_reg_list.Pairwise (fun a b => a < b) ∧
      (∀ r : Fin TWL6040_CACHEREGNUM,
        r ∈ vdd_init_reg_list ↔
          (reg_supply r = TWL6040_VDD_SUPPLY ∧
            ¬ (r.val = TWL6040_REG_VIBCTLL ∨ r.val = TWL6040_REG_VIBDATL ∨
              r.val = TWL6040_REG_VIBCTLR ∨ r.val = TWL6040_REG_VIBDATR ∨
              r.val = TWL6040_REG_HPPLLCTL ∨ r.val = TWL6040_REG_LPPLLCTL ∨
              r.val = TWL6040_REG_LPPLLDIV))) ∧
      (∀ r : Fin TWL6040_CACHEREGNUM, r ∈ vdd_init_reg_list →
        (vdd_init_reg_list.map
          (fun r => HwOp.reg_write r.val (codec.reg_cache r % 256))).count
            (HwOp.reg_write r.val (codec.reg_cache r % 256)) = 1) ∧
      (∀ (r v : Nat), HwOp.reg_write r v ∈ vdd_init_reg_list.map
          (fun r => HwOp.reg_write r.val (codec.reg_cache r % 256)) →
        ∃ r' : Fin TWL6040_CACHEREGNUM, r' ∈ vdd_init_reg_list ∧ r = r'.val ∧
          v = codec.reg_cache r' % 256) := by
  have hlog := (init_vdd_fold_powered (List.finRange TWL6040_CACHEREGNUM) codec hp).1
  refine ⟨?_, vdd_init_reg_list_sorted, mem_vdd_init_reg_list, ?_, ?_⟩
  · unfold twl6040_init_vdd_regs
    rw [hlog, vdd_init_writes_eq]
  · intro r hr
    have hinj : Function.Injective
        (fun r : Fin TWL6040_CACHEREGNUM => HwOp.reg_write r.val (codec.reg_cache r % 256)) := by
      intro a b hab
      simp only [HwOp.reg_write.injEq] at hab
      exact Fin.ext hab.1
    have hnd : vdd_init_reg_list.Nodup :=
      vdd_init_reg_list_sorted.imp (fun h => Fin.ne_of_lt h)
    have hc := List.count_eq_one_of_mem (hnd.map hinj)
      (List.mem_map_of_mem (fun r : Fin TWL6040_CACHEREGNUM =>
        HwOp.reg_write r.val (codec.reg_cache r % 256)) hr)
    exact hc
  · intro r v hm
    obtain ⟨r', hr', he⟩ := List.mem_map.mp hm
    simp only [HwOp.reg_write.injEq] at he
    exact ⟨r', hr', he.1.symm, he.2.symm⟩

set_option maxRecDepth 100000 in
/-- A concrete instance of C21: the powered codec with the default image;
the fourteen writes, in ascending register order. -/
theorem C21_vdd_reinit_witness :
    (twl6040_init_vdd_regs probe_codec_powered).control_data.log =
      [HwOp.reg_write TWL6040_REG_MICLCTL 0x18, HwOp.reg_write TWL6040_REG_MICRCTL 0x18,
       HwOp.reg_write TWL6040_REG_MICGAIN 0x00, HwOp.reg_write TWL6040_REG_LINEGAIN 0x1B,
       HwOp.reg_write TWL6040_REG_HSLCTL 0x00, HwOp.reg_write TWL6040_REG_HSRCTL 0x00,
       HwOp.reg_write TWL6040_REG_HSGAIN 0xFF, HwOp.reg_write TWL6040_REG_EARCTL 0x1E,
       HwOp.reg_write TWL6040_REG_HFLCTL 0x00, HwOp.reg_write TWL6040_REG_HFLGAIN 0x1D,
       HwOp.reg_write TWL6040_REG_HFRCTL 0x00, HwOp.reg_write TWL6040_REG_HFRGAIN 0x1D,
       HwOp.reg_write TWL6040_REG_ALB 0x00, HwOp.reg_write TWL6040_REG_DLB 0x00] :=
  (C21_vdd_reinit probe_codec_powered (by decide)).1.trans (by decide)

/-! ## Number of ticks of a ramp task -/

/-- The ticks of the loop: the iterations that did not report completion
(the final `i` counts them from the initial `i`), and one more when the loop
is left through the `break`. -/
theorem ramp_for_ticks_eq (step : snd_soc_codec → snd_soc_codec × Nat) :
    ∀ (n i : Nat) (codec : snd_soc_codec),
      i + ramp_for_ticks step n codec =
        (ramp_for step n i codec).2.1 +
          (if (ramp_for step n i codec).2.2 ≠ 0 then 1 else 0) := by
  intro n
  induction n with
  | zero => intro i codec; simp [ramp_for_ticks, ramp_for]
  | succ n ih =>
    intro i codec
    unfold ramp_for_ticks ramp_for
    by_cases h : (step codec).2 ≠ 0
    · simp only [h, if_true, ne_eq, not_false_eq_true]
    · simp only [h, if_false]
      have := ih (i + 1) (step codec).1
      omega

/-- The loop never makes more calls than its bound. -/
theorem ramp_for_ticks_le (step : snd_soc_codec → snd_soc_codec × Nat) :
    ∀ (n : Nat) (codec : snd_soc_codec), ramp_for_ticks step n codec ≤ n := by
  intro n
  induction n with
  | zero => intro codec; simp [ramp_for_ticks]
  | succ n ih =>
    intro codec
    unfold ramp_for_ticks
    by_cases h : (step codec).2 ≠ 0
    · show (if (step codec).2 ≠ 0 then 1 else _) ≤ n + 1
      rw [if_pos h]
      omega
    · show (if (step codec).2 ≠ 0 then 1 else _) ≤ n + 1
      rw [if_neg h]
      have := ih (step codec).1
      omega

set_option maxRecDepth 100000 in
/-- C22, as stated, fails: on Down ramps with steps (1, 1) that start from
the maximal cached gains, the headset and the earphone task call their ramp
step 16 times and the handsfree task 30 times (the last call finds every
gain at 0 and reports completion).  With steps (0, 0) the headset loop runs
out of its bound after 16 calls, none of which reports completion. -/
theorem C22_counterexample :
    twl6040_pga_hs_work_ticks loud_down_codec = 16 ∧
      twl6040_pga_ep_work_ticks loud_down_codec = 16 ∧
      twl6040_pga_hf_work_ticks loud_down_codec = 30 ∧
      ¬ (twl6040_pga_hs_work_ticks loud_down_codec ≤ 15) ∧
      ¬ (twl6040_pga_hf_work_ticks loud_down_codec ≤ 29) ∧
      twl6040_pga_hs_work_ticks stuck_down_codec = 16 ∧
      (twl6040_pga_hs_loop stuck_down_codec).2 = (16, 0) := by
  decide

/-- C22, amended: the tick bound.  For every run of a ramp task, whatever
the cache contents, targets and steps, the number of calls of the ramp step
is at most the bound of the loop of the task: 16 for the headset and the
earphone task, 30 for the handsfree task (0 when the task is entered with
direction None).  The calls are the iterations that did not report
completion, counted by the final `i` of the loop, and one more when the loop
is left through the `break`. -/
theorem C22_tick_bound (codec : snd_soc_codec) :
    twl6040_pga_hs_work_ticks codec ≤ 16 ∧
      twl6040_pga_ep_work_ticks codec ≤ 16 ∧
      twl6040_pga_hf_work_ticks codec ≤ 30 ∧
      (codec.drvdata.headset.ramp ≠ TWL6040_RAMP_NONE →
        twl6040_pga_hs_work_ticks codec =
          (twl6040_pga_hs_loop codec).2.1 +
            (if (twl6040_pga_hs_loop codec).2.2 ≠ 0 then 1 else 0)) ∧
      (codec.drvdata.earphone.ramp ≠ TWL6040_RAMP_NONE →
        twl6040_pga_ep_work_ticks codec =
          (twl6040_pga_ep_loop codec).2.1 +
            (if (twl6040_pga_ep_loop codec).2.2 ≠ 0 then 1 else 0)) ∧
      (codec.drvdata.handsfree.ramp ≠ TWL6040_RAMP_NONE →
        twl6040_pga_hf_work_ticks codec =
          (twl6040_pga_hf_loop codec).2.1 +
            (if (twl6040_pga_hf_loop codec).2.2 ≠ 0 then 1 else 0)) ∧
      (codec.drvdata.headset.ramp = TWL6040_RAMP_NONE →
        twl6040_pga_hs_work_ticks codec = 0) ∧
      (codec.drvdata.earphone.ramp = TWL6040_RAMP_NONE →
        twl6040_pga_ep_work_ticks codec = 0) ∧
      (codec.drvdata.handsfree.ramp = TWL6040_RAMP_NONE →
        twl6040_pga_hf_work_ticks codec = 0) := by
  have hs := ramp_for_ticks_le hs_tick 16 codec
  have ep := ramp_for_ticks_le ep_tick 16 codec
  have hf := ramp_for_ticks_le hf_tick 30 codec
  have hse := ramp_for_ticks_eq hs_tick 16 0 codec
  have epe := ramp_for_ticks_eq ep_tick 16 0 codec
  have hfe := ramp_for_ticks_eq hf_tick 30 0 codec
  rw [Nat.zero_add] at hse epe hfe
  refine ⟨?_, ?_, ?_, ?_, ?_, ?_, ?_, ?_, ?_⟩
  · unfold twl6040_pga_hs_work_ticks
    split
    · exact Nat.zero_le _
    · exact hs
  · unfold twl6040_pga_ep_work_ticks
    split
    · exact Nat.zero_le _
    · exact ep
  · unfold twl6040_pga_hf_work_ticks
    split
    · exact Nat.zero_le _
    · exact hf
  · intro h
    unfold twl6040_pga_hs_work_ticks
    rw [if_neg h]
    exact hse
  · intro h
    unfold twl6040_pga_ep_work_ticks
    rw [if_neg h]
    exact epe
  · intro h
    unfold twl6040_pga_hf_work_ticks
    rw [if_neg h]
    exact hfe
  · intro h
    unfold twl6040_pga_hs_work_ticks
    rw [if_pos h]
  · intro h
    unfold twl6040_pga_ep_work_ticks
    rw [if_pos h]
  · intro h
    unfold twl6040_pga_hf_work_ticks
    rw [if_pos h]

set_option maxRecDepth 100000 in
/-- A concrete instance of the amended C22: the Down ramps from the cached
gains (10, 10) with steps (1, 1) take 11 calls of the ramp step, ten that
lower the gains and the one that reports completion. -/
theorem C22_tick_bound_witness :
    (twl6040_pga_hs_work_ticks down_codec ≤ 16 ∧
        twl6040_pga_ep_work_ticks down_codec ≤ 16 ∧
        twl6040_pga_hf_work_ticks down_codec ≤ 30) ∧
      twl6040_pga_hs_work_ticks down_codec = 11 ∧
      (twl6040_pga_hs_loop down_codec).2 = (10, 1) :=
  ⟨⟨(C22_tick_bound down_codec).1, (C22_tick_bound down_codec).2.1,
      (C22_tick_bound down_codec).2.2.1⟩,
    ((C22_tick_bound down_codec).2.2.2.1 (by decide)).trans (by decide), by decide⟩

/-! ## Down ramps: monotonicity -/

theorem down_next_le (s cur : Nat) : down_next s cur ≤ cur := by
  unfold down_next
  split_ifs <;> omega

/-- The Down tick on integers: the gain minus the step, clamped at 0. -/
theorem down_next_int (s cur : Nat) :
    ((down_next s cur : Nat) : Int) = max 0 ((cur : Int) - (s : Int)) := by
  unfold down_next
  split_ifs <;> omega

/-- The gains after one more Down tick of the headset. -/
theorem hs_ticks_down (codec : snd_soc_codec)
    (hramp : codec.drvdata.headset.ramp = TWL6040_RAMP_DOWN) (k : Nat) :
    hs_left_gain (hs_ticks (k + 1) codec) =
        down_next (min codec.drvdata.headset.left_step 15)
          (hs_left_gain (hs_ticks k codec)) ∧
      hs_right_gain (hs_ticks (k + 1) codec) =
        down_next (min codec.drvdata.headset.right_step 15)
          (hs_right_gain (hs_ticks k codec)) := by
  have hd := hs_ticks_drvdata codec k
  obtain ⟨_, gl, gr, _⟩ := hs_step_down (hs_ticks k codec)
    (hs_ticks k codec).drvdata.headset.left_step (hs_ticks k codec).drvdata.headset.right_step
    (by rw [hd]; exact hramp)
  rw [hs_ticks_succ]
  unfold hs_tick
  rw [gl, gr, hd]
  exact ⟨rfl, rfl⟩

/-- The gains after one more Down tick of the handsfree output. -/
theorem hf_ticks_down (codec : snd_soc_codec)
    (hramp : codec.drvdata.handsfree.ramp = TWL6040_RAMP_DOWN)
    (hbl : twl6040_read_reg_cache codec TWL6040_REG_HFLGAIN < 256)
    (hbr : twl6040_read_reg_cache codec TWL6040_REG_HFRGAIN < 256) (k : Nat) :
    hf_left_gain (hf_ticks (k + 1) codec) =
        down_next (min codec.drvdata.handsfree.left_step 29)
          (hf_left_gain (hf_ticks k codec)) ∧
      hf_right_gain (hf_ticks (k + 1) codec) =
        down_next (min codec.drvdata.handsfree.right_step 29)
          (hf_right_gain (hf_ticks k codec)) := by
  have hd := hf_ticks_drvdata codec k
  obtain ⟨_, gl, gr, _⟩ := hf_step_down (hf_ticks k codec)
    (hf_ticks k codec).drvdata.handsfree.left_step
    (hf_ticks k codec).drvdata.handsfree.right_step
    (by rw [hd]; exact hramp)
    (hf_ticks_byte codec _ hbl k) (hf_ticks_byte codec _ hbr k)
  rw [hf_ticks_succ]
  unfold hf_tick
  rw [gl, gr, hd]
  exact ⟨rfl, rfl⟩

/-- The gain after one more Down tick of the earphone. -/
theorem ep_ticks_down (codec : snd_soc_codec)
    (hramp : codec.drvdata.earphone.ramp = TWL6040_RAMP_DOWN) (k : Nat) :
    ep_gain (ep_ticks (k + 1) codec) =
      down_next (min codec.drvdata.earphone.left_step 15) (ep_gain (ep_ticks k codec)) := by
  have hd := ep_ticks_drvdata codec k
  obtain ⟨_, g⟩ := ep_down (ep_ticks k codec) (ep_ticks k codec).drvdata.earphone.left_step
    (by rw [hd]; exact hramp)
  rw [ep_ticks_succ]
  unfold ep_tick
  rw [g, hd]

/-- A sequence of gains in which every tick is a Down tick with the step `s`
is non-increasing, tick by tick and as a whole, every tick is the integer
subtraction of the step clamped at 0, and no gain exceeds the first one. -/
theorem antitone_of_down_steps (g : Nat → Nat) (s g0 : Nat) (h0 : g 0 = g0)
    (h : ∀ k, g (k + 1) = down_next s (g k)) :
    (∀ k, g (k + 1) ≤ g k) ∧ Antitone g ∧
      (∀ k, ((g (k + 1) : Nat) : Int) = max 0 ((g k : Int) - (s : Int))) ∧
      (∀ k, g k ≤ g0) := by
  have hstep : ∀ k, g (k + 1) ≤ g k := by
    intro k
    rw [h k]
    exact down_next_le _ _
  have hanti : Antitone g := antitone_nat_of_succ_le hstep
  refine ⟨hstep, hanti, ?_, ?_⟩
  · intro k
    rw [h k]
    exact down_next_int _ _
  · intro k
    rw [← h0]
    exact hanti (Nat.zero_le k)

/-- C23: Down-ramp monotonicity.  During a Down ramp of any output, for
every initial cache (the handsfree gain registers holding bytes) and every
step, the decoded gain of each channel after a tick is the gain before it
minus the clamped step, computed on integers and clamped at 0: the sequence
of gains over successive ticks is non-increasing, no gain in it falls below
0 or wraps around, and every gain is at most the gain the ramp started from
and at most the maximum of the field (15, or 31 for the five bits of a
handsfree register). -/
theorem C23_down_ramp_monotone (codec : snd_soc_codec) :
    (codec.drvdata.headset.ramp = TWL6040_RAMP_DOWN →
      ((∀ k, hs_left_gain (hs_ticks (k + 1) codec) ≤ hs_left_gain (hs_ticks k codec)) ∧
        Antitone (fun k => hs_left_gain (hs_ticks k codec)) ∧
        (∀ k, ((hs_left_gain (hs_ticks (k + 1) codec) : Nat) : Int) =
          max 0 ((hs_left_gain (hs_ticks k codec) : Int) -
            ((min codec.drvdata.headset.left_step 15 : Nat) : Int))) ∧
        (∀ k, hs_left_gain (hs_ticks k codec) ≤ hs_left_gain codec ∧
          hs_left_gain (hs_ticks k codec) ≤ 15)) ∧
      ((∀ k, hs_right_gain (hs_ticks (k + 1) codec) ≤ hs_right_gain (hs_ticks k codec)) ∧
        Antitone (fun k => hs_right_gain (hs_ticks k codec)) ∧
        (∀ k, ((hs_right_gain (hs_ticks (k + 1) codec) : Nat) : Int) =
          max 0 ((hs_right_gain (hs_ticks k codec) : Int) -
            ((min codec.drvdata.headset.right_step 15 : Nat) : Int))) ∧
        (∀ k, hs_right_gain (hs_ticks k codec) ≤ hs_right_gain codec ∧
          hs_right_gain (hs_ticks k codec) ≤ 15))) ∧
    (codec.drvdata.handsfree.ramp = TWL6040_RAMP_DOWN →
      twl6040_read_reg_cache codec TWL6040_REG_HFLGAIN < 256 →
      twl6040_read_reg_cache codec TWL6040_REG_HFRGAIN < 256 →
      ((∀ k, hf_left_gain (hf_ticks (k + 1) codec) ≤ hf_left_gain (hf_ticks k codec)) ∧
        Antitone (fun k => hf_left_gain (hf_ticks k codec)) ∧
        (∀ k, ((hf_left_gain (hf_ticks (k + 1) codec) : Nat) : Int) =
          max 0 ((hf_left_gain (hf_ticks k codec) : Int) -
            ((min codec.drvdata.handsfree.left_step 29 : Nat) : Int))) ∧
        (∀ k, hf_left_gain (hf_ticks k codec) ≤ hf_left_gain codec ∧
          hf_left_gain (hf_ticks k codec) ≤ 31)) ∧
      ((∀ k, hf_right_gain (hf_ticks (k + 1) codec) ≤ hf_right_gain (hf_ticks k codec)) ∧
        Antitone (fun k => hf_right_gain (hf_ticks k codec)) ∧
        (∀ k, ((hf_right_gain (hf_ticks (k + 1) codec) : Nat) : Int) =
          max 0 ((hf_right_gain (hf_ticks k codec) : Int) -
            ((min codec.drvdata.handsfree.right_step 29 : Nat) : Int))) ∧
        (∀ k, hf_right_gain (hf_ticks k codec) ≤ hf_right_gain codec ∧
          hf_right_gain (hf_ticks k codec) ≤ 31))) ∧
    (codec.drvdata.earphone.ramp = TWL6040_RAMP_DOWN →
      (∀ k, ep_gain (ep_ticks (k + 1) codec) ≤ ep_gain (ep_ticks k codec)) ∧
        Antitone (fun k => ep_gain (ep_ticks k codec)) ∧
        (∀ k, ((ep_gain (ep_ticks (k + 1) codec) : Nat) : Int) =
          max 0 ((ep_gain (ep_ticks k codec) : Int) -
            ((min codec.drvdata.earphone.left_step 15 : Nat) : Int))) ∧
        (∀ k, ep_gain (ep_ticks k codec) ≤ ep_gain codec ∧
          ep_gain (ep_ticks k codec) ≤ 15)) := by
  have e0 : hs_ticks 0 codec = codec := rfl
  have f0 : hf_ticks 0 codec = codec := rfl
  have g0 : ep_ticks 0 codec = codec := rfl
  refine ⟨?_, ?_, ?_⟩
  · intro hramp
    obtain ⟨a1, a2, a3, a4⟩ := antitone_of_down_steps
      (fun k => hs_left_gain (hs_ticks k codec))
      (min codec.drvdata.headset.left_step 15) (hs_left_gain codec)
      (congrArg hs_left_gain e0) (fun k => (hs_ticks_down codec hramp k).1)
    obtain ⟨b1, b2, b3, b4⟩ := antitone_of_down_steps
      (fun k => hs_right_gain (hs_ticks k codec))
      (min codec.drvdata.headset.right_step 15) (hs_right_gain codec)
      (congrArg hs_right_gain e0) (fun k => (hs_ticks_down codec hramp k).2)
    exact ⟨⟨a1, a2, a3, fun k => ⟨a4 k, (hs_gain_le _).1⟩⟩,
      ⟨b1, b2, b3, fun k => ⟨b4 k, (hs_gain_le _).2⟩⟩⟩
  · intro hramp hbl hbr
    obtain ⟨a1, a2, a3, a4⟩ := antitone_of_down_steps
      (fun k => hf_left_gain (hf_ticks k codec))
      (min codec.drvdata.handsfree.left_step 29) (hf_left_gain codec)
      (congrArg hf_left_gain f0) (fun k => (hf_ticks_down codec hramp hbl hbr k).1)
    obtain ⟨b1, b2, b3, b4⟩ := antitone_of_down_steps
      (fun k => hf_right_gain (hf_ticks k codec))
      (min codec.drvdata.handsfree.right_step 29) (hf_right_gain codec)
      (congrArg hf_right_gain f0) (fun k => (hf_ticks_down codec hramp hbl hbr k).2)
    exact ⟨⟨a1, a2, a3, fun k => ⟨a4 k,
        hf_left_gain_le _ (hf_ticks_byte codec _ hbl k)⟩⟩,
      ⟨b1, b2, b3, fun k => ⟨b4 k,
        hf_right_gain_le _ (hf_ticks_byte codec _ hbr k)⟩⟩⟩
  · intro hramp
    obtain ⟨a1, a2, a3, a4⟩ := antitone_of_down_steps
      (fun k => ep_gain (ep_ticks k codec))
      (min codec.drvdata.earphone.left_step 15) (ep_gain codec)
      (congrArg ep_gain g0) (fun k => ep_ticks_down codec hramp k)
    exact ⟨a1, a2, a3, fun k => ⟨a4 k, ep_gain_le _⟩⟩

set_option maxRecDepth 100000 in
/-- A concrete instance of C23: the Down ramps of `down_codec`, whose cached
gains are 10 on every channel; after three ticks with step 1 the headset
left gain is 7. -/
theorem C23_down_ramp_monotone_witness :
    ((∀ k, hs_left_gain (hs_ticks (k + 1) down_codec) ≤
          hs_left_gain (hs_ticks k down_codec)) ∧
        (∀ k, hs_right_gain (hs_ticks (k + 1) down_codec) ≤
          hs_right_gain (hs_ticks k down_codec))) ∧
      ((∀ k, hf_left_gain (hf_ticks (k + 1) down_codec) ≤
          hf_left_gain (hf_ticks k down_codec)) ∧
        (∀ k, hf_right_gain (hf_ticks (k + 1) down_codec) ≤
          hf_right_gain (hf_ticks k down_codec))) ∧
      (∀ k, ep_gain (ep_ticks (k + 1) down_codec) ≤ ep_gain (ep_ticks k down_codec)) ∧
      hs_left_gain (hs_ticks 3 down_codec) = 7 :=
  have hs := (C23_down_ramp_monotone down_codec).1 (by decide)
  have hf := (C23_down_ramp_monotone down_codec).2.1 (by decide) (by decide) (by decide)
  have ep := (C23_down_ramp_monotone down_codec).2.2 (by decide)
  ⟨⟨hs.1.1, hs.2.1⟩, ⟨hf.1.1, hf.2.1⟩, ep.1, by decide⟩

/-! ## Power events that arm no ramp -/

/-- The headset event that arms no ramp: power-down of an inactive output,
power-up of an active one, or an event that is neither.  Only the first
switch of `out_drv_event` has an effect. -/
theorem out_drv_event_hs_idle (codec : snd_soc_codec)
    (w : snd_soc_codec → snd_soc_codec × Nat) (event : dapm_event)
    (h : (event = SND_SOC_DAPM_PRE_PMD ∧ codec.drvdata.headset.active = 0) ∨
      (event = SND_SOC_DAPM_POST_PMU ∧ codec.drvdata.headset.active ≠ 0) ∨
      (event ≠ SND_SOC_DAPM_PRE_PMD ∧ event ≠ SND_SOC_DAPM_POST_PMU)) :
    out_drv_event codec 2 event w =
      (0, { codec with
        drvdata := { codec.drvdata with
          headset := { codec.drvdata.headset with
            work_queued := false, left_step := codec.drvdata.hs_left_step,
            right_step := codec.drvdata.hs_right_step, step_delay := 5 } } }) := by
  rcases h with ⟨rfl, ha⟩ | ⟨rfl, ha⟩ | ⟨h1, h2⟩
  · simp [out_drv_event, out_drv_select, get_out, set_out, ha]
  · simp [out_drv_event, out_drv_select, get_out, set_out, ha]
  · cases event <;> simp_all [out_drv_event, out_drv_select, get_out, set_out]

/-- The handsfree event that arms no ramp. -/
theorem out_drv_event_hf_idle (codec : snd_soc_codec)
    (w : snd_soc_codec → snd_soc_codec × Nat) (shift : Nat) (hs : shift = 4 ∨ shift = 6)
    (event : dapm_event)
    (h : (event = SND_SOC_DAPM_PRE_PMD ∧ codec.drvdata.handsfree.active = 0) ∨
      (event = SND_SOC_DAPM_POST_PMU ∧ codec.drvdata.handsfree.active ≠ 0) ∨
      (event ≠ SND_SOC_DAPM_PRE_PMD ∧ event ≠ SND_SOC_DAPM_POST_PMU)) :
    out_drv_event codec shift event w =
      (0, { codec with
        drvdata := { codec.drvdata with
          handsfree := { codec.drvdata.handsfree with
            work_queued := false, left_step := codec.drvdata.hf_left_step,
            right_step := codec.drvdata.hf_right_step, step_delay := 5 } } }) := by
  rcases hs with rfl | rfl <;> rcases h with ⟨rfl, ha⟩ | ⟨rfl, ha⟩ | ⟨h1, h2⟩
  · simp [out_drv_event, out_drv_select, get_out, set_out, ha]
  · simp [out_drv_event, out_drv_select, get_out, set_out, ha]
  · cases event <;> simp_all [out_drv_event, out_drv_select, get_out, set_out]
  · simp [out_drv_event, out_drv_select, get_out, set_out, ha]
  · simp [out_drv_event, out_drv_select, get_out, set_out, ha]
  · cases event <;> simp_all [out_drv_event, out_drv_select, get_out, set_out]

/-- The earphone event that arms no ramp. -/
theorem out_drv_event_ep_idle (codec : snd_soc_codec)
    (w : snd_soc_codec → snd_soc_codec × Nat) (event : dapm_event)
    (h : (event = SND_SOC_DAPM_PRE_PMD ∧ codec.drvdata.earphone.active = 0) ∨
      (event = SND_SOC_DAPM_POST_PMU ∧ codec.drvdata.earphone.active ≠ 0) ∨
      (event ≠ SND_SOC_DAPM_PRE_PMD ∧ event ≠ SND_SOC_DAPM_POST_PMU)) :
    out_drv_event codec 0 event w =
      (0, { codec with
        drvdata := { codec.drvdata with
          earphone := { codec.drvdata.earphone with
            work_queued := false, left_step := codec.drvdata.ep_step,
            step_delay := 5 } } }) := by
  rcases h with ⟨rfl, ha⟩ | ⟨rfl, ha⟩ | ⟨h1, h2⟩
  · simp [out_drv_event, out_drv_select, get_out, set_out, ha]
  · simp [out_drv_event, out_drv_select, get_out, set_out, ha]
  · cases event <;> simp_all [out_drv_event, out_drv_select, get_out, set_out]

/-- C24: power-down of an inactive output.  For every output with `active`
clear, `out_drv_event(PRE_PMD)` returns 0 and its result does not depend on
`wait_for_completion_timeout`, which is not called: no ramp task is queued
(the pending bit is clear afterwards) and the completion is not touched.
The register cache and the chip handle are unchanged (no register write),
and in the output only `left_step`, `right_step` and `step_delay`, which the
first switch assigns, can differ: `active`, the ramp direction and the
targets are unchanged. -/
theorem C24_power_down_inactive (codec : snd_soc_codec)
    (w : snd_soc_codec → snd_soc_codec × Nat) :
    (codec.drvdata.headset.active = 0 →
      out_drv_event codec 2 SND_SOC_DAPM_PRE_PMD w =
        (0, { codec with
          drvdata := { codec.drvdata with
            headset := { codec.drvdata.headset with
              work_queued := false, left_step := codec.drvdata.hs_left_step,
              right_step := codec.drvdata.hs_right_step, step_delay := 5 } } })) ∧
    (∀ shift, shift = 4 ∨ shift = 6 →
      codec.drvdata.handsfree.active = 0 →
      out_drv_event codec shift SND_SOC_DAPM_PRE_PMD w =
        (0, { codec with
          drvdata := { codec.drvdata with
            handsfree := { codec.drvdata.handsfree with
              work_queued := false, left_step := codec.drvdata.hf_left_step,
              right_step := codec.drvdata.hf_right_step, step_delay := 5 } } })) ∧
    (codec.drvdata.earphone.active = 0 →
      out_drv_event codec 0 SND_SOC_DAPM_PRE_PMD w =
        (0, { codec with
          drvdata := { codec.drvdata with
            earphone := { codec.drvdata.earphone with
              work_queued := false, left_step := codec.drvdata.ep_step,
              step_delay := 5 } } })) :=
  ⟨fun ha => out_drv_event_hs_idle codec w _ (Or.inl ⟨rfl, ha⟩),
   fun shift hs ha => out_drv_event_hf_idle codec w shift hs _ (Or.inl ⟨rfl, ha⟩),
   fun ha => out_drv_event_ep_idle codec w _ (Or.inl ⟨rfl, ha⟩)⟩

set_option maxRecDepth 100000 in
/-- A concrete instance of C24: the three inactive outputs of `idle_codec`,
with a wait that would run the ramp task of the headset. -/
theorem C24_power_down_inactive_witness :
    (out_drv_event idle_codec 2 SND_SOC_DAPM_PRE_PMD
        (fun c => (run_ramp_work c output_sel.headset, 1))).1 = 0 ∧
      (out_drv_event idle_codec 2 SND_SOC_DAPM_PRE_PMD
        (fun c => (run_ramp_work c output_sel.headset, 1))).2.drvdata.headset =
        { idle_output with left_step := 1, right_step := 1, step_delay := 5 } ∧
      (out_drv_event idle_codec 4 SND_SOC_DAPM_PRE_PMD wait_timeout).2.drvdata.handsfree =
        { idle_output with left_step := 1, right_step := 1, step_delay := 5 } ∧
      (out_drv_event idle_codec 0 SND_SOC_DAPM_PRE_PMD wait_timeout).2.drvdata.earphone =
        { idle_output with left_step := 1, step_delay := 5 } :=
  ⟨(congrArg Prod.fst ((C24_power_down_inactive idle_codec _).1 (by decide))).trans rfl,
   (congrArg (fun r => r.2.drvdata.headset)
     ((C24_power_down_inactive idle_codec _).1 (by decide))).trans rfl,
   (congrArg (fun r => r.2.drvdata.handsfree)
     ((C24_power_down_inactive idle_codec wait_timeout).2.1 4 (Or.inl rfl)
       (by decide))).trans rfl,
   (congrArg (fun r => r.2.drvdata.earphone)
     ((C24_power_down_inactive idle_codec wait_timeout).2.2 (by decide))).trans rfl⟩

/-! ## Target round trip -/

/-- The codec `twl6040_put_volsw` leaves for the headset control: the codec
with the targets stored when the output is not active, what
`snd_soc_put_volsw` makes of that codec when it is. -/
theorem put_volsw_hs_codec (codec : snd_soc_codec) (value0 value1 : Int)
    (put put_2r : snd_soc_codec → Int × snd_soc_codec) :
    (twl6040_put_volsw codec TWL6040_REG_HSGAIN value0 value1 put put_2r).2 =
      if codec.drvdata.headset.active = 0 then
        { codec with
          drvdata := { codec.drvdata with
            headset := { codec.drvdata.headset with
              left_vol := to_u16 value0, right_vol := to_u16 value1 } } }
      else
        (put { codec with
          drvdata := { codec.drvdata with
            headset := { codec.drvdata.headset with
              left_vol := to_u16 value0, right_vol := to_u16 value1 } } }).2 := by
  by_cases ha : codec.drvdata.headset.active = 0
  · simp [twl6040_put_volsw, get_out, set_out, ha]
  · rw [if_neg ha]
    have e : twl6040_put_volsw codec TWL6040_REG_HSGAIN value0 value1 put put_2r =
        if (put { codec with
          drvdata := { codec.drvdata with
            headset := { codec.drvdata.headset with
              left_vol := to_u16 value0, right_vol := to_u16 value1 } } }).1 < 0 then
          ((put { codec with
            drvdata := { codec.drvdata with
              headset := { codec.drvdata.headset with
                left_vol := to_u16 value0, right_vol := to_u16 value1 } } }).1,
           (put { codec with
            drvdata := { codec.drvdata with
              headset := { codec.drvdata.headset with
                left_vol := to_u16 value0, right_vol := to_u16 value1 } } }).2)
        else
          (1, (put { codec with
            drvdata := { codec.drvdata with
              headset := { codec.drvdata.headset with
                left_vol := to_u16 value0, right_vol := to_u16 value1 } } }).2) := by
      simp [twl6040_put_volsw, get_out, set_out, ha]
    rw [e]
    split <;> rfl

/-- The codec `twl6040_put_volsw` leaves for the handsfree control. -/
theorem put_volsw_hf_codec (codec : snd_soc_codec) (value0 value1 : Int)
    (put put_2r : snd_soc_codec → Int × snd_soc_codec) :
    (twl6040_put_volsw codec TWL6040_REG_HFLGAIN value0 value1 put put_2r).2 =
      if codec.drvdata.handsfree.active = 0 then
        { codec with
          drvdata := { codec.drvdata with
            handsfree := { codec.drvdata.handsfree with
              left_vol := to_u16 value0, right_vol := to_u16 value1 } } }
      else
        (put_2r { codec with
          drvdata := { codec.drvdata with
            handsfree := { codec.drvdata.handsfree with
              left_vol := to_u16 value0, right_vol := to_u16 value1 } } }).2 := by
  by_cases ha : codec.drvdata.handsfree.active = 0
  · simp [twl6040_put_volsw, get_out, set_out, ha]
  · rw [if_neg ha]
    have e : twl6040_put_volsw codec TWL6040_REG_HFLGAIN value0 value1 put put_2r =
        if (put_2r { codec with
          drvdata := { codec.drvdata with
            handsfree := { codec.drvdata.handsfree with
              left_vol := to_u16 value0, right_vol := to_u16 value1 } } }).1 < 0 then
          ((put_2r { codec with
            drvdata := { codec.drvdata with
              handsfree := { codec.drvdata.handsfree with
                left_vol := to_u16 value0, right_vol := to_u16 value1 } } }).1,
           (put_2r { codec with
            drvdata := { codec.drvdata with
              handsfree := { codec.drvdata.handsfree with
                left_vol := to_u16 value0, right_vol := to_u16 value1 } } }).2)
        else
          (1, (put_2r { codec with
            drvdata := { codec.drvdata with
              handsfree := { codec.drvdata.handsfree with
                left_vol := to_u16 value0, right_vol := to_u16 value1 } } }).2) := by
      simp [twl6040_put_volsw, get_out, set_out, ha]
    rw [e]
    split <;> rfl

/-- The codec `twl6040_put_volsw` leaves for the earphone control. -/
theorem put_volsw_ep_codec (codec : snd_soc_codec) (value0 value1 : Int)
    (put put_2r : snd_soc_codec → Int × snd_soc_codec) :
    (twl6040_put_volsw codec TWL6040_REG_EARCTL value0 value1 put put_2r).2 =
      if codec.drvdata.earphone.active = 0 then
        { codec with
          drvdata := { codec.drvdata with
            earphone := { codec.drvdata.earphone with
              left_vol := to_u16 value0, right_vol := to_u16 value1 } } }
      else
        (put { codec with
          drvdata := { codec.drvdata with
            earphone := { codec.drvdata.earphone with
              left_vol := to_u16 value0, right_vol := to_u16 value1 } } }).2 := by
  by_cases ha : codec.drvdata.earphone.active = 0
  · simp [twl6040_put_volsw, get_out, set_out, ha]
  · rw [if_neg ha]
    have e : twl6040_put_volsw codec TWL6040_REG_EARCTL value0 value1 put put_2r =
        if (put { codec with
          drvdata := { codec.drvdata with
            earphone := { codec.drvdata.earphone with
              left_vol := to_u16 value0, right_vol := to_u16 value1 } } }).1 < 0 then
          ((put { codec with
            drvdata := { codec.drvdata with
              earphone := { codec.drvdata.earphone with
                left_vol := to_u16 value0, right_vol := to_u16 value1 } } }).1,
           (put { codec with
            drvdata := { codec.drvdata with
              earphone := { codec.drvdata.earphone with
                left_vol := to_u16 value0, right_vol := to_u16 value1 } } }).2)
        else
          (1, (put { codec with
            drvdata := { codec.drvdata with
              earphone := { codec.drvdata.earphone with
                left_vol := to_u16 value0, right_vol := to_u16 value1 } } }).2) := by
      simp [twl6040_put_volsw, get_out, set_out, ha]
    rw [e]
    split <;> rfl

/-- The driver data `twl6040_put_volsw` leaves, for helpers of the ALSA core
that do not touch the driver data: the targets are stored, nothing else
changes. -/
theorem put_volsw_drvdata (codec : snd_soc_codec) (value0 value1 : Int)
    (put put_2r : snd_soc_codec → Int × snd_soc_codec)
    (hput : ∀ c, (put c).2.drvdata = c.drvdata)
    (hput2 : ∀ c, (put_2r c).2.drvdata = c.drvdata) :
    (twl6040_put_volsw codec TWL6040_REG_HSGAIN value0 value1 put put_2r).2.drvdata =
        { codec.drvdata with
          headset := { codec.drvdata.headset with
            left_vol := to_u16 value0, right_vol := to_u16 value1 } } ∧
      (twl6040_put_volsw codec TWL6040_REG_HFLGAIN value0 value1 put put_2r).2.drvdata =
        { codec.drvdata with
          handsfree := { codec.drvdata.handsfree with
            left_vol := to_u16 value0, right_vol := to_u16 value1 } } ∧
      (twl6040_put_volsw codec TWL6040_REG_EARCTL value0 value1 put put_2r).2.drvdata =
        { codec.drvdata with
          earphone := { codec.drvdata.earphone with
            left_vol := to_u16 value0, right_vol := to_u16 value1 } } := by
  refine ⟨?_, ?_, ?_⟩
  · rw [put_volsw_hs_codec]
    split
    · rfl
    · rw [hput]
  · rw [put_volsw_hf_codec]
    split
    · rfl
    · rw [hput2]
  · rw [put_volsw_ep_codec]
    split
    · rfl
    · rw [hput]

theorem to_u16_of_range (v : Int) (h0 : 0 ≤ v) (h1 : v < 65536) :
    ((to_u16 v : Nat) : Int) = v := by
  unfold to_u16
  omega

/-- C25: the target round trip.  For helpers of the ALSA core
(`snd_soc_put_volsw`, `snd_soc_put_volsw_2r`) that do not touch the driver
data, and for the headset and handsfree controls with every pair
(left, right) within the hardware range (0 .. 15, 0 .. 29),
`twl6040_put_volsw` followed by `twl6040_get_volsw` returns 0 and
(left, right), whether or not the output is active and whatever the helper
returns; for the earphone control the left value is returned and the second
entry of the value array is left as it was. -/
theorem C25_target_round_trip (codec : snd_soc_codec) (left right : Int)
    (value : Int × Int) (put put_2r : snd_soc_codec → Int × snd_soc_codec)
    (hput : ∀ c, (put c).2.drvdata = c.drvdata)
    (hput2 : ∀ c, (put_2r c).2.drvdata = c.drvdata) :
    (0 ≤ left → left ≤ 15 → 0 ≤ right → right ≤ 15 →
      twl6040_get_volsw
          (twl6040_put_volsw codec TWL6040_REG_HSGAIN left right put put_2r).2
          TWL6040_REG_HSGAIN value = (0, (left, right))) ∧
    (0 ≤ left → left ≤ 29 → 0 ≤ right → right ≤ 29 →
      twl6040_get_volsw
          (twl6040_put_volsw codec TWL6040_REG_HFLGAIN left right put put_2r).2
          TWL6040_REG_HFLGAIN value = (0, (left, right))) ∧
    (0 ≤ left → left ≤ 15 →
      twl6040_get_volsw
          (twl6040_put_volsw codec TWL6040_REG_EARCTL left right put put_2r).2
          TWL6040_REG_EARCTL value = (0, (left, value.2))) := by
  obtain ⟨hs, hf, ep⟩ := put_volsw_drvdata codec left right put put_2r hput hput2
  refine ⟨?_, ?_, ?_⟩
  · intro l0 l1 r0 r1
    unfold twl6040_get_volsw
    rw [if_pos rfl, hs]
    show (0, (((to_u16 left : Nat) : Int), ((to_u16 right : Nat) : Int))) = _
    rw [to_u16_of_range left l0 (by omega), to_u16_of_range right r0 (by omega)]
  · intro l0 l1 r0 r1
    unfold twl6040_get_volsw
    rw [if_neg (by decide), if_pos rfl, hf]
    show (0, (((to_u16 left : Nat) : Int), ((to_u16 right : Nat) : Int))) = _
    rw [to_u16_of_range left l0 (by omega), to_u16_of_range right r0 (by omega)]
  · intro l0 l1
    unfold twl6040_get_volsw
    rw [if_neg (by decide), if_neg (by decide), if_pos rfl, ep]
    show (0, (((to_u16 left : Nat) : Int), value.2)) = _
    rw [to_u16_of_range left l0 (by omega)]

/-- A concrete instance of C25: the targets (7, 9) on the active headset of
`playing_codec` with a helper that writes HSGAIN through `twl6040_write`,
and on the inactive handsfree output of `idle_codec`. -/
theorem C25_target_round_trip_witness :
    twl6040_get_volsw
        (twl6040_put_volsw playing_codec TWL6040_REG_HSGAIN 7 9
          (fun c => twl6040_write c TWL6040_REG_HSGAIN 0x68) put_volsw_fails).2
        TWL6040_REG_HSGAIN (0, 0) = (0, (7, 9)) ∧
      twl6040_get_volsw
        (twl6040_put_volsw idle_codec TWL6040_REG_HFLGAIN 7 9
          (fun c => twl6040_write c TWL6040_REG_HSGAIN 0x68) put_volsw_fails).2
        TWL6040_REG_HFLGAIN (0, 0) = (0, (7, 9)) :=
  ⟨(C25_target_round_trip playing_codec 7 9 (0, 0)
      (fun c => twl6040_write c TWL6040_REG_HSGAIN 0x68) put_volsw_fails
      (fun c => twl6040_write_drvdata c _ _) (fun _ => rfl)).1
      (by decide) (by decide) (by decide) (by decide),
   (C25_target_round_trip idle_codec 7 9 (0, 0)
      (fun c => twl6040_write c TWL6040_REG_HSGAIN 0x68) put_volsw_fails
      (fun c => twl6040_write_drvdata c _ _) (fun _ => rfl)).2.1
      (by decide) (by decide) (by decide) (by decide)⟩

/-! ## Prepare and On -/

set_option maxRecDepth 100000 in
/-- C26, as stated, fails: `twl6040_set_bias_level(ON)` does not only record
the level.  On the probed codec, whose private data holds `pll = 0` and
`sysclk = 0`, on a chip that reports the PLL 1 and the sample clock
19200000, the call returns 0 and leaves `pll = 1` and `sysclk = 19200000` in
the private data, so the codec it leaves is not the input codec with the
level recorded. -/
theorem C26_counterexample :
    clocked_codec.drvdata.pll = 0 ∧ clocked_codec.drvdata.sysclk = 0 ∧
      (twl6040_set_bias_level clocked_codec SND_SOC_BIAS_ON).1 = 0 ∧
      (twl6040_set_bias_level clocked_codec SND_SOC_BIAS_ON).2.drvdata.pll = 1 ∧
      (twl6040_set_bias_level clocked_codec SND_SOC_BIAS_ON).2.drvdata.sysclk = 19200000 ∧
      ¬ ((twl6040_set_bias_level clocked_codec SND_SOC_BIAS_ON).2.drvdata =
        clocked_codec.drvdata) := by
  refine ⟨by decide, by decide, by decide, by decide, by decide, ?_⟩
  intro h
  have hp := congrArg twl6040_data.pll h
  exact absurd hp (by decide)

/-- C26, amended: Prepare and On are pass-through.  For every codec,
`twl6040_set_bias_level(PREPARE)` and `twl6040_set_bias_level(ON)` return 0
and leave the codec as it was but for the bias level, which is the requested
one, and for `priv->pll` and `priv->sysclk`, which are refreshed from
`twl6040_get_pll` and `twl6040_get_sysclk`: the chip handle is unchanged (no
`twl6040_enable`, no `twl6040_disable`, no register write), and so are
`codec_powered`, `sysclk_constraints`, the outputs and the register cache.
`twl6040_set_bias_level` returns 0 for every level. -/
theorem C26_prepare_on_pass_through (codec : snd_soc_codec) :
    twl6040_set_bias_level codec SND_SOC_BIAS_PREPARE =
        (0, { codec with
          bias_level := SND_SOC_BIAS_PREPARE,
          drvdata := { codec.drvdata with
            pll := twl6040_get_pll codec.control_data,
            sysclk := twl6040_get_sysclk codec.control_data } }) ∧
      twl6040_set_bias_level codec SND_SOC_BIAS_ON =
        (0, { codec with
          bias_level := SND_SOC_BIAS_ON,
          drvdata := { codec.drvdata with
            pll := twl6040_get_pll codec.control_data,
            sysclk := twl6040_get_sysclk codec.control_data } }) ∧
      (∀ level, (twl6040_set_bias_level codec level).1 = 0) :=
  ⟨rfl, rfl, fun _ => rfl⟩

set_option maxRecDepth 100000 in
/-- A concrete instance of the amended C26: the level On on the probed codec
on the clocked chip; the log stays empty and the codec stays unpowered. -/
theorem C26_prepare_on_pass_through_witness :
    (twl6040_set_bias_level clocked_codec SND_SOC_BIAS_ON).1 = 0 ∧
      (twl6040_set_bias_level clocked_codec SND_SOC_BIAS_ON).2.bias_level =
        SND_SOC_BIAS_ON ∧
      (twl6040_set_bias_level clocked_codec SND_SOC_BIAS_ON).2.control_data.log = [] ∧
      (twl6040_set_bias_level clocked_codec SND_SOC_BIAS_ON).2.drvdata.codec_powered = 0 ∧
      (twl6040_set_bias_level clocked_codec SND_SOC_BIAS_ON).2.reg_cache =
        clocked_codec.reg_cache :=
  ⟨(congrArg Prod.fst (C26_prepare_on_pass_through clocked_codec).2.1).trans rfl,
   (congrArg (fun r => r.2.bias_level)
     (C26_prepare_on_pass_through clocked_codec).2.1).trans rfl,
   (congrArg (fun r => r.2.control_data.log)
     (C26_prepare_on_pass_through clocked_codec).2.1).trans rfl,
   (congrArg (fun r => r.2.drvdata.codec_powered)
     (C26_prepare_on_pass_through clocked_codec).2.1).trans rfl,
   (congrArg (fun r => r.2.reg_cache)
     (C26_prepare_on_pass_through clocked_codec).2.1).trans rfl⟩

/-! ## Gain decoding and encoding -/

set_option maxRecDepth 100000 in
theorem hs_decode_fin : ∀ b : Fin 256,
    (c_not (b.val % 256) &&& TWL6040_HSL_VOL_MASK) % 256 = 15 - (b.val &&& 0x0F) ∧
    ((c_not (b.val % 256) &&& TWL6040_HSR_VOL_MASK) >>> TWL6040_HSR_VOL_SHIFT) % 256 =
      15 - (b.val >>> 4) := by
  decide

set_option maxRecDepth 100000 in
theorem ep_decode_fin : ∀ b : Fin 256,
    ((c_not (b.val % 256) &&& TWL6040_EP_VOL_MASK) >>> TWL6040_EP_VOL_SHIFT) % 256 =
      15 - ((b.val >>> 1) &&& 0x0F) := by
  decide

/-- The headset gains as functions of the cached byte of HSGAIN. -/
theorem hs_gain_decode (codec : snd_soc_codec)
    (hb : twl6040_read_reg_cache codec TWL6040_REG_HSGAIN < 256) :
    hs_left_gain codec = 15 - (twl6040_read_reg_cache codec TWL6040_REG_HSGAIN &&& 0x0F) ∧
      hs_right_gain codec = 15 - (twl6040_read_reg_cache codec TWL6040_REG_HSGAIN >>> 4) :=
  hs_decode_fin ⟨twl6040_read_reg_cache codec TWL6040_REG_HSGAIN, hb⟩

/-- The earphone gain as a function of the cached byte of EARCTL. -/
theorem ep_gain_decode (codec : snd_soc_codec)
    (hb : twl6040_read_reg_cache codec TWL6040_REG_EARCTL < 256) :
    ep_gain codec =
      15 - ((twl6040_read_reg_cache codec TWL6040_REG_EARCTL >>> 1) &&& 0x0F) :=
  ep_decode_fin ⟨twl6040_read_reg_cache codec TWL6040_REG_EARCTL, hb⟩

/-- C29: gain decoding is `gain = max - rawbits` and encoding is its
inverse.  For every cached byte, the headset left gain the ramp step reads
is `15 - (HSGAIN & 0x0F)`, the headset right gain `15 - (HSGAIN >> 4)`, the
earphone gain `15 - ((EARCTL >> 1) & 0x0F)`, and for a handsfree register
value `raw ≤ 0x1D` the gain is `0x1D - raw`.  For every gain `g` in range,
the register value the ramp step writes for `g` decodes back to `g` (and, for
the headset, leaves the gain of the other channel as it was); in particular
an Up tick whose step equals an in-range target leaves the decoded gain at
the target. -/
theorem C29_gain_coding (codec : snd_soc_codec) :
    (twl6040_read_reg_cache codec TWL6040_REG_HSGAIN < 256 →
      hs_left_gain codec =
          15 - (twl6040_read_reg_cache codec TWL6040_REG_HSGAIN &&& 0x0F) ∧
        hs_right_gain codec =
          15 - (twl6040_read_reg_cache codec TWL6040_REG_HSGAIN >>> 4)) ∧
    (twl6040_read_reg_cache codec TWL6040_REG_EARCTL < 256 →
      ep_gain codec =
        15 - ((twl6040_read_reg_cache codec TWL6040_REG_EARCTL >>> 1) &&& 0x0F)) ∧
    (twl6040_read_reg_cache codec TWL6040_REG_HFLGAIN ≤ 0x1D →
      hf_left_gain codec = 0x1D - twl6040_read_reg_cache codec TWL6040_REG_HFLGAIN) ∧
    (twl6040_read_reg_cache codec TWL6040_REG_HFRGAIN ≤ 0x1D →
      hf_right_gain codec = 0x1D - twl6040_read_reg_cache codec TWL6040_REG_HFRGAIN) ∧
    (∀ g, g ≤ 15 →
      hs_left_gain (twl6040_write codec TWL6040_REG_HSGAIN
          ((twl6040_read_reg_cache codec TWL6040_REG_HSGAIN % 256
              &&& c_not TWL6040_HSL_VOL_MASK) % 256 |||
            (c_not g &&& TWL6040_HSL_VOL_MASK))).2 = g ∧
        hs_right_gain (twl6040_write codec TWL6040_REG_HSGAIN
          ((twl6040_read_reg_cache codec TWL6040_REG_HSGAIN % 256
              &&& c_not TWL6040_HSL_VOL_MASK) % 256 |||
            (c_not g &&& TWL6040_HSL_VOL_MASK))).2 = hs_right_gain codec) ∧
    (∀ g, g ≤ 15 →
      hs_right_gain (twl6040_write codec TWL6040_REG_HSGAIN
          ((twl6040_read_reg_cache codec TWL6040_REG_HSGAIN % 256
              &&& c_not TWL6040_HSR_VOL_MASK) % 256 |||
            (c_not g <<< TWL6040_HSR_VOL_SHIFT) % 2 ^ 32)).2 = g ∧
        hs_left_gain (twl6040_write codec TWL6040_REG_HSGAIN
          ((twl6040_read_reg_cache codec TWL6040_REG_HSGAIN % 256
              &&& c_not TWL6040_HSR_VOL_MASK) % 256 |||
            (c_not g <<< TWL6040_HSR_VOL_SHIFT) % 2 ^ 32)).2 = hs_left_gain codec) ∧
    (∀ g, g ≤ 15 →
      ep_gain (twl6040_write codec TWL6040_REG_EARCTL
        ((twl6040_read_reg_cache codec TWL6040_REG_EARCTL % 256
            &&& c_not TWL6040_EP_VOL_MASK) % 256 |||
          ((c_not g <<< TWL6040_EP_VOL_SHIFT) % 256 &&& TWL6040_EP_VOL_MASK))).2 = g) ∧
    (∀ g, g ≤ 29 → twl6040_read_reg_cache codec TWL6040_REG_HFLGAIN < 256 →
      hf_left_gain (twl6040_write codec TWL6040_REG_HFLGAIN
        (((c_sub 0x1D (twl6040_read_reg_cache codec TWL6040_REG_HFLGAIN % 65536) % 65536)
            &&& c_not TWL6040_HF_VOL_MASK) % 65536 ||| c_sub 0x1D g)).2 = g) ∧
    (∀ g, g ≤ 29 → twl6040_read_reg_cache codec TWL6040_REG_HFRGAIN < 256 →
      hf_right_gain (twl6040_write codec TWL6040_REG_HFRGAIN
        (((c_sub 0x1D (twl6040_read_reg_cache codec TWL6040_REG_HFRGAIN % 65536) % 65536)
            &&& c_not TWL6040_HF_VOL_MASK) % 65536 ||| c_sub 0x1D g)).2 = g) ∧
    (codec.drvdata.headset.ramp = TWL6040_RAMP_UP →
      codec.drvdata.headset.left_vol ≤ 15 → codec.drvdata.headset.right_vol ≤ 15 →
      hs_left_gain (twl6040_hs_ramp_step codec codec.drvdata.headset.left_vol
          codec.drvdata.headset.right_vol).1 = codec.drvdata.headset.left_vol ∧
        hs_right_gain (twl6040_hs_ramp_step codec codec.drvdata.headset.left_vol
          codec.drvdata.headset.right_vol).1 = codec.drvdata.headset.right_vol) ∧
    (codec.drvdata.handsfree.ramp = TWL6040_RAMP_UP →
      codec.drvdata.handsfree.left_vol ≤ 29 → codec.drvdata.handsfree.right_vol ≤ 29 →
      twl6040_read_reg_cache codec TWL6040_REG_HFLGAIN < 256 →
      twl6040_read_reg_cache codec TWL6040_REG_HFRGAIN < 256 →
      hf_left_gain (twl6040_hf_ramp_step codec codec.drvdata.handsfree.left_vol
          codec.drvdata.handsfree.right_vol).1 = codec.drvdata.handsfree.left_vol ∧
        hf_right_gain (twl6040_hf_ramp_step codec codec.drvdata.handsfree.left_vol
          codec.drvdata.handsfree.right_vol).1 = codec.drvdata.handsfree.right_vol) ∧
    (codec.drvdata.earphone.ramp = TWL6040_RAMP_UP →
      codec.drvdata.earphone.left_vol ≤ 15 →
      ep_gain (twl6040_ep_ramp_step codec codec.drvdata.earphone.left_vol).1 =
        codec.drvdata.earphone.left_vol) := by
  refine ⟨hs_gain_decode codec, ep_gain_decode codec, hf_left_gain_of_le codec,
    hf_right_gain_of_le codec, fun g hg => hs_left_write_gain codec g hg,
    fun g hg => hs_right_write_gain codec g hg, fun g hg => ep_write_gain codec g hg,
    fun g hg hb => (hf_left_write_gain codec g (by omega) hb).1,
    fun g hg hb => (hf_right_write_gain codec g (by omega) hb).1, ?_, ?_, ?_⟩
  · intro hramp htl htr
    obtain ⟨_, gl, gr, _⟩ := hs_step_up codec codec.drvdata.headset.left_vol
      codec.drvdata.headset.right_vol hramp htl htr
    rw [gl, gr, up_next_jump _ _ _ htl, up_next_jump _ _ _ htr]
    exact ⟨rfl, rfl⟩
  · intro hramp htl htr hbl hbr
    obtain ⟨_, gl, gr, _⟩ := hf_step_up codec codec.drvdata.handsfree.left_vol
      codec.drvdata.handsfree.right_vol hramp htl htr hbl hbr
    rw [gl, gr, up_next_jump _ _ _ htl, up_next_jump _ _ _ htr]
    exact ⟨rfl, rfl⟩
  · intro hramp ht
    obtain ⟨_, g⟩ := ep_up codec codec.drvdata.earphone.left_vol hramp ht
    rw [g, up_next_jump _ _ _ ht]

set_option maxRecDepth 100000 in
/-- A concrete instance of C29: `down_codec`, whose cache holds HSGAIN 0x55,
EARCTL 0x0A and HFLGAIN = HFRGAIN = 0x13, has the gain 10 on every
channel. -/
theorem C29_gain_coding_witness :
    (hs_left_gain down_codec = 15 - (0x55 &&& 0x0F) ∧
        hs_right_gain down_codec = 15 - (0x55 >>> 4)) ∧
      ep_gain down_codec = 15 - ((0x0A >>> 1) &&& 0x0F) ∧
      hf_left_gain down_codec = 0x1D - 0x13 ∧
      hf_right_gain down_codec = 0x1D - 0x13 ∧
      hs_left_gain down_codec = 10 :=
  ⟨(C29_gain_coding down_codec).1 (by decide),
   (C29_gain_coding down_codec).2.1 (by decide),
   (C29_gain_coding down_codec).2.2.1 (by decide),
   (C29_gain_coding down_codec).2.2.2.1 (by decide), by decide⟩

/-! ## Frame of the ramp steps, loops and tasks -/

theorem hs_left_frame (codec : snd_soc_codec) (s reg : Nat)
    (hne : reg ≠ TWL6040_REG_HSGAIN) :
    twl6040_read_reg_cache (twl6040_hs_ramp_step_left codec s).1 reg =
      twl6040_read_reg_cache codec reg := by
  rcases (hs_left_shape codec s).2.2.2 with h | h | ⟨v, h⟩
  · rw [h]
  · rw [h]
  · rw [h]
    exact read_reg_cache_write_other _ _ _ _ hne

theorem hs_right_frame (codec : snd_soc_codec) (s reg : Nat)
    (hne : reg ≠ TWL6040_REG_HSGAIN) :
    twl6040_read_reg_cache (twl6040_hs_ramp_step_right codec s).1 reg =
      twl6040_read_reg_cache codec reg := by
  rcases (hs_right_shape codec s).2.2.2 with h | h | ⟨v, h⟩
  · rw [h]
  · rw [h]
  · rw [h]
    exact read_reg_cache_write_other _ _ _ _ hne

theorem hf_left_frame (codec : snd_soc_codec) (s reg : Nat)
    (hne : reg ≠ TWL6040_REG_HFLGAIN) :
    twl6040_read_reg_cache (twl6040_hf_ramp_step_left codec s).1 reg =
      twl6040_read_reg_cache codec reg := by
  rcases (hf_left_shape codec s).2.2.2 with h | h | ⟨v, h⟩
  · rw [h]
  · rw [h]
  · rw [h]
    exact read_reg_cache_write_other _ _ _ _ hne

theorem hf_right_frame (codec : snd_soc_codec) (s reg : Nat)
    (hne : reg ≠ TWL6040_REG_HFRGAIN) :
    twl6040_read_reg_cache (twl6040_hf_ramp_step_right codec s).1 reg =
      twl6040_read_reg_cache codec reg := by
  rcases (hf_right_shape codec s).2.2.2 with h | h | ⟨v, h⟩
  · rw [h]
  · rw [h]
  · rw [h]
    exact read_reg_cache_write_other _ _ _ _ hne

theorem ep_frame (codec : snd_soc_codec) (s reg : Nat)
    (hne : reg ≠ TWL6040_REG_EARCTL) :
    twl6040_read_reg_cache (twl6040_ep_ramp_step codec s).1 reg =
      twl6040_read_reg_cache codec reg := by
  rcases (ep_shape codec s).2.2.2 with h | h | ⟨v, h⟩
  · rw [h]
  · rw [h]
  · rw [h]
    exact read_reg_cache_write_other _ _ _ _ hne

/-- A tick of the headset changes no cached register but HSGAIN. -/
theorem hs_tick_frame (codec : snd_soc_codec) (reg : Nat)
    (hne : reg ≠ TWL6040_REG_HSGAIN) :
    twl6040_read_reg_cache (hs_tick codec).1 reg = twl6040_read_reg_cache codec reg := by
  unfold hs_tick twl6040_hs_ramp_step
  exact (hs_right_frame _ _ _ hne).trans (hs_left_frame _ _ _ hne)

/-- A tick of the handsfree output changes no cached register but HFLGAIN
and HFRGAIN. -/
theorem hf_tick_frame (codec : snd_soc_codec) (reg : Nat)
    (hl : reg ≠ TWL6040_REG_HFLGAIN) (hr : reg ≠ TWL6040_REG_HFRGAIN) :
    twl6040_read_reg_cache (hf_tick codec).1 reg = twl6040_read_reg_cache codec reg := by
  unfold hf_tick twl6040_hf_ramp_step
  exact (hf_right_frame _ _ _ hr).trans (hf_left_frame _ _ _ hl)

/-- A tick of the earphone changes no cached register but EARCTL. -/
theorem ep_tick_frame (codec : snd_soc_codec) (reg : Nat)
    (hne : reg ≠ TWL6040_REG_EARCTL) :
    twl6040_read_reg_cache (ep_tick codec).1 reg = twl6040_read_reg_cache codec reg := by
  unfold ep_tick
  exact ep_frame _ _ _ hne

theorem hs_tick_byte (codec : snd_soc_codec) (reg : Nat)
    (hb : twl6040_read_reg_cache codec reg < 256) :
    twl6040_read_reg_cache (hs_tick codec).1 reg < 256 := by
  unfold hs_tick twl6040_hs_ramp_step
  exact hs_right_byte _ _ _ (hs_left_byte _ _ _ hb)

theorem hf_tick_byte (codec : snd_soc_codec) (reg : Nat)
    (hb : twl6040_read_reg_cache codec reg < 256) :
    twl6040_read_reg_cache (hf_tick codec).1 reg < 256 := by
  unfold hf_tick
  exact hf_step_byte _ _ _ _ hb

theorem ep_tick_byte (codec : snd_soc_codec) (reg : Nat)
    (hb : twl6040_read_reg_cache codec reg < 256) :
    twl6040_read_reg_cache (ep_tick codec).1 reg < 256 := by
  unfold ep_tick
  exact ep_byte _ _ _ hb

/-- The headset task changes no cached register but HSGAIN and keeps bytes
bytes. -/
theorem hs_work_frame (codec : snd_soc_codec) (reg : Nat) :
    (reg ≠ TWL6040_REG_HSGAIN →
      twl6040_read_reg_cache (twl6040_pga_hs_work codec) reg =
        twl6040_read_reg_cache codec reg) ∧
    (twl6040_read_reg_cache codec reg < 256 →
      twl6040_read_reg_cache (twl6040_pga_hs_work codec) reg < 256) := by
  have hl : reg ≠ TWL6040_REG_HSGAIN →
      twl6040_read_reg_cache (twl6040_pga_hs_loop codec).1 reg =
        twl6040_read_reg_cache codec reg := fun hne =>
    ramp_for_preserves hs_tick
      (fun c => twl6040_read_reg_cache c reg = twl6040_read_reg_cache codec reg)
      (fun c h => (hs_tick_frame c reg hne).trans h) 16 0 codec rfl
  have hb : twl6040_read_reg_cache codec reg < 256 →
      twl6040_read_reg_cache (twl6040_pga_hs_loop codec).1 reg < 256 := fun hb =>
    ramp_for_preserves hs_tick (fun c => twl6040_read_reg_cache c reg < 256)
      (fun c h => hs_tick_byte c reg h) 16 0 codec hb
  unfold twl6040_pga_hs_work
  split
  · exact ⟨fun _ => rfl, fun h => h⟩
  · exact ⟨hl, hb⟩

/-- The handsfree task changes no cached register but HFLGAIN and HFRGAIN
and keeps bytes bytes. -/
theorem hf_work_frame (codec : snd_soc_codec) (reg : Nat) :
    (reg ≠ TWL6040_REG_HFLGAIN → reg ≠ TWL6040_REG_HFRGAIN →
      twl6040_read_reg_cache (twl6040_pga_hf_work codec) reg =
        twl6040_read_reg_cache codec reg) ∧
    (twl6040_read_reg_cache codec reg < 256 →
      twl6040_read_reg_cache (twl6040_pga_hf_work codec) reg < 256) := by
  have hl : reg ≠ TWL6040_REG_HFLGAIN → reg ≠ TWL6040_REG_HFRGAIN →
      twl6040_read_reg_cache (twl6040_pga_hf_loop codec).1 reg =
        twl6040_read_reg_cache codec reg := fun h1 h2 =>
    ramp_for_preserves hf_tick
      (fun c => twl6040_read_reg_cache c reg = twl6040_read_reg_cache codec reg)
      (fun c h => (hf_tick_frame c reg h1 h2).trans h) 30 0 codec rfl
  have hb : twl6040_read_reg_cache codec reg < 256 →
      twl6040_read_reg_cache (twl6040_pga_hf_loop codec).1 reg < 256 := fun hb =>
    ramp_for_preserves hf_tick (fun c => twl6040_read_reg_cache c reg < 256)
      (fun c h => hf_tick_byte c reg h) 30 0 codec hb
  unfold twl6040_pga_hf_work
  split
  · exact ⟨fun _ _ => rfl, fun h => h⟩
  · exact ⟨hl, hb⟩

/-- The earphone task changes no cached register but EARCTL and keeps bytes
bytes. -/
theorem ep_work_frame (codec : snd_soc_codec) (reg : Nat) :
    (reg ≠ TWL6040_REG_EARCTL →
      twl6040_read_reg_cache (twl6040_pga_ep_work codec) reg =
        twl6040_read_reg_cache codec reg) ∧
    (twl6040_read_reg_cache codec reg < 256 →
      twl6040_read_reg_cache (twl6040_pga_ep_work codec) reg < 256) := by
  have hl : reg ≠ TWL6040_REG_EARCTL →
      twl6040_read_reg_cache (twl6040_pga_ep_loop codec).1 reg =
        twl6040_read_reg_cache codec reg := fun hne =>
    ramp_for_preserves ep_tick
      (fun c => twl6040_read_reg_cache c reg = twl6040_read_reg_cache codec reg)
      (fun c h => (ep_tick_frame c reg hne).trans h) 16 0 codec rfl
  have hb : twl6040_read_reg_cache codec reg < 256 →
      twl6040_read_reg_cache (twl6040_pga_ep_loop codec).1 reg < 256 := fun hb =>
    ramp_for_preserves ep_tick (fun c => twl6040_read_reg_cache c reg < 256)
      (fun c h => ep_tick_byte c reg h) 16 0 codec hb
  unfold twl6040_pga_ep_work
  split
  · exact ⟨fun _ => rfl, fun h => h⟩
  · exact ⟨hl, hb⟩

/-! ## Frame of the re-initialisation and of the bias level -/

/-- One iteration of the vdd loop leaves the driver data alone and changes
no cache entry that holds a byte. -/
theorem init_vdd_body_frame (codec : snd_soc_codec) (a : Fin TWL6040_CACHEREGNUM) :
    (twl6040_init_vdd_regs_body codec a).drvdata = codec.drvdata ∧
      (∀ b, codec.reg_cache b < 256 →
        (twl6040_init_vdd_regs_body codec a).reg_cache b = codec.reg_cache b) := by
  unfold twl6040_init_vdd_regs_body
  split
  · exact ⟨rfl, fun _ _ => rfl⟩
  · split
    · exact ⟨rfl, fun _ _ => rfl⟩
    · refine ⟨twl6040_write_drvdata _ _ _, ?_⟩
      intro b hb
      rw [twl6040_write_cache codec a.val (codec.reg_cache a) a.isLt]
      by_cases hab : b = a
      · subst hab
        rw [Function.update_same]
        exact Nat.mod_eq_of_lt hb
      · rw [Function.update_noteq hab]

theorem init_vdd_fold_frame (l : List (Fin TWL6040_CACHEREGNUM)) :
    ∀ codec : snd_soc_codec,
      (l.foldl twl6040_init_vdd_regs_body codec).drvdata = codec.drvdata ∧
        (∀ b, codec.reg_cache b < 256 →
          (l.foldl twl6040_init_vdd_regs_body codec).reg_cache b = codec.reg_cache b) := by
  induction l with
  | nil => intro codec; exact ⟨rfl, fun _ _ => rfl⟩
  | cons a l ih =>
    intro codec
    obtain ⟨d1, c1⟩ := init_vdd_body_frame codec a
    obtain ⟨d2, c2⟩ := ih (twl6040_init_vdd_regs_body codec a)
    rw [List.foldl_cons]
    refine ⟨d2.trans d1, ?_⟩
    intro b hb
    rw [c2 b (by rw [c1 b hb]; exact hb), c1 b hb]

/-- The vdd re-initialisation, in every power state, leaves the driver data
alone and changes no cache entry that holds a byte. -/
theorem init_vdd_regs_frame (codec : snd_soc_codec) :
    (twl6040_init_vdd_regs codec).drvdata = codec.drvdata ∧
      (∀ b, codec.reg_cache b < 256 →
        (twl6040_init_vdd_regs codec).reg_cache b = codec.reg_cache b) := by
  unfold twl6040_init_vdd_regs
  exact init_vdd_fold_frame _ codec

/-- A cached read is a function of the cache alone. -/
theorem read_reg_cache_congr (c c' : snd_soc_codec) (reg : Nat)
    (h : ∀ b, c.reg_cache b < 256 → c'.reg_cache b = c.reg_cache b)
    (hb : twl6040_read_reg_cache c reg < 256) :
    twl6040_read_reg_cache c' reg = twl6040_read_reg_cache c reg := by
  by_cases hr : reg < TWL6040_CACHEREGNUM
  · rw [read_reg_cache_of_lt c reg hr] at hb ⊢
    rw [read_reg_cache_of_lt c' reg hr]
    exact h _ hb
  · unfold twl6040_read_reg_cache
    rw [dif_neg hr, dif_neg hr]

/-- The transition to Standby of a codec that is not powered. -/
theorem set_bias_level_standby_eq (codec : snd_soc_codec)
    (hp : codec.drvdata.codec_powered = 0) :
    twl6040_set_bias_level codec SND_SOC_BIAS_STANDBY =
      (0, { twl6040_init_vdd_regs
              { codec with
                control_data := twl6040_enable codec.control_data,
                drvdata := { codec.drvdata with
                  codec_powered := 1,
                  sysclk_constraints := constraint_list.lp_constraints } } with
        bias_level := SND_SOC_BIAS_STANDBY,
        drvdata := { (twl6040_init_vdd_regs
              { codec with
                control_data := twl6040_enable codec.control_data,
                drvdata := { codec.drvdata with
                  codec_powered := 1,
                  sysclk_constraints := constraint_list.lp_constraints } }).drvdata with
          pll := twl6040_get_pll (twl6040_init_vdd_regs
              { codec with
                control_data := twl6040_enable codec.control_data,
                drvdata := { codec.drvdata with
                  codec_powered := 1,
                  sysclk_constraints := constraint_list.lp_constraints } }).control_data,
          sysclk := twl6040_get_sysclk (twl6040_init_vdd_regs
              { codec with
                control_data := twl6040_enable codec.control_data,
                drvdata := { codec.drvdata with
                  codec_powered := 1,
                  sysclk_constraints := constraint_list.lp_constraints } }).control_data } }) := by
  simp only [twl6040_set_bias_level, hp, ne_eq, not_true_eq_false, if_false]

/-- The bias-level callback leaves the outputs and the configured steps
alone and changes no cached register that holds a byte. -/
theorem set_bias_level_frame (codec : snd_soc_codec) (level : snd_soc_bias_level) :
    (twl6040_set_bias_level codec level).2.drvdata.headset = codec.drvdata.headset ∧
      (twl6040_set_bias_level codec level).2.drvdata.handsfree = codec.drvdata.handsfree ∧
      (twl6040_set_bias_level codec level).2.drvdata.earphone = codec.drvdata.earphone ∧
      (twl6040_set_bias_level codec level).2.drvdata.hs_left_step =
        codec.drvdata.hs_left_step ∧
      (twl6040_set_bias_level codec level).2.drvdata.hs_right_step =
        codec.drvdata.hs_right_step ∧
      (twl6040_set_bias_level codec level).2.drvdata.hf_left_step =
        codec.drvdata.hf_left_step ∧
      (twl6040_set_bias_level codec level).2.drvdata.hf_right_step =
        codec.drvdata.hf_right_step ∧
      (twl6040_set_bias_level codec level).2.drvdata.ep_step = codec.drvdata.ep_step ∧
      (∀ reg, twl6040_read_reg_cache codec reg < 256 →
        twl6040_read_reg_cache (twl6040_set_bias_level codec level).2 reg =
          twl6040_read_reg_cache codec reg) := by
  by_cases hnt : level = SND_SOC_BIAS_ON ∨ level = SND_SOC_BIAS_PREPARE ∨
      (level = SND_SOC_BIAS_STANDBY ∧ codec.drvdata.codec_powered ≠ 0) ∨
      (level = SND_SOC_BIAS_OFF ∧ codec.drvdata.codec_powered = 0)
  · rw [set_bias_level_no_transition codec level hnt]
    exact ⟨rfl, rfl, rfl, rfl, rfl, rfl, rfl, rfl, fun _ _ => rfl⟩
  · cases level with
    | SND_SOC_BIAS_ON => exact absurd (Or.inl rfl) hnt
    | SND_SOC_BIAS_PREPARE => exact absurd (Or.inr (Or.inl rfl)) hnt
    | SND_SOC_BIAS_OFF =>
      have hp : codec.drvdata.codec_powered ≠ 0 := fun h =>
        hnt (Or.inr (Or.inr (Or.inr ⟨rfl, h⟩)))
      rw [set_bias_level_off_powered codec hp]
      exact ⟨rfl, rfl, rfl, rfl, rfl, rfl, rfl, rfl, fun _ _ => rfl⟩
    | SND_SOC_BIAS_STANDBY =>
      have hp : codec.drvdata.codec_powered = 0 := by
        by_contra h
        exact hnt (Or.inr (Or.inr (Or.inl ⟨rfl, h⟩)))
      have hf := init_vdd_regs_frame
        { codec with
          control_data := twl6040_enable codec.control_data,
          drvdata := { codec.drvdata with
            codec_powered := 1,
            sysclk_constraints := constraint_list.lp_constraints } }
      rw [set_bias_level_standby_eq codec hp]
      generalize twl6040_init_vdd_regs
        { codec with
          control_data := twl6040_enable codec.control_data,
          drvdata := { codec.drvdata with
            codec_powered := 1,
            sysclk_constraints := constraint_list.lp_constraints } } = I at hf ⊢
      obtain ⟨hd, hc⟩ := hf
      refine ⟨?_, ?_, ?_, ?_, ?_, ?_, ?_, ?_, ?_⟩
      · show I.drvdata.headset = _
        rw [hd]
      · show I.drvdata.handsfree = _
        rw [hd]
      · show I.drvdata.earphone = _
        rw [hd]
      · show I.drvdata.hs_left_step = _
        rw [hd]
      · show I.drvdata.hs_right_step = _
        rw [hd]
      · show I.drvdata.hf_left_step = _
        rw [hd]
      · show I.drvdata.hf_right_step = _
        rw [hd]
      · show I.drvdata.ep_step = _
        rw [hd]
      · intro reg hb
        show twl6040_read_reg_cache
          { I with bias_level := SND_SOC_BIAS_STANDBY } reg = _
        exact read_reg_cache_congr codec _ reg hc hb

/-! ## The invariant between driver operations: transport -/

/-- The headset part of the invariant depends on the headset output and on
HSGAIN only. -/
theorem hs_silent_congr (c c' : snd_soc_codec)
    (hd : c'.drvdata.headset = c.drvdata.headset)
    (hr : twl6040_read_reg_cache c' TWL6040_REG_HSGAIN =
      twl6040_read_reg_cache c TWL6040_REG_HSGAIN)
    (h : hs_silent c) : hs_silent c' := by
  unfold hs_silent hs_left_gain hs_right_gain at h ⊢
  rw [hd, hr]
  exact h

/-- The handsfree part of the invariant depends on the handsfree output and
on HFLGAIN and HFRGAIN only. -/
theorem hf_silent_congr (c c' : snd_soc_codec)
    (hd : c'.drvdata.handsfree = c.drvdata.handsfree)
    (hl : twl6040_read_reg_cache c' TWL6040_REG_HFLGAIN =
      twl6040_read_reg_cache c TWL6040_REG_HFLGAIN)
    (hr : twl6040_read_reg_cache c' TWL6040_REG_HFRGAIN =
      twl6040_read_reg_cache c TWL6040_REG_HFRGAIN)
    (h : hf_silent c) : hf_silent c' := by
  unfold hf_silent hf_left_gain hf_right_gain at h ⊢
  rw [hd, hl, hr]
  exact h

/-- The earphone part of the invariant depends on the earphone output and on
EARCTL only. -/
theorem ep_silent_congr (c c' : snd_soc_codec)
    (hd : c'.drvdata.earphone = c.drvdata.earphone)
    (hr : twl6040_read_reg_cache c' TWL6040_REG_EARCTL =
      twl6040_read_reg_cache c TWL6040_REG_EARCTL)
    (h : ep_silent c) : ep_silent c' := by
  unfold ep_silent ep_gain at h ⊢
  rw [hd, hr]
  exact h

/-- A change of the headset output and of HSGAIN keeps the rest of the
invariant. -/
theorem others_of_hs_change (c c' : snd_soc_codec) (out : twl6040_output)
    (hd : c'.drvdata = { c.drvdata with headset := out })
    (hr : ∀ reg, reg ≠ TWL6040_REG_HSGAIN →
      twl6040_read_reg_cache c' reg = twl6040_read_reg_cache c reg) :
    (steps_configured c.drvdata → steps_configured c'.drvdata) ∧
      (hf_silent c → hf_silent c') ∧ (ep_silent c → ep_silent c') := by
  refine ⟨?_, ?_, ?_⟩
  · intro h
    rw [hd]
    exact h
  · exact hf_silent_congr c c' (by rw [hd]) (hr _ (by decide)) (hr _ (by decide))
  · exact ep_silent_congr c c' (by rw [hd]) (hr _ (by decide))

/-- A change of the handsfree output and of HFLGAIN and HFRGAIN keeps the
rest of the invariant. -/
theorem others_of_hf_change (c c' : snd_soc_codec) (out : twl6040_output)
    (hd : c'.drvdata = { c.drvdata with handsfree := out })
    (hr : ∀ reg, reg ≠ TWL6040_REG_HFLGAIN → reg ≠ TWL6040_REG_HFRGAIN →
      twl6040_read_reg_cache c' reg = twl6040_read_reg_cache c reg) :
    (steps_configured c.drvdata → steps_configured c'.drvdata) ∧
      (hs_silent c → hs_silent c') ∧ (ep_silent c → ep_silent c') := by
  refine ⟨?_, ?_, ?_⟩
  · intro h
    rw [hd]
    exact h
  · exact hs_silent_congr c c' (by rw [hd]) (hr _ (by decide) (by decide))
  · exact ep_silent_congr c c' (by rw [hd]) (hr _ (by decide) (by decide))

/-- A change of the earphone output and of EARCTL keeps the rest of the
invariant. -/
theorem others_of_ep_change (c c' : snd_soc_codec) (out : twl6040_output)
    (hd : c'.drvdata = { c.drvdata with earphone := out })
    (hr : ∀ reg, reg ≠ TWL6040_REG_EARCTL →
      twl6040_read_reg_cache c' reg = twl6040_read_reg_cache c reg) :
    (steps_configured c.drvdata → steps_configured c'.drvdata) ∧
      (hs_silent c → hs_silent c') ∧ (hf_silent c → hf_silent c') := by
  refine ⟨?_, ?_, ?_⟩
  · intro h
    rw [hd]
    exact h
  · exact hs_silent_congr c c' (by rw [hd]) (hr _ (by decide))
  · exact hf_silent_congr c c' (by rw [hd]) (hr _ (by decide)) (hr _ (by decide))

/-- The end of a ramp work function touches `active`, the completion and the
direction only. -/
theorem ramp_finish_keeps (out : twl6040_output) :
    (ramp_finish out).left_vol = out.left_vol ∧
      (ramp_finish out).right_vol = out.right_vol ∧
      (ramp_finish out).work_queued = out.work_queued ∧
      (ramp_finish out).ramp = TWL6040_RAMP_NONE := by
  unfold ramp_finish
  split <;> exact ⟨rfl, rfl, rfl, rfl⟩

/-- The driver data a run of the headset task leaves. -/
theorem hs_work_drvdata (codec : snd_soc_codec) :
    (twl6040_pga_hs_work codec).drvdata =
        { codec.drvdata with headset := (twl6040_pga_hs_work codec).drvdata.headset } ∧
      (twl6040_pga_hs_work codec).drvdata.headset.left_vol =
        codec.drvdata.headset.left_vol ∧
      (twl6040_pga_hs_work codec).drvdata.headset.right_vol =
        codec.drvdata.headset.right_vol ∧
      (twl6040_pga_hs_work codec).drvdata.headset.work_queued =
        codec.drvdata.headset.work_queued := by
  unfold twl6040_pga_hs_work
  split
  · exact ⟨rfl, rfl, rfl, rfl⟩
  · obtain ⟨a, b, c, _⟩ := ramp_finish_keeps codec.drvdata.headset
    have hd := hs_loop_drvdata codec
    refine ⟨?_, ?_, ?_, ?_⟩
    · show ({ (twl6040_pga_hs_loop codec).1.drvdata with
        headset := ramp_finish (twl6040_pga_hs_loop codec).1.drvdata.headset } :
          twl6040_data) = _
      simp only [hd]
    · show (ramp_finish (twl6040_pga_hs_loop codec).1.drvdata.headset).left_vol = _
      rw [hd]; exact a
    · show (ramp_finish (twl6040_pga_hs_loop codec).1.drvdata.headset).right_vol = _
      rw [hd]; exact b
    · show (ramp_finish (twl6040_pga_hs_loop codec).1.drvdata.headset).work_queued = _
      rw [hd]; exact c

/-- The driver data a run of the handsfree task leaves. -/
theorem hf_work_drvdata (codec : snd_soc_codec) :
    (twl6040_pga_hf_work codec).drvdata =
        { codec.drvdata with
          handsfree := (twl6040_pga_hf_work codec).drvdata.handsfree } ∧
      (twl6040_pga_hf_work codec).drvdata.handsfree.left_vol =
        codec.drvdata.handsfree.left_vol ∧
      (twl6040_pga_hf_work codec).drvdata.handsfree.right_vol =
        codec.drvdata.handsfree.right_vol ∧
      (twl6040_pga_hf_work codec).drvdata.handsfree.work_queued =
        codec.drvdata.handsfree.work_queued := by
  unfold twl6040_pga_hf_work
  split
  · exact ⟨rfl, rfl, rfl, rfl⟩
  · obtain ⟨a, b, c, _⟩ := ramp_finish_keeps codec.drvdata.handsfree
    have hd := hf_loop_drvdata codec
    refine ⟨?_, ?_, ?_, ?_⟩
    · show ({ (twl6040_pga_hf_loop codec).1.drvdata with
        handsfree := ramp_finish (twl6040_pga_hf_loop codec).1.drvdata.handsfree } :
          twl6040_data) = _
      simp only [hd]
    · show (ramp_finish (twl6040_pga_hf_loop codec).1.drvdata.handsfree).left_vol = _
      rw [hd]; exact a
    · show (ramp_finish (twl6040_pga_hf_loop codec).1.drvdata.handsfree).right_vol = _
      rw [hd]; exact b
    · show (ramp_finish (twl6040_pga_hf_loop codec).1.drvdata.handsfree).work_queued = _
      rw [hd]; exact c

/-- The driver data a run of the earphone task leaves. -/
theorem ep_work_drvdata (codec : snd_soc_codec) :
    (twl6040_pga_ep_work codec).drvdata =
        { codec.drvdata with earphone := (twl6040_pga_ep_work codec).drvdata.earphone } ∧
      (twl6040_pga_ep_work codec).drvdata.earphone.left_vol =
        codec.drvdata.earphone.left_vol ∧
      (twl6040_pga_ep_work codec).drvdata.earphone.right_vol =
        codec.drvdata.earphone.right_vol ∧
      (twl6040_pga_ep_work codec).drvdata.earphone.work_queued =
        codec.drvdata.earphone.work_queued := by
  unfold twl6040_pga_ep_work
  split
  · exact ⟨rfl, rfl, rfl, rfl⟩
  · obtain ⟨a, b, c, _⟩ := ramp_finish_keeps codec.drvdata.earphone
    have hd := ep_loop_drvdata codec
    refine ⟨?_, ?_, ?_, ?_⟩
    · show ({ (twl6040_pga_ep_loop codec).1.drvdata with
        earphone := ramp_finish (twl6040_pga_ep_loop codec).1.drvdata.earphone } :
          twl6040_data) = _
      simp only [hd]
    · show (ramp_finish (twl6040_pga_ep_loop codec).1.drvdata.earphone).left_vol = _
      rw [hd]; exact a
    · show (ramp_finish (twl6040_pga_ep_loop codec).1.drvdata.earphone).right_vol = _
      rw [hd]; exact b
    · show (ramp_finish (twl6040_pga_ep_loop codec).1.drvdata.earphone).work_queued = _
      rw [hd]; exact c

/-- The worker finds no task of the output in the queue. -/
theorem run_ramp_work_idle (codec : snd_soc_codec) (sel : output_sel)
    (h : (get_out codec sel).work_queued = false) : run_ramp_work codec sel = codec := by
  unfold run_ramp_work
  rw [h]
  rfl

theorem power_event_ep_eq (codec : snd_soc_codec) (event : dapm_event) :
    power_event codec 0 event =
      run_ramp_work (out_drv_event codec 0 event
        (fun c => (run_ramp_work c output_sel.earphone, 1))).2 output_sel.earphone := rfl

theorem power_event_hs_eq (codec : snd_soc_codec) (event : dapm_event) :
    power_event codec 2 event =
      run_ramp_work (out_drv_event codec 2 event
        (fun c => (run_ramp_work c output_sel.headset, 1))).2 output_sel.headset := rfl

theorem power_event_hf_eq (codec : snd_soc_codec) (shift : Nat)
    (hs : shift = 4 ∨ shift = 6) (event : dapm_event) :
    power_event codec shift event =
      run_ramp_work (out_drv_event codec shift event
        (fun c => (run_ramp_work c output_sel.handsfree, 1))).2 output_sel.handsfree := by
  rcases hs with rfl | rfl <;> rfl

theorem power_event_other (codec : snd_soc_codec) (shift : Nat) (event : dapm_event)
    (h0 : shift ≠ 0) (h2 : shift ≠ 2) (h4 : shift ≠ 4) (h6 : shift ≠ 6) :
    power_event codec shift event = codec := by
  simp [power_event, out_drv_select, h0, h2, h4, h6]

/-! ## The invariant between driver operations: ramp tasks -/

theorem read_reg_cache_of_cache_eq (c c' : snd_soc_codec) (reg : Nat)
    (h : c'.reg_cache = c.reg_cache) :
    twl6040_read_reg_cache c' reg = twl6040_read_reg_cache c reg := by
  unfold twl6040_read_reg_cache
  rw [h]

/-- The headset task, run on a codec that differs from one satisfying the
invariant by an armed headset output (up with the steps equal to the
targets, or down with steps of at least 1), restores the invariant. -/
theorem hs_task_inv (codec X : snd_soc_codec) (out : twl6040_output)
    (hd : X.drvdata = { codec.drvdata with headset := out })
    (hc : X.reg_cache = codec.reg_cache)
    (hq : out.work_queued = false)
    (hvl : out.left_vol = codec.drvdata.headset.left_vol)
    (hvr : out.right_vol = codec.drvdata.headset.right_vol)
    (hdir : (out.ramp = TWL6040_RAMP_UP ∧ out.left_step = out.left_vol ∧
        out.right_step = out.right_vol) ∨
      (out.ramp = TWL6040_RAMP_DOWN ∧ 1 ≤ out.left_step ∧ 1 ≤ out.right_step))
    (h : driver_inv codec) :
    driver_inv (twl6040_pga_hs_work X) ∧
      (twl6040_pga_hs_work X).drvdata.headset.work_queued = false := by
  obtain ⟨hcfg, ⟨_, hl, hr, hb, _⟩, hhf, hep⟩ := h
  have hXo : X.drvdata.headset = out := by rw [hd]
  obtain ⟨yd, yl, yr, yq⟩ := hs_work_drvdata X
  rw [hXo] at yl yr yq
  have hread : ∀ reg, reg ≠ TWL6040_REG_HSGAIN →
      twl6040_read_reg_cache (twl6040_pga_hs_work X) reg =
        twl6040_read_reg_cache codec reg := fun reg hne =>
    ((hs_work_frame X reg).1 hne).trans (read_reg_cache_of_cache_eq codec X reg hc)
  have hbyte : twl6040_read_reg_cache (twl6040_pga_hs_work X) TWL6040_REG_HSGAIN < 256 :=
    (hs_work_frame X _).2 (by rw [read_reg_cache_of_cache_eq codec X _ hc]; exact hb)
  obtain ⟨k1, k2, k3⟩ := others_of_hs_change codec (twl6040_pga_hs_work X)
    (twl6040_pga_hs_work X).drvdata.headset (by rw [yd, hd]) hread
  refine ⟨⟨k1 hcfg, ⟨⟨?_, yq.trans hq⟩, ?_, ?_, hbyte, ?_⟩, k2 hhf, k3 hep⟩, yq.trans hq⟩
  · rcases hdir with ⟨hu, _, _⟩ | ⟨hdn, _, _⟩
    · unfold twl6040_pga_hs_work
      rw [if_neg (by rw [hXo, hu]; decide)]
      exact (ramp_finish_keeps _).2.2.2
    · unfold twl6040_pga_hs_work
      rw [if_neg (by rw [hXo, hdn]; decide)]
      exact (ramp_finish_keeps _).2.2.2
  · rw [yl, hvl]; exact hl
  · rw [yr, hvr]; exact hr
  · intro ha
    rcases hdir with ⟨hu, hsl, hsr⟩ | ⟨hdn, hsl, hsr⟩
    · obtain ⟨_, _, _, _, a1, _⟩ := hs_jump X (by rw [hXo]; exact hu)
        (by rw [hXo, hvl]; exact hl) (by rw [hXo, hvr]; exact hr)
        (by rw [hXo]; exact hsl) (by rw [hXo]; exact hsr)
      rw [a1] at ha
      exact absurd ha (by decide)
    · obtain ⟨g1, g2, _⟩ := hs_fade X (by rw [hXo]; exact hdn)
        (by rw [hXo]; exact hsl) (by rw [hXo]; exact hsr)
      exact ⟨g1, g2⟩

/-- The handsfree loop on a Down ramp that starts from gains in range. -/
theorem hf_loop_down_gain (codec : snd_soc_codec)
    (hramp : codec.drvdata.handsfree.ramp = TWL6040_RAMP_DOWN)
    (hsl : 1 ≤ codec.drvdata.handsfree.left_step)
    (hsr : 1 ≤ codec.drvdata.handsfree.right_step)
    (hbl : twl6040_read_reg_cache codec TWL6040_REG_HFLGAIN < 256)
    (hbr : twl6040_read_reg_cache codec TWL6040_REG_HFRGAIN < 256)
    (hgl : hf_left_gain codec ≤ 29) (hgr : hf_right_gain codec ≤ 29) :
    (twl6040_pga_hf_loop codec).2.2 = 1 ∧
      hf_left_gain (twl6040_pga_hf_loop codec).1 = 0 ∧
      hf_right_gain (twl6040_pga_hf_loop codec).1 = 0 := by
  have h := ramp_for_converges hf_tick
    (fun c => c.drvdata = codec.drvdata ∧
      twl6040_read_reg_cache c TWL6040_REG_HFLGAIN < 256 ∧
      twl6040_read_reg_cache c TWL6040_REG_HFRGAIN < 256)
    (fun c => max (hf_left_gain c) (hf_right_gain c))
    (by
      intro c hinv hμ
      obtain ⟨hinv, _, _⟩ := hinv
      obtain ⟨h1, h2⟩ := max_eq_zero_of _ _ hμ
      exact hf_tick_done_down c (by rw [hinv]; exact hramp) h1 h2)
    (by
      intro c hinv hμ
      obtain ⟨hinv, hcl, hcr⟩ := hinv
      replace hμ : max (hf_left_gain c) (hf_right_gain c) ≠ 0 := hμ
      have ht : hf_tick c = twl6040_hf_ramp_step c codec.drvdata.handsfree.left_step
          codec.drvdata.handsfree.right_step := by
        unfold hf_tick
        rw [hinv]
      obtain ⟨f, gl, gr, hd⟩ := hf_step_down c codec.drvdata.handsfree.left_step
        codec.drvdata.handsfree.right_step (by rw [hinv]; exact hramp) hcl hcr
      rw [hinv] at hd
      obtain ⟨_, nl1, nl2⟩ := down_next_lt (min codec.drvdata.handsfree.left_step 29)
        (hf_left_gain c) (by omega)
      obtain ⟨_, nr1, nr2⟩ := down_next_lt (min codec.drvdata.handsfree.right_step 29)
        (hf_right_gain c) (by omega)
      rw [ht]
      refine ⟨?_, ⟨hd, hf_step_byte _ _ _ _ hcl, hf_step_byte _ _ _ _ hcr⟩, ?_⟩
      · rw [f, if_neg]
        intro hb
        apply hμ
        rw [hb.1, hb.2]
        rfl
      · show max (hf_left_gain (twl6040_hf_ramp_step c _ _).1)
          (hf_right_gain (twl6040_hf_ramp_step c _ _).1) < _
        rw [gl, gr]
        exact max_lt_max_of _ _ _ _ nl1 nr1 nl2 nr2 hμ)
    30 0 codec ⟨rfl, hbl, hbr⟩ (by show max _ _ < 30; omega)
  obtain ⟨a, _, _, d, _⟩ := h
  obtain ⟨h1, h2⟩ := max_eq_zero_of _ _ d
  exact ⟨a, h1, h2⟩

/-- The handsfree task, run on a codec that differs from one satisfying the
invariant by an armed handsfree output, restores the invariant. -/
theorem hf_task_inv (codec X : snd_soc_codec) (out : twl6040_output)
    (hd : X.drvdata = { codec.drvdata with handsfree := out })
    (hc : X.reg_cache = codec.reg_cache)
    (hq : out.work_queued = false)
    (hvl : out.left_vol = codec.drvdata.handsfree.left_vol)
    (hvr : out.right_vol = codec.drvdata.handsfree.right_vol)
    (hdir : (out.ramp = TWL6040_RAMP_UP ∧ out.left_step = out.left_vol ∧
        out.right_step = out.right_vol) ∨
      (out.ramp = TWL6040_RAMP_DOWN ∧ 1 ≤ out.left_step ∧ 1 ≤ out.right_step))
    (h : driver_inv codec) :
    driver_inv (twl6040_pga_hf_work X) ∧
      (twl6040_pga_hf_work X).drvdata.handsfree.work_queued = false := by
  obtain ⟨hcfg, hhs, ⟨_, hl, hr, hbl, hbr, hgl, hgr, _⟩, hep⟩ := h
  have hXo : X.drvdata.handsfree = out := by rw [hd]
  have hXl : twl6040_read_reg_cache X TWL6040_REG_HFLGAIN =
      twl6040_read_reg_cache codec TWL6040_REG_HFLGAIN :=
    read_reg_cache_of_cache_eq codec X _ hc
  have hXr : twl6040_read_reg_cache X TWL6040_REG_HFRGAIN =
      twl6040_read_reg_cache codec TWL6040_REG_HFRGAIN :=
    read_reg_cache_of_cache_eq codec X _ hc
  have hXgl : hf_left_gain X = hf_left_gain codec := by
    unfold hf_left_gain
    rw [hXl]
  have hXgr : hf_right_gain X = hf_right_gain codec := by
    unfold hf_right_gain
    rw [hXr]
  obtain ⟨yd, yl, yr, yq⟩ := hf_work_drvdata X
  rw [hXo] at yl yr yq
  have hread : ∀ reg, reg ≠ TWL6040_REG_HFLGAIN → reg ≠ TWL6040_REG_HFRGAIN →
      twl6040_read_reg_cache (twl6040_pga_hf_work X) reg =
        twl6040_read_reg_cache codec reg := fun reg h1 h2 =>
    ((hf_work_frame X reg).1 h1 h2).trans (read_reg_cache_of_cache_eq codec X reg hc)
  have hbytel :
      twl6040_read_reg_cache (twl6040_pga_hf_work X) TWL6040_REG_HFLGAIN < 256 :=
    (hf_work_frame X _).2 (by rw [hXl]; exact hbl)
  have hbyter :
      twl6040_read_reg_cache (twl6040_pga_hf_work X) TWL6040_REG_HFRGAIN < 256 :=
    (hf_work_frame X _).2 (by rw [hXr]; exact hbr)
  obtain ⟨k1, k2, k3⟩ := others_of_hf_change codec (twl6040_pga_hf_work X)
    (twl6040_pga_hf_work X).drvdata.handsfree (by rw [yd, hd]) hread
  have hw : twl6040_pga_hf_work X =
      { (twl6040_pga_hf_loop X).1 with
        drvdata := { X.drvdata with handsfree := ramp_finish X.drvdata.handsfree } } :=
    pga_hf_work_armed X (by
      rw [hXo]
      rcases hdir with ⟨hu, _, _⟩ | ⟨hdn, _, _⟩
      · rw [hu]; decide
      · rw [hdn]; decide)
  have hgains : hf_left_gain (twl6040_pga_hf_work X) ≤ 29 ∧
      hf_right_gain (twl6040_pga_hf_work X) ≤ 29 ∧
      ((twl6040_pga_hf_work X).drvdata.handsfree.active = 0 →
        hf_left_gain (twl6040_pga_hf_work X) = 0 ∧
          hf_right_gain (twl6040_pga_hf_work X) = 0) := by
    rcases hdir with ⟨hu, hsl, hsr⟩ | ⟨hdn, hsl, hsr⟩
    · obtain ⟨_, _, _, _, a1, _, g1, g2⟩ := hf_jump X (by rw [hXo]; exact hu)
        (by rw [hXo, hvl]; exact hl) (by rw [hXo, hvr]; exact hr)
        (by rw [hXo]; exact hsl) (by rw [hXo]; exact hsr)
        (by rw [hXl]; exact hbl) (by rw [hXr]; exact hbr)
      rw [hXo, hvl] at g1
      rw [hXo, hvr] at g2
      refine ⟨by rw [g1]; exact hl, by rw [g2]; exact hr, ?_⟩
      intro ha
      rw [a1] at ha
      exact absurd ha (by decide)
    · obtain ⟨_, g1, g2⟩ := hf_loop_down_gain X (by rw [hXo]; exact hdn)
        (by rw [hXo]; exact hsl) (by rw [hXo]; exact hsr)
        (by rw [hXl]; exact hbl) (by rw [hXr]; exact hbr)
        (by rw [hXgl]; exact hgl) (by rw [hXgr]; exact hgr)
      have e1 : hf_left_gain (twl6040_pga_hf_work X) =
          hf_left_gain (twl6040_pga_hf_loop X).1 := by rw [hw]; rfl
      have e2 : hf_right_gain (twl6040_pga_hf_work X) =
          hf_right_gain (twl6040_pga_hf_loop X).1 := by rw [hw]; rfl
      rw [e1, e2, g1, g2]
      exact ⟨Nat.zero_le _, Nat.zero_le _, fun _ => ⟨rfl, rfl⟩⟩
  refine ⟨⟨k1 hcfg, k2 hhs, ⟨⟨?_, yq.trans hq⟩, ?_, ?_, hbytel, hbyter, hgains.1,
    hgains.2.1, hgains.2.2⟩, k3 hep⟩, yq.trans hq⟩
  · rw [hw]
    exact (ramp_finish_keeps _).2.2.2
  · rw [yl, hvl]; exact hl
  · rw [yr, hvr]; exact hr

/-- The earphone task, run on a codec that differs from one satisfying the
invariant by an armed earphone output, restores the invariant. -/
theorem ep_task_inv (codec X : snd_soc_codec) (out : twl6040_output)
    (hd : X.drvdata = { codec.drvdata with earphone := out })
    (hc : X.reg_cache = codec.reg_cache)
    (hq : out.work_queued = false)
    (hvl : out.left_vol = codec.drvdata.earphone.left_vol)
    (hdir : (out.ramp = TWL6040_RAMP_UP ∧ out.left_step = out.left_vol) ∨
      (out.ramp = TWL6040_RAMP_DOWN ∧ 1 ≤ out.left_step))
    (h : driver_inv codec) :
    driver_inv (twl6040_pga_ep_work X) ∧
      (twl6040_pga_ep_work X).drvdata.earphone.work_queued = false := by
  obtain ⟨hcfg, hhs, hhf, ⟨_, hl, hb, _⟩⟩ := h
  have hXo : X.drvdata.earphone = out := by rw [hd]
  obtain ⟨yd, yl, _, yq⟩ := ep_work_drvdata X
  rw [hXo] at yl yq
  have hread : ∀ reg, reg ≠ TWL6040_REG_EARCTL →
      twl6040_read_reg_cache (twl6040_pga_ep_work X) reg =
        twl6040_read_reg_cache codec reg := fun reg hne =>
    ((ep_work_frame X reg).1 hne).trans (read_reg_cache_of_cache_eq codec X reg hc)
  have hbyte : twl6040_read_reg_cache (twl6040_pga_ep_work X) TWL6040_REG_EARCTL < 256 :=
    (ep_work_frame X _).2 (by rw [read_reg_cache_of_cache_eq codec X _ hc]; exact hb)
  obtain ⟨k1, k2, k3⟩ := others_of_ep_change codec (twl6040_pga_ep_work X)
    (twl6040_pga_ep_work X).drvdata.earphone (by rw [yd, hd]) hread
  refine ⟨⟨k1 hcfg, k2 hhs, k3 hhf, ⟨⟨?_, yq.trans hq⟩, ?_, hbyte, ?_⟩⟩, yq.trans hq⟩
  · rcases hdir with ⟨hu, _⟩ | ⟨hdn, _⟩
    · unfold twl6040_pga_ep_work
      rw [if_neg (by rw [hXo, hu]; decide)]
      exact (ramp_finish_keeps _).2.2.2
    · unfold twl6040_pga_ep_work
      rw [if_neg (by rw [hXo, hdn]; decide)]
      exact (ramp_finish_keeps _).2.2.2
  · rw [yl, hvl]; exact hl
  · intro ha
    rcases hdir with ⟨hu, hsl⟩ | ⟨hdn, hsl⟩
    · obtain ⟨_, _, _, a1, _⟩ := ep_jump X (by rw [hXo]; exact hu)
        (by rw [hXo, hvl]; exact hl) (by rw [hXo]; exact hsl)
      rw [a1] at ha
      exact absurd ha (by decide)
    · obtain ⟨g1, _⟩ := ep_fade X (by rw [hXo]; exact hdn) (by rw [hXo]; exact hsl)
      exact g1

/-! ## The invariant between driver operations: power events -/

/-- A change of the headset output that arms nothing, keeps the targets in
range and keeps `active` preserves the invariant. -/
theorem hs_set_inv (codec : snd_soc_codec) (out : twl6040_output)
    (hi : ramp_idle out) (hl : out.left_vol ≤ 15) (hr : out.right_vol ≤ 15)
    (ha : out.active = codec.drvdata.headset.active) (h : driver_inv codec) :
    driver_inv { codec with drvdata := { codec.drvdata with headset := out } } := by
  obtain ⟨hcfg, ⟨_, _, _, hb, hg⟩, hhf, hep⟩ := h
  obtain ⟨k1, k2, k3⟩ := others_of_hs_change codec
    { codec with drvdata := { codec.drvdata with headset := out } } out rfl (fun _ _ => rfl)
  exact ⟨k1 hcfg, ⟨hi, hl, hr, hb, fun h0 => hg (ha ▸ h0)⟩, k2 hhf, k3 hep⟩

/-- A change of the handsfree output that arms nothing, keeps the targets in
range and keeps `active` preserves the invariant. -/
theorem hf_set_inv (codec : snd_soc_codec) (out : twl6040_output)
    (hi : ramp_idle out) (hl : out.left_vol ≤ 29) (hr : out.right_vol ≤ 29)
    (ha : out.active = codec.drvdata.handsfree.active) (h : driver_inv codec) :
    driver_inv { codec with drvdata := { codec.drvdata with handsfree := out } } := by
  obtain ⟨hcfg, hhs, ⟨_, _, _, hbl, hbr, hgl, hgr, hg⟩, hep⟩ := h
  obtain ⟨k1, k2, k3⟩ := others_of_hf_change codec
    { codec with drvdata := { codec.drvdata with handsfree := out } } out rfl
    (fun _ _ _ => rfl)
  exact ⟨k1 hcfg, k2 hhs, ⟨hi, hl, hr, hbl, hbr, hgl, hgr, fun h0 => hg (ha ▸ h0)⟩, k3 hep⟩

/-- A change of the earphone output that arms nothing, keeps the target in
range and keeps `active` preserves the invariant. -/
theorem ep_set_inv (codec : snd_soc_codec) (out : twl6040_output)
    (hi : ramp_idle out) (hl : out.left_vol ≤ 15)
    (ha : out.active = codec.drvdata.earphone.active) (h : driver_inv codec) :
    driver_inv { codec with drvdata := { codec.drvdata with earphone := out } } := by
  obtain ⟨hcfg, hhs, hhf, ⟨_, _, hb, hg⟩⟩ := h
  obtain ⟨k1, k2, k3⟩ := others_of_ep_change codec
    { codec with drvdata := { codec.drvdata with earphone := out } } out rfl
    (fun _ _ => rfl)
  exact ⟨k1 hcfg, k2 hhs, k3 hhf, ⟨hi, hl, hb, fun h0 => hg (ha ▸ h0)⟩⟩

/-- The cases of a power event: it arms nothing, or it is the power-up of an
inactive output, or the power-down of an active one. -/
theorem power_event_cases (event : dapm_event) (active : Nat) :
    ((event = SND_SOC_DAPM_PRE_PMD ∧ active = 0) ∨
        (event = SND_SOC_DAPM_POST_PMU ∧ active ≠ 0) ∨
        (event ≠ SND_SOC_DAPM_PRE_PMD ∧ event ≠ SND_SOC_DAPM_POST_PMU)) ∨
      (event = SND_SOC_DAPM_POST_PMU ∧ active = 0) ∨
      (event = SND_SOC_DAPM_PRE_PMD ∧ active ≠ 0) := by
  by_cases ha : active = 0 <;> cases event <;> simp [ha]

/-- The worker takes the queued task of the headset. -/
theorem run_ramp_work_hs (codec : snd_soc_codec)
    (h : codec.drvdata.headset.work_queued = true) :
    run_ramp_work codec output_sel.headset =
      twl6040_pga_hs_work (dequeue_work codec output_sel.headset) := by
  unfold run_ramp_work
  rw [if_pos (by exact h)]

/-- The worker takes the queued task of the handsfree output. -/
theorem run_ramp_work_hf (codec : snd_soc_codec)
    (h : codec.drvdata.handsfree.work_queued = true) :
    run_ramp_work codec output_sel.handsfree =
      twl6040_pga_hf_work (dequeue_work codec output_sel.handsfree) := by
  unfold run_ramp_work
  rw [if_pos (by exact h)]

/-- The worker takes the queued task of the earphone. -/
theorem run_ramp_work_ep (codec : snd_soc_codec)
    (h : codec.drvdata.earphone.work_queued = true) :
    run_ramp_work codec output_sel.earphone =
      twl6040_pga_ep_work (dequeue_work codec output_sel.earphone) := by
  unfold run_ramp_work
  rw [if_pos (by exact h)]

/-- A power event of the headset driver with its ramp task preserves the
invariant. -/
theorem power_event_hs_inv (codec : snd_soc_codec) (event : dapm_event)
    (h : driver_inv codec) : driver_inv (power_event codec 2 event) := by
  rw [power_event_hs_eq]
  rcases power_event_cases event codec.drvdata.headset.active with
    hidle | ⟨rfl, ha⟩ | ⟨rfl, ha⟩
  · rw [out_drv_event_hs_idle codec _ event hidle]
    dsimp only
    rw [run_ramp_work_idle]
    · exact hs_set_inv codec _ ⟨h.2.1.1.1, rfl⟩ h.2.1.2.1 h.2.1.2.2.1 rfl h
    · rfl
  · rw [out_drv_event_hs_pmu codec _ ha]
    dsimp only
    have hU := run_ramp_work_hs
      { codec with
        drvdata := { codec.drvdata with
          headset := { codec.drvdata.headset with
            work_queued := true, left_step := codec.drvdata.headset.left_vol,
            right_step := codec.drvdata.headset.right_vol, step_delay := 5,
            ramp := TWL6040_RAMP_UP } } } rfl
    rw [hU]
    exact (hs_task_inv codec (dequeue_work
      { codec with
        drvdata := { codec.drvdata with
          headset := { codec.drvdata.headset with
            work_queued := true, left_step := codec.drvdata.headset.left_vol,
            right_step := codec.drvdata.headset.right_vol, step_delay := 5,
            ramp := TWL6040_RAMP_UP } } } output_sel.headset)
      { codec.drvdata.headset with
        work_queued := false, left_step := codec.drvdata.headset.left_vol,
        right_step := codec.drvdata.headset.right_vol, step_delay := 5,
        ramp := TWL6040_RAMP_UP }
      rfl rfl rfl rfl rfl (Or.inl ⟨rfl, rfl, rfl⟩) h).1
  · rw [out_drv_event_hs_pmd codec _ ha]
    dsimp only
    have hD := run_ramp_work_hs
      { codec with
        drvdata := { codec.drvdata with
          headset := { codec.drvdata.headset with
            work_queued := true, left_step := codec.drvdata.hs_left_step,
            right_step := codec.drvdata.hs_right_step, step_delay := 5,
            ramp := TWL6040_RAMP_DOWN, ramp_done := 0 } } } rfl
    rw [hD]
    have hY := hs_task_inv codec (dequeue_work
      { codec with
        drvdata := { codec.drvdata with
          headset := { codec.drvdata.headset with
            work_queued := true, left_step := codec.drvdata.hs_left_step,
            right_step := codec.drvdata.hs_right_step, step_delay := 5,
            ramp := TWL6040_RAMP_DOWN, ramp_done := 0 } } } output_sel.headset)
      { codec.drvdata.headset with
        work_queued := false, left_step := codec.drvdata.hs_left_step,
        right_step := codec.drvdata.hs_right_step, step_delay := 5,
        ramp := TWL6040_RAMP_DOWN, ramp_done := 0 }
      rfl rfl rfl rfl rfl (Or.inr ⟨rfl, h.1.1, h.1.2.1⟩) h
    rw [run_ramp_work_idle (twl6040_pga_hs_work (dequeue_work
      { codec with
        drvdata := { codec.drvdata with
          headset := { codec.drvdata.headset with
            work_queued := true, left_step := codec.drvdata.hs_left_step,
            right_step := codec.drvdata.hs_right_step, step_delay := 5,
            ramp := TWL6040_RAMP_DOWN, ramp_done := 0 } } } output_sel.headset)) output_sel.headset hY.2]
    exact hY.1

/-- A power event of the handsfree driver with its ramp task preserves the
invariant. -/
theorem power_event_hf_inv (codec : snd_soc_codec) (shift : Nat) (hs : shift = 4 ∨ shift = 6) (event : dapm_event)
    (h : driver_inv codec) : driver_inv (power_event codec shift event) := by
  rw [power_event_hf_eq codec shift hs]
  rcases power_event_cases event codec.drvdata.handsfree.active with
    hidle | ⟨rfl, ha⟩ | ⟨rfl, ha⟩
  · rw [out_drv_event_hf_idle codec _ shift hs event hidle]
    dsimp only
    rw [run_ramp_work_idle]
    · exact hf_set_inv codec _ ⟨h.2.2.1.1.1, rfl⟩ h.2.2.1.2.1 h.2.2.1.2.2.1 rfl h
    · rfl
  · rw [out_drv_event_hf_pmu codec _ shift hs ha]
    dsimp only
    have hU := run_ramp_work_hf
      { codec with
        drvdata := { codec.drvdata with
          handsfree := { codec.drvdata.handsfree with
            work_queued := true, left_step := codec.drvdata.handsfree.left_vol,
            right_step := codec.drvdata.handsfree.right_vol, step_delay := 5,
            ramp := TWL6040_RAMP_UP } } } rfl
    rw [hU]
    exact (hf_task_inv codec (dequeue_work
      { codec with
        drvdata := { codec.drvdata with
          handsfree := { codec.drvdata.handsfree with
            work_queued := true, left_step := codec.drvdata.handsfree.left_vol,
            right_step := codec.drvdata.handsfree.right_vol, step_delay := 5,
            ramp := TWL6040_RAMP_UP } } } output_sel.handsfree)
      { codec.drvdata.handsfree with
        work_queued := false, left_step := codec.drvdata.handsfree.left_vol,
        right_step := codec.drvdata.handsfree.right_vol, step_delay := 5,
        ramp := TWL6040_RAMP_UP }
      rfl rfl rfl rfl rfl (Or.inl ⟨rfl, rfl, rfl⟩) h).1
  · rw [out_drv_event_hf_pmd codec _ shift hs ha]
    dsimp only
    have hD := run_ramp_work_hf
      { codec with
        drvdata := { codec.drvdata with
          handsfree := { codec.drvdata.handsfree with
            work_queued := true, left_step := codec.drvdata.hf_left_step,
            right_step := codec.drvdata.hf_right_step, step_delay := 5,
            ramp := TWL6040_RAMP_DOWN, ramp_done := 0 } } } rfl
    rw [hD]
    have hY := hf_task_inv codec (dequeue_work
      { codec with
        drvdata := { codec.drvdata with
          handsfree := { codec.drvdata.handsfree with
            work_queued := true, left_step := codec.drvdata.hf_left_step,
            right_step := codec.drvdata.hf_right_step, step_delay := 5,
            ramp := TWL6040_RAMP_DOWN, ramp_done := 0 } } } output_sel.handsfree)
      { codec.drvdata.handsfree with
        work_queued := false, left_step := codec.drvdata.hf_left_step,
        right_step := codec.drvdata.hf_right_step, step_delay := 5,
        ramp := TWL6040_RAMP_DOWN, ramp_done := 0 }
      rfl rfl rfl rfl rfl (Or.inr ⟨rfl, h.1.2.2.1, h.1.2.2.2.1⟩) h
    rw [run_ramp_work_idle (twl6040_pga_hf_work (dequeue_work
      { codec with
        drvdata := { codec.drvdata with
          handsfree := { codec.drvdata.handsfree with
            work_queued := true, left_step := codec.drvdata.hf_left_step,
            right_step := codec.drvdata.hf_right_step, step_delay := 5,
            ramp := TWL6040_RAMP_DOWN, ramp_done := 0 } } } output_sel.handsfree)) output_sel.handsfree hY.2]
    exact hY.1

/-- A power event of the earphone driver with its ramp task preserves the
invariant. -/
theorem power_event_ep_inv (codec : snd_soc_codec) (event : dapm_event)
    (h : driver_inv codec) : driver_inv (power_event codec 0 event) := by
  rw [power_event_ep_eq]
  rcases power_event_cases event codec.drvdata.earphone.active with
    hidle | ⟨rfl, ha⟩ | ⟨rfl, ha⟩
  · rw [out_drv_event_ep_idle codec _ event hidle]
    dsimp only
    rw [run_ramp_work_idle]
    · exact ep_set_inv codec _ ⟨h.2.2.2.1.1, rfl⟩ h.2.2.2.2.1 rfl h
    · rfl
  · rw [out_drv_event_ep_pmu codec _ ha]
    dsimp only
    have hU := run_ramp_work_ep
      { codec with
        drvdata := { codec.drvdata with
          earphone := { codec.drvdata.earphone with
            work_queued := true, left_step := codec.drvdata.earphone.left_vol,
            right_step := codec.drvdata.earphone.right_vol, step_delay := 5,
            ramp := TWL6040_RAMP_UP } } } rfl
    rw [hU]
    exact (ep_task_inv codec (dequeue_work
      { codec with
        drvdata := { codec.drvdata with
          earphone := { codec.drvdata.earphone with
            work_queued := true, left_step := codec.drvdata.earphone.left_vol,
            right_step := codec.drvdata.earphone.right_vol, step_delay := 5,
            ramp := TWL6040_RAMP_UP } } } output_sel.earphone)
      { codec.drvdata.earphone with
        work_queued := false, left_step := codec.drvdata.earphone.left_vol,
        right_step := codec.drvdata.earphone.right_vol, step_delay := 5,
        ramp := TWL6040_RAMP_UP }
      rfl rfl rfl rfl (Or.inl ⟨rfl, rfl⟩) h).1
  · rw [out_drv_event_ep_pmd codec _ ha]
    dsimp only
    have hD := run_ramp_work_ep
      { codec with
        drvdata := { codec.drvdata with
          earphone := { codec.drvdata.earphone with
            work_queued := true, left_step := codec.drvdata.ep_step, step_delay := 5,
            ramp := TWL6040_RAMP_DOWN, ramp_done := 0 } } } rfl
    rw [hD]
    have hY := ep_task_inv codec (dequeue_work
      { codec with
        drvdata := { codec.drvdata with
          earphone := { codec.drvdata.earphone with
            work_queued := true, left_step := codec.drvdata.ep_step, step_delay := 5,
            ramp := TWL6040_RAMP_DOWN, ramp_done := 0 } } } output_sel.earphone)
      { codec.drvdata.earphone with
        work_queued := false, left_step := codec.drvdata.ep_step, step_delay := 5,
        ramp := TWL6040_RAMP_DOWN, ramp_done := 0 }
      rfl rfl rfl rfl (Or.inr ⟨rfl, h.1.2.2.2.2⟩) h
    rw [run_ramp_work_idle (twl6040_pga_ep_work (dequeue_work
      { codec with
        drvdata := { codec.drvdata with
          earphone := { codec.drvdata.earphone with
            work_queued := true, left_step := codec.drvdata.ep_step, step_delay := 5,
            ramp := TWL6040_RAMP_DOWN, ramp_done := 0 } } } output_sel.earphone)) output_sel.earphone hY.2]
    exact hY.1

/-! ## The invariant between driver operations: volume controls and bias level -/

theorem to_u16_le (v : Int) (n : Nat) (h0 : 0 ≤ v) (h1 : v ≤ (n : Int)) (hn : n < 65536) :
    to_u16 v ≤ n := by
  unfold to_u16
  omega

/-- A put with a register that is none of the three playback gain controls
is refused and changes nothing. -/
theorem put_volsw_other (codec : snd_soc_codec) (mc_reg : Nat) (value0 value1 : Int)
    (put put_2r : snd_soc_codec → Int × snd_soc_codec)
    (h1 : mc_reg ≠ TWL6040_REG_HSGAIN) (h2 : mc_reg ≠ TWL6040_REG_HFLGAIN)
    (h3 : mc_reg ≠ TWL6040_REG_EARCTL) :
    twl6040_put_volsw codec mc_reg value0 value1 put put_2r =
      (- (EINVAL_errno : Int), codec) := by
  simp [twl6040_put_volsw, h1, h2, h3]

/-- A helper that keeps to HSGAIN, called while the headset is active,
preserves the invariant. -/
theorem hs_helper_inv (S : snd_soc_codec) (helper : snd_soc_codec → Int × snd_soc_codec)
    (hframe : volsw_helper_frame [TWL6040_REG_HSGAIN] 255 helper)
    (ha : S.drvdata.headset.active ≠ 0) (h : driver_inv S) :
    driver_inv (helper S).2 := by
  obtain ⟨hd, hr, hm⟩ := hframe S
  obtain ⟨hcfg, ⟨hi, hl, hrr, _, _⟩, hhf, hep⟩ := h
  obtain ⟨k1, k2, k3⟩ := others_of_hs_change S (helper S).2 S.drvdata.headset
    (by rw [hd]) (fun reg hne => hr reg (by simpa using hne))
  have hb := hm TWL6040_REG_HSGAIN (by simp)
  refine ⟨k1 hcfg, ?_, k2 hhf, k3 hep⟩
  unfold hs_silent
  rw [hd]
  exact ⟨hi, hl, hrr, by omega, fun h0 => absurd h0 ha⟩

/-- A helper that keeps to HFLGAIN and HFRGAIN and stores values in range,
called while the handsfree output is active, preserves the invariant. -/
theorem hf_helper_inv (S : snd_soc_codec) (helper : snd_soc_codec → Int × snd_soc_codec)
    (hframe : volsw_helper_frame [TWL6040_REG_HFLGAIN, TWL6040_REG_HFRGAIN] 0x1D helper)
    (ha : S.drvdata.handsfree.active ≠ 0) (h : driver_inv S) :
    driver_inv (helper S).2 := by
  obtain ⟨hd, hr, hm⟩ := hframe S
  obtain ⟨hcfg, hhs, ⟨hi, hl, hrr, _, _, _, _, _⟩, hep⟩ := h
  obtain ⟨k1, k2, k3⟩ := others_of_hf_change S (helper S).2 S.drvdata.handsfree
    (by rw [hd]) (fun reg h1 h2 => hr reg (by simp [h1, h2]))
  have hbl := hm TWL6040_REG_HFLGAIN (by simp)
  have hbr := hm TWL6040_REG_HFRGAIN (by simp)
  have hgl := hf_left_gain_of_le (helper S).2 hbl
  have hgr := hf_right_gain_of_le (helper S).2 hbr
  refine ⟨k1 hcfg, k2 hhs, ?_, k3 hep⟩
  unfold hf_silent
  rw [hd]
  exact ⟨hi, hl, hrr, by omega, by omega, by omega, by omega, fun h0 => absurd h0 ha⟩

/-- A helper that keeps to EARCTL, called while the earphone is active,
preserves the invariant. -/
theorem ep_helper_inv (S : snd_soc_codec) (helper : snd_soc_codec → Int × snd_soc_codec)
    (hframe : volsw_helper_frame [TWL6040_REG_EARCTL] 255 helper)
    (ha : S.drvdata.earphone.active ≠ 0) (h : driver_inv S) :
    driver_inv (helper S).2 := by
  obtain ⟨hd, hr, hm⟩ := hframe S
  obtain ⟨hcfg, hhs, hhf, ⟨hi, hl, _, _⟩⟩ := h
  obtain ⟨k1, k2, k3⟩ := others_of_ep_change S (helper S).2 S.drvdata.earphone
    (by rw [hd]) (fun reg hne => hr reg (by simpa using hne))
  have hb := hm TWL6040_REG_EARCTL (by simp)
  refine ⟨k1 hcfg, k2 hhs, k3 hhf, ?_⟩
  unfold ep_silent
  rw [hd]
  exact ⟨hi, hl, by omega, fun h0 => absurd h0 ha⟩

/-- A put of a playback volume control with in-range targets preserves the
invariant. -/
theorem put_volsw_inv (codec : snd_soc_codec) (mc_reg : Nat) (value0 value1 : Int)
    (put put_2r : snd_soc_codec → Int × snd_soc_codec)
    (hok : op_in_range (driver_op.put_volsw mc_reg value0 value1 put put_2r))
    (h : driver_inv codec) :
    driver_inv (twl6040_put_volsw codec mc_reg value0 value1 put put_2r).2 := by
  obtain ⟨ohs, ohf, oep⟩ := hok
  by_cases h1 : mc_reg = TWL6040_REG_HSGAIN
  · subst h1
    obtain ⟨l0, l1, r0, r1, hframe⟩ := ohs rfl
    have hS := hs_set_inv codec
      { codec.drvdata.headset with left_vol := to_u16 value0, right_vol := to_u16 value1 }
      h.2.1.1 (to_u16_le value0 15 l0 l1 (by decide)) (to_u16_le value1 15 r0 r1 (by decide))
      rfl h
    rw [put_volsw_hs_codec]
    split
    · exact hS
    · rename_i ha
      exact hs_helper_inv _ put hframe ha hS
  · by_cases h2 : mc_reg = TWL6040_REG_HFLGAIN
    · subst h2
      obtain ⟨l0, l1, r0, r1, hframe⟩ := ohf rfl
      have hS := hf_set_inv codec
        { codec.drvdata.handsfree with
          left_vol := to_u16 value0, right_vol := to_u16 value1 }
        h.2.2.1.1 (to_u16_le value0 29 l0 l1 (by decide))
        (to_u16_le value1 29 r0 r1 (by decide)) rfl h
      rw [put_volsw_hf_codec]
      split
      · exact hS
      · rename_i ha
        exact hf_helper_inv _ put_2r hframe ha hS
    · by_cases h3 : mc_reg = TWL6040_REG_EARCTL
      · subst h3
        obtain ⟨l0, l1, hframe⟩ := oep rfl
        have hS := ep_set_inv codec
          { codec.drvdata.earphone with
            left_vol := to_u16 value0, right_vol := to_u16 value1 }
          h.2.2.2.1 (to_u16_le value0 15 l0 l1 (by decide)) rfl h
        rw [put_volsw_ep_codec]
        split
        · exact hS
        · rename_i ha
          exact ep_helper_inv _ put hframe ha hS
      · rw [put_volsw_other codec mc_reg value0 value1 put put_2r h1 h2 h3]
        exact h

/-- The bias-level callback preserves the invariant. -/
theorem set_bias_level_inv (codec : snd_soc_codec) (level : snd_soc_bias_level)
    (h : driver_inv codec) : driver_inv (twl6040_set_bias_level codec level).2 := by
  obtain ⟨f1, f2, f3, s1, s2, s3, s4, s5, hr⟩ := set_bias_level_frame codec level
  obtain ⟨hcfg, hhs, hhf, hep⟩ := h
  refine ⟨?_, ?_, ?_, ?_⟩
  · unfold steps_configured at hcfg ⊢
    rw [s1, s2, s3, s4, s5]
    exact hcfg
  · exact hs_silent_congr codec _ f1 (hr _ hhs.2.2.2.1) hhs
  · exact hf_silent_congr codec _ f2 (hr _ hhf.2.2.2.1) (hr _ hhf.2.2.2.2.1) hhf
  · exact ep_silent_congr codec _ f3 (hr _ hep.2.2.1) hep

/-- Every operation with in-range targets preserves the invariant. -/
theorem run_op_inv (codec : snd_soc_codec) (op : driver_op) (hok : op_in_range op)
    (h : driver_inv codec) : driver_inv (run_op codec op) := by
  cases op with
  | put_volsw mc_reg value0 value1 put put_2r =>
    exact put_volsw_inv codec mc_reg value0 value1 put put_2r hok h
  | set_bias_level level => exact set_bias_level_inv codec level h
  | power_event shift event =>
    show driver_inv (power_event codec shift event)
    by_cases h0 : shift = 0
    · subst h0
      exact power_event_ep_inv codec event h
    · by_cases h2 : shift = 2
      · subst h2
        exact power_event_hs_inv codec event h
      · by_cases h46 : shift = 4 ∨ shift = 6
        · exact power_event_hf_inv codec shift h46 event h
        · rw [power_event_other codec shift event h0 h2 (fun h4 => h46 (Or.inl h4))
            (fun h6 => h46 (Or.inr h6))]
          exact h

/-- Every sequence of operations with in-range targets preserves the
invariant. -/
theorem run_ops_inv (ops : List driver_op) :
    ∀ codec : snd_soc_codec, (∀ op ∈ ops, op_in_range op) → driver_inv codec →
      driver_inv (run_ops codec ops) := by
  induction ops with
  | nil => intro codec _ h; exact h
  | cons op ops ih =>
    intro codec hok h
    exact ih (run_op codec op) (fun o ho => hok o (List.mem_cons_of_mem _ ho))
      (run_op_inv codec op (hok op (List.mem_cons_self _ _)) h)

/-- A helper that stores one byte of at most `mx` through `twl6040_write`
keeps to its register. -/
theorem write_helper_frame (reg v mx : Nat) (hreg : reg < TWL6040_CACHEREGNUM)
    (hv : v % 256 ≤ mx) :
    volsw_helper_frame [reg] mx (fun c => twl6040_write c reg v) := by
  intro c
  refine ⟨twl6040_write_drvdata c reg v, ?_, ?_⟩
  · intro r hr
    exact read_reg_cache_write_other c reg r v (by simpa using hr)
  · intro r hr
    have hr' : r = reg := by simpa using hr
    subst hr'
    rw [read_reg_cache_write_same c r v hreg]
    exact hv

/-- A helper that stores a byte of at most `mx` in each of two registers
through `twl6040_write` keeps to these registers. -/
theorem write2_helper_frame (reg1 reg2 v1 v2 mx : Nat)
    (h1 : reg1 < TWL6040_CACHEREGNUM) (h2 : reg2 < TWL6040_CACHEREGNUM)
    (hne : reg1 ≠ reg2) (hv1 : v1 % 256 ≤ mx) (hv2 : v2 % 256 ≤ mx) :
    volsw_helper_frame [reg1, reg2] mx
      (fun c => twl6040_write (twl6040_write c reg1 v1).2 reg2 v2) := by
  intro c
  refine ⟨(twl6040_write_drvdata _ reg2 v2).trans (twl6040_write_drvdata c reg1 v1), ?_, ?_⟩
  · intro r hr
    have hr1 : r ≠ reg1 := fun h => hr (by simp [h])
    have hr2 : r ≠ reg2 := fun h => hr (by simp [h])
    exact (read_reg_cache_write_other _ reg2 r v2 hr2).trans
      (read_reg_cache_write_other c reg1 r v1 hr1)
  · intro r hr
    have hr' : r = reg1 ∨ r = reg2 := by simpa using hr
    rcases hr' with rfl | rfl
    · show twl6040_read_reg_cache (twl6040_write (twl6040_write c r v1).2 reg2 v2).2 r ≤ mx
      rw [read_reg_cache_write_other _ reg2 r v2 hne, read_reg_cache_write_same c r v1 h1]
      exact hv1
    · show twl6040_read_reg_cache (twl6040_write (twl6040_write c reg1 v1).2 r v2).2 r ≤ mx
      rw [read_reg_cache_write_same _ r v2 h2]
      exact hv2

/-! ## Silent when inactive -/

/-- C30: the silent-when-inactive invariant.  Start from a codec whose cache
holds the default gains (HSGAIN 0xFF, EARCTL 0x1E, HFLGAIN = HFRGAIN = 0x1D),
whose three outputs have no ramp armed or queued and in-range targets
(whatever their `active` flags, all clear in particular), and whose
configured steps are at least 1.  Apply any sequence of
`twl6040_put_volsw` calls with in-range targets (the helpers of the ALSA
core keeping to the registers of their control), `twl6040_set_bias_level`
calls and `out_drv_event` power events, each with its ramp task run to the
end.  Then every output whose `active` flag is 0 has the decoded cached gain
0 on all of its channels; the invariant of the driver holds as well. -/
theorem C30_silent_when_inactive (codec : snd_soc_codec) (ops : List driver_op)
    (hcache : twl6040_read_reg_cache codec TWL6040_REG_HSGAIN = 0xFF ∧
      twl6040_read_reg_cache codec TWL6040_REG_EARCTL = 0x1E ∧
      twl6040_read_reg_cache codec TWL6040_REG_HFLGAIN = 0x1D ∧
      twl6040_read_reg_cache codec TWL6040_REG_HFRGAIN = 0x1D)
    (hidle : ramp_idle codec.drvdata.headset ∧ ramp_idle codec.drvdata.handsfree ∧
      ramp_idle codec.drvdata.earphone)
    (hvol : codec.drvdata.headset.left_vol ≤ 15 ∧ codec.drvdata.headset.right_vol ≤ 15 ∧
      codec.drvdata.handsfree.left_vol ≤ 29 ∧ codec.drvdata.handsfree.right_vol ≤ 29 ∧
      codec.drvdata.earphone.left_vol ≤ 15)
    (hsteps : steps_configured codec.drvdata)
    (hops : ∀ op ∈ ops, op_in_range op) :
    ((run_ops codec ops).drvdata.headset.active = 0 →
        hs_left_gain (run_ops codec ops) = 0 ∧ hs_right_gain (run_ops codec ops) = 0) ∧
      ((run_ops codec ops).drvdata.handsfree.active = 0 →
        hf_left_gain (run_ops codec ops) = 0 ∧ hf_right_gain (run_ops codec ops) = 0) ∧
      ((run_ops codec ops).drvdata.earphone.active = 0 →
        ep_gain (run_ops codec ops) = 0) ∧
      driver_inv (run_ops codec ops) := by
  obtain ⟨c1, c2, c3, c4⟩ := hcache
  have hhs : hs_left_gain codec = 0 ∧ hs_right_gain codec = 0 := by
    unfold hs_left_gain hs_right_gain
    rw [c1]
    decide
  have hep : ep_gain codec = 0 := by
    unfold ep_gain
    rw [c2]
    decide
  have hhf : hf_left_gain codec = 0 ∧ hf_right_gain codec = 0 := by
    unfold hf_left_gain hf_right_gain
    rw [c3, c4]
    decide
  have h0 : driver_inv codec :=
    ⟨hsteps,
      ⟨hidle.1, hvol.1, hvol.2.1, by rw [c1]; decide, fun _ => hhs⟩,
      ⟨hidle.2.1, hvol.2.2.1, hvol.2.2.2.1, by rw [c3]; decide, by rw [c4]; decide,
        by rw [hhf.1]; decide, by rw [hhf.2]; decide, fun _ => hhf⟩,
      ⟨hidle.2.2, hvol.2.2.2.2, by rw [c2]; decide, fun _ => hep⟩⟩
  have h := run_ops_inv ops codec hops h0
  exact ⟨h.2.1.2.2.2.2, h.2.2.1.2.2.2.2.2.2.2, h.2.2.2.2.2.2, h⟩

/-- The operations of `headset_session` carry in-range targets, and their
helpers, which store one byte in HSGAIN through `twl6040_write`, keep to the
register of the control. -/
theorem headset_session_in_range : ∀ op ∈ headset_session, op_in_range op := by
  intro op hop
  simp only [headset_session, List.mem_cons, List.mem_singleton, List.not_mem_nil,
    or_false] at hop
  rcases hop with rfl | rfl | rfl | rfl | rfl
  · exact ⟨fun _ => ⟨by decide, by decide, by decide, by decide,
        write_helper_frame _ _ _ (by decide) (by decide)⟩,
      fun h => absurd h (by decide), fun h => absurd h (by decide)⟩
  · trivial
  · trivial
  · exact ⟨fun _ => ⟨by decide, by decide, by decide, by decide,
        write_helper_frame _ _ _ (by decide) (by decide)⟩,
      fun h => absurd h (by decide), fun h => absurd h (by decide)⟩
  · trivial

set_option maxRecDepth 100000 in
/-- A concrete instance of C30: after `headset_session` on the probed codec
the three outputs are inactive and every decoded gain is 0; between the
power-up and the power-down the headset is active and plays at the gains the
helper stored. -/
theorem C30_silent_when_inactive_witness :
    ((run_ops probe_codec headset_session).drvdata.headset.active = 0 ∧
        (run_ops probe_codec headset_session).drvdata.handsfree.active = 0 ∧
        (run_ops probe_codec headset_session).drvdata.earphone.active = 0) ∧
      (hs_left_gain (run_ops probe_codec headset_session) = 0 ∧
        hs_right_gain (run_ops probe_codec headset_session) = 0) ∧
      (hf_left_gain (run_ops probe_codec headset_session) = 0 ∧
        hf_right_gain (run_ops probe_codec headset_session) = 0) ∧
      ep_gain (run_ops probe_codec headset_session) = 0 ∧
      (run_ops probe_codec (headset_session.take 4)).drvdata.headset.active = 1 ∧
      hs_left_gain (run_ops probe_codec (headset_session.take 4)) = 5 :=
  have h := C30_silent_when_inactive probe_codec headset_session
    ⟨rfl, rfl, rfl, rfl⟩ ⟨⟨rfl, rfl⟩, ⟨rfl, rfl⟩, ⟨rfl, rfl⟩⟩
    ⟨by decide, by decide, by decide, by decide, by decide⟩
    ⟨by decide, by decide, by decide, by decide, by decide⟩
    headset_session_in_range
  have ha : (run_ops probe_codec headset_session).drvdata.headset.active = 0 ∧
      (run_ops probe_codec headset_session).drvdata.handsfree.active = 0 ∧
      (run_ops probe_codec headset_session).drvdata.earphone.active = 0 := by decide
  ⟨ha, h.1 ha.1, h.2.1 ha.2.1, h.2.2.1 ha.2.2, by decide, by decide⟩

/-! ## Range of the handsfree registers -/

set_option maxRecDepth 100000 in
theorem hf_raw_fin : ∀ b : Fin 30, ∀ v : Fin 30,
    c_sub 0x1D (b.val % 65536) % 65536 = 0x1D - b.val ∧
      c_sub 0x1D v.val = 0x1D - v.val ∧
      (((c_sub 0x1D (b.val % 65536) % 65536) &&& c_not TWL6040_HF_VOL_MASK) % 65536 |||
        c_sub 0x1D v.val) % 256 = 0x1D - v.val := by
  decide

/-- The write the left block of the handsfree step issues for a new gain
`v ≤ 0x1D`, when the cached value is at most 0x1D, stores `0x1D - v`. -/
theorem hf_left_write_raw (codec : snd_soc_codec) (v : Nat) (hv : v ≤ 0x1D)
    (hb : twl6040_read_reg_cache codec TWL6040_REG_HFLGAIN ≤ 0x1D) :
    twl6040_read_reg_cache (twl6040_write codec TWL6040_REG_HFLGAIN
        (((c_sub 0x1D (twl6040_read_reg_cache codec TWL6040_REG_HFLGAIN % 65536) % 65536)
            &&& c_not TWL6040_HF_VOL_MASK) % 65536 ||| c_sub 0x1D v)).2
        TWL6040_REG_HFLGAIN = 0x1D - v := by
  rw [read_reg_cache_write_same _ _ _ (by decide)]
  exact (hf_raw_fin ⟨twl6040_read_reg_cache codec TWL6040_REG_HFLGAIN, by omega⟩
    ⟨v, by omega⟩).2.2

theorem hf_right_write_raw (codec : snd_soc_codec) (v : Nat) (hv : v ≤ 0x1D)
    (hb : twl6040_read_reg_cache codec TWL6040_REG_HFRGAIN ≤ 0x1D) :
    twl6040_read_reg_cache (twl6040_write codec TWL6040_REG_HFRGAIN
        (((c_sub 0x1D (twl6040_read_reg_cache codec TWL6040_REG_HFRGAIN % 65536) % 65536)
            &&& c_not TWL6040_HF_VOL_MASK) % 65536 ||| c_sub 0x1D v)).2
        TWL6040_REG_HFRGAIN = 0x1D - v := by
  rw [read_reg_cache_write_same _ _ _ (by decide)]
  exact (hf_raw_fin ⟨twl6040_read_reg_cache codec TWL6040_REG_HFRGAIN, by omega⟩
    ⟨v, by omega⟩).2.2

/-- The left block of the handsfree step keeps HFLGAIN at most 0x1D, for
every ramp direction and every step. -/
theorem hf_left_raw (codec : snd_soc_codec) (s : Nat)
    (hb : twl6040_read_reg_cache codec TWL6040_REG_HFLGAIN ≤ 0x1D)
    (ht : codec.drvdata.handsfree.left_vol ≤ 0x1D) :
    twl6040_read_reg_cache (twl6040_hf_ramp_step_left codec s).1 TWL6040_REG_HFLGAIN ≤
      0x1D := by
  have hg := hf_left_gain_of_le codec hb
  have e : ((c_sub 0x1D (twl6040_read_reg_cache codec TWL6040_REG_HFLGAIN % 65536) % 65536)
    &&& TWL6040_HF_VOL_MASK) % 65536 = hf_left_gain codec := rfl
  have hs' : (if s > 29 then 29 else s) = min s 29 := by split <;> omega
  unfold twl6040_hf_ramp_step_left
  simp only [e, hs']
  split
  · split
    · have hv : (if hf_left_gain codec + min s 29 > codec.drvdata.handsfree.left_vol then
            codec.drvdata.handsfree.left_vol % 65536
          else (hf_left_gain codec + min s 29) % 65536) ≤ 0x1D := by
        split <;> omega
      show twl6040_read_reg_cache (twl6040_write codec TWL6040_REG_HFLGAIN _).2
        TWL6040_REG_HFLGAIN ≤ 0x1D
      rw [hf_left_write_raw codec _ hv hb]
      omega
    · exact hb
  · split
    · split
      · have hv : (if (hf_left_gain codec : Int) - ((min s 29 : Nat) : Int) < 0 then 0
            else (hf_left_gain codec - min s 29) % 65536) ≤ 0x1D := by
          split <;> omega
        show twl6040_read_reg_cache (twl6040_write codec TWL6040_REG_HFLGAIN _).2
          TWL6040_REG_HFLGAIN ≤ 0x1D
        rw [hf_left_write_raw codec _ hv hb]
        omega
      · exact hb
    · exact hb

/-- The right block of the handsfree step keeps HFRGAIN at most 0x1D, for
every ramp direction and every step. -/
theorem hf_right_raw (codec : snd_soc_codec) (s : Nat)
    (hb : twl6040_read_reg_cache codec TWL6040_REG_HFRGAIN ≤ 0x1D)
    (ht : codec.drvdata.handsfree.right_vol ≤ 0x1D) :
    twl6040_read_reg_cache (twl6040_hf_ramp_step_right codec s).1 TWL6040_REG_HFRGAIN ≤
      0x1D := by
  have hg := hf_right_gain_of_le codec hb
  have e : ((c_sub 0x1D (twl6040_read_reg_cache codec TWL6040_REG_HFRGAIN % 65536) % 65536)
    &&& TWL6040_HF_VOL_MASK) % 65536 = hf_right_gain codec := rfl
  have hs' : (if s > 29 then 29 else s) = min s 29 := by split <;> omega
  unfold twl6040_hf_ramp_step_right
  simp only [e, hs']
  split
  · split
    · have hv : (if hf_right_gain codec + min s 29 > codec.drvdata.handsfree.right_vol then
            codec.drvdata.handsfree.right_vol % 65536
          else (hf_right_gain codec + min s 29) % 65536) ≤ 0x1D := by
        split <;> omega
      show twl6040_read_reg_cache (twl6040_write codec TWL6040_REG_HFRGAIN _).2
        TWL6040_REG_HFRGAIN ≤ 0x1D
      rw [hf_right_write_raw codec _ hv hb]
      omega
    · exact hb
  · split
    · split
      · have hv : (if (hf_right_gain codec : Int) - ((min s 29 : Nat) : Int) < 0 then 0
            else (hf_right_gain codec - min s 29) % 65536) ≤ 0x1D := by
          split <;> omega
        show twl6040_read_reg_cache (twl6040_write codec TWL6040_REG_HFRGAIN _).2
          TWL6040_REG_HFRGAIN ≤ 0x1D
        rw [hf_right_write_raw codec _ hv hb]
        omega
      · exact hb
    · exact hb

/-- C31: if the cached values of HFLGAIN and HFRGAIN are both at most 0x1D
and both handsfree targets are at most 0x1D, then after
`twl6040_hf_ramp_step`, for every ramp direction (the codec is arbitrary) and
every pair of step arguments, both cached values are again at most 0x1D; the
16-bit subtraction `0x1D - reg` of the decoding does not wrap, before and
after the step: the decoded gain is the plain difference `0x1D - raw`, so no
bit outside the gain field is set. -/
theorem C31_hf_range_invariant (codec : snd_soc_codec) (left_step right_step : Nat)
    (hl : twl6040_read_reg_cache codec TWL6040_REG_HFLGAIN ≤ 0x1D)
    (hr : twl6040_read_reg_cache codec TWL6040_REG_HFRGAIN ≤ 0x1D)
    (htl : codec.drvdata.handsfree.left_vol ≤ 0x1D)
    (htr : codec.drvdata.handsfree.right_vol ≤ 0x1D) :
    twl6040_read_reg_cache (twl6040_hf_ramp_step codec left_step right_step).1
        TWL6040_REG_HFLGAIN ≤ 0x1D ∧
      twl6040_read_reg_cache (twl6040_hf_ramp_step codec left_step right_step).1
        TWL6040_REG_HFRGAIN ≤ 0x1D ∧
      (hf_left_gain codec = 0x1D - twl6040_read_reg_cache codec TWL6040_REG_HFLGAIN ∧
        hf_right_gain codec = 0x1D - twl6040_read_reg_cache codec TWL6040_REG_HFRGAIN) ∧
      (hf_left_gain (twl6040_hf_ramp_step codec left_step right_step).1 =
          0x1D - twl6040_read_reg_cache (twl6040_hf_ramp_step codec left_step right_step).1
            TWL6040_REG_HFLGAIN ∧
        hf_right_gain (twl6040_hf_ramp_step codec left_step right_step).1 =
          0x1D - twl6040_read_reg_cache (twl6040_hf_ramp_step codec left_step right_step).1
            TWL6040_REG_HFRGAIN) := by
  have h1 := hf_left_raw codec left_step hl htl
  have h2 : twl6040_read_reg_cache (twl6040_hf_ramp_step_left codec left_step).1
      TWL6040_REG_HFRGAIN ≤ 0x1D := by
    rw [hf_left_frame codec left_step _ (by decide)]
    exact hr
  have h3 : (twl6040_hf_ramp_step_left codec left_step).1.drvdata.handsfree.right_vol ≤
      0x1D := by
    rw [hf_left_drvdata]
    exact htr
  have h4 := hf_right_raw (twl6040_hf_ramp_step_left codec left_step).1 right_step h2 h3
  have h5 : twl6040_read_reg_cache
      (twl6040_hf_ramp_step_right (twl6040_hf_ramp_step_left codec left_step).1
        right_step).1 TWL6040_REG_HFLGAIN ≤ 0x1D := by
    rw [hf_right_frame _ right_step _ (by decide)]
    exact h1
  have e : (twl6040_hf_ramp_step codec left_step right_step).1 =
      (twl6040_hf_ramp_step_right (twl6040_hf_ramp_step_left codec left_step).1
        right_step).1 := rfl
  rw [e]
  exact ⟨h5, h4, ⟨hf_left_gain_of_le codec hl, hf_right_gain_of_le codec hr⟩,
    hf_left_gain_of_le _ h5, hf_right_gain_of_le _ h4⟩

set_option maxRecDepth 100000 in
/-- A concrete instance of C31: the codec armed for a Down ramp with HFLGAIN
and HFRGAIN at 0x13 (gains 10) and the targets 10; a tick with the steps
(4, 40) leaves HFLGAIN at 0x17 (gain 6) and HFRGAIN at 0x1D (gain 0). -/
theorem C31_hf_range_invariant_witness :
    twl6040_read_reg_cache down_codec TWL6040_REG_HFLGAIN = 0x13 ∧
      twl6040_read_reg_cache down_codec TWL6040_REG_HFRGAIN = 0x13 ∧
      twl6040_read_reg_cache (twl6040_hf_ramp_step down_codec 4 40).1
        TWL6040_REG_HFLGAIN = 0x17 ∧
      twl6040_read_reg_cache (twl6040_hf_ramp_step down_codec 4 40).1
        TWL6040_REG_HFRGAIN = 0x1D ∧
      twl6040_read_reg_cache (twl6040_hf_ramp_step down_codec 4 40).1
        TWL6040_REG_HFLGAIN ≤ 0x1D ∧
      twl6040_read_reg_cache (twl6040_hf_ramp_step down_codec 4 40).1
        TWL6040_REG_HFRGAIN ≤ 0x1D :=
  ⟨by decide, by decide, by decide, by decide,
   (C31_hf_range_invariant down_codec 4 40 (by decide) (by decide) (by decide)
      (by decide)).1,
   (C31_hf_range_invariant down_codec 4 40 (by decide) (by decide) (by decide)
      (by decide)).2.1⟩
/-! ## Ramp steps: the bits a block writes -/

theorem or_mod_256 (a b : Nat) : (a ||| b) % 256 = a % 256 ||| b % 256 := by
  apply Nat.eq_of_testBit_eq
  intro i
  have h : (256 : Nat) = 2 ^ 8 := rfl
  simp only [h, Nat.testBit_mod_two_pow, Nat.testBit_or]
  cases decide (i < 8) <;> simp

set_option maxRecDepth 100000 in
theorem hs_left_nibble_fin : ∀ b : Fin 256, ∀ k : Fin 16,
    ((b.val &&& c_not TWL6040_HSL_VOL_MASK) % 256 ||| k.val) % 256 &&& TWL6040_HSR_VOL_MASK =
      b.val &&& TWL6040_HSR_VOL_MASK := by
  decide

set_option maxRecDepth 100000 in
theorem shl4_fin : ∀ v : Fin 256,
    ((c_not v.val <<< TWL6040_HSR_VOL_SHIFT) % 2 ^ 32) % 256 = 16 * (15 - v.val % 16) := by
  decide

set_option maxRecDepth 100000 in
theorem hs_right_nibble_fin : ∀ b : Fin 256, ∀ k : Fin 16,
    ((b.val &&& c_not TWL6040_HSR_VOL_MASK) % 256 % 256 ||| 16 * k.val) &&&
        TWL6040_HSL_VOL_MASK =
      b.val &&& TWL6040_HSL_VOL_MASK := by
  decide

set_option maxRecDepth 100000 in
theorem ep_bits_fin : ∀ b : Fin 256, ∀ k : Fin 32,
    ((b.val &&& c_not TWL6040_EP_VOL_MASK) % 256 ||| (k.val &&& TWL6040_EP_VOL_MASK)) % 256 &&&
        (0xFF - TWL6040_EP_VOL_MASK) =
      b.val &&& (0xFF - TWL6040_EP_VOL_MASK) := by
  decide

/-- The left block of the headset step leaves the codec alone or rewrites
the low nibble of HSGAIN. -/
theorem hs_left_form (codec : snd_soc_codec) (s : Nat) :
    twl6040_hs_ramp_step_left codec s = (codec, 1) ∨
      twl6040_hs_ramp_step_left codec s = (codec, 0) ∨
      ∃ v, twl6040_hs_ramp_step_left codec s =
        ((twl6040_write codec TWL6040_REG_HSGAIN
          ((twl6040_read_reg_cache codec TWL6040_REG_HSGAIN % 256 &&&
              c_not TWL6040_HSL_VOL_MASK) % 256 |||
            (c_not v &&& TWL6040_HSL_VOL_MASK))).2, 0) := by
  unfold twl6040_hs_ramp_step_left
  dsimp only
  split
  · split
    · exact Or.inr (Or.inr ⟨_, rfl⟩)
    · exact Or.inl rfl
  · split
    · split
      · exact Or.inr (Or.inr ⟨_, rfl⟩)
      · exact Or.inl rfl
    · exact Or.inr (Or.inl rfl)

/-- The right block of the headset step leaves the codec alone or rewrites
the high nibble of HSGAIN; `v` is the `u8` value of `val`. -/
theorem hs_right_form (codec : snd_soc_codec) (s : Nat) :
    twl6040_hs_ramp_step_right codec s = (codec, 1) ∨
      twl6040_hs_ramp_step_right codec s = (codec, 0) ∨
      ∃ v, v < 256 ∧ twl6040_hs_ramp_step_right codec s =
        ((twl6040_write codec TWL6040_REG_HSGAIN
          ((twl6040_read_reg_cache codec TWL6040_REG_HSGAIN % 256 &&&
              c_not TWL6040_HSR_VOL_MASK) % 256 |||
            (c_not v <<< TWL6040_HSR_VOL_SHIFT) % 2 ^ 32)).2, 0) := by
  have hm : ∀ x : Nat, x % 256 < 256 := fun x => Nat.mod_lt x (by decide)
  unfold twl6040_hs_ramp_step_right
  dsimp only
  split
  · split
    · refine Or.inr (Or.inr ⟨_, ?_, rfl⟩)
      split_ifs <;> exact hm _
    · exact Or.inl rfl
  · split
    · split
      · refine Or.inr (Or.inr ⟨_, ?_, rfl⟩)
        split_ifs <;> first | exact hm _ | decide
      · exact Or.inl rfl
    · exact Or.inr (Or.inl rfl)

/-- The earphone step leaves the codec alone or rewrites the bits 1..4 of
EARCTL. -/
theorem ep_form (codec : snd_soc_codec) (s : Nat) :
    twl6040_ep_ramp_step codec s = (codec, 1) ∨
      twl6040_ep_ramp_step codec s = (codec, 0) ∨
      ∃ v, twl6040_ep_ramp_step codec s =
        ((twl6040_write codec TWL6040_REG_EARCTL
          ((twl6040_read_reg_cache codec TWL6040_REG_EARCTL % 256 &&&
              c_not TWL6040_EP_VOL_MASK) % 256 |||
            ((c_not v <<< TWL6040_EP_VOL_SHIFT) % 256 &&& TWL6040_EP_VOL_MASK))).2, 0) := by
  unfold twl6040_ep_ramp_step
  dsimp only
  split
  · split
    · exact Or.inr (Or.inr ⟨_, rfl⟩)
    · exact Or.inl rfl
  · split
    · split
      · exact Or.inr (Or.inr ⟨_, rfl⟩)
      · exact Or.inl rfl
    · exact Or.inr (Or.inl rfl)

/-- The left block of the headset step leaves the right nibble of HSGAIN
unchanged. -/
theorem hs_left_keeps_right (codec : snd_soc_codec) (s : Nat) :
    twl6040_read_reg_cache (twl6040_hs_ramp_step_left codec s).1 TWL6040_REG_HSGAIN % 256 &&&
        TWL6040_HSR_VOL_MASK =
      twl6040_read_reg_cache codec TWL6040_REG_HSGAIN % 256 &&& TWL6040_HSR_VOL_MASK := by
  rcases hs_left_form codec s with h | h | ⟨v, h⟩
  · rw [h]
  · rw [h]
  · rw [h]
    show twl6040_read_reg_cache (twl6040_write codec TWL6040_REG_HSGAIN _).2
      TWL6040_REG_HSGAIN % 256 &&& TWL6040_HSR_VOL_MASK = _
    rw [read_reg_cache_write_same _ _ _ (by decide), Nat.mod_mod]
    have hk : c_not v &&& TWL6040_HSL_VOL_MASK < 16 :=
      Nat.lt_of_le_of_lt Nat.and_le_right (by decide)
    exact hs_left_nibble_fin
      ⟨twl6040_read_reg_cache codec TWL6040_REG_HSGAIN % 256, Nat.mod_lt _ (by decide)⟩
      ⟨c_not v &&& TWL6040_HSL_VOL_MASK, hk⟩

/-- The right block of the headset step leaves the left nibble of HSGAIN
unchanged. -/
theorem hs_right_keeps_left (codec : snd_soc_codec) (s : Nat) :
    twl6040_read_reg_cache (twl6040_hs_ramp_step_right codec s).1 TWL6040_REG_HSGAIN % 256 &&&
        TWL6040_HSL_VOL_MASK =
      twl6040_read_reg_cache codec TWL6040_REG_HSGAIN % 256 &&& TWL6040_HSL_VOL_MASK := by
  rcases hs_right_form codec s with h | h | ⟨v, hv, h⟩
  · rw [h]
  · rw [h]
  · rw [h]
    show twl6040_read_reg_cache (twl6040_write codec TWL6040_REG_HSGAIN _).2
      TWL6040_REG_HSGAIN % 256 &&& TWL6040_HSL_VOL_MASK = _
    rw [read_reg_cache_write_same _ _ _ (by decide), Nat.mod_mod, or_mod_256,
      shl4_fin ⟨v, hv⟩]
    exact hs_right_nibble_fin
      ⟨twl6040_read_reg_cache codec TWL6040_REG_HSGAIN % 256, Nat.mod_lt _ (by decide)⟩
      ⟨15 - v % 16, by omega⟩

/-- The earphone step changes at most the bits 1..4 of EARCTL. -/
theorem ep_keeps_other_bits (codec : snd_soc_codec) (s : Nat) :
    twl6040_read_reg_cache (twl6040_ep_ramp_step codec s).1 TWL6040_REG_EARCTL % 256 &&&
        (0xFF - TWL6040_EP_VOL_MASK) =
      twl6040_read_reg_cache codec TWL6040_REG_EARCTL % 256 &&&
        (0xFF - TWL6040_EP_VOL_MASK) := by
  rcases ep_form codec s with h | h | ⟨v, h⟩
  · rw [h]
  · rw [h]
  · rw [h]
    show twl6040_read_reg_cache (twl6040_write codec TWL6040_REG_EARCTL _).2
      TWL6040_REG_EARCTL % 256 &&& (0xFF - TWL6040_EP_VOL_MASK) = _
    rw [read_reg_cache_write_same _ _ _ (by decide), Nat.mod_mod]
    have hk : (c_not v <<< TWL6040_EP_VOL_SHIFT) % 256 &&& TWL6040_EP_VOL_MASK < 32 :=
      Nat.lt_of_le_of_lt Nat.and_le_right (by decide)
    have hi : (c_not v <<< TWL6040_EP_VOL_SHIFT) % 256 &&& TWL6040_EP_VOL_MASK =
        ((c_not v <<< TWL6040_EP_VOL_SHIFT) % 256 &&& TWL6040_EP_VOL_MASK) &&&
          TWL6040_EP_VOL_MASK := by
      rw [Nat.and_assoc, Nat.and_self]
    rw [hi]
    exact ep_bits_fin
      ⟨twl6040_read_reg_cache codec TWL6040_REG_EARCTL % 256, Nat.mod_lt _ (by decide)⟩
      ⟨(c_not v <<< TWL6040_EP_VOL_SHIFT) % 256 &&& TWL6040_EP_VOL_MASK, hk⟩

/-! ## Frame of the ramp steps -/

/-- C32: for every codec (cache, targets, ramp direction) and every step
argument, `twl6040_hs_ramp_step` changes no cache entry other than HSGAIN;
its left-channel update leaves the right nibble of the HSGAIN byte unchanged
and its right-channel update leaves the left nibble unchanged, so that after
one tick the left nibble is the one the left update produced and the right
update started from the original right nibble; `twl6040_ep_ramp_step` changes
no cache entry other than EARCTL and, of the EARCTL byte, at most the bits
1..4; `twl6040_hf_ramp_step` changes no cache entry other than HFLGAIN and
HFRGAIN.  None of the steps touches the driver data.  (`% 256` is the `u8`
the code reads from the entry.) -/
theorem C32_ramp_step_frame (codec : snd_soc_codec) (left_step right_step step : Nat) :
    (∀ b : Fin TWL6040_CACHEREGNUM, b.val ≠ TWL6040_REG_HSGAIN →
        (twl6040_hs_ramp_step codec left_step right_step).1.reg_cache b =
          codec.reg_cache b) ∧
      (twl6040_read_reg_cache (twl6040_hs_ramp_step_left codec left_step).1
            TWL6040_REG_HSGAIN % 256 &&& TWL6040_HSR_VOL_MASK =
          twl6040_read_reg_cache codec TWL6040_REG_HSGAIN % 256 &&& TWL6040_HSR_VOL_MASK) ∧
      (twl6040_read_reg_cache (twl6040_hs_ramp_step_right codec right_step).1
            TWL6040_REG_HSGAIN % 256 &&& TWL6040_HSL_VOL_MASK =
          twl6040_read_reg_cache codec TWL6040_REG_HSGAIN % 256 &&& TWL6040_HSL_VOL_MASK) ∧
      (twl6040_read_reg_cache (twl6040_hs_ramp_step codec left_step right_step).1
            TWL6040_REG_HSGAIN % 256 &&& TWL6040_HSL_VOL_MASK =
          twl6040_read_reg_cache (twl6040_hs_ramp_step_left codec left_step).1
            TWL6040_REG_HSGAIN % 256 &&& TWL6040_HSL_VOL_MASK) ∧
      (∀ b : Fin TWL6040_CACHEREGNUM, b.val ≠ TWL6040_REG_EARCTL →
        (twl6040_ep_ramp_step codec step).1.reg_cache b = codec.reg_cache b) ∧
      (twl6040_read_reg_cache (twl6040_ep_ramp_step codec step).1
            TWL6040_REG_EARCTL % 256 &&& (0xFF - TWL6040_EP_VOL_MASK) =
          twl6040_read_reg_cache codec TWL6040_REG_EARCTL % 256 &&&
            (0xFF - TWL6040_EP_VOL_MASK)) ∧
      (∀ b : Fin TWL6040_CACHEREGNUM,
        b.val ≠ TWL6040_REG_HFLGAIN → b.val ≠ TWL6040_REG_HFRGAIN →
          (twl6040_hf_ramp_step codec left_step right_step).1.reg_cache b =
            codec.reg_cache b) ∧
      (twl6040_hs_ramp_step codec left_step right_step).1.drvdata = codec.drvdata ∧
      (twl6040_ep_ramp_step codec step).1.drvdata = codec.drvdata ∧
      (twl6040_hf_ramp_step codec left_step right_step).1.drvdata = codec.drvdata := by
  refine ⟨?_, hs_left_keeps_right codec left_step, hs_right_keeps_left codec right_step,
    ?_, ?_, ep_keeps_other_bits codec step, ?_, ?_, ep_drvdata codec step, ?_⟩
  · intro b hb
    have h := (hs_right_frame (twl6040_hs_ramp_step_left codec left_step).1 right_step
      b.val hb).trans (hs_left_frame codec left_step b.val hb)
    rw [read_reg_cache_of_lt _ _ b.isLt, read_reg_cache_of_lt _ _ b.isLt] at h
    exact h
  · exact hs_right_keeps_left (twl6040_hs_ramp_step_left codec left_step).1 right_step
  · intro b hb
    have h := ep_frame codec step b.val hb
    rw [read_reg_cache_of_lt _ _ b.isLt, read_reg_cache_of_lt _ _ b.isLt] at h
    exact h
  · intro b hl hr
    have h := (hf_right_frame (twl6040_hf_ramp_step_left codec left_step).1 right_step
      b.val hr).trans (hf_left_frame codec left_step b.val hl)
    rw [read_reg_cache_of_lt _ _ b.isLt, read_reg_cache_of_lt _ _ b.isLt] at h
    exact h
  · exact (hs_right_drvdata _ right_step).trans (hs_left_drvdata codec left_step)
  · exact (hf_right_drvdata _ right_step).trans (hf_left_drvdata codec left_step)

set_option maxRecDepth 100000 in
/-- A concrete instance of C32 on the codec armed for a Down ramp with the
cached gains at 10 (HSGAIN 0x55, EARCTL 0x0A, HFLGAIN and HFRGAIN 0x13): the
left update of the headset step with the step 1 leaves HSGAIN at 0x56, the
whole tick at 0x66; the tick leaves EARCTL alone.  The earphone step leaves
EARCTL at 0x0C and HSGAIN alone; the handsfree step leaves HSGAIN alone. -/
theorem C32_ramp_step_frame_witness :
    twl6040_read_reg_cache (twl6040_hs_ramp_step_left down_codec 1).1
        TWL6040_REG_HSGAIN = 0x56 ∧
      twl6040_read_reg_cache (twl6040_hs_ramp_step down_codec 1 1).1
        TWL6040_REG_HSGAIN = 0x66 ∧
      (twl6040_hs_ramp_step down_codec 1 1).1.reg_cache ⟨TWL6040_REG_EARCTL, by decide⟩ =
        0x0A ∧
      twl6040_read_reg_cache (twl6040_ep_ramp_step down_codec 1).1
        TWL6040_REG_EARCTL = 0x0C ∧
      (twl6040_ep_ramp_step down_codec 1).1.reg_cache ⟨TWL6040_REG_HSGAIN, by decide⟩ =
        0x55 ∧
      (twl6040_hf_ramp_step down_codec 1 1).1.reg_cache ⟨TWL6040_REG_HSGAIN, by decide⟩ =
        0x55 :=
  ⟨by decide, by decide,
   ((C32_ramp_step_frame down_codec 1 1 1).1 ⟨TWL6040_REG_EARCTL, by decide⟩
      (by decide)).trans (by decide),
   by decide,
   ((C32_ramp_step_frame down_codec 1 1 1).2.2.2.2.1 ⟨TWL6040_REG_HSGAIN, by decide⟩
      (by decide)).trans (by decide),
   ((C32_ramp_step_frame down_codec 1 1 1).2.2.2.2.2.2.1 ⟨TWL6040_REG_HSGAIN, by decide⟩
      (by decide) (by decide)).trans (by decide)⟩

/-! ## Re-initialisation: frame of the cache -/

/-- One iteration of the vio loop changes no cache entry that holds a byte,
HSOTRIM and HFOTRIM apart. -/
theorem init_vio_body_frame (codec : snd_soc_codec) (a b : Fin TWL6040_CACHEREGNUM)
    (hs : b.val ≠ TWL6040_REG_HSOTRIM) (hf : b.val ≠ TWL6040_REG_HFOTRIM)
    (hb : codec.reg_cache b < 256) :
    (twl6040_init_vio_regs_body codec a).reg_cache b = codec.reg_cache b := by
  unfold twl6040_init_vio_regs_body
  split
  · rfl
  · rename_i hsup
    split
    · rfl
    · split
      · rename_i htrim
        have hsup' : reg_supply ⟨a.val, a.isLt⟩ = TWL6040_VIO_SUPPLY := by
          by_contra h
          exact hsup h
        rw [read_reg_volatile_vio codec a.val a.isLt hsup']
        have hab : b ≠ a := by
          intro h
          subst h
          rcases htrim with h | h
          · exact hs h
          · exact hf h
        exact Function.update_noteq hab _ _
      · rw [twl6040_write_cache codec a.val (codec.reg_cache a) a.isLt]
        by_cases hab : b = a
        · subst hab
          rw [Function.update_same]
          exact Nat.mod_eq_of_lt hb
        · rw [Function.update_noteq hab]

theorem init_vio_fold_frame (l : List (Fin TWL6040_CACHEREGNUM))
    (b : Fin TWL6040_CACHEREGNUM)
    (hs : b.val ≠ TWL6040_REG_HSOTRIM) (hf : b.val ≠ TWL6040_REG_HFOTRIM) :
    ∀ codec : snd_soc_codec, codec.reg_cache b < 256 →
      (l.foldl twl6040_init_vio_regs_body codec).reg_cache b = codec.reg_cache b := by
  induction l with
  | nil => intro codec _; rfl
  | cons a l ih =>
    intro codec hb
    have h1 := init_vio_body_frame codec a b hs hf hb
    rw [List.foldl_cons, ih (twl6040_init_vio_regs_body codec a) (by rw [h1]; exact hb), h1]

/-- The vio re-initialisation changes no cache entry that holds a byte,
HSOTRIM and HFOTRIM apart. -/
theorem init_vio_regs_frame (codec : snd_soc_codec) (b : Fin TWL6040_CACHEREGNUM)
    (hs : b.val ≠ TWL6040_REG_HSOTRIM) (hf : b.val ≠ TWL6040_REG_HFOTRIM)
    (hb : codec.reg_cache b < 256) :
    (twl6040_init_vio_regs codec).reg_cache b = codec.reg_cache b := by
  unfold twl6040_init_vio_regs
  exact init_vio_fold_frame _ b hs hf codec hb

/-- C33: on a cache of bytes, `twl6040_init_vdd_regs` leaves every cache
entry unchanged, whatever the power state (`codec_powered` is arbitrary, and
the statement is repeated for the codec forced into either power state), and
`twl6040_init_vio_regs` leaves every cache entry unchanged except HSOTRIM and
HFOTRIM, which take the bytes the hardware returns for the two read-backs
(issued after the seven writes of the loop). -/
theorem C33_reinit_keeps_cache (codec : snd_soc_codec)
    (hbyte : ∀ b, codec.reg_cache b < 256) :
    (∀ b, (twl6040_init_vdd_regs codec).reg_cache b = codec.reg_cache b) ∧
      (∀ p b, (twl6040_init_vdd_regs
          { codec with drvdata := { codec.drvdata with codec_powered := p } }).reg_cache b =
        codec.reg_cache b) ∧
      (∀ b : Fin TWL6040_CACHEREGNUM,
        b.val ≠ TWL6040_REG_HSOTRIM → b.val ≠ TWL6040_REG_HFOTRIM →
          (twl6040_init_vio_regs codec).reg_cache b = codec.reg_cache b) ∧
      (twl6040_init_vio_regs codec).reg_cache ⟨TWL6040_REG_HSOTRIM, by decide⟩ =
        codec.control_data.read_val
          (codec.control_data.log ++ (vio_init_ops codec.reg_cache).take 7)
          TWL6040_REG_HSOTRIM % 256 ∧
      (twl6040_init_vio_regs codec).reg_cache ⟨TWL6040_REG_HFOTRIM, by decide⟩ =
        codec.control_data.read_val
          (codec.control_data.log ++ (vio_init_ops codec.reg_cache).take 8)
          TWL6040_REG_HFOTRIM % 256 ∧
      HwOp.reg_read TWL6040_REG_HSOTRIM ∈ (twl6040_init_vio_regs codec).control_data.log ∧
      HwOp.reg_read TWL6040_REG_HFOTRIM ∈ (twl6040_init_vio_regs codec).control_data.log := by
  obtain ⟨hl, hhs, hhf, _, _⟩ := init_vio_regs_state codec
  refine ⟨fun b => (init_vdd_regs_frame codec).2 b (hbyte b), ?_,
    fun b hs hf => init_vio_regs_frame codec b hs hf (hbyte b), hhs, hhf, ?_, ?_⟩
  · intro p b
    exact (init_vdd_regs_frame
      { codec with drvdata := { codec.drvdata with codec_powered := p } }).2 b (hbyte b)
  · rw [hl]
    simp [vio_init_ops]
  · rw [hl]
    simp [vio_init_ops]

set_option maxRecDepth 100000 in
/-- A concrete instance of C33: the default image is a cache of bytes; on
the chip that holds the offset trims 0x12 and 0x34, the vdd re-initialisation
leaves HSGAIN at 0xFF, in the powered codec too, and the vio re-initialisation
leaves ACCCTL at 0x09 and stores 0x12 and 0x34 in HSOTRIM and HFOTRIM. -/
theorem C33_reinit_keeps_cache_witness :
    (∀ b, trimmed_codec.reg_cache b < 256) ∧
      (twl6040_init_vdd_regs trimmed_codec).reg_cache ⟨TWL6040_REG_HSGAIN, by decide⟩ =
        0xFF ∧
      (twl6040_init_vdd_regs
        { trimmed_codec with
          drvdata := { trimmed_codec.drvdata with codec_powered := 1 } }).reg_cache
          ⟨TWL6040_REG_HSGAIN, by decide⟩ = 0xFF ∧
      (twl6040_init_vio_regs trimmed_codec).reg_cache ⟨TWL6040_REG_ACCCTL, by decide⟩ =
        0x09 ∧
      (twl6040_init_vio_regs trimmed_codec).reg_cache ⟨TWL6040_REG_HSOTRIM, by decide⟩ =
        0x12 ∧
      (twl6040_init_vio_regs trimmed_codec).reg_cache ⟨TWL6040_REG_HFOTRIM, by decide⟩ =
        0x34 :=
  ⟨by decide,
   ((C33_reinit_keeps_cache trimmed_codec (by decide)).1 _).trans (by decide),
   ((C33_reinit_keeps_cache trimmed_codec (by decide)).2.1 1 _).trans (by decide),
   ((C33_reinit_keeps_cache trimmed_codec (by decide)).2.2.1 ⟨TWL6040_REG_ACCCTL, by decide⟩
      (by decide) (by decide)).trans (by decide),
   (C33_reinit_keeps_cache trimmed_codec (by decide)).2.2.2.1.trans (by decide),
   (C33_reinit_keeps_cache trimmed_codec (by decide)).2.2.2.2.1.trans (by decide)⟩

/-! ## Sample rates: the rate switch and the tables -/

/-- The rate switch of `twl6040_hw_params` rejects a rate that is no entry of
`lp_rates`: the result is `-EINVAL` and the codec is untouched. -/
theorem hw_params_rejected (codec : snd_soc_codec) (rate : Int)
    (h : rate ∉ lp_rates.map Int.ofNat) :
    twl6040_hw_params codec rate = (- (EINVAL_errno : Int), codec) := by
  have h' : ¬ (rate = 11250 ∨ rate = 22500 ∨ rate = 88200) ∧
      ¬ (rate = 8000 ∨ rate = 16000 ∨ rate = 32000 ∨ rate = 44100 ∨
        rate = 48000 ∨ rate = 96000) := by
    simp [lp_rates] at h
    omega
  unfold twl6040_hw_params
  simp only [h'.1, h'.2, if_false]

/-- The sample clock the rate switch selects for an entry of `lp_rates`. -/
theorem hw_params_accepted (codec : snd_soc_codec) (rate : Int) (sysclk : Nat)
    (h : (rate = 11250 ∨ rate = 22500 ∨ rate = 88200) ∧ sysclk = 17640000 ∨
      (rate = 8000 ∨ rate = 16000 ∨ rate = 32000 ∨ rate = 44100 ∨
        rate = 48000 ∨ rate = 96000) ∧ sysclk = 19200000) :
    twl6040_hw_params codec rate =
      if (twl6040_set_pll codec.control_data codec.drvdata.pll codec.drvdata.clk_in
          sysclk).1 ≠ 0 then
        ((twl6040_set_pll codec.control_data codec.drvdata.pll codec.drvdata.clk_in
            sysclk).1,
          { codec with
            control_data := (twl6040_set_pll codec.control_data codec.drvdata.pll
              codec.drvdata.clk_in sysclk).2 })
      else
        (0, { codec with
          control_data := (twl6040_set_pll codec.control_data codec.drvdata.pll
            codec.drvdata.clk_in sysclk).2,
          drvdata := { codec.drvdata with sysclk := sysclk } }) := by
  rcases h with ⟨h, hs⟩ | ⟨h, hs⟩
  · subst hs
    unfold twl6040_hw_params
    simp only [h, if_true]
  · subst hs
    have hn : ¬ (rate = 11250 ∨ rate = 22500 ∨ rate = 88200) := by omega
    unfold twl6040_hw_params
    simp only [h, hn, if_true, if_false]

/-- The effects of `twl6040_hw_params` for a rate the switch accepts: the
pll is asked for the selected sample clock, the result of that call is
returned, and the clock is recorded in `priv->sysclk` if the call
succeeded. -/
theorem hw_params_effects (codec : snd_soc_codec) (rate : Int) (sysclk : Nat)
    (h : (rate = 11250 ∨ rate = 22500 ∨ rate = 88200) ∧ sysclk = 17640000 ∨
      (rate = 8000 ∨ rate = 16000 ∨ rate = 32000 ∨ rate = 44100 ∨
        rate = 48000 ∨ rate = 96000) ∧ sysclk = 19200000) :
    (twl6040_hw_params codec rate).1 =
        codec.control_data.set_pll_ret (codec.control_data.log ++
          [HwOp.set_pll codec.drvdata.pll codec.drvdata.clk_in sysclk]) ∧
      (twl6040_hw_params codec rate).2.control_data.log =
        codec.control_data.log ++
          [HwOp.set_pll codec.drvdata.pll codec.drvdata.clk_in sysclk] ∧
      ((twl6040_hw_params codec rate).1 = 0 →
        (twl6040_hw_params codec rate).2.drvdata =
          { codec.drvdata with sysclk := sysclk }) ∧
      ((twl6040_hw_params codec rate).1 ≠ 0 →
        (twl6040_hw_params codec rate).2.drvdata = codec.drvdata) ∧
      (twl6040_hw_params codec rate).2.reg_cache = codec.reg_cache ∧
      (twl6040_hw_params codec rate).2.bias_level = codec.bias_level := by
  rw [hw_params_accepted codec rate sysclk h]
  by_cases hr : (twl6040_set_pll codec.control_data codec.drvdata.pll codec.drvdata.clk_in
      sysclk).1 ≠ 0
  · rw [if_pos hr]
    exact ⟨rfl, rfl, fun h0 => absurd h0 hr, fun _ => rfl, rfl, rfl⟩
  · rw [if_neg hr]
    have h0 : (twl6040_set_pll codec.control_data codec.drvdata.pll codec.drvdata.clk_in
        sysclk).1 = 0 := by
      by_contra hc
      exact hr hc
    exact ⟨h0.symm, rfl, fun _ => rfl, fun hc => absurd rfl hc, rfl, rfl⟩

theorem mem_lp_rates (rate : Int) :
    rate ∈ lp_rates.map Int.ofNat ↔
      (rate = 11250 ∨ rate = 22500 ∨ rate = 88200) ∨
        (rate = 8000 ∨ rate = 16000 ∨ rate = 32000 ∨ rate = 44100 ∨
          rate = 48000 ∨ rate = 96000) := by
  simp [lp_rates]
  omega

theorem mem_hp_rates (rate : Int) :
    rate ∈ hp_rates.map Int.ofNat ↔
      (rate = 8000 ∨ rate = 16000 ∨ rate = 32000 ∨ rate = 44100 ∨
        rate = 48000 ∨ rate = 96000) := by
  simp [hp_rates]

set_option maxRecDepth 100000 in
/-- C34, as stated, fails: 88200 is an entry of `lp_rates`, and on a chip
whose pll accepts the sample clock 19200000 only `twl6040_hw_params` returns
`-EINVAL` for it: the rate switch selects 17640000, the pll is asked for it,
and the `-EINVAL` of `twl6040_set_pll` is returned. -/
theorem C34_counterexample :
    (88200 : Int) ∈ lp_rates.map Int.ofNat ∧
      (twl6040_hw_params hp_codec 88200).1 = - (EINVAL_errno : Int) ∧
      (twl6040_hw_params hp_codec 88200).2.control_data.log =
        [HwOp.set_pll 0 0 17640000] ∧
      ¬ ((twl6040_hw_params hp_codec 88200).1 ≠ - (EINVAL_errno : Int) ↔
        (88200 : Int) ∈ lp_rates.map Int.ofNat) := by
  refine ⟨by decide, by decide, by decide, ?_⟩
  intro h
  exact h.2 (by decide) (by decide)

/-- C34, amended: `twl6040_hw_params` accepts a sample rate, that is, calls
`twl6040_set_pll` for it and returns the result of that call, if and only if
the rate is an entry of `lp_rates`; every entry of `hp_rates` is also an entry
of `lp_rates` and selects the sample clock 19200000, the remaining entries
11250, 22500 and 88200 select 17640000; the selected clock is recorded in
`priv->sysclk` if the pll call succeeds.  For a rejected rate the result is
`-EINVAL`, the pll is not configured and the codec, `priv->sysclk` included,
is unchanged.  So `-EINVAL` is returned for an entry of `lp_rates` only if
`twl6040_set_pll` returns it: on a transport that never does, a rate is an
entry of `lp_rates` if and only if `twl6040_hw_params` does not return
`-EINVAL` for it. -/
theorem C34_rate_tables (codec : snd_soc_codec) (rate : Int) :
    ((∃ sysclk, (twl6040_hw_params codec rate).2.control_data.log =
          codec.control_data.log ++
            [HwOp.set_pll codec.drvdata.pll codec.drvdata.clk_in sysclk]) ↔
        rate ∈ lp_rates.map Int.ofNat) ∧
      (∀ r ∈ hp_rates, r ∈ lp_rates) ∧
      (∀ r ∈ lp_rates, r ∉ hp_rates ↔ (r = 11250 ∨ r = 22500 ∨ r = 88200)) ∧
      (∀ sysclk,
        (rate ∈ hp_rates.map Int.ofNat ∧ sysclk = 19200000 ∨
          (rate = 11250 ∨ rate = 22500 ∨ rate = 88200) ∧ sysclk = 17640000) →
        (twl6040_hw_params codec rate).1 =
            codec.control_data.set_pll_ret (codec.control_data.log ++
              [HwOp.set_pll codec.drvdata.pll codec.drvdata.clk_in sysclk]) ∧
          (twl6040_hw_params codec rate).2.control_data.log =
            codec.control_data.log ++
              [HwOp.set_pll codec.drvdata.pll codec.drvdata.clk_in sysclk] ∧
          ((twl6040_hw_params codec rate).1 = 0 →
            (twl6040_hw_params codec rate).2.drvdata =
              { codec.drvdata with sysclk := sysclk }) ∧
          ((twl6040_hw_params codec rate).1 ≠ 0 →
            (twl6040_hw_params codec rate).2.drvdata = codec.drvdata) ∧
          (twl6040_hw_params codec rate).2.reg_cache = codec.reg_cache ∧
          (twl6040_hw_params codec rate).2.bias_level = codec.bias_level) ∧
      (rate ∉ lp_rates.map Int.ofNat →
        twl6040_hw_params codec rate = (- (EINVAL_errno : Int), codec)) ∧
      ((∀ log, codec.control_data.set_pll_ret log ≠ - (EINVAL_errno : Int)) →
        ((twl6040_hw_params codec rate).1 ≠ - (EINVAL_errno : Int) ↔
          rate ∈ lp_rates.map Int.ofNat)) := by
  have hsel : rate ∈ lp_rates.map Int.ofNat → ∃ sysclk,
      (rate = 11250 ∨ rate = 22500 ∨ rate = 88200) ∧ sysclk = 17640000 ∨
      (rate = 8000 ∨ rate = 16000 ∨ rate = 32000 ∨ rate = 44100 ∨
        rate = 48000 ∨ rate = 96000) ∧ sysclk = 19200000 := by
    intro h
    rcases (mem_lp_rates rate).1 h with h | h
    · exact ⟨17640000, Or.inl ⟨h, rfl⟩⟩
    · exact ⟨19200000, Or.inr ⟨h, rfl⟩⟩
  refine ⟨⟨?_, ?_⟩, by decide, by decide, ?_, hw_params_rejected codec rate, ?_⟩
  · rintro ⟨sysclk, hlog⟩
    by_contra hn
    rw [hw_params_rejected codec rate hn] at hlog
    have hlen := congrArg List.length hlog
    simp at hlen
  · intro h
    obtain ⟨sysclk, hs⟩ := hsel h
    exact ⟨sysclk, (hw_params_effects codec rate sysclk hs).2.1⟩
  · intro sysclk h
    apply hw_params_effects
    rcases h with ⟨h, hs⟩ | ⟨h, hs⟩
    · exact Or.inr ⟨(mem_hp_rates rate).1 h, hs⟩
    · exact Or.inl ⟨h, hs⟩
  · intro hret
    constructor
    · intro hne
      by_contra hn
      rw [hw_params_rejected codec rate hn] at hne
      exact hne rfl
    · intro h
      obtain ⟨sysclk, hs⟩ := hsel h
      rw [(hw_params_effects codec rate sysclk hs).1]
      exact hret _

set_option maxRecDepth 100000 in
/-- A concrete instance of C34 on the chip whose pll accepts 19200000 only:
48000 is an entry of `hp_rates`; the pll is asked for 19200000, the call
succeeds, `twl6040_hw_params` returns 0 and records the clock.  12345 is no
entry of `lp_rates`: the result is `-EINVAL` and the codec is unchanged. -/
theorem C34_rate_tables_witness :
    (48000 : Int) ∈ hp_rates.map Int.ofNat ∧
      (twl6040_hw_params hp_codec 48000).1 = 0 ∧
      (twl6040_hw_params hp_codec 48000).2.control_data.log =
        [HwOp.set_pll 0 0 19200000] ∧
      (twl6040_hw_params hp_codec 48000).2.drvdata.sysclk = 19200000 ∧
      (12345 : Int) ∉ lp_rates.map Int.ofNat ∧
      twl6040_hw_params hp_codec 12345 = (- (EINVAL_errno : Int), hp_codec) :=
  ⟨by decide,
   ((C34_rate_tables hp_codec 48000).2.2.2.1 19200000
      (Or.inl ⟨by decide, rfl⟩)).1.trans (by decide),
   ((C34_rate_tables hp_codec 48000).2.2.2.1 19200000
      (Or.inl ⟨by decide, rfl⟩)).2.1.trans (by decide),
   (congrArg twl6040_data.sysclk
      (((C34_rate_tables hp_codec 48000).2.2.2.1 19200000
        (Or.inl ⟨by decide, rfl⟩)).2.2.1 (by decide))).trans rfl,
   by decide,
   (C34_rate_tables hp_codec 12345).2.2.2.2.1 (by decide)⟩

/-! ## The tables as C arrays: lookups -/

theorem to_arr_length (codec : snd_soc_codec) :
    (to_arr codec).reg_cache.length = TWL6040_CACHEREGNUM := by
  show (List.ofFn codec.reg_cache).length = TWL6040_CACHEREGNUM
  exact List.length_ofFn _

/-- A lookup outside a table has no result. -/
theorem array_get_out_of_range {α : Type} (table : List α) (i : Nat)
    (h : table.length ≤ i) : array_get table i = none := by
  unfold array_get
  rw [dif_neg (by omega)]

theorem array_get_of_lt {α : Type} (table : List α) (i : Nat) (h : i < table.length) :
    array_get table i = some (table.get ⟨i, h⟩) := by
  unfold array_get
  rw [dif_pos h]

theorem array_get_ofFn {n : Nat} (f : Fin n → Nat) (i : Nat) (h : i < n) :
    array_get (List.ofFn f) i = some (f ⟨i, h⟩) := by
  rw [array_get_of_lt _ i (by rw [List.length_ofFn]; exact h)]
  simp

theorem array_set_ofFn {n : Nat} (f : Fin n → Nat) (i v : Nat) (h : i < n) :
    array_set (List.ofFn f) i v = some (List.ofFn (Function.update f ⟨i, h⟩ v)) := by
  unfold array_set
  rw [if_pos (by rw [List.length_ofFn]; exact h)]
  congr 1
  apply List.ext_getElem
  · simp
  · intro j h1 h2
    simp only [List.getElem_set, List.getElem_ofFn, Function.update]
    by_cases hij : i = j
    · subst hij
      simp
    · have hne : ¬ ((⟨j, by simpa using h2⟩ : Fin n) = ⟨i, h⟩) := by
        intro he
        exact hij (congrArg Fin.val he).symm
      simp [hij, hne]

theorem array_get_supply (reg : Nat) (h : reg < TWL6040_CACHEREGNUM) :
    array_get twl6040_reg_supply reg = some (reg_supply ⟨reg, h⟩) := by
  unfold array_get reg_supply
  exact dif_pos h

/-! ## The tables as C arrays: the functions agree with those on the cache
indexed by `Fin TWL6040_CACHEREGNUM` -/

theorem read_reg_cache_arr_eq (codec : snd_soc_codec) (reg : Nat) :
    twl6040_read_reg_cache_arr (to_arr codec) reg =
      some (twl6040_read_reg_cache codec reg) := by
  unfold twl6040_read_reg_cache_arr twl6040_read_reg_cache
  by_cases h : reg < TWL6040_CACHEREGNUM
  · rw [if_neg (by omega), dif_pos h]
    exact array_get_ofFn _ _ h
  · rw [if_pos (by omega), dif_neg h]

theorem write_reg_cache_arr_eq (codec : snd_soc_codec) (reg value : Nat) :
    twl6040_write_reg_cache_arr (to_arr codec) reg value =
      some (to_arr (twl6040_write_reg_cache codec reg value)) := by
  unfold twl6040_write_reg_cache_arr twl6040_write_reg_cache
  by_cases h : reg % 256 < TWL6040_CACHEREGNUM
  · rw [if_neg (by omega), dif_pos h]
    show Option.map _ (array_set (List.ofFn codec.reg_cache) _ _) = _
    rw [array_set_ofFn _ _ _ h]
    rfl
  · rw [if_pos (by omega), dif_neg h]

theorem read_reg_volatile_arr_eq (codec : snd_soc_codec) (reg : Nat) :
    twl6040_read_reg_volatile_arr (to_arr codec) reg =
      some ((twl6040_read_reg_volatile codec reg).1,
        to_arr (twl6040_read_reg_volatile codec reg).2) := by
  unfold twl6040_read_reg_volatile_arr twl6040_read_reg_volatile
  by_cases h : reg < TWL6040_CACHEREGNUM
  · rw [if_neg (by omega), dif_pos h, array_get_supply reg h]
    by_cases hs : reg_supply ⟨reg, h⟩ = TWL6040_VDD_SUPPLY ∧ codec.drvdata.codec_powered = 0
    · have hs' : reg_supply ⟨reg, h⟩ = TWL6040_VDD_SUPPLY ∧
          (to_arr codec).drvdata.codec_powered = 0 := hs
      simp only [Option.bind_eq_bind, Option.some_bind, hs, hs', and_self, if_true]
      rfl
    · have hs' : ¬ (reg_supply ⟨reg, h⟩ = TWL6040_VDD_SUPPLY ∧
          (to_arr codec).drvdata.codec_powered = 0) := hs
      have hw := write_reg_cache_arr_eq
        { codec with control_data := (twl6040_reg_read codec.control_data reg).2 } reg
        (twl6040_reg_read codec.control_data reg).1
      simp only [Option.bind_eq_bind, Option.some_bind, if_neg hs, if_neg hs']
      show (twl6040_write_reg_cache_arr
        (to_arr { codec with control_data := (twl6040_reg_read codec.control_data reg).2 })
        reg (twl6040_reg_read codec.control_data reg).1).bind _ = _
      rw [hw]
      rfl
  · rw [if_pos (by omega), dif_neg h]

theorem write_arr_eq (codec : snd_soc_codec) (reg value : Nat) :
    twl6040_write_arr (to_arr codec) reg value =
      some ((twl6040_write codec reg value).1, to_arr (twl6040_write codec reg value).2) := by
  unfold twl6040_write_arr twl6040_write
  by_cases h : reg < TWL6040_CACHEREGNUM
  · rw [if_neg (by omega), dif_pos h]
    simp only [Option.bind_eq_bind, write_reg_cache_arr_eq, Option.some_bind,
      array_get_supply reg h]
    have hd : (to_arr (twl6040_write_reg_cache codec reg value)).drvdata =
        (twl6040_write_reg_cache codec reg value).drvdata := rfl
    rw [hd]
    by_cases hs : reg_supply ⟨reg, h⟩ = TWL6040_VIO_SUPPLY ∨
        (twl6040_write_reg_cache codec reg value).drvdata.codec_powered ≠ 0
    · rw [if_pos hs, if_pos hs]
      rfl
    · rw [if_neg hs, if_neg hs]
      rfl
  · rw [if_pos (by omega), dif_neg h]

theorem to_arr_drvdata (codec : snd_soc_codec) : (to_arr codec).drvdata = codec.drvdata :=
  rfl

theorem to_arr_reg_cache (codec : snd_soc_codec) :
    (to_arr codec).reg_cache = List.ofFn codec.reg_cache :=
  rfl

theorem init_vio_body_arr_eq (codec : snd_soc_codec) (reg : Fin TWL6040_CACHEREGNUM) :
    twl6040_init_vio_regs_body_arr (to_arr codec) reg.val =
      some (to_arr (twl6040_init_vio_regs_body codec reg)) := by
  unfold twl6040_init_vio_regs_body_arr twl6040_init_vio_regs_body
  simp only [array_get_supply reg.val reg.isLt, Option.bind_eq_bind, Option.some_bind,
    Option.pure_def, read_reg_volatile_arr_eq, to_arr_reg_cache,
    array_get_ofFn _ reg.val reg.isLt, write_arr_eq]
  split_ifs <;> rfl

theorem init_vdd_body_arr_eq (codec : snd_soc_codec) (reg : Fin TWL6040_CACHEREGNUM) :
    twl6040_init_vdd_regs_body_arr (to_arr codec) reg.val =
      some (to_arr (twl6040_init_vdd_regs_body codec reg)) := by
  unfold twl6040_init_vdd_regs_body_arr twl6040_init_vdd_regs_body
  simp only [array_get_supply reg.val reg.isLt, Option.bind_eq_bind, Option.some_bind,
    Option.pure_def, to_arr_reg_cache, array_get_ofFn _ reg.val reg.isLt, write_arr_eq]
  split_ifs <;> rfl

theorem init_vio_fold_arr_eq (l : List (Fin TWL6040_CACHEREGNUM)) :
    ∀ codec : snd_soc_codec,
      (l.map Fin.val).foldlM twl6040_init_vio_regs_body_arr (to_arr codec) =
        some (to_arr (l.foldl twl6040_init_vio_regs_body codec)) := by
  induction l with
  | nil => intro codec; rfl
  | cons a l ih =>
    intro codec
    rw [List.map_cons, List.foldlM_cons, init_vio_body_arr_eq, List.foldl_cons]
    exact ih _

theorem init_vdd_fold_arr_eq (l : List (Fin TWL6040_CACHEREGNUM)) :
    ∀ codec : snd_soc_codec,
      (l.map Fin.val).foldlM twl6040_init_vdd_regs_body_arr (to_arr codec) =
        some (to_arr (l.foldl twl6040_init_vdd_regs_body codec)) := by
  induction l with
  | nil => intro codec; rfl
  | cons a l ih =>
    intro codec
    rw [List.map_cons, List.foldlM_cons, init_vdd_body_arr_eq, List.foldl_cons]
    exact ih _

set_option maxRecDepth 100000 in
theorem range_eq_map_finRange :
    List.range TWL6040_CACHEREGNUM = (List.finRange TWL6040_CACHEREGNUM).map Fin.val := by
  decide

theorem init_vio_regs_arr_eq (codec : snd_soc_codec) :
    twl6040_init_vio_regs_arr (to_arr codec) =
      some (to_arr (twl6040_init_vio_regs codec)) := by
  unfold twl6040_init_vio_regs_arr twl6040_init_vio_regs
  rw [range_eq_map_finRange]
  exact init_vio_fold_arr_eq _ codec

theorem init_vdd_regs_arr_eq (codec : snd_soc_codec) :
    twl6040_init_vdd_regs_arr (to_arr codec) =
      some (to_arr (twl6040_init_vdd_regs codec)) := by
  unfold twl6040_init_vdd_regs_arr twl6040_init_vdd_regs
  rw [range_eq_map_finRange]
  exact init_vdd_fold_arr_eq _ codec

theorem hs_left_arr_eq (codec : snd_soc_codec) (s : Nat) :
    twl6040_hs_ramp_step_left_arr (to_arr codec) s =
      some (to_arr (twl6040_hs_ramp_step_left codec s).1,
        (twl6040_hs_ramp_step_left codec s).2) := by
  unfold twl6040_hs_ramp_step_left_arr twl6040_hs_ramp_step_left
  simp only [read_reg_cache_arr_eq, to_arr_drvdata, Option.bind_eq_bind, Option.some_bind,
    Option.pure_def, write_arr_eq]
  split_ifs <;> rfl

theorem hs_right_arr_eq (codec : snd_soc_codec) (s : Nat) :
    twl6040_hs_ramp_step_right_arr (to_arr codec) s =
      some (to_arr (twl6040_hs_ramp_step_right codec s).1,
        (twl6040_hs_ramp_step_right codec s).2) := by
  unfold twl6040_hs_ramp_step_right_arr twl6040_hs_ramp_step_right
  simp only [read_reg_cache_arr_eq, to_arr_drvdata, Option.bind_eq_bind, Option.some_bind,
    Option.pure_def, write_arr_eq]
  split_ifs <;> rfl

theorem hs_step_arr_eq (codec : snd_soc_codec) (sl sr : Nat) :
    twl6040_hs_ramp_step_arr (to_arr codec) sl sr =
      some (to_arr (twl6040_hs_ramp_step codec sl sr).1,
        (twl6040_hs_ramp_step codec sl sr).2) := by
  unfold twl6040_hs_ramp_step_arr twl6040_hs_ramp_step
  simp only [hs_left_arr_eq, hs_right_arr_eq, Option.bind_eq_bind, Option.some_bind,
    Option.pure_def]

theorem hf_left_arr_eq (codec : snd_soc_codec) (s : Nat) :
    twl6040_hf_ramp_step_left_arr (to_arr codec) s =
      some (to_arr (twl6040_hf_ramp_step_left codec s).1,
        (twl6040_hf_ramp_step_left codec s).2) := by
  unfold twl6040_hf_ramp_step_left_arr twl6040_hf_ramp_step_left
  simp only [read_reg_cache_arr_eq, to_arr_drvdata, Option.bind_eq_bind, Option.some_bind,
    Option.pure_def, write_arr_eq]
  split_ifs <;> rfl

theorem hf_right_arr_eq (codec : snd_soc_codec) (s : Nat) :
    twl6040_hf_ramp_step_right_arr (to_arr codec) s =
      some (to_arr (twl6040_hf_ramp_step_right codec s).1,
        (twl6040_hf_ramp_step_right codec s).2) := by
  unfold twl6040_hf_ramp_step_right_arr twl6040_hf_ramp_step_right
  simp only [read_reg_cache_arr_eq, to_arr_drvdata, Option.bind_eq_bind, Option.some_bind,
    Option.pure_def, write_arr_eq]
  split_ifs <;> rfl

theorem hf_step_arr_eq (codec : snd_soc_codec) (sl sr : Nat) :
    twl6040_hf_ramp_step_arr (to_arr codec) sl sr =
      some (to_arr (twl6040_hf_ramp_step codec sl sr).1,
        (twl6040_hf_ramp_step codec sl sr).2) := by
  unfold twl6040_hf_ramp_step_arr twl6040_hf_ramp_step
  simp only [hf_left_arr_eq, hf_right_arr_eq, Option.bind_eq_bind, Option.some_bind,
    Option.pure_def]

theorem ep_step_arr_eq (codec : snd_soc_codec) (s : Nat) :
    twl6040_ep_ramp_step_arr (to_arr codec) s =
      some (to_arr (twl6040_ep_ramp_step codec s).1, (twl6040_ep_ramp_step codec s).2) := by
  unfold twl6040_ep_ramp_step_arr twl6040_ep_ramp_step
  simp only [read_reg_cache_arr_eq, to_arr_drvdata, Option.bind_eq_bind, Option.some_bind,
    Option.pure_def, write_arr_eq]
  split_ifs <;> rfl

theorem ofFn_get_of_length (n : Nat) (l : List Nat) (h : l.length = n) :
    List.ofFn (fun i : Fin n => l.get ⟨i.val, by rw [h]; exact i.isLt⟩) = l := by
  subst h
  exact List.ofFn_get l

/-- Every array codec whose cache has `TWL6040_CACHEREGNUM` entries holds
the state of a codec. -/
theorem to_arr_surjective (codec : snd_soc_codec_arr)
    (h : codec.reg_cache.length = TWL6040_CACHEREGNUM) :
    ∃ c : snd_soc_codec, to_arr c = codec := by
  refine ⟨{ reg_cache := fun i => codec.reg_cache.get ⟨i.val, by rw [h]; exact i.isLt⟩,
            control_data := codec.control_data,
            bias_level := SND_SOC_BIAS_OFF,
            drvdata := codec.drvdata }, ?_⟩
  show ({ reg_cache := List.ofFn _, control_data := codec.control_data,
          drvdata := codec.drvdata } : snd_soc_codec_arr) = codec
  rw [ofFn_get_of_length TWL6040_CACHEREGNUM codec.reg_cache h]

/-! ## Table accesses are in bounds -/

/-- C35: the default image `twl6040_reg` and the supply table
`twl6040_reg_supply` both have exactly `TWL6040_CACHEREGNUM` entries, so that
a lookup at the index `TWL6040_CACHEREGNUM` would be out of range.  For a
`reg` argument that is not below `TWL6040_CACHEREGNUM`, `twl6040_write`,
`twl6040_read_reg_volatile` and the cache accessors return before any lookup:
they have a result whatever the size of the cache.  On a cache of
`TWL6040_CACHEREGNUM` entries, for every `reg` argument, no lookup of these
functions, of the two re-initialisation loops and of the three ramp steps is
out of range: each of them has a result, and the cache keeps its size. -/
theorem C35_table_bounds :
    twl6040_reg.length = TWL6040_CACHEREGNUM ∧
      twl6040_reg_supply.length = TWL6040_CACHEREGNUM ∧
      (array_get twl6040_reg TWL6040_CACHEREGNUM = none ∧
        array_get twl6040_reg_supply TWL6040_CACHEREGNUM = none) ∧
      (∀ (codec : snd_soc_codec_arr) (reg value : Nat), TWL6040_CACHEREGNUM ≤ reg →
        twl6040_read_reg_cache_arr codec reg = some (2 ^ 32 - EIO_errno) ∧
          twl6040_write_arr codec reg value = some (- (EIO_errno : Int), codec) ∧
          twl6040_read_reg_volatile_arr codec reg = some (- (EIO_errno : Int), codec)) ∧
      (∀ (codec : snd_soc_codec_arr) (reg value : Nat), TWL6040_CACHEREGNUM ≤ reg % 256 →
        twl6040_write_reg_cache_arr codec reg value = some codec) ∧
      (∀ codec : snd_soc_codec_arr, codec.reg_cache.length = TWL6040_CACHEREGNUM →
        ∀ reg value left_step right_step : Nat,
          (∃ v, twl6040_read_reg_cache_arr codec reg = some v) ∧
          (∃ c, twl6040_write_reg_cache_arr codec reg value = some c ∧
            c.reg_cache.length = TWL6040_CACHEREGNUM) ∧
          (∃ r, twl6040_write_arr codec reg value = some r ∧
            r.2.reg_cache.length = TWL6040_CACHEREGNUM) ∧
          (∃ r, twl6040_read_reg_volatile_arr codec reg = some r ∧
            r.2.reg_cache.length = TWL6040_CACHEREGNUM) ∧
          (∃ c, twl6040_init_vio_regs_arr codec = some c ∧
            c.reg_cache.length = TWL6040_CACHEREGNUM) ∧
          (∃ c, twl6040_init_vdd_regs_arr codec = some c ∧
            c.reg_cache.length = TWL6040_CACHEREGNUM) ∧
          (∃ r, twl6040_hs_ramp_step_arr codec left_step right_step = some r ∧
            r.1.reg_cache.length = TWL6040_CACHEREGNUM) ∧
          (∃ r, twl6040_hf_ramp_step_arr codec left_step right_step = some r ∧
            r.1.reg_cache.length = TWL6040_CACHEREGNUM) ∧
          (∃ r, twl6040_ep_ramp_step_arr codec left_step = some r ∧
            r.1.reg_cache.length = TWL6040_CACHEREGNUM)) := by
  refine ⟨rfl, rfl, ⟨array_get_out_of_range _ _ (Nat.le_of_eq rfl),
    array_get_out_of_range _ _ (Nat.le_of_eq rfl)⟩, ?_, ?_, ?_⟩
  · intro codec reg value h
    refine ⟨?_, ?_, ?_⟩
    · unfold twl6040_read_reg_cache_arr
      rw [if_pos h]
    · unfold twl6040_write_arr
      rw [if_pos h]
    · unfold twl6040_read_reg_volatile_arr
      rw [if_pos h]
  · intro codec reg value h
    unfold twl6040_write_reg_cache_arr
    rw [if_pos h]
  · intro codec hlen reg value left_step right_step
    obtain ⟨c, rfl⟩ := to_arr_surjective codec hlen
    exact ⟨⟨_, read_reg_cache_arr_eq c reg⟩,
      ⟨_, write_reg_cache_arr_eq c reg value, to_arr_length _⟩,
      ⟨_, write_arr_eq c reg value, to_arr_length _⟩,
      ⟨_, read_reg_volatile_arr_eq c reg, to_arr_length _⟩,
      ⟨_, init_vio_regs_arr_eq c, to_arr_length _⟩,
      ⟨_, init_vdd_regs_arr_eq c, to_arr_length _⟩,
      ⟨_, hs_step_arr_eq c left_step right_step, to_arr_length _⟩,
      ⟨_, hf_step_arr_eq c left_step right_step, to_arr_length _⟩,
      ⟨_, ep_step_arr_eq c left_step, to_arr_length _⟩⟩

set_option maxRecDepth 100000 in
/-- A concrete instance of C35: the cache allocated from the default image
has `TWL6040_CACHEREGNUM` entries; on it the lookup of HSGAIN yields 0xFF, a
write to HSGAIN, the two re-initialisation loops and a tick of each ramp step
have a result, and a write to the register number `TWL6040_CACHEREGNUM`
returns `-EIO` and leaves the codec alone. -/
theorem C35_table_bounds_witness :
    probe_codec_arr.reg_cache.length = TWL6040_CACHEREGNUM ∧
      twl6040_read_reg_cache_arr probe_codec_arr TWL6040_REG_HSGAIN = some 0xFF ∧
      (∃ r, twl6040_write_arr probe_codec_arr TWL6040_REG_HSGAIN 0x55 = some r ∧
        r.2.reg_cache.length = TWL6040_CACHEREGNUM) ∧
      (∃ c, twl6040_init_vio_regs_arr probe_codec_arr = some c ∧
        c.reg_cache.length = TWL6040_CACHEREGNUM) ∧
      (∃ c, twl6040_init_vdd_regs_arr probe_codec_arr = some c ∧
        c.reg_cache.length = TWL6040_CACHEREGNUM) ∧
      (∃ r, twl6040_hs_ramp_step_arr probe_codec_arr 1 1 = some r ∧
        r.1.reg_cache.length = TWL6040_CACHEREGNUM) ∧
      (∃ r, twl6040_hf_ramp_step_arr probe_codec_arr 1 1 = some r ∧
        r.1.reg_cache.length = TWL6040_CACHEREGNUM) ∧
      (∃ r, twl6040_ep_ramp_step_arr probe_codec_arr 1 = some r ∧
        r.1.reg_cache.length = TWL6040_CACHEREGNUM) ∧
      twl6040_write_arr probe_codec_arr TWL6040_CACHEREGNUM 0x55 =
        some (- (EIO_errno : Int), probe_codec_arr) :=
  ⟨rfl, rfl,
   (C35_table_bounds.2.2.2.2.2 probe_codec_arr rfl TWL6040_REG_HSGAIN 0x55 1 1).2.2.1,
   (C35_table_bounds.2.2.2.2.2 probe_codec_arr rfl TWL6040_REG_HSGAIN 0x55 1 1).2.2.2.2.1,
   (C35_table_bounds.2.2.2.2.2 probe_codec_arr rfl TWL6040_REG_HSGAIN 0x55 1 1).2.2.2.2.2.1,
   (C35_table_bounds.2.2.2.2.2 probe_codec_arr rfl TWL6040_REG_HSGAIN 0x55 1 1).2.2.2.2.2.2.1,
   (C35_table_bounds.2.2.2.2.2 probe_codec_arr rfl TWL6040_REG_HSGAIN 0x55 1
      1).2.2.2.2.2.2.2.1,
   (C35_table_bounds.2.2.2.2.2 probe_codec_arr rfl TWL6040_REG_HSGAIN 0x55 1
      1).2.2.2.2.2.2.2.2,
   (C35_table_bounds.2.2.2.1 probe_codec_arr TWL6040_CACHEREGNUM 0x55 (Nat.le_refl _)).2.1⟩

/-! ## The wait of the power-down event -/

/-- The end of a Down ramp in the headset task: the output is inactive, the
direction reset, the completion signalled, the pending bit untouched. -/
theorem hs_work_down_state (codec : snd_soc_codec)
    (hramp : codec.drvdata.headset.ramp = TWL6040_RAMP_DOWN) :
    (twl6040_pga_hs_work codec).drvdata.headset.active = 0 ∧
      (twl6040_pga_hs_work codec).drvdata.headset.ramp = TWL6040_RAMP_NONE ∧
      (twl6040_pga_hs_work codec).drvdata.headset.ramp_done =
        codec.drvdata.headset.ramp_done + 1 ∧
      (twl6040_pga_hs_work codec).drvdata.headset.work_queued =
        codec.drvdata.headset.work_queued := by
  obtain ⟨f1, f2, f3⟩ := ramp_finish_down codec.drvdata.headset hramp
  rw [pga_hs_work_armed codec (by rw [hramp]; decide)]
  exact ⟨f1, f3, f2, (ramp_finish_keeps codec.drvdata.headset).2.2.1⟩

theorem hf_work_down_state (codec : snd_soc_codec)
    (hramp : codec.drvdata.handsfree.ramp = TWL6040_RAMP_DOWN) :
    (twl6040_pga_hf_work codec).drvdata.handsfree.active = 0 ∧
      (twl6040_pga_hf_work codec).drvdata.handsfree.ramp = TWL6040_RAMP_NONE ∧
      (twl6040_pga_hf_work codec).drvdata.handsfree.ramp_done =
        codec.drvdata.handsfree.ramp_done + 1 ∧
      (twl6040_pga_hf_work codec).drvdata.handsfree.work_queued =
        codec.drvdata.handsfree.work_queued := by
  obtain ⟨f1, f2, f3⟩ := ramp_finish_down codec.drvdata.handsfree hramp
  rw [pga_hf_work_armed codec (by rw [hramp]; decide)]
  exact ⟨f1, f3, f2, (ramp_finish_keeps codec.drvdata.handsfree).2.2.1⟩

theorem ep_work_down_state (codec : snd_soc_codec)
    (hramp : codec.drvdata.earphone.ramp = TWL6040_RAMP_DOWN) :
    (twl6040_pga_ep_work codec).drvdata.earphone.active = 0 ∧
      (twl6040_pga_ep_work codec).drvdata.earphone.ramp = TWL6040_RAMP_NONE ∧
      (twl6040_pga_ep_work codec).drvdata.earphone.ramp_done =
        codec.drvdata.earphone.ramp_done + 1 ∧
      (twl6040_pga_ep_work codec).drvdata.earphone.work_queued =
        codec.drvdata.earphone.work_queued := by
  obtain ⟨f1, f2, f3⟩ := ramp_finish_down codec.drvdata.earphone hramp
  rw [pga_ep_work_armed codec (by rw [hramp]; decide)]
  exact ⟨f1, f3, f2, (ramp_finish_keeps codec.drvdata.earphone).2.2.1⟩

/-- The power-down of the active headset output when the worker runs the ramp
task during the wait: the event returns 0 and leaves the output inactive,
with no ramp armed, the completion signalled and nothing queued; this is not
the codec a wait leaves during which the task has not run. -/
theorem hs_pmd_completed (codec : snd_soc_codec)
    (ha : codec.drvdata.headset.active ≠ 0) (t : Nat) :
    (out_drv_event codec 2 SND_SOC_DAPM_PRE_PMD
        (fun c => (run_ramp_work c output_sel.headset, t))).1 = 0 ∧
      (out_drv_event codec 2 SND_SOC_DAPM_PRE_PMD
        (fun c => (run_ramp_work c output_sel.headset, t))).2.drvdata.headset.active = 0 ∧
      (out_drv_event codec 2 SND_SOC_DAPM_PRE_PMD
        (fun c => (run_ramp_work c output_sel.headset, t))).2.drvdata.headset.ramp =
          TWL6040_RAMP_NONE ∧
      (out_drv_event codec 2 SND_SOC_DAPM_PRE_PMD
        (fun c => (run_ramp_work c output_sel.headset, t))).2.drvdata.headset.ramp_done = 1 ∧
      (out_drv_event codec 2 SND_SOC_DAPM_PRE_PMD
        (fun c => (run_ramp_work c output_sel.headset, t))).2.drvdata.headset.work_queued = false ∧
      (out_drv_event codec 2 SND_SOC_DAPM_PRE_PMD
        (fun c => (run_ramp_work c output_sel.headset, t))).2 ≠
        (out_drv_event codec 2 SND_SOC_DAPM_PRE_PMD (fun c => (c, 0))).2 := by
  have hD := run_ramp_work_hs
      { codec with
        drvdata := { codec.drvdata with
          headset := { codec.drvdata.headset with
            work_queued := true, left_step := codec.drvdata.hs_left_step,
            right_step := codec.drvdata.hs_right_step, step_delay := 5,
            ramp := TWL6040_RAMP_DOWN, ramp_done := 0 } } } rfl
  obtain ⟨s1, s2, s3, s4⟩ := hs_work_down_state
    (dequeue_work
      { codec with
        drvdata := { codec.drvdata with
          headset := { codec.drvdata.headset with
            work_queued := true, left_step := codec.drvdata.hs_left_step,
            right_step := codec.drvdata.hs_right_step, step_delay := 5,
            ramp := TWL6040_RAMP_DOWN, ramp_done := 0 } } } output_sel.headset) rfl
  have e1 : out_drv_event codec 2 SND_SOC_DAPM_PRE_PMD
      (fun c => (run_ramp_work c output_sel.headset, t)) =
      (0, twl6040_pga_hs_work (dequeue_work
        { codec with
        drvdata := { codec.drvdata with
          headset := { codec.drvdata.headset with
            work_queued := true, left_step := codec.drvdata.hs_left_step,
            right_step := codec.drvdata.hs_right_step, step_delay := 5,
            ramp := TWL6040_RAMP_DOWN, ramp_done := 0 } } } output_sel.headset)) := by
    rw [out_drv_event_hs_pmd codec _ ha]
    dsimp only
    rw [hD]
  have e2 : out_drv_event codec 2 SND_SOC_DAPM_PRE_PMD (fun c => (c, 0)) =
      (0, { codec with
        drvdata := { codec.drvdata with
          headset := { codec.drvdata.headset with
            work_queued := true, left_step := codec.drvdata.hs_left_step,
            right_step := codec.drvdata.hs_right_step, step_delay := 5,
            ramp := TWL6040_RAMP_DOWN, ramp_done := 0 } } }) := by
    rw [out_drv_event_hs_pmd codec _ ha]
  rw [e1, e2]
  refine ⟨rfl, s1, s2, s3, s4, ?_⟩
  intro h
  have h' := congrArg (fun c : snd_soc_codec => c.drvdata.headset.active) h
  dsimp only at h'
  rw [s1] at h'
  exact ha h'.symm

/-- The power-down of the active handsfree output when the worker runs the ramp
task during the wait: the event returns 0 and leaves the output inactive,
with no ramp armed, the completion signalled and nothing queued; this is not
the codec a wait leaves during which the task has not run. -/
theorem hf_pmd_completed (codec : snd_soc_codec) (shift : Nat) (hs : shift = 4 ∨ shift = 6)
    (ha : codec.drvdata.handsfree.active ≠ 0) (t : Nat) :
    (out_drv_event codec shift SND_SOC_DAPM_PRE_PMD
        (fun c => (run_ramp_work c output_sel.handsfree, t))).1 = 0 ∧
      (out_drv_event codec shift SND_SOC_DAPM_PRE_PMD
        (fun c => (run_ramp_work c output_sel.handsfree, t))).2.drvdata.handsfree.active = 0 ∧
      (out_drv_event codec shift SND_SOC_DAPM_PRE_PMD
        (fun c => (run_ramp_work c output_sel.handsfree, t))).2.drvdata.handsfree.ramp =
          TWL6040_RAMP_NONE ∧
      (out_drv_event codec shift SND_SOC_DAPM_PRE_PMD
        (fun c => (run_ramp_work c output_sel.handsfree, t))).2.drvdata.handsfree.ramp_done = 1 ∧
      (out_drv_event codec shift SND_SOC_DAPM_PRE_PMD
        (fun c => (run_ramp_work c output_sel.handsfree, t))).2.drvdata.handsfree.work_queued = false ∧
      (out_drv_event codec shift SND_SOC_DAPM_PRE_PMD
        (fun c => (run_ramp_work c output_sel.handsfree, t))).2 ≠
        (out_drv_event codec shift SND_SOC_DAPM_PRE_PMD (fun c => (c, 0))).2 := by
  have hD := run_ramp_work_hf
      { codec with
        drvdata := { codec.drvdata with
          handsfree := { codec.drvdata.handsfree with
            work_queued := true, left_step := codec.drvdata.hf_left_step,
            right_step := codec.drvdata.hf_right_step, step_delay := 5,
            ramp := TWL6040_RAMP_DOWN, ramp_done := 0 } } } rfl
  obtain ⟨s1, s2, s3, s4⟩ := hf_work_down_state
    (dequeue_work
      { codec with
        drvdata := { codec.drvdata with
          handsfree := { codec.drvdata.handsfree with
            work_queued := true, left_step := codec.drvdata.hf_left_step,
            right_step := codec.drvdata.hf_right_step, step_delay := 5,
            ramp := TWL6040_RAMP_DOWN, ramp_done := 0 } } } output_sel.handsfree) rfl
  have e1 : out_drv_event codec shift SND_SOC_DAPM_PRE_PMD
      (fun c => (run_ramp_work c output_sel.handsfree, t)) =
      (0, twl6040_pga_hf_work (dequeue_work
        { codec with
        drvdata := { codec.drvdata with
          handsfree := { codec.drvdata.handsfree with
            work_queued := true, left_step := codec.drvdata.hf_left_step,
            right_step := codec.drvdata.hf_right_step, step_delay := 5,
            ramp := TWL6040_RAMP_DOWN, ramp_done := 0 } } } output_sel.handsfree)) := by
    rw [out_drv_event_hf_pmd codec _ shift hs ha]
    dsimp only
    rw [hD]
  have e2 : out_drv_event codec shift SND_SOC_DAPM_PRE_PMD (fun c => (c, 0)) =
      (0, { codec with
        drvdata := { codec.drvdata with
          handsfree := { codec.drvdata.handsfree with
            work_queued := true, left_step := codec.drvdata.hf_left_step,
            right_step := codec.drvdata.hf_right_step, step_delay := 5,
            ramp := TWL6040_RAMP_DOWN, ramp_done := 0 } } }) := by
    rw [out_drv_event_hf_pmd codec _ shift hs ha]
  rw [e1, e2]
  refine ⟨rfl, s1, s2, s3, s4, ?_⟩
  intro h
  have h' := congrArg (fun c : snd_soc_codec => c.drvdata.handsfree.active) h
  dsimp only at h'
  rw [s1] at h'
  exact ha h'.symm

/-- The power-down of the active earphone output when the worker runs the ramp
task during the wait: the event returns 0 and leaves the output inactive,
with no ramp armed, the completion signalled and nothing queued; this is not
the codec a wait leaves during which the task has not run. -/
theorem ep_pmd_completed (codec : snd_soc_codec)
    (ha : codec.drvdata.earphone.active ≠ 0) (t : Nat) :
    (out_drv_event codec 0 SND_SOC_DAPM_PRE_PMD
        (fun c => (run_ramp_work c output_sel.earphone, t))).1 = 0 ∧
      (out_drv_event codec 0 SND_SOC_DAPM_PRE_PMD
        (fun c => (run_ramp_work c output_sel.earphone, t))).2.drvdata.earphone.active = 0 ∧
      (out_drv_event codec 0 SND_SOC_DAPM_PRE_PMD
        (fun c => (run_ramp_work c output_sel.earphone, t))).2.drvdata.earphone.ramp =
          TWL6040_RAMP_NONE ∧
      (out_drv_event codec 0 SND_SOC_DAPM_PRE_PMD
        (fun c => (run_ramp_work c output_sel.earphone, t))).2.drvdata.earphone.ramp_done = 1 ∧
      (out_drv_event codec 0 SND_SOC_DAPM_PRE_PMD
        (fun c => (run_ramp_work c output_sel.earphone, t))).2.drvdata.earphone.work_queued = false ∧
      (out_drv_event codec 0 SND_SOC_DAPM_PRE_PMD
        (fun c => (run_ramp_work c output_sel.earphone, t))).2 ≠
        (out_drv_event codec 0 SND_SOC_DAPM_PRE_PMD (fun c => (c, 0))).2 := by
  have hD := run_ramp_work_ep
      { codec with
        drvdata := { codec.drvdata with
          earphone := { codec.drvdata.earphone with
            work_queued := true, left_step := codec.drvdata.ep_step, step_delay := 5,
            ramp := TWL6040_RAMP_DOWN, ramp_done := 0 } } } rfl
  obtain ⟨s1, s2, s3, s4⟩ := ep_work_down_state
    (dequeue_work
      { codec with
        drvdata := { codec.drvdata with
          earphone := { codec.drvdata.earphone with
            work_queued := true, left_step := codec.drvdata.ep_step, step_delay := 5,
            ramp := TWL6040_RAMP_DOWN, ramp_done := 0 } } } output_sel.earphone) rfl
  have e1 : out_drv_event codec 0 SND_SOC_DAPM_PRE_PMD
      (fun c => (run_ramp_work c output_sel.earphone, t)) =
      (0, twl6040_pga_ep_work (dequeue_work
        { codec with
        drvdata := { codec.drvdata with
          earphone := { codec.drvdata.earphone with
            work_queued := true, left_step := codec.drvdata.ep_step, step_delay := 5,
            ramp := TWL6040_RAMP_DOWN, ramp_done := 0 } } } output_sel.earphone)) := by
    rw [out_drv_event_ep_pmd codec _ ha]
    dsimp only
    rw [hD]
  have e2 : out_drv_event codec 0 SND_SOC_DAPM_PRE_PMD (fun c => (c, 0)) =
      (0, { codec with
        drvdata := { codec.drvdata with
          earphone := { codec.drvdata.earphone with
            work_queued := true, left_step := codec.drvdata.ep_step, step_delay := 5,
            ramp := TWL6040_RAMP_DOWN, ramp_done := 0 } } }) := by
    rw [out_drv_event_ep_pmd codec _ ha]
  rw [e1, e2]
  refine ⟨rfl, s1, s2, s3, s4, ?_⟩
  intro h
  have h' := congrArg (fun c : snd_soc_codec => c.drvdata.earphone.active) h
  dsimp only at h'
  rw [s1] at h'
  exact ha h'.symm

set_option maxRecDepth 100000 in
/-- C27, as stated, fails: on the codec with the three outputs playing at
the gains (10, 10), the power-down of the headset returns 0 with a wait
during which the ramp task runs and that reports completion, and with a wait
during which the task does not run and that reports a timeout; but the
resulting states differ: after the completion the output is inactive with no
ramp armed, the completion signalled, nothing queued and HSGAIN at 0xFF, after
the timeout it is still active, with the Down ramp armed, the task queued and
HSGAIN at 0x55. -/
theorem C27_counterexample :
    playing_codec.drvdata.headset.active = 1 ∧
      ((wait_ramp_done output_sel.headset playing_codec).2 = 1500 ∧
        (wait_timeout playing_codec).2 = 0) ∧
      ((out_drv_event playing_codec 2 SND_SOC_DAPM_PRE_PMD
          (wait_ramp_done output_sel.headset)).1 = 0 ∧
        (out_drv_event playing_codec 2 SND_SOC_DAPM_PRE_PMD wait_timeout).1 = 0) ∧
      ((out_drv_event playing_codec 2 SND_SOC_DAPM_PRE_PMD
          (wait_ramp_done output_sel.headset)).2.drvdata.headset.active = 0 ∧
        (out_drv_event playing_codec 2 SND_SOC_DAPM_PRE_PMD
          (wait_ramp_done output_sel.headset)).2.drvdata.headset.ramp =
            TWL6040_RAMP_NONE ∧
        (out_drv_event playing_codec 2 SND_SOC_DAPM_PRE_PMD
          (wait_ramp_done output_sel.headset)).2.drvdata.headset.ramp_done = 1 ∧
        (out_drv_event playing_codec 2 SND_SOC_DAPM_PRE_PMD
          (wait_ramp_done output_sel.headset)).2.drvdata.headset.work_queued = false ∧
        twl6040_read_reg_cache (out_drv_event playing_codec 2 SND_SOC_DAPM_PRE_PMD
          (wait_ramp_done output_sel.headset)).2 TWL6040_REG_HSGAIN = 0xFF) ∧
      ((out_drv_event playing_codec 2 SND_SOC_DAPM_PRE_PMD
          wait_timeout).2.drvdata.headset.active = 1 ∧
        (out_drv_event playing_codec 2 SND_SOC_DAPM_PRE_PMD
          wait_timeout).2.drvdata.headset.ramp = TWL6040_RAMP_DOWN ∧
        (out_drv_event playing_codec 2 SND_SOC_DAPM_PRE_PMD
          wait_timeout).2.drvdata.headset.ramp_done = 0 ∧
        (out_drv_event playing_codec 2 SND_SOC_DAPM_PRE_PMD
          wait_timeout).2.drvdata.headset.work_queued = true ∧
        twl6040_read_reg_cache (out_drv_event playing_codec 2 SND_SOC_DAPM_PRE_PMD
          wait_timeout).2 TWL6040_REG_HSGAIN = 0x55) ∧
      ¬ (out_drv_event playing_codec 2 SND_SOC_DAPM_PRE_PMD
          (wait_ramp_done output_sel.headset) =
        out_drv_event playing_codec 2 SND_SOC_DAPM_PRE_PMD wait_timeout) := by
  refine ⟨by decide, ⟨rfl, rfl⟩, ⟨by decide, by decide⟩,
    ⟨by decide, by decide, by decide, by decide, by decide⟩,
    ⟨by decide, by decide, by decide, by decide, by decide⟩, ?_⟩
  intro h
  exact absurd (congrArg (fun r : Int × snd_soc_codec => r.2.drvdata.headset.active) h)
    (by decide)

/-- C27, amended: a ramp timeout is not an error.  For a power-down event on
an active output, `out_drv_event` returns 0 whatever
`wait_for_completion_timeout` reports, and does nothing more after the wait:
the codec it leaves is the one the wait leaves from the armed codec (Down
ramp with the configured steps, completion reset, task queued, `active`
untouched).  After a timeout during which the ramp task has not run this is
the armed codec itself, the output still active.  After a wait during which
the worker has run the task, whatever time left `t` it reports, the output
is inactive, no ramp is armed, the completion is signalled and nothing is
queued; this state is not the one left by the timeout. -/
theorem C27_ramp_timeout (codec : snd_soc_codec) :
    (codec.drvdata.headset.active ≠ 0 →
      (∀ w, out_drv_event codec 2 SND_SOC_DAPM_PRE_PMD w =
        (0, (w { codec with
          drvdata := { codec.drvdata with
            headset := { codec.drvdata.headset with
              work_queued := true, left_step := codec.drvdata.hs_left_step,
              right_step := codec.drvdata.hs_right_step, step_delay := 5,
              ramp := TWL6040_RAMP_DOWN, ramp_done := 0 } } }).1)) ∧
      out_drv_event codec 2 SND_SOC_DAPM_PRE_PMD wait_timeout =
        (0, { codec with
          drvdata := { codec.drvdata with
            headset := { codec.drvdata.headset with
              work_queued := true, left_step := codec.drvdata.hs_left_step,
              right_step := codec.drvdata.hs_right_step, step_delay := 5,
              ramp := TWL6040_RAMP_DOWN, ramp_done := 0 } } }) ∧
      (∀ t,
        (out_drv_event codec 2 SND_SOC_DAPM_PRE_PMD
            (fun c => (run_ramp_work c output_sel.headset, t))).1 = 0 ∧
          (out_drv_event codec 2 SND_SOC_DAPM_PRE_PMD
            (fun c => (run_ramp_work c output_sel.headset, t))).2.drvdata.headset.active = 0 ∧
          (out_drv_event codec 2 SND_SOC_DAPM_PRE_PMD
            (fun c => (run_ramp_work c output_sel.headset, t))).2.drvdata.headset.ramp =
              TWL6040_RAMP_NONE ∧
          (out_drv_event codec 2 SND_SOC_DAPM_PRE_PMD
            (fun c => (run_ramp_work c output_sel.headset, t))).2.drvdata.headset.ramp_done = 1 ∧
          (out_drv_event codec 2 SND_SOC_DAPM_PRE_PMD
            (fun c => (run_ramp_work c output_sel.headset, t))).2.drvdata.headset.work_queued =
              false ∧
          (out_drv_event codec 2 SND_SOC_DAPM_PRE_PMD
            (fun c => (run_ramp_work c output_sel.headset, t))).2 ≠
            (out_drv_event codec 2 SND_SOC_DAPM_PRE_PMD wait_timeout).2)) ∧
    (∀ shift, shift = 4 ∨ shift = 6 →
      codec.drvdata.handsfree.active ≠ 0 →
      (∀ w, out_drv_event codec shift SND_SOC_DAPM_PRE_PMD w =
        (0, (w { codec with
          drvdata := { codec.drvdata with
            handsfree := { codec.drvdata.handsfree with
              work_queued := true, left_step := codec.drvdata.hf_left_step,
              right_step := codec.drvdata.hf_right_step, step_delay := 5,
              ramp := TWL6040_RAMP_DOWN, ramp_done := 0 } } }).1)) ∧
      out_drv_event codec shift SND_SOC_DAPM_PRE_PMD wait_timeout =
        (0, { codec with
          drvdata := { codec.drvdata with
            handsfree := { codec.drvdata.handsfree with
              work_queued := true, left_step := codec.drvdata.hf_left_step,
              right_step := codec.drvdata.hf_right_step, step_delay := 5,
              ramp := TWL6040_RAMP_DOWN, ramp_done := 0 } } }) ∧
      (∀ t,
        (out_drv_event codec shift SND_SOC_DAPM_PRE_PMD
            (fun c => (run_ramp_work c output_sel.handsfree, t))).1 = 0 ∧
          (out_drv_event codec shift SND_SOC_DAPM_PRE_PMD
            (fun c => (run_ramp_work c output_sel.handsfree, t))).2.drvdata.handsfree.active = 0 ∧
          (out_drv_event codec shift SND_SOC_DAPM_PRE_PMD
            (fun c => (run_ramp_work c output_sel.handsfree, t))).2.drvdata.handsfree.ramp =
              TWL6040_RAMP_NONE ∧
          (out_drv_event codec shift SND_SOC_DAPM_PRE_PMD
            (fun c => (run_ramp_work c output_sel.handsfree, t))).2.drvdata.handsfree.ramp_done = 1 ∧
          (out_drv_event codec shift SND_SOC_DAPM_PRE_PMD
            (fun c => (run_ramp_work c output_sel.handsfree, t))).2.drvdata.handsfree.work_queued =
              false ∧
          (out_drv_event codec shift SND_SOC_DAPM_PRE_PMD
            (fun c => (run_ramp_work c output_sel.handsfree, t))).2 ≠
            (out_drv_event codec shift SND_SOC_DAPM_PRE_PMD wait_timeout).2)) ∧
    (codec.drvdata.earphone.active ≠ 0 →
      (∀ w, out_drv_event codec 0 SND_SOC_DAPM_PRE_PMD w =
        (0, (w { codec with
          drvdata := { codec.drvdata with
            earphone := { codec.drvdata.earphone with
              work_queued := true, left_step := codec.drvdata.ep_step, step_delay := 5,
              ramp := TWL6040_RAMP_DOWN, ramp_done := 0 } } }).1)) ∧
      out_drv_event codec 0 SND_SOC_DAPM_PRE_PMD wait_timeout =
        (0, { codec with
          drvdata := { codec.drvdata with
            earphone := { codec.drvdata.earphone with
              work_queued := true, left_step := codec.drvdata.ep_step, step_delay := 5,
              ramp := TWL6040_RAMP_DOWN, ramp_done := 0 } } }) ∧
      (∀ t,
        (out_drv_event codec 0 SND_SOC_DAPM_PRE_PMD
            (fun c => (run_ramp_work c output_sel.earphone, t))).1 = 0 ∧
          (out_drv_event codec 0 SND_SOC_DAPM_PRE_PMD
            (fun c => (run_ramp_work c output_sel.earphone, t))).2.drvdata.earphone.active = 0 ∧
          (out_drv_event codec 0 SND_SOC_DAPM_PRE_PMD
            (fun c => (run_ramp_work c output_sel.earphone, t))).2.drvdata.earphone.ramp =
              TWL6040_RAMP_NONE ∧
          (out_drv_event codec 0 SND_SOC_DAPM_PRE_PMD
            (fun c => (run_ramp_work c output_sel.earphone, t))).2.drvdata.earphone.ramp_done = 1 ∧
          (out_drv_event codec 0 SND_SOC_DAPM_PRE_PMD
            (fun c => (run_ramp_work c output_sel.earphone, t))).2.drvdata.earphone.work_queued =
              false ∧
          (out_drv_event codec 0 SND_SOC_DAPM_PRE_PMD
            (fun c => (run_ramp_work c output_sel.earphone, t))).2 ≠
            (out_drv_event codec 0 SND_SOC_DAPM_PRE_PMD wait_timeout).2)) := by
  have e : wait_timeout = fun c => (c, 0) := rfl
  rw [e]
  refine ⟨?_, ?_, ?_⟩
  · intro ha
    exact ⟨fun w => out_drv_event_hs_pmd codec w ha,
      out_drv_event_hs_pmd codec _ ha, fun t => hs_pmd_completed codec ha t⟩
  · intro shift hs ha
    exact ⟨fun w => out_drv_event_hf_pmd codec w shift hs ha,
      out_drv_event_hf_pmd codec _ shift hs ha, fun t => hf_pmd_completed codec shift hs ha t⟩
  · intro ha
    exact ⟨fun w => out_drv_event_ep_pmd codec w ha,
      out_drv_event_ep_pmd codec _ ha, fun t => ep_pmd_completed codec ha t⟩

set_option maxRecDepth 100000 in
/-- A concrete instance of the amended C27: the power-down of the active
headset of `playing_codec`.  With the wait that times out the event returns
0 and the output stays active with the Down ramp armed; with the wait during
which the ramp task runs it returns 0 and the output is inactive, the
completion signalled. -/
theorem C27_ramp_timeout_witness :
    (out_drv_event playing_codec 2 SND_SOC_DAPM_PRE_PMD wait_timeout).1 = 0 ∧
      (out_drv_event playing_codec 2 SND_SOC_DAPM_PRE_PMD
        wait_timeout).2.drvdata.headset.active = 1 ∧
      (out_drv_event playing_codec 2 SND_SOC_DAPM_PRE_PMD
        wait_timeout).2.drvdata.headset.ramp = TWL6040_RAMP_DOWN ∧
      (out_drv_event playing_codec 2 SND_SOC_DAPM_PRE_PMD
        (wait_ramp_done output_sel.headset)).1 = 0 ∧
      (out_drv_event playing_codec 2 SND_SOC_DAPM_PRE_PMD
        (wait_ramp_done output_sel.headset)).2.drvdata.headset.active = 0 ∧
      (out_drv_event playing_codec 2 SND_SOC_DAPM_PRE_PMD
        (wait_ramp_done output_sel.headset)).2.drvdata.headset.ramp_done = 1 :=
  have h := (C27_ramp_timeout playing_codec).1 (by decide)
  ⟨(congrArg Prod.fst h.2.1).trans rfl,
   (congrArg (fun r : Int × snd_soc_codec => r.2.drvdata.headset.active) h.2.1).trans rfl,
   (congrArg (fun r : Int × snd_soc_codec => r.2.drvdata.headset.ramp) h.2.1).trans rfl,
   (h.2.2 1500).1, (h.2.2 1500).2.1, (h.2.2 1500).2.2.2.1⟩
